import Mathlib

/-!
# Identity and credential subsystem of `bsd/kern/kern_credential.c`

A shallow embedding of the credential store (hash-consed, reference-counted
`struct ucred` objects), of the identity cache, of the group membership cache,
of the interface to the external resolver (the work queues and `identitysvc`),
of the translations through the identity cache (`kauth_cred_cache_lookup`), of
the membership tests and of the POSIX access check, followed by the properties
proved about them.

Conventions of the embedding.

* `uid_t`, `gid_t`, flag words and reference counts are natural numbers; the
  code performs no arithmetic on identifiers, so no wrap-around is involved.
  `cr_ngroups` is a `short` in the source and is an integer here.  The
  `uint32_t` counter `kauth_resolver_sequence` is incremented modulo `2^32`.
* A blocking call is cut at its sleep: what the sleeping thread does after it
  is woken is a later event on the state of that time.
* A call that reaches `panic(...)`, or that dereferences a pointer to an object
  that is not live, yields `none`.
* The kernel locks are not modelled: every function runs to completion on the
  state it is given (one thread at a time).  Of the functions on the resolver
  queues, `kauth_resolver_complete` drops the resolver lock in the middle of
  its update, around `copyinstr`; the state that other threads find there is
  given by `kauth_resolver_complete_unlink`, the rest of the call by
  `kauth_resolver_complete_insert`, and the state invariant of the work items
  is stated over runs in which other events fall between the two.
* A function that calls `kauth_resolver_submit` takes the outcome of that call
  as an argument and returns the list of the requests it handed over, so that
  an empty list says that the resolver was not asked.
* A GUID is the list of its 16 bytes; a 32-bit load is little-endian.
* The build has `CONFIG_MACF`, `CONFIG_AUDIT` and `CONFIG_EXT_RESOLVER` on and
  `radar_4600026` off; `assert` is compiled out (release kernel).
-/

namespace Kauth

/-! ## Data model -/

/-- The POSIX part of a credential, `struct posix_cred`.  `cr_groups` is the
array `gid_t cr_groups[NGROUPS]`; slot 0 is the effective GID (`cr_gid`). -/
structure posix_cred where
  cr_uid : Nat
  cr_ruid : Nat
  cr_svuid : Nat
  cr_ngroups : Int
  cr_groups : List Nat
  cr_rgid : Nat
  cr_svgid : Nat
  cr_gmuid : Nat
  cr_flags : Nat
deriving DecidableEq, Repr

/-- The audit part of a credential, `struct au_session`: the pointer to the
audit session information and the preselection mask. -/
structure au_session where
  as_aia_p : Nat
  as_mask : Nat
deriving DecidableEq, Repr

/-- The read-only credential `struct ucred`, without its mutable fields (the
long-term count `cr_ref` and the back pointer `cr_rw` live in `ucred_rw`
below).  `cr_label` stands for the content of the MAC label. -/
structure ucred where
  cr_posix : posix_cred
  cr_label : Nat
  cr_audit : au_session
deriving DecidableEq, Repr

/-- Everything the credential code takes from headers and subsystems outside
the sources at hand: the constants of `sys/param.h`, `sys/kauth.h` and
`sys/ucred.h`, the default audit session, the label a fresh credential gets
from `mac_cred_label_init`, the hash primitives, the flag bits of the
resolver message (`el_flags`), its result codes (`el_result`), the opcodes of
`identitysvc`, the error numbers of `sys/errno.h`, the error
`KAUTH_RESOLVER_FAILED_ERRCODE` that the build picks, the codes that
`kauth_wellknown_guid` returns, and the permission masks of `sys/stat.h`.  All
functions below are parametric in it.
`os_hash_jenkins_update` receives the object it hashes as the list of its
fields. -/
structure Platform where
  NGROUPS : Nat
  KAUTH_UID_NONE : Nat
  KAUTH_GID_NONE : Nat
  CRF_NOMEMBERD : Nat
  CRF_MAC_ENFORCE : Nat
  audit_default_aia_p : Nat
  mac_cred_label_init : Nat
  os_hash_jenkins_update : List Nat → Nat → Nat
  os_hash_jenkins_finish : Nat → Nat
  mac_cred_label_hash_update : Nat → Nat → Nat
  KAUTH_EXTLOOKUP_VALID_UID : Nat
  KAUTH_EXTLOOKUP_VALID_UGUID : Nat
  KAUTH_EXTLOOKUP_VALID_USID : Nat
  KAUTH_EXTLOOKUP_VALID_GID : Nat
  KAUTH_EXTLOOKUP_VALID_GGUID : Nat
  KAUTH_EXTLOOKUP_VALID_GSID : Nat
  KAUTH_EXTLOOKUP_VALID_PWNAM : Nat
  KAUTH_EXTLOOKUP_VALID_GRNAM : Nat
  KAUTH_EXTLOOKUP_VALID_SUPGRPS : Nat
  KAUTH_EXTLOOKUP_WANT_MEMBERSHIP : Nat
  KAUTH_EXTLOOKUP_VALID_MEMBERSHIP : Nat
  KAUTH_EXTLOOKUP_ISMEMBER : Nat
  KAUTH_EXTLOOKUP_WANT_PWNAM : Nat
  KAUTH_EXTLOOKUP_WANT_GRNAM : Nat
  KAUTH_EXTLOOKUP_SUCCESS : Nat
  KAUTH_EXTLOOKUP_BADRQ : Nat
  KAUTH_EXTLOOKUP_FAILURE : Nat
  KAUTH_EXTLOOKUP_FATAL : Nat
  KAUTH_EXTLOOKUP_INPROG : Nat
  KAUTH_EXTLOOKUP_REGISTER : Nat
  KAUTH_EXTLOOKUP_RESULT : Nat
  KAUTH_EXTLOOKUP_WORKER : Nat
  KAUTH_EXTLOOKUP_DEREGISTER : Nat
  KAUTH_GET_CACHE_SIZES : Nat
  KAUTH_SET_CACHE_SIZES : Nat
  KAUTH_CLEAR_CACHES : Nat
  EPERM : Nat
  EINVAL : Nat
  EFAULT : Nat
  EWOULDBLOCK : Nat
  KAUTH_RESOLVER_FAILED_ERRCODE : Nat
  KAUTH_EXTLOOKUP_WANT_UID : Nat
  KAUTH_EXTLOOKUP_WANT_UGUID : Nat
  KAUTH_EXTLOOKUP_WANT_USID : Nat
  KAUTH_EXTLOOKUP_WANT_GID : Nat
  KAUTH_EXTLOOKUP_WANT_GGUID : Nat
  KAUTH_EXTLOOKUP_WANT_GSID : Nat
  KAUTH_EXTLOOKUP_WANT_SUPGRPS : Nat
  KAUTH_WKG_NOT : Nat
  KAUTH_WKG_OWNER : Nat
  KAUTH_WKG_GROUP : Nat
  KAUTH_WKG_NOBODY : Nat
  KAUTH_WKG_EVERYBODY : Nat
  S_IRWXU : Nat
  S_IRWXG : Nat
  S_IRWXO : Nat
  EACCES : Nat

/-- The number of hash chains, `#define KAUTH_CRED_TABLE_SIZE 128`. -/
def KAUTH_CRED_TABLE_SIZE : Nat := 128

/-- The ceiling of the long-term count, `#define KAUTH_CRED_REF_MAX 0x0ffffffful`. -/
def KAUTH_CRED_REF_MAX : Nat := 0x0fffffff

/-- A credential pointer `kauth_cred_t`: `NOCRED` (the null pointer), the
marker `FSCRED`, or the address of a credential object. -/
inductive kauth_cred_t where
  | NOCRED : kauth_cred_t
  | FSCRED : kauth_cred_t
  | addr : Nat → kauth_cred_t
deriving DecidableEq, Repr

/-- The macro `IS_VALID_CRED(_cr)`: neither `NOCRED` nor `FSCRED`. -/
def IS_VALID_CRED : kauth_cred_t → Bool
  | .addr _ => true
  | _ => false

/-- One credential object: the read-only `struct ucred` (`crw_cred`), its
long-term count `cr_ref`, and the companion `struct ucred_rw` with the weak
reference count and the hash-chain linkage.  `crw_link = some b` says the
object is linked on the chain of bucket `b`; `none` is `le_prev == NULL`. -/
structure ucred_rw where
  addr : Nat
  crw_cred : ucred
  crw_weak_ref : Nat
  cr_ref : Nat
  crw_link : Option Nat
deriving DecidableEq, Repr

/-- The credential hash table together with the allocator.  `table` lists the
live credential objects, most recently inserted first; the chain of bucket `b`
is the sub-list of the objects with `crw_link = some b`, in the same order
(`LIST_INSERT_HEAD` puts a new object in front).  `next_addr` is the address
the next allocation returns; `vfs_context0_vc_ucred` is the kernel
credential. -/
structure CredStore where
  table : List ucred_rw
  next_addr : Nat
  vfs_context0_vc_ucred : kauth_cred_t
deriving DecidableEq, Repr

/-! ## Small helpers on credentials -/

/-- The macro `cr_gid`, that is `cr_groups[0]`. -/
def posix_cred.cr_gid (p : posix_cred) : Nat := p.cr_groups.getD 0 0

/-- The accessor `kauth_cred_getgid`. -/
def kauth_cred_getgid (cred : ucred) : Nat := cred.cr_posix.cr_gid

/-- The fields of a `struct posix_cred` in declaration order, as hashed. -/
def posix_cred.fields (p : posix_cred) : List Nat :=
  [p.cr_uid, p.cr_ruid, p.cr_svuid, (p.cr_ngroups % 65536).toNat] ++ p.cr_groups ++
    [p.cr_rgid, p.cr_svgid, p.cr_gmuid, p.cr_flags]

/-- The fields of a `struct au_session` in declaration order, as hashed. -/
def au_session.fields (a : au_session) : List Nat := [a.as_aia_p, a.as_mask]

/-- Copy of the first `n` array slots of `src` over `dst`, as `bcopy` does in
`kauth_cred_setgroups`; the slots of `dst` from `n` on keep their content. -/
def bcopy_groups : List Nat → List Nat → Nat → List Nat
  | _, dst, 0 => dst
  | _, [], _ + 1 => []
  | [], _ :: dst, n + 1 => 0 :: bcopy_groups [] dst n
  | s :: src, _ :: dst, n + 1 => s :: bcopy_groups src dst n

/-! ## kauth_cred_change_egid -/

/-- The loop `for (i = 1; i < pcred->cr_ngroups; i++)` of
`kauth_cred_change_egid`, entered at index `i` with `n` iterations left.  It
returns `displaced` and the group array. -/
def kauth_cred_change_egid_loop (new_egid old_egid : Nat) :
    Nat → Nat → List Nat → Nat × List Nat
  | _, 0, groups => (1, groups)
  | i, n + 1, groups =>
    if groups.getD i 0 = new_egid then (0, groups.set i old_egid)
    else kauth_cred_change_egid_loop new_egid old_egid (i + 1) n groups

/-- The function `kauth_cred_change_egid`: returns `displaced` and the modified credential. -/
def kauth_cred_change_egid (cred : ucred) (new_egid : Nat) : Nat × ucred :=
  let old_egid := kauth_cred_getgid cred
  let pcred := cred.cr_posix
  let r := kauth_cred_change_egid_loop new_egid old_egid 1 (pcred.cr_ngroups - 1).toNat
    pcred.cr_groups
  (r.1, { cred with cr_posix := { pcred with cr_groups := r.2.set 0 new_egid } })

/-! ## Equality and hashing -/

/-- The hook `mac_cred_label_is_equal`: equality of label content. -/
def mac_cred_label_is_equal (l1 l2 : Nat) : Bool := decide (l1 = l2)

/-- The function `kauth_cred_is_equal`. -/
def kauth_cred_is_equal (k : Platform) (cred1 cred2 : ucred) : Bool :=
  if cred1.cr_posix ≠ cred2.cr_posix then false
  else if cred1.cr_audit ≠ cred2.cr_audit then false
  else if cred1.cr_posix.cr_flags &&& k.CRF_MAC_ENFORCE ≠ 0 then
    mac_cred_label_is_equal cred1.cr_label cred2.cr_label
  else true

/-- The function `kauth_cred_get_bucket`, returning the index of the bucket. -/
def kauth_cred_get_bucket (k : Platform) (cred : ucred) : Nat :=
  let hash_key := k.os_hash_jenkins_update cred.cr_posix.fields 0
  let hash_key := k.os_hash_jenkins_update cred.cr_audit.fields hash_key
  let hash_key :=
    if cred.cr_posix.cr_flags &&& k.CRF_MAC_ENFORCE ≠ 0 then
      k.mac_cred_label_hash_update cred.cr_label hash_key
    else hash_key
  let hash_key := k.os_hash_jenkins_finish hash_key
  hash_key % KAUTH_CRED_TABLE_SIZE

/-! ## Reference counts and the hash table -/

/-- The object at address `a`, if it is live. -/
def CredStore.deref (s : CredStore) (a : Nat) : Option ucred_rw :=
  s.table.find? (fun e => decide (e.addr = a))

/-- Rewrite the object at address `a` in place. -/
def CredStore.modify (s : CredStore) (a : Nat) (f : ucred_rw → ucred_rw) : CredStore :=
  { s with table := s.table.map (fun e => if e.addr = a then f e else e) }

/-- The scan of `kauth_cred_find_and_ref` over the hash chain of `bucket`: at
the first object on the chain that is content-equal to `cred` it tries to take a
reference (`kauth_cred_tryref`, which fails on a count of zero) and stops.
Returns the credential found, or `NOCRED`, and the chain with the reference
taken. -/
def kauth_cred_find_and_ref_scan (k : Platform) (cred : ucred) (bucket : Nat) :
    List ucred_rw → kauth_cred_t × List ucred_rw
  | [] => (.NOCRED, [])
  | e :: rest =>
    if e.crw_link = some bucket ∧ kauth_cred_is_equal k e.crw_cred cred = true then
      if e.crw_weak_ref = 0 then (.NOCRED, e :: rest)
      else (.addr e.addr, { e with crw_weak_ref := e.crw_weak_ref + 1 } :: rest)
    else
      let r := kauth_cred_find_and_ref_scan k cred bucket rest
      (r.1, e :: r.2)

/-- The function `kauth_cred_find_and_ref`. -/
def kauth_cred_find_and_ref (k : Platform) (s : CredStore) (cred : ucred) (bucket : Nat) :
    kauth_cred_t × CredStore :=
  let r := kauth_cred_find_and_ref_scan k cred bucket s.table
  (r.1, { s with table := r.2 })

/-- The function `kauth_cred_ref`, that is `os_ref_retain` on the weak count;
retaining an object whose count is zero is a panic. -/
def kauth_cred_ref (s : CredStore) (cred : Nat) : Option CredStore :=
  match s.deref cred with
  | none => none
  | some e =>
    if e.crw_weak_ref = 0 then none
    else some (s.modify cred (fun e => { e with crw_weak_ref := e.crw_weak_ref + 1 }))

/-- The function `kauth_cred_unref_fast`, that is `os_ref_release` on the weak
count: releasing a count of zero is a panic; the result says whether this was
the last reference. -/
def kauth_cred_unref_fast (s : CredStore) (cred : Nat) : Option (Bool × CredStore) :=
  match s.deref cred with
  | none => none
  | some e =>
    if e.crw_weak_ref = 0 then none
    else some (decide (e.crw_weak_ref - 1 = 0),
      s.modify cred (fun e => { e with crw_weak_ref := e.crw_weak_ref - 1 }))

/-- The function `kauth_cred_remove_locked`: panics on an object that was
never linked, else unlinks it (`LIST_REMOVE`). -/
def kauth_cred_remove_locked (s : CredStore) (cred : Nat) : Option CredStore :=
  match s.deref cred with
  | none => none
  | some e =>
    match e.crw_link with
    | none => none
    | some _ => some (s.modify cred (fun e => { e with crw_link := none }))

/-- The function `kauth_cred_free` applied to the object `e`, which is live in
`s` unless it was never inserted: panics on the kernel credential and on an
object with a long-term reference, and releases the object's memory. -/
def kauth_cred_free (s : CredStore) (e : ucred_rw) (remove : Bool) : Option CredStore :=
  if kauth_cred_t.addr e.addr = s.vfs_context0_vc_ucred then none
  else
    match (if remove then kauth_cred_remove_locked s e.addr else some s) with
    | none => none
    | some s1 =>
      if e.cr_ref ≠ 0 then none
      else some { s1 with table := s1.table.filter (fun x => decide (x.addr ≠ e.addr)) }

/-- The function `kauth_cred_unref`. -/
def kauth_cred_unref (s : CredStore) (cred : Nat) : Option CredStore :=
  match kauth_cred_unref_fast s cred with
  | none => none
  | some (last, s1) =>
    if last then
      match s1.deref cred with
      | none => none
      | some e => kauth_cred_free s1 e true
    else some s1

/-- The function `kauth_cred_alloc`: a fresh object with weak count 1
(`os_ref_init`), long-term count 0 and no linkage, whose content is the default
(`cr_gmuid = KAUTH_UID_NONE`, default audit session, fresh label) as modified
by `cred_setup`. -/
def kauth_cred_alloc (k : Platform) (s : CredStore) (cred_setup : ucred → ucred) :
    ucred_rw × CredStore :=
  let model_cred : ucred :=
    { cr_posix :=
        { cr_uid := 0, cr_ruid := 0, cr_svuid := 0, cr_ngroups := 0,
          cr_groups := List.replicate k.NGROUPS 0, cr_rgid := 0, cr_svgid := 0,
          cr_gmuid := k.KAUTH_UID_NONE, cr_flags := 0 },
      cr_label := k.mac_cred_label_init,
      cr_audit := { as_aia_p := k.audit_default_aia_p, as_mask := 0 } }
  ({ addr := s.next_addr, crw_cred := cred_setup model_cred, crw_weak_ref := 1,
     cr_ref := 0, crw_link := none },
   { s with next_addr := s.next_addr + 1 })

/-- The function `kauth_cred_dup`. -/
def kauth_cred_dup (k : Platform) (s : CredStore) (cred : ucred) : ucred_rw × CredStore :=
  kauth_cred_alloc k s (fun setup_cred =>
    { setup_cred with cr_posix := cred.cr_posix, cr_audit := cred.cr_audit,
                      cr_label := cred.cr_label })

/-- The function `kauth_cred_add`: `new_cred` is a fresh object that is not yet
in the table. -/
def kauth_cred_add (k : Platform) (s : CredStore) (new_cred : ucred_rw) (bucket : Nat) :
    Option (kauth_cred_t × CredStore) :=
  match kauth_cred_find_and_ref k s new_cred.crw_cred bucket with
  | (.addr found_cred, s1) =>
    match kauth_cred_free s1 new_cred false with
    | none => none
    | some s2 => some (.addr found_cred, s2)
  | (_, s1) =>
    if new_cred.cr_ref ≠ 0 then none
    else some (.addr new_cred.addr,
      { s1 with table := { new_cred with crw_link := some bucket } :: s1.table })

/-- The function `kauth_cred_update`. -/
def kauth_cred_update (k : Platform) (s : CredStore) (old_cred : Nat) (model_cred : ucred)
    (retain_auditinfo : Bool) : Option (kauth_cred_t × CredStore) :=
  match s.deref old_cred with
  | none => none
  | some old =>
    let model_cred :=
      if retain_auditinfo then { model_cred with cr_audit := old.crw_cred.cr_audit }
      else model_cred
    if kauth_cred_is_equal k old.crw_cred model_cred then some (.addr old_cred, s)
    else
      let bucket := kauth_cred_get_bucket k model_cred
      match kauth_cred_find_and_ref k s model_cred bucket with
      | (.addr cred, s1) =>
        match kauth_cred_unref_fast s1 old_cred with
        | none => none
        | some (needs_free, s2) =>
          if needs_free then
            match kauth_cred_remove_locked s2 old_cred with
            | none => none
            | some s3 =>
              match kauth_cred_free s3 old false with
              | none => none
              | some s4 => some (.addr cred, s4)
          else some (.addr cred, s2)
      | (_, s1) =>
        let (cred, s2) := kauth_cred_dup k s1 model_cred
        match kauth_cred_add k s2 cred bucket with
        | none => none
        | some (cred, s3) =>
          match kauth_cred_unref s3 old_cred with
          | none => none
          | some s4 => some (cred, s4)

/-! ## Creation and the setters -/

/-- The function `kauth_cred_ismember_gid` on the POSIX part `pcred`.  The
scan of the inline group list and the opt-out test are the code; `external` is
the outcome of the part that consults the membership cache and the resolver:
its return value and, if it wrote one, the value it stored in `*resultp`.  The
result is the return value and the final `*resultp`. -/
def kauth_cred_ismember_gid (k : Platform) (external : Nat × Option Nat) (pcred : posix_cred)
    (gid : Nat) (resultp : Nat) : Nat × Nat :=
  if gid ∈ pcred.cr_groups.take pcred.cr_ngroups.toNat then (0, 1)
  else if pcred.cr_gmuid = k.KAUTH_UID_NONE then (0, 0)
  else (external.1, external.2.getD resultp)

/-- The first part of `kauth_cred_create`: the template with `cr_gmuid` and
`cr_flags` canonicalised, using the probe of membership in group 0. -/
def kauth_cred_create_canonical (k : Platform) (external : Nat × Option Nat) (cred : ucred) :
    ucred :=
  let pcred := cred.cr_posix
  if pcred.cr_flags &&& k.CRF_NOMEMBERD ≠ 0 then
    { cred with cr_posix := { pcred with cr_gmuid := k.KAUTH_UID_NONE } }
  else if (kauth_cred_ismember_gid k external pcred 0 0).1 = 0 then
    { cred with cr_posix := { pcred with cr_gmuid := pcred.cr_uid } }
  else
    { cred with cr_posix := { pcred with cr_gmuid := k.KAUTH_UID_NONE,
                                         cr_flags := pcred.cr_flags ||| k.CRF_NOMEMBERD } }

/-- The function `kauth_cred_create` on the template `cred`. -/
def kauth_cred_create (k : Platform) (external : Nat × Option Nat) (s : CredStore)
    (cred : ucred) : Option (kauth_cred_t × CredStore) :=
  let cred := kauth_cred_create_canonical k external cred
  let pcred := cred.cr_posix
  if pcred.cr_ngroups < 1 then some (.NOCRED, s)
  else
    let bucket := kauth_cred_get_bucket k cred
    match kauth_cred_find_and_ref k s cred bucket with
    | (.addr found_cred, s1) => some (.addr found_cred, s1)
    | (_, s1) =>
      let (new_cred, s2) := kauth_cred_alloc k s1 (fun setup_cred =>
        { setup_cred with cr_posix := pcred, cr_audit := cred.cr_audit })
      kauth_cred_add k s2 new_cred bucket

/-- The function `kauth_cred_setresuid`. -/
def kauth_cred_setresuid (k : Platform) (s : CredStore) (cred : Nat)
    (ruid euid svuid gmuid : Nat) : Option (kauth_cred_t × CredStore) :=
  match s.deref cred with
  | none => none
  | some e =>
    let pcred := e.crw_cred.cr_posix
    if (euid = k.KAUTH_UID_NONE ∨ pcred.cr_uid = euid) ∧
       (ruid = k.KAUTH_UID_NONE ∨ pcred.cr_ruid = ruid) ∧
       (svuid = k.KAUTH_UID_NONE ∨ pcred.cr_svuid = svuid) ∧
       pcred.cr_gmuid = gmuid then some (.addr cred, s)
    else
      let temp_pcred := pcred
      let temp_pcred :=
        if euid ≠ k.KAUTH_UID_NONE then { temp_pcred with cr_uid := euid } else temp_pcred
      let temp_pcred :=
        if ruid ≠ k.KAUTH_UID_NONE then { temp_pcred with cr_ruid := ruid } else temp_pcred
      let temp_pcred :=
        if svuid ≠ k.KAUTH_UID_NONE then { temp_pcred with cr_svuid := svuid } else temp_pcred
      let temp_pcred := { temp_pcred with cr_gmuid := gmuid }
      let temp_pcred :=
        if gmuid = k.KAUTH_UID_NONE then
          { temp_pcred with cr_flags := temp_pcred.cr_flags ||| k.CRF_NOMEMBERD }
        else temp_pcred
      kauth_cred_update k s cred { e.crw_cred with cr_posix := temp_pcred } true

/-- The function `kauth_cred_setresgid`. -/
def kauth_cred_setresgid (k : Platform) (s : CredStore) (cred : Nat)
    (rgid egid svgid : Nat) : Option (kauth_cred_t × CredStore) :=
  match s.deref cred with
  | none => none
  | some e =>
    let pcred := e.crw_cred.cr_posix
    if pcred.cr_groups.getD 0 0 = egid ∧ pcred.cr_rgid = rgid ∧ pcred.cr_svgid = svgid then
      some (.addr cred, s)
    else
      let temp_cred := e.crw_cred
      let temp_cred :=
        if egid ≠ k.KAUTH_GID_NONE then
          let r := kauth_cred_change_egid temp_cred egid
          if r.1 ≠ 0 then
            { r.2 with cr_posix :=
                { r.2.cr_posix with cr_flags := r.2.cr_posix.cr_flags ||| k.CRF_NOMEMBERD,
                                    cr_gmuid := k.KAUTH_UID_NONE } }
          else r.2
        else temp_cred
      let temp_cred :=
        if rgid ≠ k.KAUTH_GID_NONE then
          { temp_cred with cr_posix := { temp_cred.cr_posix with cr_rgid := rgid } }
        else temp_cred
      let temp_cred :=
        if svgid ≠ k.KAUTH_GID_NONE then
          { temp_cred with cr_posix := { temp_cred.cr_posix with cr_svgid := svgid } }
        else temp_cred
      kauth_cred_update k s cred temp_cred true

/-- Bitwise complement of a mask in the 32-bit flag word `cr_flags`. -/
def flags_not (m : Nat) : Nat := 0xffffffff ^^^ m

/-- The function `kauth_cred_setgroups`; `groups` is the caller's array and
`groupcount` the number of entries to take from it. -/
def kauth_cred_setgroups (k : Platform) (s : CredStore) (cred : Nat) (groups : List Nat)
    (groupcount : Nat) (gmuid : Nat) : Option (kauth_cred_t × CredStore) :=
  let groupcount := min groupcount k.NGROUPS
  match s.deref cred with
  | none => none
  | some e =>
    let pcred := e.crw_cred.cr_posix
    if pcred.cr_gmuid = gmuid ∧ pcred.cr_ngroups = (groupcount : Int) ∧
       (∀ i ∈ List.range groupcount, pcred.cr_groups.getD i 0 = groups.getD i 0) then
      some (.addr cred, s)
    else
      let temp_pcred :=
        { pcred with cr_ngroups := (groupcount : Int),
                     cr_groups := bcopy_groups groups pcred.cr_groups groupcount,
                     cr_gmuid := gmuid,
                     cr_flags :=
                       if gmuid = k.KAUTH_UID_NONE then pcred.cr_flags ||| k.CRF_NOMEMBERD
                       else pcred.cr_flags &&& flags_not k.CRF_NOMEMBERD }
      kauth_cred_update k s cred { e.crw_cred with cr_posix := temp_pcred } true

/-- The function `kauth_cred_setuidgid`. -/
def kauth_cred_setuidgid (k : Platform) (s : CredStore) (cred : Nat) (uid gid : Nat) :
    Option (kauth_cred_t × CredStore) :=
  match s.deref cred with
  | none => none
  | some e =>
    let pcred := e.crw_cred.cr_posix
    if pcred.cr_uid = uid ∧ pcred.cr_ruid = uid ∧ pcred.cr_svuid = uid ∧
       pcred.cr_gid = gid ∧ pcred.cr_rgid = gid ∧ pcred.cr_svgid = gid then
      some (.addr cred, s)
    else
      let temp_pcred : posix_cred :=
        { cr_uid := uid, cr_ruid := uid, cr_svuid := uid, cr_ngroups := 0,
          cr_groups := List.replicate k.NGROUPS 0, cr_rgid := 0, cr_svgid := 0,
          cr_gmuid := 0, cr_flags := pcred.cr_flags }
      let temp_pcred :=
        if pcred.cr_flags &&& k.CRF_NOMEMBERD ≠ 0 then
          { temp_pcred with cr_gmuid := k.KAUTH_UID_NONE,
                            cr_flags := temp_pcred.cr_flags ||| k.CRF_NOMEMBERD }
        else
          { temp_pcred with cr_gmuid := uid,
                            cr_flags := temp_pcred.cr_flags &&& flags_not k.CRF_NOMEMBERD }
      let temp_pcred := { temp_pcred with cr_ngroups := 1 }
      let temp_cred : ucred :=
        { cr_posix := temp_pcred, cr_label := 0, cr_audit := { as_aia_p := 0, as_mask := 0 } }
      let r := kauth_cred_change_egid temp_cred gid
      let temp_cred :=
        if r.1 ≠ 0 then
          { r.2 with cr_posix :=
              { r.2.cr_posix with cr_gmuid := k.KAUTH_UID_NONE,
                                  cr_flags := r.2.cr_posix.cr_flags ||| k.CRF_NOMEMBERD } }
        else r.2
      let temp_cred :=
        { temp_cred with cr_posix := { temp_cred.cr_posix with cr_rgid := gid, cr_svgid := gid } }
      let temp_cred := { temp_cred with cr_label := e.crw_cred.cr_label }
      kauth_cred_update k s cred temp_cred true

/-- The function `kauth_cred_setsvuidgid`. -/
def kauth_cred_setsvuidgid (k : Platform) (s : CredStore) (cred : Nat) (uid gid : Nat) :
    Option (kauth_cred_t × CredStore) :=
  match s.deref cred with
  | none => none
  | some e =>
    let pcred := e.crw_cred.cr_posix
    if pcred.cr_svuid = uid ∧ pcred.cr_svgid = gid then some (.addr cred, s)
    else
      kauth_cred_update k s cred
        { e.crw_cred with cr_posix := { pcred with cr_svuid := uid, cr_svgid := gid } } true

/-- The function `kauth_cred_setauditinfo`. -/
def kauth_cred_setauditinfo (k : Platform) (s : CredStore) (cred : Nat)
    (auditinfo_p : au_session) : Option (kauth_cred_t × CredStore) :=
  match s.deref cred with
  | none => none
  | some e =>
    if e.crw_cred.cr_audit = auditinfo_p then some (.addr cred, s)
    else kauth_cred_update k s cred { e.crw_cred with cr_audit := auditinfo_p } false

/-- The function `kauth_cred_copy_real`. -/
def kauth_cred_copy_real (k : Platform) (s : CredStore) (cred : Nat) :
    Option (kauth_cred_t × CredStore) :=
  match s.deref cred with
  | none => none
  | some e =>
    let pcred := e.crw_cred.cr_posix
    if pcred.cr_ruid = pcred.cr_uid ∧ pcred.cr_rgid = pcred.cr_gid then
      match kauth_cred_ref s cred with
      | none => none
      | some s1 => some (.addr cred, s1)
    else
      let temp_cred : ucred :=
        { e.crw_cred with cr_posix := { pcred with cr_uid := pcred.cr_ruid } }
      let r := kauth_cred_change_egid temp_cred pcred.cr_rgid
      let temp_cred :=
        if r.1 ≠ 0 then
          { r.2 with cr_posix :=
              { r.2.cr_posix with cr_flags := r.2.cr_posix.cr_flags ||| k.CRF_NOMEMBERD,
                                  cr_gmuid := k.KAUTH_UID_NONE } }
        else r.2
      let temp_cred :=
        if temp_cred.cr_posix.cr_gmuid ≠ k.KAUTH_UID_NONE then
          { temp_cred with cr_posix := { temp_cred.cr_posix with cr_gmuid := pcred.cr_ruid } }
        else temp_cred
      let bucket := kauth_cred_get_bucket k e.crw_cred
      match kauth_cred_find_and_ref k s temp_cred bucket with
      | (.addr found_cred, s1) => some (.addr found_cred, s1)
      | (_, s1) =>
        let (newcred, s2) := kauth_cred_dup k s1 temp_cred
        kauth_cred_add k s2 newcred bucket

/-! ## Long-term holds -/

/-- The function `kauth_cred_hold`: optionally takes a weak reference, then
adds one to `cr_ref`; the atomic update returns the value before the addition,
and reaching `KAUTH_CRED_REF_MAX` is a panic. -/
def kauth_cred_hold (s : CredStore) (cred : Nat) (need_ref : Bool) : Option CredStore :=
  match (if need_ref then kauth_cred_ref s cred else some s) with
  | none => none
  | some s1 =>
    match s1.deref cred with
    | none => none
    | some e =>
      if e.cr_ref ≥ KAUTH_CRED_REF_MAX then none
      else some (s1.modify cred (fun e => { e with cr_ref := e.cr_ref + 1 }))

/-- The function `kauth_cred_drop`: subtracts one from `cr_ref` (a panic when
the value before was 0 or above `KAUTH_CRED_REF_MAX`), then `kauth_cred_unref`. -/
def kauth_cred_drop (s : CredStore) (cred : Nat) : Option CredStore :=
  match s.deref cred with
  | none => none
  | some e =>
    if e.cr_ref = 0 ∨ e.cr_ref > KAUTH_CRED_REF_MAX then none
    else kauth_cred_unref (s.modify cred (fun e => { e with cr_ref := e.cr_ref - 1 })) cred

/-- The statement `if (IS_VALID_CRED(new_cred)) kauth_cred_hold(new_cred, true);`. -/
def kauth_cred_set_hold (s : CredStore) (new_cred : kauth_cred_t) : Option CredStore :=
  match new_cred with
  | .addr n => kauth_cred_hold s n true
  | _ => some s

/-- The statement `if (IS_VALID_CRED(old_cred)) kauth_cred_drop(&old_cred);`. -/
def kauth_cred_set_drop (s : CredStore) (old_cred : kauth_cred_t) : Option CredStore :=
  match old_cred with
  | .addr o => kauth_cred_drop s o
  | _ => some s

/-- The function `kauth_cred_set` as the list of the states it goes through:
the pointer field `*credp` and the store after each of its three statements
(hold the new credential, store the pointer, drop the old credential).  The
list is empty when `old_cred == new_cred`. -/
def kauth_cred_set_steps (s : CredStore) (credp new_cred : kauth_cred_t) :
    Option (List (kauth_cred_t × CredStore)) :=
  let old_cred := credp
  if old_cred ≠ new_cred then
    match kauth_cred_set_hold s new_cred with
    | none => none
    | some s1 =>
      match kauth_cred_set_drop s1 old_cred with
      | none => none
      | some s2 => some [(old_cred, s1), (new_cred, s1), (new_cred, s2)]
  else some []

/-- The function `kauth_cred_set`: the final `*credp` and store. -/
def kauth_cred_set (s : CredStore) (credp new_cred : kauth_cred_t) :
    Option (kauth_cred_t × CredStore) :=
  match kauth_cred_set_steps s credp new_cred with
  | none => none
  | some steps => some (steps.getLastD (credp, s))

/-! ## The identity cache -/

/-- The flag `KI_VALID_UID` of `ki_valid` (UID and GID are mutually exclusive). -/
def KI_VALID_UID : Nat := 1 <<< 0

/-- The flag `KI_VALID_GID` of `ki_valid`. -/
def KI_VALID_GID : Nat := 1 <<< 1

/-- The flag `KI_VALID_GUID` of `ki_valid`. -/
def KI_VALID_GUID : Nat := 1 <<< 2

/-- The flag `KI_VALID_NTSID` of `ki_valid`. -/
def KI_VALID_NTSID : Nat := 1 <<< 3

/-- The flag `KI_VALID_PWNAM` of `ki_valid`. -/
def KI_VALID_PWNAM : Nat := 1 <<< 4

/-- The flag `KI_VALID_GRNAM` of `ki_valid`. -/
def KI_VALID_GRNAM : Nat := 1 <<< 5

/-- The flag `KI_VALID_GROUPS` of `ki_valid`. -/
def KI_VALID_GROUPS : Nat := 1 <<< 6

/-- The error number `ENOENT`. -/
def ENOENT : Nat := 2

/-- A GUID, `guid_t`: its 16 bytes. -/
abbrev guid_t := List Nat

/-- An NT security identifier, `ntsid_t`. -/
structure ntsid_t where
  sid_kind : Nat
  sid_authcount : Nat
  sid_authority : List Nat
  sid_authorities : List Nat
deriving DecidableEq, Repr

/-- An entry of the identity cache, `struct kauth_identity` without its list
linkage.  `ki_name` is the name held in the string cache, if any. -/
structure kauth_identity where
  ki_valid : Nat
  ki_uid : Nat
  ki_gid : Nat
  ki_supgrpcnt : Nat
  ki_supgrps : List Nat
  ki_guid : guid_t
  ki_ntsid : ntsid_t
  ki_name : Option String
  ki_groups_expiry : Nat
  ki_guid_expiry : Nat
  ki_ntsid_expiry : Nat
deriving DecidableEq, Repr

/-- The resolver message `struct kauth_identity_extlookup`. -/
structure kauth_identity_extlookup where
  el_seqno : Nat
  el_result : Nat
  el_flags : Nat
  el_info_pid : Nat
  el_extend : Nat
  el_uid : Nat
  el_uguid : guid_t
  el_uguid_valid : Nat
  el_usid : ntsid_t
  el_usid_valid : Nat
  el_gid : Nat
  el_gguid : guid_t
  el_gguid_valid : Nat
  el_gsid : ntsid_t
  el_gsid_valid : Nat
  el_member_valid : Nat
  el_sup_grp_cnt : Nat
  el_sup_groups : List Nat
deriving DecidableEq, Repr

/-- The identity cache: the list `kauth_identities` (most recently used
first), the counter `kauth_identity_count` and the bound
`kauth_identity_cachemax`. -/
structure IdentityCache where
  kauth_identities : List kauth_identity
  kauth_identity_count : Int
  kauth_identity_cachemax : Int
deriving DecidableEq, Repr

/-- The default bound, `#define KAUTH_IDENTITY_CACHEMAX_DEFAULT 100`. -/
def KAUTH_IDENTITY_CACHEMAX_DEFAULT : Int := 100

/-- The identity cache at boot: empty, with the default bound. -/
def IdentityCache.init : IdentityCache :=
  { kauth_identities := [], kauth_identity_count := 0,
    kauth_identity_cachemax := KAUTH_IDENTITY_CACHEMAX_DEFAULT }

/-- A zero-filled `struct kauth_identity`, as `kalloc_type(..., Z_ZERO)` returns it. -/
def kauth_identity.zero (k : Platform) : kauth_identity :=
  { ki_valid := 0, ki_uid := 0, ki_gid := 0, ki_supgrpcnt := 0,
    ki_supgrps := List.replicate k.NGROUPS 0, ki_guid := List.replicate 16 0,
    ki_ntsid := { sid_kind := 0, sid_authcount := 0, sid_authority := List.replicate 6 0,
                  sid_authorities := List.replicate 16 0 },
    ki_name := none, ki_groups_expiry := 0, ki_guid_expiry := 0, ki_ntsid_expiry := 0 }

/-- The first part of `kauth_identity_alloc`: the key of the new entry from
`gid` and `uid`; `none` is the panic on an entry with both a UID and a GID. -/
def kauth_identity_alloc_key_part (k : Platform) (uid gid : Nat) : Option kauth_identity :=
  let kip := kauth_identity.zero k
  let kip := if gid ≠ k.KAUTH_GID_NONE then { kip with ki_gid := gid, ki_valid := KI_VALID_GID }
             else kip
  if uid ≠ k.KAUTH_UID_NONE then
    if kip.ki_valid &&& KI_VALID_GID ≠ 0 then none
    else some { kip with ki_uid := uid, ki_valid := KI_VALID_UID }
  else some kip

/-- The second part of `kauth_identity_alloc`: the supplementary groups.  The
outer `none` is the panic on a GID entry with groups, the inner `none` the
`NULL` return on a bad count or a null array. -/
def kauth_identity_alloc_groups_part (k : Platform) (kip : kauth_identity) (supgrpcnt : Nat)
    (supgrps : Option (List Nat)) : Option (Option kauth_identity) :=
  if supgrpcnt ≠ 0 then
    if supgrpcnt > k.NGROUPS ∨ supgrps = none then some none
    else if kip.ki_valid &&& KI_VALID_GID ≠ 0 then none
    else
      some (some
        { kip with ki_supgrpcnt := supgrpcnt,
                   ki_supgrps := bcopy_groups (supgrps.getD []) kip.ki_supgrps supgrpcnt,
                   ki_valid := kip.ki_valid ||| KI_VALID_GROUPS })
  else some (some kip)

/-- The last part of `kauth_identity_alloc`: expiry times, GUID, NTSID and name. -/
def kauth_identity_alloc_fill_part (kip : kauth_identity) (guidp : Option guid_t)
    (guid_expiry : Nat) (ntsidp : Option ntsid_t) (ntsid_expiry : Nat) (groups_expiry : Nat)
    (name : Option String) (nametype : Nat) : kauth_identity :=
  let kip := { kip with ki_groups_expiry := groups_expiry }
  let kip := match guidp with
    | some g => { kip with ki_guid := g, ki_valid := kip.ki_valid ||| KI_VALID_GUID }
    | none => kip
  let kip := { kip with ki_guid_expiry := guid_expiry }
  let kip := match ntsidp with
    | some n => { kip with ki_ntsid := n, ki_valid := kip.ki_valid ||| KI_VALID_NTSID }
    | none => kip
  let kip := { kip with ki_ntsid_expiry := ntsid_expiry }
  match name with
  | some n => { kip with ki_name := some n, ki_valid := kip.ki_valid ||| nametype }
  | none => kip

/-- The function `kauth_identity_alloc`.  The outer `none` is a panic; the
inner `none` is the `NULL` return on bad supplementary groups.  A pointer
argument is `none` when it is `NULL`. -/
def kauth_identity_alloc (k : Platform) (uid gid : Nat) (guidp : Option guid_t)
    (guid_expiry : Nat) (ntsidp : Option ntsid_t) (ntsid_expiry : Nat) (supgrpcnt : Nat)
    (supgrps : Option (List Nat)) (groups_expiry : Nat) (name : Option String)
    (nametype : Nat) : Option (Option kauth_identity) :=
  match kauth_identity_alloc_key_part k uid gid with
  | none => none
  | some kip =>
    match kauth_identity_alloc_groups_part k kip supgrpcnt supgrps with
    | none => none
    | some none => some none
    | some (some kip) =>
      some (some (kauth_identity_alloc_fill_part kip guidp guid_expiry ntsidp ntsid_expiry
        groups_expiry name nametype))

/-- Rewrite the first entry that satisfies `p`, in place; `none` when no entry does
(`TAILQ_FOREACH` with `break`, then assignments through the pointer). -/
def modify_first {α : Type} (p : α → Bool) (f : α → α) : List α → Option (List α)
  | [] => none
  | x :: l => if p x then some (f x :: l) else (modify_first p f l).map (fun r => x :: r)

/-- Take the first entry that satisfies `p` out of the list; `none` when no entry does. -/
def extract_first {α : Type} (p : α → Bool) : List α → Option (α × List α)
  | [] => none
  | x :: l => if p x then some (x, l) else (extract_first p l).map (fun r => (r.1, x :: r.2))

/-- The merge of `kauth_identity_register_and_free`: the fields of the incoming
entry `kip` written over the cached entry `ip`. -/
def kauth_identity_merge (kip ip : kauth_identity) : kauth_identity :=
  let ip := if kip.ki_valid &&& KI_VALID_GUID ≠ 0 then
      { ip with ki_guid := kip.ki_guid, ki_valid := ip.ki_valid ||| KI_VALID_GUID } else ip
  let ip := { ip with ki_guid_expiry := kip.ki_guid_expiry }
  let ip := if kip.ki_valid &&& KI_VALID_NTSID ≠ 0 then
      { ip with ki_ntsid := kip.ki_ntsid, ki_valid := ip.ki_valid ||| KI_VALID_NTSID } else ip
  let ip := { ip with ki_ntsid_expiry := kip.ki_ntsid_expiry }
  if kip.ki_valid &&& (KI_VALID_PWNAM ||| KI_VALID_GRNAM) ≠ 0 then
    { ip with ki_name := kip.ki_name } else ip

/-- The function `kauth_identity_register_and_free`; `none` is a panic. -/
def kauth_identity_register_and_free (c : IdentityCache) (kip : kauth_identity) :
    Option IdentityCache :=
  if kip.ki_valid &&& KI_VALID_UID ≠ 0 ∧ kip.ki_valid &&& KI_VALID_GID ≠ 0 then none
  else if kip.ki_valid &&& KI_VALID_UID = 0 ∧ kip.ki_valid &&& KI_VALID_GID = 0 then none
  else
    let found :=
      if kip.ki_valid &&& KI_VALID_UID ≠ 0 then
        modify_first (fun ip => decide (ip.ki_valid &&& KI_VALID_UID ≠ 0 ∧ ip.ki_uid = kip.ki_uid))
          (kauth_identity_merge kip) c.kauth_identities
      else
        modify_first (fun ip => decide (ip.ki_valid &&& KI_VALID_GID ≠ 0 ∧ ip.ki_gid = kip.ki_gid))
          (kauth_identity_merge kip) c.kauth_identities
    match found with
    | some l => some { c with kauth_identities := l }
    | none =>
      let l := kip :: c.kauth_identities
      let count := c.kauth_identity_count + 1
      if count > c.kauth_identity_cachemax then
        some { c with kauth_identities := l.dropLast, kauth_identity_count := count - 1 }
      else some { c with kauth_identities := l, kauth_identity_count := count }

/-- The loop of `kauth_identity_trimcache`, with `fuel` bounding the number of
iterations; `none` is `TAILQ_LAST` of an empty list being dereferenced. -/
def kauth_identity_trimcache_loop (newsize : Int) : Nat → IdentityCache → Option IdentityCache
  | 0, c => if c.kauth_identity_count > newsize then none else some c
  | fuel + 1, c =>
    if c.kauth_identity_count > newsize then
      match c.kauth_identities with
      | [] => none
      | _ :: _ =>
        kauth_identity_trimcache_loop newsize fuel
          { c with kauth_identities := c.kauth_identities.dropLast,
                   kauth_identity_count := c.kauth_identity_count - 1 }
    else some c

/-- The function `kauth_identity_trimcache`. -/
def kauth_identity_trimcache (c : IdentityCache) (newsize : Int) : Option IdentityCache :=
  kauth_identity_trimcache_loop newsize (c.kauth_identities.length + 1) c

/-- The expiry the resolver names with a time to live: `valid ? tv_sec + valid : 0`. -/
def expiry_of (now valid : Nat) : Nat := if valid ≠ 0 then now + valid else 0

/-- The refresh of a cached user entry in `kauth_identity_updatecache`. -/
def kauth_identity_refresh_user (k : Platform) (now : Nat) (elp : kauth_identity_extlookup)
    (speculative_name : Option String) (kip : kauth_identity) : kauth_identity :=
  let kip :=
    if elp.el_flags &&& k.KAUTH_EXTLOOKUP_VALID_SUPGRPS ≠ 0 then
      let cnt := if elp.el_sup_grp_cnt > k.NGROUPS then k.NGROUPS else elp.el_sup_grp_cnt
      { kip with ki_supgrpcnt := cnt,
                 ki_supgrps := bcopy_groups elp.el_sup_groups kip.ki_supgrps cnt,
                 ki_valid := kip.ki_valid ||| KI_VALID_GROUPS,
                 ki_groups_expiry := expiry_of now elp.el_member_valid }
    else kip
  let kip :=
    if elp.el_flags &&& k.KAUTH_EXTLOOKUP_VALID_UGUID ≠ 0 then
      { kip with ki_guid := elp.el_uguid, ki_valid := kip.ki_valid ||| KI_VALID_GUID }
    else kip
  let kip := { kip with ki_guid_expiry := expiry_of now elp.el_uguid_valid }
  let kip :=
    if elp.el_flags &&& k.KAUTH_EXTLOOKUP_VALID_USID ≠ 0 then
      { kip with ki_ntsid := elp.el_usid, ki_valid := kip.ki_valid ||| KI_VALID_NTSID }
    else kip
  let kip := { kip with ki_ntsid_expiry := expiry_of now elp.el_usid_valid }
  if elp.el_flags &&& k.KAUTH_EXTLOOKUP_VALID_PWNAM ≠ 0 then
    { kip with ki_name := speculative_name, ki_valid := kip.ki_valid ||| KI_VALID_PWNAM }
  else kip

/-- The refresh of a cached group entry in `kauth_identity_updatecache`. -/
def kauth_identity_refresh_group (k : Platform) (now : Nat) (elp : kauth_identity_extlookup)
    (speculative_name : Option String) (kip : kauth_identity) : kauth_identity :=
  let kip :=
    if elp.el_flags &&& k.KAUTH_EXTLOOKUP_VALID_GGUID ≠ 0 then
      { kip with ki_guid := elp.el_gguid, ki_valid := kip.ki_valid ||| KI_VALID_GUID }
    else kip
  let kip := { kip with ki_guid_expiry := expiry_of now elp.el_gguid_valid }
  let kip :=
    if elp.el_flags &&& k.KAUTH_EXTLOOKUP_VALID_GSID ≠ 0 then
      { kip with ki_ntsid := elp.el_gsid, ki_valid := kip.ki_valid ||| KI_VALID_NTSID }
    else kip
  let kip := { kip with ki_ntsid_expiry := expiry_of now elp.el_gsid_valid }
  if elp.el_flags &&& k.KAUTH_EXTLOOKUP_VALID_GRNAM ≠ 0 then
    { kip with ki_name := speculative_name, ki_valid := kip.ki_valid ||| KI_VALID_GRNAM }
  else kip

/-- The user half of `kauth_identity_updatecache` (the block under
`el_flags & KAUTH_EXTLOOKUP_VALID_UID`).  Returns the cache and the value
stored through `rkip`, if any. -/
def kauth_identity_updatecache_user (k : Platform) (now : Nat) (c : IdentityCache)
    (elp : kauth_identity_extlookup) (speculative_name : Option String) :
    Option (IdentityCache × Option kauth_identity) :=
  match extract_first
      (fun kip => decide (kip.ki_valid &&& KI_VALID_UID ≠ 0 ∧ kip.ki_uid = elp.el_uid))
      c.kauth_identities with
  | some (kip, rest) =>
    let kip := kauth_identity_refresh_user k now elp speculative_name kip
    some ({ c with kauth_identities := kip :: rest }, some kip)
  | none =>
    match kauth_identity_alloc k elp.el_uid k.KAUTH_GID_NONE
        (if elp.el_flags &&& k.KAUTH_EXTLOOKUP_VALID_UGUID ≠ 0 then some elp.el_uguid else none)
        (expiry_of now elp.el_uguid_valid)
        (if elp.el_flags &&& k.KAUTH_EXTLOOKUP_VALID_USID ≠ 0 then some elp.el_usid else none)
        (expiry_of now elp.el_usid_valid)
        (if elp.el_flags &&& k.KAUTH_EXTLOOKUP_VALID_SUPGRPS ≠ 0 then elp.el_sup_grp_cnt else 0)
        (if elp.el_flags &&& k.KAUTH_EXTLOOKUP_VALID_SUPGRPS ≠ 0 then some elp.el_sup_groups
         else none)
        (expiry_of now elp.el_member_valid)
        (if elp.el_flags &&& k.KAUTH_EXTLOOKUP_VALID_PWNAM ≠ 0 then speculative_name else none)
        KI_VALID_PWNAM with
    | none => none
    | some none => some (c, none)
    | some (some kip) =>
      match kauth_identity_register_and_free c kip with
      | none => none
      | some c1 => some (c1, some kip)

/-- The group half of `kauth_identity_updatecache` (the block under
`el_flags & KAUTH_EXTLOOKUP_VALID_GID && !(el_flags & KAUTH_EXTLOOKUP_VALID_UID)`). -/
def kauth_identity_updatecache_group (k : Platform) (now : Nat) (c : IdentityCache)
    (elp : kauth_identity_extlookup) (speculative_name : Option String) :
    Option (IdentityCache × Option kauth_identity) :=
  match extract_first
      (fun kip => decide (kip.ki_valid &&& KI_VALID_GID ≠ 0 ∧ kip.ki_gid = elp.el_gid))
      c.kauth_identities with
  | some (kip, rest) =>
    let kip := kauth_identity_refresh_group k now elp speculative_name kip
    some ({ c with kauth_identities := kip :: rest }, some kip)
  | none =>
    match kauth_identity_alloc k k.KAUTH_UID_NONE elp.el_gid
        (if elp.el_flags &&& k.KAUTH_EXTLOOKUP_VALID_GGUID ≠ 0 then some elp.el_gguid else none)
        (expiry_of now elp.el_gguid_valid)
        (if elp.el_flags &&& k.KAUTH_EXTLOOKUP_VALID_GSID ≠ 0 then some elp.el_gsid else none)
        (expiry_of now elp.el_gsid_valid)
        (if elp.el_flags &&& k.KAUTH_EXTLOOKUP_VALID_SUPGRPS ≠ 0 then elp.el_sup_grp_cnt else 0)
        (if elp.el_flags &&& k.KAUTH_EXTLOOKUP_VALID_SUPGRPS ≠ 0 then some elp.el_sup_groups
         else none)
        (expiry_of now elp.el_member_valid)
        (if elp.el_flags &&& k.KAUTH_EXTLOOKUP_VALID_GRNAM ≠ 0 then speculative_name else none)
        KI_VALID_GRNAM with
    | none => none
    | some none => some (c, none)
    | some (some kip) =>
      match kauth_identity_register_and_free c kip with
      | none => none
      | some c1 => some (c1, some kip)

/-- The function `kauth_identity_updatecache` at uptime `now` (`tv.tv_sec`);
`extend_name` is the string at `extend_data`, and `rkip` says whether the
caller passed a non-null `rkip`.  Returns the cache and the value stored
through `rkip`; `none` is a panic.  The references the string cache keeps on
names are not modelled. -/
def kauth_identity_updatecache (k : Platform) (now : Nat) (c : IdentityCache)
    (elp : kauth_identity_extlookup) (rkip : Bool) (extend_name : String) :
    Option (IdentityCache × Option kauth_identity) :=
  let speculative_name :=
    if elp.el_flags &&& (k.KAUTH_EXTLOOKUP_VALID_PWNAM ||| k.KAUTH_EXTLOOKUP_VALID_GRNAM) ≠ 0
    then some extend_name else none
  let out (r : IdentityCache × Option kauth_identity) : IdentityCache × Option kauth_identity :=
    (r.1, if rkip then r.2 else none)
  if elp.el_flags &&& k.KAUTH_EXTLOOKUP_VALID_UID ≠ 0 then
    (kauth_identity_updatecache_user k now c elp speculative_name).map out
  else if elp.el_flags &&& k.KAUTH_EXTLOOKUP_VALID_GID ≠ 0 then
    (kauth_identity_updatecache_group k now c elp speculative_name).map out
  else some (c, none)

/-- The common body of the `kauth_identity_find_*` functions: the first entry
that satisfies `p` is promoted by `kauth_identity_lru` and copied out.  Returns
the return value, `*kir` if written, and the cache. -/
def kauth_identity_find (p : kauth_identity → Bool) (c : IdentityCache) :
    Nat × Option kauth_identity × IdentityCache :=
  match extract_first p c.kauth_identities with
  | some (kip, rest) => (0, some kip, { c with kauth_identities := kip :: rest })
  | none => (ENOENT, none, c)

/-- The function `kauth_identity_find_uid`. -/
def kauth_identity_find_uid (c : IdentityCache) (uid : Nat) :
    Nat × Option kauth_identity × IdentityCache :=
  kauth_identity_find (fun kip => decide (kip.ki_valid &&& KI_VALID_UID ≠ 0 ∧ uid = kip.ki_uid)) c

/-- The function `kauth_identity_find_gid`. -/
def kauth_identity_find_gid (c : IdentityCache) (gid : Nat) :
    Nat × Option kauth_identity × IdentityCache :=
  kauth_identity_find (fun kip => decide (kip.ki_valid &&& KI_VALID_GID ≠ 0 ∧ gid = kip.ki_gid)) c

/-- The function `kauth_guid_equal`. -/
def kauth_guid_equal (guid1 guid2 : guid_t) : Bool := decide (guid1 = guid2)

/-- The function `kauth_identity_find_guid`. -/
def kauth_identity_find_guid (c : IdentityCache) (guidp : guid_t) :
    Nat × Option kauth_identity × IdentityCache :=
  kauth_identity_find
    (fun kip => decide (kip.ki_valid &&& KI_VALID_GUID ≠ 0) && kauth_guid_equal guidp kip.ki_guid) c

/-- The function `kauth_identity_find_nam`. -/
def kauth_identity_find_nam (c : IdentityCache) (name : String) (valid : Nat) :
    Nat × Option kauth_identity × IdentityCache :=
  kauth_identity_find
    (fun kip => decide (kip.ki_valid &&& valid ≠ 0 ∧ kip.ki_name = some name)) c

/-- Modelled from the spec: the macro `KAUTH_NTSID_SIZE` of `sys/kauth.h`, the
size in bytes of the used part of an NTSID (an 8-byte header and 4 bytes per
sub-authority); the glossary calls the comparison of NTSIDs size-prefixed. -/
def KAUTH_NTSID_SIZE (sid : ntsid_t) : Nat := 8 + 4 * sid.sid_authcount

/-- The function `kauth_ntsid_equal`: equal sizes, no larger than the
structure (72 bytes), and equal bytes over that size. -/
def kauth_ntsid_equal (sid1 sid2 : ntsid_t) : Bool :=
  decide (KAUTH_NTSID_SIZE sid1 = KAUTH_NTSID_SIZE sid2 ∧ KAUTH_NTSID_SIZE sid1 ≤ 72 ∧
    sid1.sid_kind = sid2.sid_kind ∧ sid1.sid_authcount = sid2.sid_authcount ∧
    sid1.sid_authority = sid2.sid_authority ∧
    sid1.sid_authorities.take sid1.sid_authcount = sid2.sid_authorities.take sid1.sid_authcount)

/-- The function `kauth_identity_find_ntsid`. -/
def kauth_identity_find_ntsid (c : IdentityCache) (ntsid : ntsid_t) :
    Nat × Option kauth_identity × IdentityCache :=
  kauth_identity_find
    (fun kip => decide (kip.ki_valid &&& KI_VALID_NTSID ≠ 0) && kauth_ntsid_equal ntsid kip.ki_ntsid)
    c

/-! ## A concrete platform -/

/-- One step of the Jenkins one-at-a-time hash on a 32-bit key. -/
def jenkins_mix (hash w : Nat) : Nat :=
  let hash := (hash + w) % 4294967296
  let hash := (hash + hash <<< 10) % 4294967296
  hash ^^^ (hash >>> 6)

/-- The final avalanche of the Jenkins one-at-a-time hash. -/
def jenkins_finish (hash : Nat) : Nat :=
  let hash := (hash + hash <<< 3) % 4294967296
  let hash := hash ^^^ (hash >>> 11)
  (hash + hash <<< 15) % 4294967296

/-- A concrete platform, used to run the code on explicit inputs: `NGROUPS`
is 16, `KAUTH_UID_NONE` and `KAUTH_GID_NONE` are `~0 - 100` as 32-bit values,
`CRF_NOMEMBERD` is bit 0 and `CRF_MAC_ENFORCE` bit 1 of `cr_flags`, the hash is
the Jenkins one-at-a-time hash run over the fields, the resolver flags, result
codes and opcodes are those of `sys/kauth.h`, the error numbers those of
`sys/errno.h`, the permission masks those of `sys/stat.h`, and
`KAUTH_RESOLVER_FAILED_ERRCODE` is `EIO`. -/
def xnu : Platform :=
  { NGROUPS := 16,
    KAUTH_UID_NONE := 4294967195,
    KAUTH_GID_NONE := 4294967195,
    CRF_NOMEMBERD := 1,
    CRF_MAC_ENFORCE := 2,
    audit_default_aia_p := 0,
    mac_cred_label_init := 0,
    os_hash_jenkins_update := fun data hash => data.foldl jenkins_mix hash,
    os_hash_jenkins_finish := jenkins_finish,
    mac_cred_label_hash_update := fun label hash => jenkins_mix hash label,
    KAUTH_EXTLOOKUP_VALID_UID := 1 <<< 0,
    KAUTH_EXTLOOKUP_VALID_UGUID := 1 <<< 1,
    KAUTH_EXTLOOKUP_VALID_USID := 1 <<< 2,
    KAUTH_EXTLOOKUP_VALID_GID := 1 <<< 3,
    KAUTH_EXTLOOKUP_VALID_GGUID := 1 <<< 4,
    KAUTH_EXTLOOKUP_VALID_GSID := 1 <<< 5,
    KAUTH_EXTLOOKUP_VALID_PWNAM := 1 <<< 15,
    KAUTH_EXTLOOKUP_VALID_GRNAM := 1 <<< 17,
    KAUTH_EXTLOOKUP_VALID_SUPGRPS := 1 <<< 19,
    KAUTH_EXTLOOKUP_WANT_MEMBERSHIP := 1 <<< 12,
    KAUTH_EXTLOOKUP_VALID_MEMBERSHIP := 1 <<< 13,
    KAUTH_EXTLOOKUP_ISMEMBER := 1 <<< 14,
    KAUTH_EXTLOOKUP_WANT_PWNAM := 1 <<< 16,
    KAUTH_EXTLOOKUP_WANT_GRNAM := 1 <<< 18,
    KAUTH_EXTLOOKUP_SUCCESS := 0,
    KAUTH_EXTLOOKUP_BADRQ := 1,
    KAUTH_EXTLOOKUP_FAILURE := 2,
    KAUTH_EXTLOOKUP_FATAL := 3,
    KAUTH_EXTLOOKUP_INPROG := 100,
    KAUTH_EXTLOOKUP_REGISTER := 0,
    KAUTH_EXTLOOKUP_RESULT := 1 <<< 0,
    KAUTH_EXTLOOKUP_WORKER := 1 <<< 1,
    KAUTH_EXTLOOKUP_DEREGISTER := 1 <<< 2,
    KAUTH_GET_CACHE_SIZES := 1 <<< 3,
    KAUTH_SET_CACHE_SIZES := 1 <<< 4,
    KAUTH_CLEAR_CACHES := 1 <<< 5,
    EPERM := 1,
    EINVAL := 22,
    EFAULT := 14,
    EWOULDBLOCK := 35,
    KAUTH_RESOLVER_FAILED_ERRCODE := 5,
    KAUTH_EXTLOOKUP_WANT_UID := 1 <<< 6,
    KAUTH_EXTLOOKUP_WANT_UGUID := 1 <<< 7,
    KAUTH_EXTLOOKUP_WANT_USID := 1 <<< 8,
    KAUTH_EXTLOOKUP_WANT_GID := 1 <<< 9,
    KAUTH_EXTLOOKUP_WANT_GGUID := 1 <<< 10,
    KAUTH_EXTLOOKUP_WANT_GSID := 1 <<< 11,
    KAUTH_EXTLOOKUP_WANT_SUPGRPS := 1 <<< 20,
    KAUTH_WKG_NOT := 0,
    KAUTH_WKG_OWNER := 1,
    KAUTH_WKG_GROUP := 2,
    KAUTH_WKG_NOBODY := 3,
    KAUTH_WKG_EVERYBODY := 4,
    S_IRWXU := 0o700,
    S_IRWXG := 0o070,
    S_IRWXO := 0o007,
    EACCES := 13 }

/-- A credential template of the concrete platform with the given user IDs,
flags, group count and leading group slots (the other slots are 0), real and
saved GID `gid`, default audit session and label. -/
def template (uid ruid svuid flags : Nat) (ngroups : Int) (groups : List Nat) (gid : Nat) :
    ucred :=
  { cr_posix :=
      { cr_uid := uid, cr_ruid := ruid, cr_svuid := svuid, cr_ngroups := ngroups,
        cr_groups := groups ++ List.replicate (16 - groups.length) 0,
        cr_rgid := gid, cr_svgid := gid, cr_gmuid := 0, cr_flags := flags },
    cr_label := 0,
    cr_audit := { as_aia_p := 0, as_mask := 0 } }

/-- The empty credential table, before any credential is created. -/
def empty_store : CredStore :=
  { table := [], next_addr := 1, vfs_context0_vc_ucred := .NOCRED }

/-! ## Notions used in the statements about the credential table -/

/-- An object that is content-equal and on the scanned chain. -/
def chain_match (k : Platform) (cred : ucred) (bucket : Nat) (e : ucred_rw) : Prop :=
  e.crw_link = some bucket ∧ kauth_cred_is_equal k e.crw_cred cred = true

/-- The object `kauth_cred_create` builds for a template: the canonical POSIX
part and the audit part of the template under a fresh label, at the next free
address, with one reference, linked on the chain of the template's bucket. -/
def kauth_cred_create_object (k : Platform) (external : Nat × Option Nat) (s : CredStore)
    (cred : ucred) : ucred_rw :=
  { addr := s.next_addr,
    crw_cred := { kauth_cred_create_canonical k external cred with
                  cr_label := k.mac_cred_label_init },
    crw_weak_ref := 1,
    cr_ref := 0,
    crw_link := some (kauth_cred_get_bucket k (kauth_cred_create_canonical k external cred)) }

/-- Taking a weak reference on an object. -/
def retain_weak (e : ucred_rw) : ucred_rw := { e with crw_weak_ref := e.crw_weak_ref + 1 }

/-- Giving up a weak reference on an object. -/
def release_weak (e : ucred_rw) : ucred_rw := { e with crw_weak_ref := e.crw_weak_ref - 1 }

/-- Unlinking an object from its hash chain. -/
def unlink (e : ucred_rw) : ucred_rw := { e with crw_link := none }

/-- The store after the object at address `a` gave up a reference: the object
is gone when that was its last reference, and has one reference less
otherwise. -/
def CredStore.released (s : CredStore) (a : Nat) (last : Bool) : CredStore :=
  if last then
    { s with table :=
        (((s.modify a release_weak).modify a unlink).table.filter
          (fun x => decide (x.addr ≠ a))) }
  else s.modify a release_weak

/-- The model `kauth_cred_update` works with: the caller's model, with the
audit information of the old credential when `retain_auditinfo` is set. -/
def update_model (old : ucred_rw) (model_cred : ucred) (retain_auditinfo : Bool) : ucred :=
  if retain_auditinfo then { model_cred with cr_audit := old.crw_cred.cr_audit } else model_cred

/-- The object `kauth_cred_update` publishes on a miss: a duplicate of the
model at the next free address, with one reference, linked on the chain of the
model's bucket. -/
def update_object (k : Platform) (s : CredStore) (model : ucred) : ucred_rw :=
  { addr := s.next_addr, crw_cred := model, crw_weak_ref := 1, cr_ref := 0,
    crw_link := some (kauth_cred_get_bucket k model) }

/-! ## Notions used in the statements about long-term holds -/

/-- An object after `kauth_cred_hold(cred, true)`: one more reference and one
more long-term hold. -/
def held (e : ucred_rw) : ucred_rw :=
  { e with crw_weak_ref := e.crw_weak_ref + 1, cr_ref := e.cr_ref + 1 }

/-- An object after a `kauth_cred_drop` that did not free it: one long-term
hold and one reference less. -/
def dropped (e : ucred_rw) : ucred_rw :=
  { e with crw_weak_ref := e.crw_weak_ref - 1, cr_ref := e.cr_ref - 1 }

/-! ## Explicit inputs -/

/-- The credential published for the template with uid 501, gid 20 and the
opt-out flag, on the concrete platform. -/
def example_object : ucred_rw :=
  kauth_cred_create_object xnu (0, none) empty_store (template 501 501 501 1 1 [20] 20)

/-- The store that holds `example_object` only. -/
def example_store : CredStore :=
  { empty_store with table := [example_object], next_addr := 2 }

/-- A store with two credentials: object 1 is held long-term by some pointer
field (two references, one long-term hold), object 2 has one reference. -/
def two_store : CredStore :=
  { table :=
      [{ addr := 2, crw_cred := template 502 502 502 1 1 [20] 20, crw_weak_ref := 1,
         cr_ref := 0, crw_link := some 7 },
       { addr := 1, crw_cred := template 501 501 501 1 1 [20] 20, crw_weak_ref := 2,
         cr_ref := 1, crw_link := some 5 }],
    next_addr := 3,
    vfs_context0_vc_ucred := .NOCRED }

/-! ## Notions used in the statements about the identity cache -/

/-- An entry is keyed by exactly one of UID and GID: exactly one of
`KI_VALID_UID` and `KI_VALID_GID` is set in `ki_valid`. -/
def key_exclusive (kip : kauth_identity) : Prop :=
  (kip.ki_valid &&& KI_VALID_UID ≠ 0 ∧ kip.ki_valid &&& KI_VALID_GID = 0) ∨
  (kip.ki_valid &&& KI_VALID_UID = 0 ∧ kip.ki_valid &&& KI_VALID_GID ≠ 0)

/-- An operation on the identity cache: an upsert, a registration, a trim, a
change of the bound (`KAUTH_SET_CACHE_SIZES`), or one of the lookups. -/
inductive IdentityOp where
  | updatecache (now : Nat) (elp : kauth_identity_extlookup) (rkip : Bool)
      (extend_name : String) : IdentityOp
  | register_and_free (kip : kauth_identity) : IdentityOp
  | trimcache (newsize : Int) : IdentityOp
  | set_cachemax (newsize : Int) : IdentityOp
  | find_uid (uid : Nat) : IdentityOp
  | find_gid (gid : Nat) : IdentityOp
  | find_guid (guid : guid_t) : IdentityOp
  | find_ntsid (ntsid : ntsid_t) : IdentityOp
  | find_nam (name : String) (valid : Nat) : IdentityOp

/-- The cache after an operation; `none` when the operation panics. -/
def IdentityOp.apply (k : Platform) (c : IdentityCache) : IdentityOp → Option IdentityCache
  | .updatecache now elp rkip extend_name =>
    (kauth_identity_updatecache k now c elp rkip extend_name).map (fun r => r.1)
  | .register_and_free kip => kauth_identity_register_and_free c kip
  | .trimcache newsize => kauth_identity_trimcache c newsize
  | .set_cachemax newsize =>
    kauth_identity_trimcache { c with kauth_identity_cachemax := newsize } newsize
  | .find_uid uid => some (kauth_identity_find_uid c uid).2.2
  | .find_gid gid => some (kauth_identity_find_gid c gid).2.2
  | .find_guid guid => some (kauth_identity_find_guid c guid).2.2
  | .find_ntsid ntsid => some (kauth_identity_find_ntsid c ntsid).2.2
  | .find_nam name valid => some (kauth_identity_find_nam c name valid).2.2

/-- The states of the identity cache that the operations reach from the
empty cache. -/
inductive IdentityReachable (k : Platform) : IdentityCache → Prop where
  | init : IdentityReachable k IdentityCache.init
  | step (c c' : IdentityCache) (op : IdentityOp) :
      IdentityReachable k c → op.apply k c = some c' → IdentityReachable k c'

/-- Every entry of the cache is keyed by exactly one of UID and GID. -/
def identity_keys_exclusive (c : IdentityCache) : Prop :=
  ∀ kip ∈ c.kauth_identities, key_exclusive kip

/-- A response of the concrete platform flagged with a valid UID (501) and a
valid GID (20) at once. -/
def both_response : kauth_identity_extlookup :=
  { el_seqno := 31337, el_result := 0,
    el_flags := xnu.KAUTH_EXTLOOKUP_VALID_UID ||| xnu.KAUTH_EXTLOOKUP_VALID_GID,
    el_info_pid := 0, el_extend := 0, el_uid := 501, el_uguid := List.replicate 16 0,
    el_uguid_valid := 0,
    el_usid := { sid_kind := 0, sid_authcount := 0, sid_authority := [], sid_authorities := [] },
    el_usid_valid := 0, el_gid := 20, el_gguid := List.replicate 16 0, el_gguid_valid := 0,
    el_gsid := { sid_kind := 0, sid_authcount := 0, sid_authority := [], sid_authorities := [] },
    el_gsid_valid := 0, el_member_valid := 0, el_sup_grp_cnt := 0, el_sup_groups := [] }

/-- The cache after `both_response` was written into the empty cache: one
entry, keyed by uid 501. -/
def both_cache : IdentityCache :=
  { kauth_identities := [{ kauth_identity.zero xnu with ki_valid := KI_VALID_UID, ki_uid := 501 }],
    kauth_identity_count := 1,
    kauth_identity_cachemax := KAUTH_IDENTITY_CACHEMAX_DEFAULT }

/-! ## The group membership cache -/

/-- An entry of the group membership cache, `struct kauth_group_membership`
without its list linkage. -/
structure kauth_group_membership where
  gm_uid : Nat
  gm_gid : Nat
  gm_expiry : Nat
  gm_flags : Nat
deriving DecidableEq, Repr

/-- The flag `KAUTH_GROUP_ISMEMBER` of `gm_flags`. -/
def KAUTH_GROUP_ISMEMBER : Nat := 1 <<< 0

/-- The default bound, `#define KAUTH_GROUPS_CACHEMAX_DEFAULT 100`. -/
def KAUTH_GROUPS_CACHEMAX_DEFAULT : Int := 100

/-- The bound on both bounds, `#define KAUTH_CACHES_MAX_SIZE 10000`. -/
def KAUTH_CACHES_MAX_SIZE : Nat := 10000

/-- The group membership cache: the list `kauth_groups` (most recently used
first), the counter `kauth_groups_count` and the bound `kauth_groups_cachemax`. -/
structure GroupsCache where
  kauth_groups : List kauth_group_membership
  kauth_groups_count : Int
  kauth_groups_cachemax : Int
deriving DecidableEq, Repr

/-- The group membership cache at boot: empty, with the default bound. -/
def GroupsCache.init : GroupsCache :=
  { kauth_groups := [], kauth_groups_count := 0,
    kauth_groups_cachemax := KAUTH_GROUPS_CACHEMAX_DEFAULT }

/-- The function `kauth_groups_expired` at uptime `now` (`tv.tv_sec`). -/
def kauth_groups_expired (now : Nat) (gm : kauth_group_membership) : Bool :=
  if gm.gm_expiry = 0 then false else decide (gm.gm_expiry ≤ now)

/-- The value of `x & ~m` on a flag word: the bits of `m` cleared in `x`. -/
def clear_bits (x m : Nat) : Nat := x ^^^ (x &&& m)

/-- The assignments of `kauth_groups_updatecache` to `gm_flags` and
`gm_expiry` of an entry, cached or new. -/
def kauth_groups_refresh (k : Platform) (now : Nat) (el : kauth_identity_extlookup)
    (gm : kauth_group_membership) : kauth_group_membership :=
  { gm with
    gm_flags :=
      if el.el_flags &&& k.KAUTH_EXTLOOKUP_ISMEMBER ≠ 0 then gm.gm_flags ||| KAUTH_GROUP_ISMEMBER
      else clear_bits gm.gm_flags KAUTH_GROUP_ISMEMBER
    gm_expiry := if el.el_member_valid ≠ 0 then el.el_member_valid + now else 0 }

/-- The function `kauth_groups_updatecache` at uptime `now`.  The new record
comes from `kalloc_type` without `Z_ZERO`: `garbage` is the content of its
`gm_flags` before the assignments. -/
def kauth_groups_updatecache (k : Platform) (now garbage : Nat) (g : GroupsCache)
    (el : kauth_identity_extlookup) : GroupsCache :=
  let need := k.KAUTH_EXTLOOKUP_VALID_UID ||| k.KAUTH_EXTLOOKUP_VALID_GID |||
    k.KAUTH_EXTLOOKUP_VALID_MEMBERSHIP
  if el.el_flags &&& need ≠ need then g
  else
    match extract_first (fun gm => decide (el.el_uid = gm.gm_uid ∧ el.el_gid = gm.gm_gid))
        g.kauth_groups with
    | some (gm, rest) =>
      { g with kauth_groups := kauth_groups_refresh k now el gm :: rest }
    | none =>
      let gm := kauth_groups_refresh k now el
        { gm_uid := el.el_uid, gm_gid := el.el_gid, gm_expiry := 0, gm_flags := garbage }
      let l := gm :: g.kauth_groups
      let count := g.kauth_groups_count + 1
      if count > g.kauth_groups_cachemax then
        { g with kauth_groups := l.dropLast, kauth_groups_count := count - 1 }
      else { g with kauth_groups := l, kauth_groups_count := count }

/-- The loop of `kauth_groups_trimcache`, with `fuel` bounding the number of
iterations; `none` is `TAILQ_LAST` of an empty list being dereferenced. -/
def kauth_groups_trimcache_loop (new_size : Int) : Nat → GroupsCache → Option GroupsCache
  | 0, g => if g.kauth_groups_count > new_size then none else some g
  | fuel + 1, g =>
    if g.kauth_groups_count > new_size then
      match g.kauth_groups with
      | [] => none
      | _ :: _ =>
        kauth_groups_trimcache_loop new_size fuel
          { g with kauth_groups := g.kauth_groups.dropLast,
                   kauth_groups_count := g.kauth_groups_count - 1 }
    else some g

/-- The function `kauth_groups_trimcache`. -/
def kauth_groups_trimcache (g : GroupsCache) (new_size : Int) : Option GroupsCache :=
  kauth_groups_trimcache_loop new_size (g.kauth_groups.length + 1) g

/-- A zero-filled resolver message, as `bzero(&el, sizeof(el))` leaves it. -/
def kauth_identity_extlookup.zero : kauth_identity_extlookup :=
  { el_seqno := 0, el_result := 0, el_flags := 0, el_info_pid := 0, el_extend := 0, el_uid := 0,
    el_uguid := List.replicate 16 0, el_uguid_valid := 0,
    el_usid := { sid_kind := 0, sid_authcount := 0, sid_authority := List.replicate 6 0,
                 sid_authorities := List.replicate 16 0 },
    el_usid_valid := 0, el_gid := 0, el_gguid := List.replicate 16 0, el_gguid_valid := 0,
    el_gsid := { sid_kind := 0, sid_authcount := 0, sid_authority := List.replicate 6 0,
                 sid_authorities := List.replicate 16 0 },
    el_gsid_valid := 0, el_member_valid := 0, el_sup_grp_cnt := 0,
    el_sup_groups := List.replicate 16 0 }

/-- The scan of the group cache in `kauth_cred_ismember_gid` at uptime `now`:
the first entry with the key `(cr_gmuid, gid)` that has not expired is promoted
by `kauth_groups_lru`.  Returns the entry found, if any, and the cache. -/
def kauth_cred_ismember_gid_scan (now : Nat) (g : GroupsCache) (pcred : posix_cred)
    (gid : Nat) : Option kauth_group_membership × GroupsCache :=
  match extract_first
      (fun gm => decide (gm.gm_uid = pcred.cr_gmuid ∧ gm.gm_gid = gid) &&
        !kauth_groups_expired now gm) g.kauth_groups with
  | some (gm, rest) => (some gm, { g with kauth_groups := gm :: rest })
  | none => (none, g)

/-- The request that `kauth_cred_ismember_gid` builds for the resolver on a
miss of the cache, for the calling process `pid`. -/
def kauth_cred_ismember_gid_request (k : Platform) (pid : Nat) (pcred : posix_cred)
    (gid : Nat) : kauth_identity_extlookup :=
  { kauth_identity_extlookup.zero with
    el_info_pid := pid
    el_flags := k.KAUTH_EXTLOOKUP_VALID_UID ||| k.KAUTH_EXTLOOKUP_VALID_GID |||
      k.KAUTH_EXTLOOKUP_WANT_MEMBERSHIP
    el_uid := pcred.cr_gmuid
    el_gid := gid
    el_member_valid := 0 }

/-- The part of `kauth_cred_ismember_gid` under `CONFIG_EXT_RESOLVER`, reached
when the inline list has no match and the credential has not opted out.
`registered` is `kauth_resolver_registered`, `now` the uptime of the scan,
`pid` the calling process, `submit` the outcome of `kauth_resolver_submit` (its
return value and the message it leaves in `el`), `later` the uptime and
`garbage` the fresh allocation when the answer is cached.  Returns the return
value, the value stored in `*resultp` if one is, and the cache. -/
def kauth_cred_ismember_gid_resolver (k : Platform) (registered now pid : Nat)
    (submit : kauth_identity_extlookup → Nat × kauth_identity_extlookup) (later garbage : Nat)
    (g : GroupsCache) (pcred : posix_cred) (gid : Nat) : (Nat × Option Nat) × GroupsCache :=
  if registered = 0 then ((0, some 0), g)
  else
    match kauth_cred_ismember_gid_scan now g pcred gid with
    | (some gm, g1) => ((0, some (if gm.gm_flags &&& KAUTH_GROUP_ISMEMBER ≠ 0 then 1 else 0)), g1)
    | (none, g1) =>
      let (error, el) := submit (kauth_cred_ismember_gid_request k pid pcred gid)
      if error ≠ 0 then ((error, none), g1)
      else
        let g2 := kauth_groups_updatecache k later garbage g1 el
        if el.el_flags &&& k.KAUTH_EXTLOOKUP_VALID_MEMBERSHIP ≠ 0 then
          ((0, some (if el.el_flags &&& k.KAUTH_EXTLOOKUP_ISMEMBER ≠ 0 then 1 else 0)), g2)
        else ((ENOENT, none), g2)

/-! ## The external resolver: work queues and `identitysvc` -/

/-- A work item, `struct kauth_resolver_work`, without its list linkage. -/
structure kauth_resolver_work where
  kr_work : kauth_identity_extlookup
  kr_extend : Nat
  kr_seqno : Nat
  kr_refs : Int
  kr_flags : Nat
  kr_result : Nat
deriving DecidableEq, Repr

/-- The flag `KAUTH_REQUEST_UNSUBMITTED` of `kr_flags`. -/
def KAUTH_REQUEST_UNSUBMITTED : Nat := 1 <<< 0

/-- The flag `KAUTH_REQUEST_SUBMITTED` of `kr_flags`. -/
def KAUTH_REQUEST_SUBMITTED : Nat := 1 <<< 1

/-- The flag `KAUTH_REQUEST_DONE` of `kr_flags`. -/
def KAUTH_REQUEST_DONE : Nat := 1 <<< 2

/-- The globals of the resolver interface: the recorded resolver pid, the two
registration flags, the next sequence number (a `uint32_t`), the timeout in
seconds, and the three queues, each from its head to its tail. -/
structure ResolverState where
  kauth_resolver_identity : Nat
  kauth_identitysvc_has_registered : Nat
  kauth_resolver_registered : Nat
  kauth_resolver_sequence : Nat
  kauth_resolver_timeout : Int
  kauth_resolver_unsubmitted : List kauth_resolver_work
  kauth_resolver_submitted : List kauth_resolver_work
  kauth_resolver_done : List kauth_resolver_work
deriving DecidableEq, Repr

/-- The resolver globals at boot, as their initialisers set them. -/
def ResolverState.init : ResolverState :=
  { kauth_resolver_identity := 0, kauth_identitysvc_has_registered := 0,
    kauth_resolver_registered := 0, kauth_resolver_sequence := 31337,
    kauth_resolver_timeout := 30, kauth_resolver_unsubmitted := [],
    kauth_resolver_submitted := [], kauth_resolver_done := [] }

/-- The function `kauth_resolver_identity_reset`. -/
def kauth_resolver_identity_reset (s : ResolverState) : ResolverState :=
  if s.kauth_resolver_identity ≠ 0 then
    { s with kauth_resolver_identity := 0, kauth_resolver_registered := 0 }
  else s

/-- The first half of `kauth_resolver_submit`, up to the sleep on the work
item: with no resolver it returns `EWOULDBLOCK` after its short sleep and
enqueues nothing; otherwise it builds the work item, numbers it and puts it at
the tail of the unsubmitted queue.  Returns the return value (0 while the
caller goes on to sleep), the item enqueued, and the globals.  The second half
(the copy of the answer and the release of the item after the wait) is
`kauth_resolver_submit_wakeup`. -/
def kauth_resolver_submit (k : Platform) (s : ResolverState) (lkp : kauth_identity_extlookup)
    (extend_data : Nat) : Nat × Option kauth_resolver_work × ResolverState :=
  if s.kauth_resolver_identity = 0 then (k.EWOULDBLOCK, none, s)
  else
    let seqno := s.kauth_resolver_sequence
    let workp : kauth_resolver_work :=
      { kr_work := { lkp with el_seqno := seqno, el_result := k.KAUTH_EXTLOOKUP_INPROG }
        kr_extend := extend_data
        kr_seqno := seqno
        kr_refs := 1
        kr_flags := KAUTH_REQUEST_UNSUBMITTED
        kr_result := 0 }
    (0, some workp,
      { s with kauth_resolver_sequence := (seqno + 1) % 4294967296
               kauth_resolver_unsubmitted := s.kauth_resolver_unsubmitted ++ [workp] })

/-- What `identitysvc` and the functions under it take from the calling
process and from user memory: the entitlement check, the result of
`kauth_authorize_generic` for `KAUTH_GENERIC_ISSUSER`, the pid and the
effective UID of the caller, the error of the `copyout` of the cache sizes,
the `copyin` of the cache sizes (an error or `kcs_group_size` and
`kcs_id_size`), the `copyin` of a completion message (an error or the
message), the error of the `copyinstr` of an extended name, the errors of the
two `copyout`s of a work item, of the `copyin` of the extension address and of
the `copyoutstr` of the extended request, and the return value of `msleep0`. -/
structure identitysvc_caller where
  entitled : Bool
  issuser : Nat
  pid : Nat
  uid : Nat
  copyout_sizes : Nat
  copyin_sizes : Except Nat (Nat × Nat)
  copyin_message : Except Nat kauth_identity_extlookup
  copyinstr : Nat
  copyout_before : Nat
  copyout_after : Nat
  copyin_uaddr : Nat
  copyoutstr : Nat
  msleep : Nat

/-- The change of `kr_flags` when an item leaves the submitted queue for the
unsubmitted one: `kr_flags &= ~KAUTH_REQUEST_SUBMITTED; kr_flags |=
KAUTH_REQUEST_UNSUBMITTED`. -/
def demote (workp : kauth_resolver_work) : kauth_resolver_work :=
  { workp with
    kr_flags := clear_bits workp.kr_flags KAUTH_REQUEST_SUBMITTED ||| KAUTH_REQUEST_UNSUBMITTED }

/-- The loop of the `KAUTH_EXTLOOKUP_REGISTER` branch: while the submitted
queue has a last item, it is taken off, demoted and put at the head of the
unsubmitted queue.  `fuel` bounds the number of iterations. -/
def identitysvc_register_loop : Nat → ResolverState → ResolverState
  | 0, s => s
  | fuel + 1, s =>
    match s.kauth_resolver_submitted.getLast? with
    | none => s
    | some workp =>
      identitysvc_register_loop fuel
        { s with kauth_resolver_submitted := s.kauth_resolver_submitted.dropLast
                 kauth_resolver_unsubmitted := demote workp :: s.kauth_resolver_unsubmitted }

/-- The locked block of the `KAUTH_EXTLOOKUP_REGISTER` branch of `identitysvc`
for the caller `new_id` and the argument `message`. -/
def identitysvc_register (new_id message : Nat) (s : ResolverState) : ResolverState :=
  if s.kauth_resolver_identity ≠ new_id then
    let s := identitysvc_register_loop s.kauth_resolver_submitted.length s
    let s := if message > 30 ∧ message < 10000 then
        { s with kauth_resolver_timeout := (message : Int) } else s
    { s with kauth_resolver_identity := new_id
             kauth_resolver_registered := 1
             kauth_identitysvc_has_registered := 1 }
  else s

/-- The function `kauth_resolver_getwork2`; `none` is the dereference of the
null head of an empty unsubmitted queue. -/
def kauth_resolver_getwork2 (k : Platform) (caller : identitysvc_caller) (s : ResolverState) :
    Option (Nat × ResolverState) :=
  match s.kauth_resolver_unsubmitted with
  | [] => none
  | workp :: rest =>
    if caller.copyout_before ≠ 0 then some (caller.copyout_before, s)
    else if caller.copyout_after ≠ 0 then some (caller.copyout_after, s)
    else
      let error :=
        if workp.kr_work.el_flags &&&
            (k.KAUTH_EXTLOOKUP_VALID_PWNAM ||| k.KAUTH_EXTLOOKUP_VALID_GRNAM) ≠ 0 then
          if caller.copyin_uaddr ≠ 0 then caller.copyin_uaddr else caller.copyoutstr
        else 0
      if error ≠ 0 then some (error, s)
      else
        let workp :=
          { workp with
            kr_flags :=
              clear_bits workp.kr_flags KAUTH_REQUEST_UNSUBMITTED ||| KAUTH_REQUEST_SUBMITTED }
        some (0, { s with kauth_resolver_unsubmitted := rest
                          kauth_resolver_submitted := s.kauth_resolver_submitted ++ [workp] })

/-- The function `kauth_resolver_getwork`.  With an empty unsubmitted queue
the thread sleeps and the call ends with the error of the sleep, or with
`KAUTH_RESOLVER_FAILED_ERRCODE` when no resolver is recorded; the continuation
that runs on wake-up is not modelled. -/
def kauth_resolver_getwork (k : Platform) (caller : identitysvc_caller) (s : ResolverState) :
    Option (Nat × ResolverState) :=
  match s.kauth_resolver_unsubmitted with
  | [] =>
    some (if s.kauth_resolver_identity = 0 then k.KAUTH_RESOLVER_FAILED_ERRCODE
          else caller.msleep, s)
  | _ :: _ => kauth_resolver_getwork2 k caller s

/-- The `switch` of `kauth_resolver_complete` on `el_result`: the value of
`error`, the value of `result`, and the globals. -/
def kauth_resolver_complete_switch (k : Platform) (el_result : Nat) (s : ResolverState) :
    Nat × Nat × ResolverState :=
  if el_result = k.KAUTH_EXTLOOKUP_INPROG then (0, 0, s)
  else if el_result = k.KAUTH_EXTLOOKUP_SUCCESS then (0, 0, s)
  else if el_result = k.KAUTH_EXTLOOKUP_FATAL then
    (k.KAUTH_RESOLVER_FAILED_ERRCODE, 0,
      { s with kauth_resolver_identity := 0, kauth_resolver_registered := 0 })
  else if el_result = k.KAUTH_EXTLOOKUP_BADRQ then (0, k.EINVAL, s)
  else if el_result = k.KAUTH_EXTLOOKUP_FAILURE then (0, k.KAUTH_RESOLVER_FAILED_ERRCODE, s)
  else (0, k.KAUTH_RESOLVER_FAILED_ERRCODE, s)

/-- The function `kauth_resolver_complete`, run with no other thread in
between.  The bytes that `copyinstr` writes into the requester's name buffer are
not modelled, only its error.  When the function copies a name it drops the
resolver lock around `copyinstr`, after the `TAILQ_REMOVE` from the submitted
queue and before the `TAILQ_INSERT_TAIL` on the done queue; that state, in which
the item is marked DONE and is on no queue, is not a state of this definition:
it is the result of `kauth_resolver_complete_unlink`, and
`kauth_resolver_complete_insert` is the rest of the call. -/
def kauth_resolver_complete (k : Platform) (caller : identitysvc_caller) (s : ResolverState) :
    Nat × ResolverState :=
  match caller.copyin_message with
  | .error error => (error, s)
  | .ok extl =>
    let (error, result, s) := kauth_resolver_complete_switch k extl.el_result s
    if extl.el_result ≠ k.KAUTH_EXTLOOKUP_FATAL then
      match extract_first (fun workp => decide (workp.kr_seqno = extl.el_seqno))
          s.kauth_resolver_submitted with
      | some (workp, rest) =>
        let want_extend_data := workp.kr_work.el_flags &&&
          (k.KAUTH_EXTLOOKUP_WANT_PWNAM ||| k.KAUTH_EXTLOOKUP_WANT_GRNAM)
        let workp :=
          { workp with
            kr_flags := clear_bits workp.kr_flags KAUTH_REQUEST_SUBMITTED ||| KAUTH_REQUEST_DONE
            kr_result := result
            kr_work := extl }
        let valid_name := extl.el_flags &&&
          (k.KAUTH_EXTLOOKUP_VALID_PWNAM ||| k.KAUTH_EXTLOOKUP_VALID_GRNAM)
        let error :=
          if want_extend_data ≠ 0 ∧ valid_name ≠ 0 then caller.copyinstr
          else if valid_name ≠ 0 then k.EFAULT
          else error
        (error, { s with kauth_resolver_submitted := rest
                         kauth_resolver_done := s.kauth_resolver_done ++ [workp] })
      | none => (error, s)
    else (error, s)

/-- The state that `identitysvc` works on: the resolver globals and the two
caches. -/
structure KauthState where
  resolver : ResolverState
  identity : IdentityCache
  groups : GroupsCache
deriving DecidableEq, Repr

/-- The state at boot. -/
def KauthState.init : KauthState :=
  { resolver := ResolverState.init, identity := IdentityCache.init, groups := GroupsCache.init }

/-- The `KAUTH_SET_CACHE_SIZES` branch of `identitysvc` after the `copyin` of
the request; `none` is a panic of a trim.  Modelled from the spec: the two
sizes of the request (`struct kauth_cache_sizes` of `sys/kauth.h`) are unsigned
counts, compared against the cap of 10000 as such. -/
def identitysvc_set_cache_sizes (k : Platform) (st : KauthState)
    (kcs_group_size kcs_id_size : Nat) : Option (Nat × KauthState) :=
  if kcs_group_size > KAUTH_CACHES_MAX_SIZE ∨ kcs_id_size > KAUTH_CACHES_MAX_SIZE then
    some (k.EINVAL, st)
  else
    match kauth_identity_trimcache
        { st.identity with kauth_identity_cachemax := (kcs_id_size : Int) } (kcs_id_size : Int) with
    | none => none
    | some identity =>
      match kauth_groups_trimcache
          { st.groups with kauth_groups_cachemax := (kcs_group_size : Int) }
          (kcs_group_size : Int) with
      | none => none
      | some groups => some (0, { st with identity := identity, groups := groups })

/-- The `KAUTH_CLEAR_CACHES` branch of `identitysvc`. -/
def identitysvc_clear_caches (st : KauthState) : Option KauthState :=
  match kauth_identity_trimcache st.identity 0 with
  | none => none
  | some identity =>
    match kauth_groups_trimcache st.groups 0 with
    | none => none
    | some groups => some { st with identity := identity, groups := groups }

/-- The tail of `identitysvc`: a result handed in (`KAUTH_EXTLOOKUP_RESULT`),
then work asked for (`KAUTH_EXTLOOKUP_WORKER`). -/
def identitysvc_result_worker (k : Platform) (caller : identitysvc_caller) (st : KauthState)
    (opcode : Nat) : Option (Nat × KauthState) :=
  let (error, resolver) :=
    if opcode &&& k.KAUTH_EXTLOOKUP_RESULT ≠ 0 then kauth_resolver_complete k caller st.resolver
    else (0, st.resolver)
  let st := { st with resolver := resolver }
  if error ≠ 0 then some (error, st)
  else if opcode &&& k.KAUTH_EXTLOOKUP_WORKER ≠ 0 then
    match kauth_resolver_getwork k caller st.resolver with
    | none => none
    | some (error, resolver) => some (error, { st with resolver := resolver })
  else some (0, st)

/-- The system call `identitysvc` with the arguments `opcode` and `message`;
`none` is a panic. -/
def identitysvc (k : Platform) (caller : identitysvc_caller) (st : KauthState)
    (opcode message : Nat) : Option (Nat × KauthState) :=
  if !caller.entitled then some (k.EPERM, st)
  else if opcode = k.KAUTH_EXTLOOKUP_REGISTER then
    if caller.issuser ≠ 0 then some (caller.issuser, st)
    else some (0, { st with resolver := identitysvc_register caller.pid message st.resolver })
  else if caller.uid ≠ 0 ∨ caller.pid ≠ st.resolver.kauth_resolver_identity then
    some (k.EPERM, st)
  else if opcode = k.KAUTH_GET_CACHE_SIZES then some (caller.copyout_sizes, st)
  else if opcode = k.KAUTH_SET_CACHE_SIZES then
    match caller.copyin_sizes with
    | .error error => some (error, st)
    | .ok (kcs_group_size, kcs_id_size) =>
      identitysvc_set_cache_sizes k st kcs_group_size kcs_id_size
  else if opcode = k.KAUTH_CLEAR_CACHES then
    match identitysvc_clear_caches st with
    | none => none
    | some st => identitysvc_result_worker k caller st opcode
  else if opcode = k.KAUTH_EXTLOOKUP_DEREGISTER then
    identitysvc_result_worker k caller
      { st with resolver := { st.resolver with kauth_resolver_identity := 0
                                               kauth_resolver_registered := 0 } } opcode
  else identitysvc_result_worker k caller st opcode

/-! ## Notions used in the statements about the caches and the resolver -/

/-- An operation on the group membership cache: an upsert, a trim, a change
of the bound, or the lookup of `kauth_cred_ismember_gid`. -/
inductive GroupsOp where
  | updatecache (now garbage : Nat) (el : kauth_identity_extlookup) : GroupsOp
  | trimcache (new_size : Int) : GroupsOp
  | set_cachemax (new_size : Int) : GroupsOp
  | ismember_gid (now : Nat) (pcred : posix_cred) (gid : Nat) : GroupsOp

/-- The group cache after an operation; `none` when the operation panics. -/
def GroupsOp.apply (k : Platform) (g : GroupsCache) : GroupsOp → Option GroupsCache
  | .updatecache now garbage el => some (kauth_groups_updatecache k now garbage g el)
  | .trimcache new_size => kauth_groups_trimcache g new_size
  | .set_cachemax new_size =>
    kauth_groups_trimcache { g with kauth_groups_cachemax := new_size } new_size
  | .ismember_gid now pcred gid => some (kauth_cred_ismember_gid_scan now g pcred gid).2

/-- An event on the resolver state: a request submitted by the kernel, a call
of `identitysvc`, or a reset of the resolver identity. -/
inductive KauthOp where
  | submit (lkp : kauth_identity_extlookup) (extend_data : Nat) : KauthOp
  | identitysvc (caller : identitysvc_caller) (opcode message : Nat) : KauthOp
  | identity_reset : KauthOp

/-- The work item an event enqueues, if any, and the state after it; `none`
is a panic. -/
def KauthOp.apply (k : Platform) (st : KauthState) :
    KauthOp → Option (Option kauth_resolver_work × KauthState)
  | .submit lkp extend_data =>
    let r := kauth_resolver_submit k st.resolver lkp extend_data
    some (r.2.1, { st with resolver := r.2.2 })
  | .identitysvc caller opcode message =>
    (Kauth.identitysvc k caller st opcode message).map (fun r => (none, r.2))
  | .identity_reset =>
    some (none, { st with resolver := kauth_resolver_identity_reset st.resolver })

/-- The work items that a run of events enqueues, in the order of their
enqueueing; the run stops at a panic. -/
def enqueued (k : Platform) : KauthState → List KauthOp → List kauth_resolver_work
  | _, [] => []
  | st, op :: ops =>
    match op.apply k st with
    | none => []
    | some (none, st1) => enqueued k st1 ops
    | some (some workp, st1) => workp :: enqueued k st1 ops

/-- One of the five lookups of the identity cache, with its argument. -/
inductive Lookup where
  | find_uid (uid : Nat) : Lookup
  | find_gid (gid : Nat) : Lookup
  | find_guid (guidp : guid_t) : Lookup
  | find_ntsid (ntsid : ntsid_t) : Lookup
  | find_nam (name : String) (valid : Nat) : Lookup

/-- The lookup run on the cache `c`: the `kauth_identity_find_*` function it names. -/
def Lookup.run (c : IdentityCache) : Lookup → Nat × Option kauth_identity × IdentityCache
  | .find_uid uid => kauth_identity_find_uid c uid
  | .find_gid gid => kauth_identity_find_gid c gid
  | .find_guid guidp => kauth_identity_find_guid c guidp
  | .find_ntsid ntsid => kauth_identity_find_ntsid c ntsid
  | .find_nam name valid => kauth_identity_find_nam c name valid

/-- The test that the scan of the lookup applies to an entry. -/
def Lookup.hit : Lookup → kauth_identity → Bool
  | .find_uid uid => fun kip => decide (kip.ki_valid &&& KI_VALID_UID ≠ 0 ∧ uid = kip.ki_uid)
  | .find_gid gid => fun kip => decide (kip.ki_valid &&& KI_VALID_GID ≠ 0 ∧ gid = kip.ki_gid)
  | .find_guid guidp => fun kip =>
    decide (kip.ki_valid &&& KI_VALID_GUID ≠ 0) && kauth_guid_equal guidp kip.ki_guid
  | .find_ntsid ntsid => fun kip =>
    decide (kip.ki_valid &&& KI_VALID_NTSID ≠ 0) && kauth_ntsid_equal ntsid kip.ki_ntsid
  | .find_nam name valid => fun kip => decide (kip.ki_valid &&& valid ≠ 0 ∧ kip.ki_name = some name)

/-- The test that the scan of `kauth_identity_register_and_free` for the
incoming entry `kip` applies to a cached entry `ip`: the same UID when `kip`
is keyed by UID, else the same GID. -/
def identity_key_match (kip ip : kauth_identity) : Bool :=
  if kip.ki_valid &&& KI_VALID_UID ≠ 0 then
    decide (ip.ki_valid &&& KI_VALID_UID ≠ 0 ∧ ip.ki_uid = kip.ki_uid)
  else decide (ip.ki_valid &&& KI_VALID_GID ≠ 0 ∧ ip.ki_gid = kip.ki_gid)

/-- An entry of the concrete platform keyed by `uid`, with nothing else valid. -/
def uid_entry (uid : Nat) : kauth_identity :=
  { kauth_identity.zero xnu with ki_valid := KI_VALID_UID, ki_uid := uid }

/-- An identity cache with three entries, uid 501 most recently used, and the
bound `cachemax`. -/
def three_cache (cachemax : Int) : IdentityCache :=
  { kauth_identities := [uid_entry 501, uid_entry 502, uid_entry 503],
    kauth_identity_count := 3,
    kauth_identity_cachemax := cachemax }

/-- A group membership cache with three entries: uid 501 is a member of group
20 for good, was a member of group 30 until uptime 10, and uid 502 is no member
of group 20. -/
def three_groups : GroupsCache :=
  { kauth_groups :=
      [{ gm_uid := 501, gm_gid := 20, gm_expiry := 0, gm_flags := 1 },
       { gm_uid := 501, gm_gid := 30, gm_expiry := 10, gm_flags := 1 },
       { gm_uid := 502, gm_gid := 20, gm_expiry := 0, gm_flags := 0 }],
    kauth_groups_count := 3,
    kauth_groups_cachemax := KAUTH_GROUPS_CACHEMAX_DEFAULT }

/-- The bound of the identity cache: the counter is the number of entries
and does not exceed `kauth_identity_cachemax`. -/
def identity_bound (c : IdentityCache) : Prop :=
  c.kauth_identity_count = (c.kauth_identities.length : Int) ∧
  c.kauth_identity_count ≤ c.kauth_identity_cachemax

/-- The POSIX part of a credential of the concrete platform that resolves its
memberships as uid 501 and carries group 20 inline. -/
def member_cred : posix_cred :=
  { (template 501 501 501 0 1 [20] 20).cr_posix with cr_gmuid := 501 }

/-- A resolver call that times out: `kauth_resolver_submit` returns
`EWOULDBLOCK` and leaves the request as it was. -/
def submit_timeout (el : kauth_identity_extlookup) : Nat × kauth_identity_extlookup :=
  (xnu.EWOULDBLOCK, el)

/-- A resolver call that succeeds: `kauth_resolver_submit` returns 0 and the
answer says that the user is a member, valid for 60 seconds. -/
def submit_member (el : kauth_identity_extlookup) : Nat × kauth_identity_extlookup :=
  (0, { el with
    el_flags := xnu.KAUTH_EXTLOOKUP_VALID_UID ||| xnu.KAUTH_EXTLOOKUP_VALID_GID |||
      xnu.KAUTH_EXTLOOKUP_VALID_MEMBERSHIP ||| xnu.KAUTH_EXTLOOKUP_ISMEMBER
    el_member_valid := 60 })

/-- What a merge leaves of a cached entry `old` in the merged entry `new`,
given which parts the incoming data flags as valid and the two expiry times it
carries: the key is kept; the GUID, the NTSID, the supplementary groups with
their expiry time, and the name are kept unless flagged; the expiry times of
the GUID and of the NTSID are the incoming ones in any case; with nothing
flagged the valid bits are kept. -/
def merge_frame (guid_flag ntsid_flag groups_flag name_flag : Prop)
    (guid_expiry ntsid_expiry : Nat) (old new : kauth_identity) : Prop :=
  new.ki_uid = old.ki_uid ∧ new.ki_gid = old.ki_gid ∧
  (¬ guid_flag → new.ki_guid = old.ki_guid) ∧
  (¬ ntsid_flag → new.ki_ntsid = old.ki_ntsid) ∧
  (¬ groups_flag → new.ki_supgrpcnt = old.ki_supgrpcnt ∧ new.ki_supgrps = old.ki_supgrps ∧
    new.ki_groups_expiry = old.ki_groups_expiry) ∧
  (¬ name_flag → new.ki_name = old.ki_name) ∧
  new.ki_guid_expiry = guid_expiry ∧ new.ki_ntsid_expiry = ntsid_expiry ∧
  (¬ guid_flag → ¬ ntsid_flag → ¬ groups_flag → ¬ name_flag → new.ki_valid = old.ki_valid)

/-- A GUID of the concrete platform: the bytes 1 to 16. -/
def example_guid : guid_t := [1, 2, 3, 4, 5, 6, 7, 8, 9, 10, 11, 12, 13, 14, 15, 16]

/-- An identity cache with one entry: uid 501 with a GUID that is valid until
uptime 1000. -/
def guid_cache : IdentityCache :=
  { kauth_identities :=
      [{ kauth_identity.zero xnu with
         ki_valid := KI_VALID_UID ||| KI_VALID_GUID, ki_uid := 501, ki_guid := example_guid,
         ki_guid_expiry := 1000 }],
    kauth_identity_count := 1,
    kauth_identity_cachemax := KAUTH_IDENTITY_CACHEMAX_DEFAULT }

/-- A response for uid 501 that flags the UID and the supplementary groups
(group 20, valid for 60 seconds) and nothing else; its GUID field and the time
to live of the GUID are zero. -/
def groups_response : kauth_identity_extlookup :=
  { kauth_identity_extlookup.zero with
    el_flags := xnu.KAUTH_EXTLOOKUP_VALID_UID ||| xnu.KAUTH_EXTLOOKUP_VALID_SUPGRPS
    el_uid := 501
    el_member_valid := 60
    el_sup_grp_cnt := 1
    el_sup_groups := [20] }

/-- A calling process of the concrete platform that is entitled, runs as root
with the pid `pid`, and whose user memory can be copied without error; a
cache-size request read from it asks for `sizes` (the group size, then the
identity size), a completion message read from it is `message`. -/
def resolver_caller (pid : Nat) (sizes : Nat × Nat) (message : kauth_identity_extlookup) :
    identitysvc_caller :=
  { entitled := true, issuser := 0, pid := pid, uid := 0, copyout_sizes := 0,
    copyin_sizes := .ok sizes, copyin_message := .ok message, copyinstr := 0,
    copyout_before := 0, copyout_after := 0, copyin_uaddr := 0, copyoutstr := 0, msleep := 0 }

/-- A work item of the concrete platform with the sequence number `seqno` and
the state `flags`, carrying an otherwise empty request. -/
def work_item (seqno flags : Nat) : kauth_resolver_work :=
  { kr_work := { kauth_identity_extlookup.zero with
      el_seqno := seqno, el_result := xnu.KAUTH_EXTLOOKUP_INPROG }
    kr_extend := 0
    kr_seqno := seqno
    kr_refs := 1
    kr_flags := flags
    kr_result := 0 }

/-- A state with the resolver of pid 100 registered, the requests 31337 and
31338 handed to it, the request 31339 waiting to be collected, and the caches
as at boot but for the given timeout. -/
def busy_state (timeout : Int) : KauthState :=
  { resolver :=
      { kauth_resolver_identity := 100, kauth_identitysvc_has_registered := 1,
        kauth_resolver_registered := 1, kauth_resolver_sequence := 31340,
        kauth_resolver_timeout := timeout,
        kauth_resolver_unsubmitted := [work_item 31339 KAUTH_REQUEST_UNSUBMITTED],
        kauth_resolver_submitted :=
          [work_item 31337 KAUTH_REQUEST_SUBMITTED, work_item 31338 KAUTH_REQUEST_SUBMITTED],
        kauth_resolver_done := [] },
    identity := three_cache 100,
    groups := three_groups }

/-- The event of the resolver of pid 100 registering on the concrete platform. -/
def register_op : KauthOp :=
  .identitysvc (resolver_caller 100 (0, 0) kauth_identity_extlookup.zero)
    xnu.KAUTH_EXTLOOKUP_REGISTER 0

/-- The event of the kernel submitting an empty request. -/
def submit_op : KauthOp := .submit kauth_identity_extlookup.zero 0

/-- A completion message of the concrete platform: SUCCESS for the request
with the sequence number 31338. -/
def success_message : kauth_identity_extlookup :=
  { kauth_identity_extlookup.zero with el_seqno := 31338, el_result := xnu.KAUTH_EXTLOOKUP_SUCCESS }

/-! ## Translations through the identity cache -/

/-- The function `kauth_identity_guid_expired` at uptime `now` (`tv.tv_sec`). -/
def kauth_identity_guid_expired (now : Nat) (kip : kauth_identity) : Bool :=
  if kip.ki_guid_expiry = 0 then false else decide (kip.ki_guid_expiry ≤ now)

/-- The function `kauth_identity_ntsid_expired` at uptime `now`. -/
def kauth_identity_ntsid_expired (now : Nat) (kip : kauth_identity) : Bool :=
  if kip.ki_ntsid_expiry = 0 then false else decide (kip.ki_ntsid_expiry ≤ now)

/-- The function `kauth_identity_groups_expired` at uptime `now`. -/
def kauth_identity_groups_expired (now : Nat) (kip : kauth_identity) : Bool :=
  if kip.ki_groups_expiry = 0 then false else decide (kip.ki_groups_expiry ≤ now)

/-- The memory behind the `void *` arguments `src` and `dst` of
`kauth_cred_cache_lookup`, with one field for each type the function reads or
writes it at: `null` says that the pointer is `NULL`, `id` is the `uid_t` or
`gid_t`, `name` the string, and `count` and `groups` are what the two pointers
of a `struct supgroups` point to (`count` is `none` for a null `gp->count`). -/
structure lookup_buffer where
  null : Bool
  id : Nat
  guid : guid_t
  ntsid : ntsid_t
  name : String
  count : Option Nat
  groups : List Nat
deriving DecidableEq, Repr

/-- What a translation takes from outside the caches: the uptime `now` of its
expiry tests, the pid of the calling process, the flag
`kauth_resolver_registered`, the outcome of `kauth_resolver_submit` as a
function of the request and of the string at `extend_data` (`none` for a null
`extend_data`): its return value, the message it leaves in `*lkp`, and the
string at `extend_data` afterwards; the uptime `later` at which an answer is
cached; and the content `garbage` of a fresh allocation. -/
structure lookup_env where
  now : Nat
  pid : Nat
  registered : Nat
  submit : kauth_identity_extlookup → Option String →
    Nat × kauth_identity_extlookup × Option String
  later : Nat
  garbage : Nat

/-- The first `switch` of `kauth_cred_cache_lookup`: the search of the cache
by the kind `from_kind` of `src`; `none` is the `default` case (`EINVAL`). -/
def kauth_cred_cache_lookup_find (c : IdentityCache) (from_kind : Nat) (src : lookup_buffer) :
    Option (Nat × Option kauth_identity × IdentityCache) :=
  if from_kind = KI_VALID_UID then some (kauth_identity_find_uid c src.id)
  else if from_kind = KI_VALID_GID then some (kauth_identity_find_gid c src.id)
  else if from_kind = KI_VALID_GUID then some (kauth_identity_find_guid c src.guid)
  else if from_kind = KI_VALID_NTSID then some (kauth_identity_find_ntsid c src.ntsid)
  else if from_kind = KI_VALID_PWNAM ∨ from_kind = KI_VALID_GRNAM then
    some (kauth_identity_find_nam c src.name from_kind)
  else none

/-- The choice of the expiry function in `kauth_cred_cache_lookup` by the kind
asked for, else by the kind given, applied to the entry found; `none` stands for
`expired = NULL`. -/
def kauth_cred_cache_lookup_expired (now : Nat) (from_kind to_kind : Nat)
    (ki : kauth_identity) : Option Bool :=
  if to_kind = KI_VALID_GUID then some (kauth_identity_guid_expired now ki)
  else if to_kind = KI_VALID_NTSID then some (kauth_identity_ntsid_expired now ki)
  else if to_kind = KI_VALID_GROUPS then some (kauth_identity_groups_expired now ki)
  else if from_kind = KI_VALID_GUID then some (kauth_identity_guid_expired now ki)
  else if from_kind = KI_VALID_NTSID then some (kauth_identity_ntsid_expired now ki)
  else none

/-- The request that `kauth_cred_cache_lookup` builds for the resolver, before
the supplementary groups are added; `none` is the `default` case (`EINVAL`). -/
def kauth_cred_cache_lookup_request (k : Platform) (pid from_kind to_kind : Nat)
    (src : lookup_buffer) : Option kauth_identity_extlookup :=
  let el := { kauth_identity_extlookup.zero with el_info_pid := pid }
  let el : Option kauth_identity_extlookup :=
    if from_kind = KI_VALID_UID then
      some { el with el_flags := k.KAUTH_EXTLOOKUP_VALID_UID, el_uid := src.id }
    else if from_kind = KI_VALID_GID then
      some { el with el_flags := k.KAUTH_EXTLOOKUP_VALID_GID, el_gid := src.id }
    else if from_kind = KI_VALID_GUID then
      some { el with
        el_flags := k.KAUTH_EXTLOOKUP_VALID_UGUID ||| k.KAUTH_EXTLOOKUP_VALID_GGUID
        el_uguid := src.guid
        el_gguid := src.guid }
    else if from_kind = KI_VALID_NTSID then
      some { el with
        el_flags := k.KAUTH_EXTLOOKUP_VALID_USID ||| k.KAUTH_EXTLOOKUP_VALID_GSID
        el_usid := src.ntsid
        el_gsid := src.ntsid }
    else if from_kind = KI_VALID_PWNAM then
      some { el with el_flags := k.KAUTH_EXTLOOKUP_VALID_PWNAM }
    else if from_kind = KI_VALID_GRNAM then
      some { el with el_flags := k.KAUTH_EXTLOOKUP_VALID_GRNAM }
    else none
  el.map fun el =>
    let el := { el with
      el_flags := el.el_flags ||| (k.KAUTH_EXTLOOKUP_WANT_UID ||| k.KAUTH_EXTLOOKUP_WANT_GID |||
        k.KAUTH_EXTLOOKUP_WANT_UGUID ||| k.KAUTH_EXTLOOKUP_WANT_GGUID |||
        k.KAUTH_EXTLOOKUP_WANT_USID ||| k.KAUTH_EXTLOOKUP_WANT_GSID) }
    let el := if to_kind = KI_VALID_PWNAM then
        { el with el_flags := el.el_flags ||| k.KAUTH_EXTLOOKUP_WANT_PWNAM } else el
    let el := if to_kind = KI_VALID_GRNAM then
        { el with el_flags := el.el_flags ||| k.KAUTH_EXTLOOKUP_WANT_GRNAM } else el
    if to_kind = KI_VALID_GROUPS then
      { el with el_flags := el.el_flags ||| k.KAUTH_EXTLOOKUP_WANT_SUPGRPS } else el

/-- The string at `extend_data` when `kauth_cred_cache_lookup` calls the
resolver: `src` for a translation from a name, `dst` for one to a name (which
wins when both apply), and `none` for `0ULL`. -/
def kauth_cred_cache_lookup_extend (from_kind to_kind : Nat) (src dst : lookup_buffer) :
    Option String :=
  if to_kind = KI_VALID_PWNAM ∨ to_kind = KI_VALID_GRNAM then some dst.name
  else if from_kind = KI_VALID_PWNAM ∨ from_kind = KI_VALID_GRNAM then some src.name
  else none

/-- The code at the label `found` of `kauth_cred_cache_lookup`: the copy of
the field asked for from `ki` into `dst`; `none` is the `default` case
(`EINVAL`). -/
def kauth_cred_cache_lookup_found (to_kind : Nat) (ki : kauth_identity) (dst : lookup_buffer) :
    Option lookup_buffer :=
  if to_kind = KI_VALID_UID then some { dst with id := ki.ki_uid }
  else if to_kind = KI_VALID_GID then some { dst with id := ki.ki_gid }
  else if to_kind = KI_VALID_GUID then some { dst with guid := ki.ki_guid }
  else if to_kind = KI_VALID_NTSID then some { dst with ntsid := ki.ki_ntsid }
  else if to_kind = KI_VALID_GROUPS then
    let limit := match dst.count with
      | some count => min ki.ki_supgrpcnt count
      | none => ki.ki_supgrpcnt
    some { dst with
      count := dst.count.map fun _ => limit
      groups := bcopy_groups ki.ki_supgrps dst.groups limit }
  else if to_kind = KI_VALID_PWNAM ∨ to_kind = KI_VALID_GRNAM then some dst
  else none

/-- What `kauth_cred_cache_lookup` makes of the search of the cache: a hit
(`goto found`), a return with an error, or a call of the resolver. -/
inductive cache_verdict where
  | found : cache_verdict
  | fail (error : Nat) : cache_verdict
  | resolve : cache_verdict
deriving DecidableEq, Repr

/-- The middle of `kauth_cred_cache_lookup`, from the test of the valid bit
asked for to the end of the expiry handling, for the return value `error` of
the search and the entry `ki` it copied out. -/
def kauth_cred_cache_lookup_verdict (now from_kind to_kind error : Nat) (ki : kauth_identity) :
    cache_verdict :=
  let error := if error = 0 ∧ to_kind &&& ki.ki_valid = 0 then ENOENT else error
  if error ≠ 0 then
    if error ≠ ENOENT then .fail error else .resolve
  else
    let expired := kauth_cred_cache_lookup_expired now from_kind to_kind ki
    if expired = some true then .resolve
    else if ki.ki_valid &&& to_kind ≠ 0 then .found
    else if from_kind = KI_VALID_GUID ∨ from_kind = KI_VALID_NTSID then
      if to_kind = KI_VALID_GID then
        if ki.ki_valid &&& KI_VALID_UID ≠ 0 then .fail ENOENT else .resolve
      else if to_kind = KI_VALID_UID then
        if ki.ki_valid &&& KI_VALID_GID ≠ 0 then .fail ENOENT else .resolve
      else .resolve
    else .resolve

/-- The end of `kauth_cred_cache_lookup` from the label `found`, with the
requests made so far. -/
def kauth_cred_cache_lookup_return (k : Platform) (to_kind : Nat) (ki : kauth_identity)
    (dst : lookup_buffer) (c : IdentityCache) (requests : List kauth_identity_extlookup) :
    Nat × lookup_buffer × IdentityCache × List kauth_identity_extlookup :=
  match kauth_cred_cache_lookup_found to_kind ki dst with
  | some dst1 => (0, dst1, c, requests)
  | none => (k.EINVAL, dst, c, requests)

/-- The part of `kauth_cred_cache_lookup` that calls the resolver and caches
its answer, for the entry `ki` left by the search (its `ki_valid` is 0 after a
miss); `none` is a panic: supplementary groups beyond `NGROUPS` in `ki`, a
panic of `kauth_identity_updatecache`, or an answer that flags a name when
`extend_data` is null. -/
def kauth_cred_cache_lookup_resolve (k : Platform) (env : lookup_env) (c : IdentityCache)
    (from_kind to_kind : Nat) (src dst : lookup_buffer) (ki : kauth_identity) :
    Option (Nat × lookup_buffer × IdentityCache × List kauth_identity_extlookup) :=
  match kauth_cred_cache_lookup_request k env.pid from_kind to_kind src with
  | none => some (k.EINVAL, dst, c, [])
  | some el =>
    if to_kind = KI_VALID_GROUPS ∧ ki.ki_valid &&& KI_VALID_GROUPS ≠ 0 ∧
        ki.ki_supgrpcnt > k.NGROUPS then none
    else
      let el :=
        if to_kind = KI_VALID_GROUPS ∧ ki.ki_valid &&& KI_VALID_GROUPS ≠ 0 then
          { el with
            el_sup_grp_cnt := ki.ki_supgrpcnt
            el_sup_groups := bcopy_groups ki.ki_supgrps el.el_sup_groups ki.ki_supgrpcnt
            el_flags := el.el_flags ||| k.KAUTH_EXTLOOKUP_VALID_SUPGRPS }
        else el
      let answer := env.submit el (kauth_cred_cache_lookup_extend from_kind to_kind src dst)
      let error := answer.1
      let extend_data := answer.2.2
      let dst :=
        if to_kind = KI_VALID_PWNAM ∨ to_kind = KI_VALID_GRNAM then
          { dst with name := extend_data.getD dst.name }
        else dst
      if error = 0 then
        let el1 := answer.2.1
        let el1 :=
          if from_kind = KI_VALID_PWNAM then
            { el1 with el_flags := el1.el_flags ||| k.KAUTH_EXTLOOKUP_VALID_PWNAM }
          else if from_kind = KI_VALID_GRNAM then
            { el1 with el_flags := el1.el_flags ||| k.KAUTH_EXTLOOKUP_VALID_GRNAM }
          else el1
        if el1.el_flags &&& (k.KAUTH_EXTLOOKUP_VALID_PWNAM ||| k.KAUTH_EXTLOOKUP_VALID_GRNAM) ≠ 0 ∧
            extend_data = none then none
        else
          match kauth_identity_updatecache k env.later c el1 true (extend_data.getD "") with
          | none => none
          | some (c1, rkip) =>
            let ki := rkip.getD ki
            if ki.ki_valid &&& to_kind = 0 then some (ENOENT, dst, c1, [el])
            else some (kauth_cred_cache_lookup_return k to_kind ki dst c1 [el])
      else some (error, dst, c, [el])

/-- The function `kauth_cred_cache_lookup` of the `CONFIG_EXT_RESOLVER` build,
on the cache `c`.  Returns the return value, the memory at `dst`, the cache,
and the requests handed to `kauth_resolver_submit` in their order; `none` is a
panic.  The local `ki` starts zero-filled; a cached name is taken to be present
whenever its valid bit is set. -/
def kauth_cred_cache_lookup (k : Platform) (env : lookup_env) (c : IdentityCache)
    (from_kind to_kind : Nat) (src dst : lookup_buffer) :
    Option (Nat × lookup_buffer × IdentityCache × List kauth_identity_extlookup) :=
  if (to_kind = KI_VALID_PWNAM ∨ to_kind = KI_VALID_GRNAM) ∧ dst.null = true then
    some (k.EINVAL, dst, c, [])
  else
    let dst := if to_kind = KI_VALID_PWNAM ∨ to_kind = KI_VALID_GRNAM then
        { dst with name := "" } else dst
    match kauth_cred_cache_lookup_find c from_kind src with
    | none => some (k.EINVAL, dst, c, [])
    | some (error, kir, c1) =>
      let ki := kir.getD (kauth_identity.zero k)
      let dst :=
        if (to_kind = KI_VALID_PWNAM ∨ to_kind = KI_VALID_GRNAM) ∧
            ¬ (from_kind = KI_VALID_PWNAM ∨ from_kind = KI_VALID_GRNAM) ∧ kir.isSome = true ∧
            ki.ki_valid &&& (KI_VALID_PWNAM ||| KI_VALID_GRNAM) ≠ 0 then
          { dst with name := ki.ki_name.getD "" }
        else dst
      match kauth_cred_cache_lookup_verdict env.now from_kind to_kind error ki with
      | .found => some (kauth_cred_cache_lookup_return k to_kind ki dst c1 [])
      | .fail error => some (error, dst, c1, [])
      | .resolve => kauth_cred_cache_lookup_resolve k env c1 from_kind to_kind src dst ki

/-- A buffer that holds the identifier `id` and is zero otherwise. -/
def lookup_buffer.of_id (id : Nat) : lookup_buffer :=
  { null := false, id := id, guid := List.replicate 16 0,
    ntsid := { sid_kind := 0, sid_authcount := 0, sid_authority := List.replicate 6 0,
               sid_authorities := List.replicate 16 0 },
    name := "", count := none, groups := [] }

/-- A buffer that holds the GUID `guid` and is zero otherwise. -/
def lookup_buffer.of_guid (guid : guid_t) : lookup_buffer :=
  { lookup_buffer.of_id 0 with guid := guid }

/-- The function `kauth_cred_uid2guid`; `guidp` is the memory at `guidp`. -/
def kauth_cred_uid2guid (k : Platform) (env : lookup_env) (c : IdentityCache) (uid : Nat)
    (guidp : lookup_buffer) :
    Option (Nat × lookup_buffer × IdentityCache × List kauth_identity_extlookup) :=
  kauth_cred_cache_lookup k env c KI_VALID_UID KI_VALID_GUID (lookup_buffer.of_id uid) guidp

/-- The function `kauth_cred_guid2gid`; `gidp` is the memory at `gidp`. -/
def kauth_cred_guid2gid (k : Platform) (env : lookup_env) (c : IdentityCache) (guidp : guid_t)
    (gidp : lookup_buffer) :
    Option (Nat × lookup_buffer × IdentityCache × List kauth_identity_extlookup) :=
  kauth_cred_cache_lookup k env c KI_VALID_GUID KI_VALID_GID (lookup_buffer.of_guid guidp) gidp

/-- The function `kauth_cred_guid2uid`; `uidp` is the memory at `uidp`. -/
def kauth_cred_guid2uid (k : Platform) (env : lookup_env) (c : IdentityCache) (guidp : guid_t)
    (uidp : lookup_buffer) :
    Option (Nat × lookup_buffer × IdentityCache × List kauth_identity_extlookup) :=
  kauth_cred_cache_lookup k env c KI_VALID_GUID KI_VALID_UID (lookup_buffer.of_guid guidp) uidp

/-! ## The second half of a submission -/

/-- The work item that a sleeping submitter holds a pointer to, looked up in
the three queues by the sequence number it was given (pointers are not
modelled; live items have distinct sequence numbers until the counter wraps). -/
def resolver_find_work (s : ResolverState) (seqno : Nat) : Option kauth_resolver_work :=
  (s.kauth_resolver_unsubmitted ++ s.kauth_resolver_submitted ++ s.kauth_resolver_done).find?
    (fun workp => decide (workp.kr_seqno = seqno))

/-- One turn of the loop of
`__KERNEL_IS_WAITING_ON_EXTERNAL_CREDENTIAL_RESOLVER__`, after `msleep` has
returned `error` on the globals `s` with the item in the state `workp`: the
return value of the function, or `none` when the loop goes back to sleep. -/
def KERNEL_IS_WAITING_ON_EXTERNAL_CREDENTIAL_RESOLVER (k : Platform) (s : ResolverState)
    (workp : kauth_resolver_work) (error : Nat) : Option Nat :=
  if error = 0 ∧ workp.kr_flags &&& KAUTH_REQUEST_DONE ≠ 0 then some error
  else if s.kauth_resolver_identity = 0 then some k.KAUTH_RESOLVER_FAILED_ERRCODE
  else if error ≠ 0 then some error
  else none

/-- The macro `TAILQ_REMOVE` of the item with the sequence number `seqno` from
a queue; `none` when the item is not on that queue. -/
def remove_work (seqno : Nat) (queue : List kauth_resolver_work) :
    Option (List kauth_resolver_work) :=
  (extract_first (fun workp => decide (workp.kr_seqno = seqno)) queue).map (fun r => r.2)

/-- The second half of `kauth_resolver_submit`, from the return of the wait
with `error` to the end, for the submitter of the item `seqno` whose request
structure holds `lkp`.  Returns the return value, `*lkp`, and the globals;
`none` is a submitter without an item, or an item whose `kr_flags` name a queue
it is not on.  The counter of timeouts and its message are not modelled. -/
def kauth_resolver_submit_wakeup (k : Platform) (s : ResolverState) (seqno : Nat)
    (lkp : kauth_identity_extlookup) (error : Nat) :
    Option (Nat × kauth_identity_extlookup × ResolverState) :=
  match resolver_find_work s seqno with
  | none => none
  | some workp =>
    let lkp := if error = 0 then workp.kr_work else lkp
    let s :=
      if error = k.EWOULDBLOCK ∧ workp.kr_flags &&& KAUTH_REQUEST_UNSUBMITTED ≠ 0 then
        { s with kauth_resolver_identity := 0, kauth_resolver_registered := 0 }
      else s
    let result := if error = 0 then workp.kr_result else error
    if workp.kr_refs - 1 ≤ 0 then
      if workp.kr_flags &&& KAUTH_REQUEST_DONE ≠ 0 then
        (remove_work seqno s.kauth_resolver_done).map fun queue =>
          (result, lkp, { s with kauth_resolver_done := queue })
      else if workp.kr_flags &&& KAUTH_REQUEST_SUBMITTED ≠ 0 then
        (remove_work seqno s.kauth_resolver_submitted).map fun queue =>
          (result, lkp, { s with kauth_resolver_submitted := queue })
      else if workp.kr_flags &&& KAUTH_REQUEST_UNSUBMITTED ≠ 0 then
        (remove_work seqno s.kauth_resolver_unsubmitted).map fun queue =>
          (result, lkp, { s with kauth_resolver_unsubmitted := queue })
      else some (result, lkp, s)
    else
      let drop (queue : List kauth_resolver_work) : List kauth_resolver_work :=
        queue.map fun w => if w.kr_seqno = seqno then { w with kr_refs := w.kr_refs - 1 } else w
      some (result, lkp,
        { s with kauth_resolver_unsubmitted := drop s.kauth_resolver_unsubmitted
                 kauth_resolver_submitted := drop s.kauth_resolver_submitted
                 kauth_resolver_done := drop s.kauth_resolver_done })

/-- The start of `kauth_resolver_submit` with its test of the resolver
identity spelled out: `at_entry` are the globals at entry and `after_sleep` the
globals after the half-second sleep, which the call takes only when no
resolver is recorded at entry.  Returns the return value (0 while the caller
goes on to sleep on its item), `*lkp`, which this part of the function does
not write, the item enqueued, and the globals. -/
def kauth_resolver_submit_entry (k : Platform) (at_entry after_sleep : ResolverState)
    (lkp : kauth_identity_extlookup) (extend_data : Nat) :
    Nat × kauth_identity_extlookup × Option kauth_resolver_work × ResolverState :=
  let s := if at_entry.kauth_resolver_identity = 0 then after_sleep else at_entry
  let r := kauth_resolver_submit k s lkp extend_data
  (r.1, lkp, r.2.1, r.2.2)

/-! ## Well-known GUIDs and group membership -/

/-- The 12 bytes `fingerprint` that every well-known GUID starts with. -/
def fingerprint : List Nat :=
  [0xab, 0xcd, 0xef, 0xab, 0xcd, 0xef, 0xab, 0xcd, 0xef, 0xab, 0xcd, 0xef]

/-- The load `*(uint32_t *)` of four bytes on the little-endian machines this
kernel runs on. -/
def load32_host (bytes : List Nat) : Nat :=
  bytes.getD 0 0 + 256 * bytes.getD 1 0 + 65536 * bytes.getD 2 0 + 16777216 * bytes.getD 3 0

/-- The macro `OSSwapHostToBigInt32` on a little-endian machine: the four
bytes of a 32-bit word in the opposite order. -/
def OSSwapHostToBigInt32 (x : Nat) : Nat :=
  x % 256 * 16777216 + x / 256 % 256 * 65536 + x / 65536 % 256 * 256 + x / 16777216 % 256

/-- The function `kauth_wellknown_guid`. -/
def kauth_wellknown_guid (k : Platform) (guid : guid_t) : Nat :=
  if guid.take 12 = fingerprint then
    let code := OSSwapHostToBigInt32 (load32_host (guid.drop 12))
    if code = 0x0000000c then k.KAUTH_WKG_EVERYBODY
    else if code = 0xfffffffe then k.KAUTH_WKG_NOBODY
    else if code = 0x0000000a then k.KAUTH_WKG_OWNER
    else if code = 0x00000010 then k.KAUTH_WKG_GROUP
    else k.KAUTH_WKG_NOT
  else k.KAUTH_WKG_NOT

/-- The function `kauth_cred_ismember_gid` with the state it works on: the
POSIX part `pcred` of the credential, the group cache `g`, and `resultp` as the
content of `*resultp` at entry.  Returns the return value and `*resultp`, the
group cache, and the requests handed to `kauth_resolver_submit`. -/
def kauth_cred_ismember_gid_state (k : Platform) (env : lookup_env) (g : GroupsCache)
    (pcred : posix_cred) (gid resultp : Nat) :
    (Nat × Nat) × GroupsCache × List kauth_identity_extlookup :=
  if gid ∈ pcred.cr_groups.take pcred.cr_ngroups.toNat then ((0, 1), g, [])
  else if pcred.cr_gmuid = k.KAUTH_UID_NONE then ((0, 0), g, [])
  else if env.registered = 0 then ((0, 0), g, [])
  else
    match kauth_cred_ismember_gid_scan env.now g pcred gid with
    | (some gm, g1) => ((0, if gm.gm_flags &&& KAUTH_GROUP_ISMEMBER ≠ 0 then 1 else 0), g1, [])
    | (none, g1) =>
      let el := kauth_cred_ismember_gid_request k env.pid pcred gid
      let answer := env.submit el none
      if answer.1 ≠ 0 then ((answer.1, resultp), g1, [el])
      else
        let g2 := kauth_groups_updatecache k env.later env.garbage g1 answer.2.1
        if answer.2.1.el_flags &&& k.KAUTH_EXTLOOKUP_VALID_MEMBERSHIP ≠ 0 then
          ((0, if answer.2.1.el_flags &&& k.KAUTH_EXTLOOKUP_ISMEMBER ≠ 0 then 1 else 0), g2, [el])
        else ((ENOENT, resultp), g2, [el])

/-- The checks of `kauth_cred_gid_subset`, one for each group of the list:
the call of `kauth_cred_ismember_gid` on the second credential into the local
`res`, the return of its error, and the return of 0 with `*resultp = 0` for a
group that is neither a member nor the real or saved GID of the second
credential; after the last check `*resultp = 1` and the return of 0.  Returns
the return value and the value stored in `*resultp`, if one is. -/
def kauth_cred_gid_subset_checks (k : Platform) (env : lookup_env) (pcred2 : posix_cred) :
    List Nat → GroupsCache → Nat → List kauth_identity_extlookup →
    (Nat × Option Nat) × GroupsCache × List kauth_identity_extlookup
  | [], g, _, requests => ((0, some 1), g, requests)
  | gid :: rest, g, res, requests =>
    let r := kauth_cred_ismember_gid_state k env g pcred2 gid res
    if r.1.1 ≠ 0 then ((r.1.1, none), r.2.1, requests ++ r.2.2)
    else if r.1.2 = 0 ∧ gid ≠ pcred2.cr_rgid ∧ gid ≠ pcred2.cr_svgid then
      ((0, some 0), r.2.1, requests ++ r.2.2)
    else kauth_cred_gid_subset_checks k env pcred2 rest r.2.1 r.1.2 (requests ++ r.2.2)

/-- The function `kauth_cred_gid_subset` on the POSIX parts of its two
credentials: the checks run over the groups of the first credential, then its
real GID, then its saved GID, starting with `res = 1`. -/
def kauth_cred_gid_subset (k : Platform) (env : lookup_env) (g : GroupsCache)
    (pcred1 pcred2 : posix_cred) (resultp : Nat) :
    (Nat × Nat) × GroupsCache × List kauth_identity_extlookup :=
  let r := kauth_cred_gid_subset_checks k env pcred2
    (pcred1.cr_groups.take pcred1.cr_ngroups.toNat ++ [pcred1.cr_rgid, pcred1.cr_svgid]) g 1 []
  ((r.1.1, r.1.2.getD resultp), r.2.1, r.2.2)

/-- The function `kauth_cred_ismember_guid` with the state it works on: both
caches and `resultp` as the content of `*resultp` at entry.  Returns the return
value and `*resultp`, the caches, and the requests handed to
`kauth_resolver_submit`; `none` is a panic. -/
def kauth_cred_ismember_guid (k : Platform) (env : lookup_env) (c : IdentityCache)
    (g : GroupsCache) (pcred : posix_cred) (guidp : guid_t) (resultp : Nat) :
    Option ((Nat × Nat) × IdentityCache × GroupsCache × List kauth_identity_extlookup) :=
  let do_check (gid : Nat) (c : IdentityCache) (requests : List kauth_identity_extlookup) :
      (Nat × Nat) × IdentityCache × GroupsCache × List kauth_identity_extlookup :=
    let r := kauth_cred_ismember_gid_state k env g pcred gid resultp
    (r.1, c, r.2.1, requests ++ r.2.2)
  if kauth_wellknown_guid k guidp = k.KAUTH_WKG_NOBODY then some ((0, 0), c, g, [])
  else if kauth_wellknown_guid k guidp = k.KAUTH_WKG_EVERYBODY then some ((0, 1), c, g, [])
  else
    let found := kauth_identity_find_guid c guidp
    let ki := found.2.1.getD (kauth_identity.zero k)
    let fresh := decide (found.1 = 0) && !kauth_identity_guid_expired env.now ki
    if fresh = true ∧ ki.ki_valid &&& KI_VALID_GID ≠ 0 then some (do_check ki.ki_gid found.2.2 [])
    else if fresh = true ∧ ki.ki_valid &&& KI_VALID_UID ≠ 0 then some ((0, 0), found.2.2, g, [])
    else
      match kauth_cred_guid2gid k env found.2.2 guidp (lookup_buffer.of_id 0) with
      | none => none
      | some (error, gid, c1, requests) =>
        if error ≠ 0 then
          if error = ENOENT then some ((0, 0), c1, g, requests)
          else some ((error, resultp), c1, g, requests)
        else some (do_check gid.id c1 requests)

/-! ## Examples for the statements about the resolver and the translations -/

/-- A completion message of the concrete platform that reports FATAL for the
request with the sequence number 31338. -/
def fatal_message : kauth_identity_extlookup :=
  { kauth_identity_extlookup.zero with el_seqno := 31338, el_result := xnu.KAUTH_EXTLOOKUP_FATAL }

/-- A completion message of the concrete platform that reports SUCCESS for
the request with the sequence number 31338 and flags a user name as valid. -/
def name_message : kauth_identity_extlookup :=
  { kauth_identity_extlookup.zero with
    el_seqno := 31338
    el_result := xnu.KAUTH_EXTLOOKUP_SUCCESS
    el_flags := xnu.KAUTH_EXTLOOKUP_VALID_PWNAM }

/-- A translation environment of the concrete platform at uptime 100 with a
registered resolver that does not answer in time. -/
def timeout_env : lookup_env :=
  { now := 100, pid := 77, registered := 1,
    submit := fun el extend_data => (xnu.EWOULDBLOCK, el, extend_data),
    later := 160, garbage := 0 }

/-- A translation environment of the concrete platform at uptime 100 with a
registered resolver that answers every request with success and no valid
field. -/
def empty_answer_env : lookup_env :=
  { now := 100, pid := 77, registered := 1,
    submit := fun el extend_data => (0, { el with el_flags := 0 }, extend_data),
    later := 160, garbage := 0 }

/-- The well-known GUID of Everybody: the fingerprint and the code `0x0000000c`. -/
def everybody_guid : guid_t := fingerprint ++ [0x00, 0x00, 0x00, 0x0c]

/-- The well-known GUID of Nobody: the fingerprint and the code `0xfffffffe`. -/
def nobody_guid : guid_t := fingerprint ++ [0xff, 0xff, 0xff, 0xfe]

/-- The four bytes of a list read as a big-endian 32-bit number. -/
def big_endian32 (bytes : List Nat) : Nat :=
  ((bytes.getD 0 0 * 256 + bytes.getD 1 0) * 256 + bytes.getD 2 0) * 256 + bytes.getD 3 0

/-- The lookup of the identity cache that `kauth_cred_cache_lookup` runs for
the kind `from_kind` of `src`. -/
def lookup_of (from_kind : Nat) (src : lookup_buffer) : Option Lookup :=
  if from_kind = KI_VALID_UID then some (.find_uid src.id)
  else if from_kind = KI_VALID_GID then some (.find_gid src.id)
  else if from_kind = KI_VALID_GUID then some (.find_guid src.guid)
  else if from_kind = KI_VALID_NTSID then some (.find_ntsid src.ntsid)
  else if from_kind = KI_VALID_PWNAM ∨ from_kind = KI_VALID_GRNAM then
    some (.find_nam src.name from_kind)
  else none

/-- The expiry time that governs a translation from `from_kind` to `to_kind`
in the entry `ki`: that of the field asked for when it has one (GUID, NTSID,
supplementary groups), else that of the field given when it has one (GUID,
NTSID), else none. -/
def governing_expiry (from_kind to_kind : Nat) (ki : kauth_identity) : Option Nat :=
  if to_kind = KI_VALID_GUID then some ki.ki_guid_expiry
  else if to_kind = KI_VALID_NTSID then some ki.ki_ntsid_expiry
  else if to_kind = KI_VALID_GROUPS then some ki.ki_groups_expiry
  else if from_kind = KI_VALID_GUID then some ki.ki_guid_expiry
  else if from_kind = KI_VALID_NTSID then some ki.ki_ntsid_expiry
  else none

/-- A translation environment of the concrete platform at uptime 100 with a
registered resolver that answers every request with the message
`name_message`, which flags a user name as valid. -/
def name_answer_env : lookup_env :=
  { now := 100, pid := 77, registered := 1,
    submit := fun _ extend_data => (0, name_message, extend_data),
    later := 160, garbage := 0 }

/-- A response of the concrete platform for uid 502 that flags the UID and the
user GUID `example_guid`, valid for 900 seconds. -/
def guid_response : kauth_identity_extlookup :=
  { kauth_identity_extlookup.zero with
    el_result := xnu.KAUTH_EXTLOOKUP_SUCCESS
    el_flags := xnu.KAUTH_EXTLOOKUP_VALID_UID ||| xnu.KAUTH_EXTLOOKUP_VALID_UGUID
    el_uid := 502
    el_uguid := example_guid
    el_uguid_valid := 900 }

/-! ## The POSIX access check -/

/-- The function `posix_cred_access` on the POSIX part `pcred` of the
credential, with the state that `kauth_cred_ismember_gid` works on; `is_member`
is the content of the uninitialised local `is_member` at entry.  `mode_t` is a
16-bit type.  Returns the return value, the group cache, and the requests
handed to `kauth_resolver_submit`. -/
def posix_cred_access (k : Platform) (env : lookup_env) (g : GroupsCache) (pcred : posix_cred)
    (object_uid object_gid object_mode mode_req is_member : Nat) :
    Nat × GroupsCache × List kauth_identity_extlookup :=
  let mode_owner := object_mode &&& k.S_IRWXU
  let mode_group := ((object_mode &&& k.S_IRWXG) <<< 3) % 2 ^ 16
  let mode_world := ((object_mode &&& k.S_IRWXO) <<< 6) % 2 ^ 16
  if pcred.cr_uid = object_uid ∧ mode_req &&& mode_owner = mode_req then (0, g, [])
  else if mode_req &&& mode_group &&& mode_world = mode_req then (0, g, [])
  else if mode_req &&& mode_group ≠ mode_req then
    let r := kauth_cred_ismember_gid_state k env g pcred object_gid is_member
    if r.1.1 = 0 ∧ r.1.2 ≠ 0 then (k.EACCES, r.2.1, r.2.2)
    else if mode_req &&& mode_world ≠ mode_req then (k.EACCES, r.2.1, r.2.2)
    else (0, r.2.1, r.2.2)
  else
    let r := kauth_cred_ismember_gid_state k env g pcred object_gid is_member
    if r.1.1 = 0 ∧ r.1.2 ≠ 0 then (0, r.2.1, r.2.2)
    else if mode_req &&& mode_world ≠ mode_req then (k.EACCES, r.2.1, r.2.2)
    else (0, r.2.1, r.2.2)

/-- Modelled from the spec: the unoptimised POSIX check.  Access is granted (0)
when the UID of the credential is the UID of the object and the request is
within the owner bits, or `kauth_cred_ismember_gid` reports the credential a
member of the group of the object (it returns 0 with a non-zero `*resultp`) and
the request is within the group bits, or it does not report membership and the
request is within the world bits; else the result is `EACCES`.  The group and
world bits are those of the mode moved to the position of the owner bits, where
the request has its bits. -/
def unoptimised_access (k : Platform) (env : lookup_env) (g : GroupsCache) (pcred : posix_cred)
    (object_uid object_gid object_mode mode_req is_member : Nat) : Nat :=
  let owner_bits := object_mode &&& k.S_IRWXU
  let group_bits := ((object_mode &&& k.S_IRWXG) <<< 3) % 2 ^ 16
  let world_bits := ((object_mode &&& k.S_IRWXO) <<< 6) % 2 ^ 16
  let r := kauth_cred_ismember_gid_state k env g pcred object_gid is_member
  let member : Prop := r.1.1 = 0 ∧ r.1.2 ≠ 0
  if (pcred.cr_uid = object_uid ∧ mode_req &&& owner_bits = mode_req) ∨
      (member ∧ mode_req &&& group_bits = mode_req) ∨
      (¬ member ∧ mode_req &&& world_bits = mode_req) then 0
  else k.EACCES

/-- The change of `kr_flags` when `kauth_resolver_getwork2` hands an item out:
`kr_flags &= ~KAUTH_REQUEST_UNSUBMITTED; kr_flags |= KAUTH_REQUEST_SUBMITTED`. -/
def promote (workp : kauth_resolver_work) : kauth_resolver_work :=
  { workp with
    kr_flags := clear_bits workp.kr_flags KAUTH_REQUEST_UNSUBMITTED ||| KAUTH_REQUEST_SUBMITTED }

/-- The change of a submitted item that `kauth_resolver_complete` completes
with the message `extl` and the result `result`. -/
def complete_item (extl : kauth_identity_extlookup) (result : Nat) (workp : kauth_resolver_work) :
    kauth_resolver_work :=
  { workp with
    kr_flags := clear_bits workp.kr_flags KAUTH_REQUEST_SUBMITTED ||| KAUTH_REQUEST_DONE
    kr_result := result
    kr_work := extl }

/-- The state invariant of the work items: every item on the unsubmitted queue
has exactly the flag UNSUBMITTED, every item on the submitted queue exactly
SUBMITTED, every item on the done queue exactly DONE, and every item holds the
one reference of its submitter. -/
def work_item_invariant (s : ResolverState) : Prop :=
  (∀ w ∈ s.kauth_resolver_unsubmitted, w.kr_flags = KAUTH_REQUEST_UNSUBMITTED ∧ w.kr_refs = 1) ∧
  (∀ w ∈ s.kauth_resolver_submitted, w.kr_flags = KAUTH_REQUEST_SUBMITTED ∧ w.kr_refs = 1) ∧
  (∀ w ∈ s.kauth_resolver_done, w.kr_flags = KAUTH_REQUEST_DONE ∧ w.kr_refs = 1)

/-- The item `w` is the item `w0` but for its state: the request, the buffer
address, the sequence number, the reference count and the result agree. -/
def same_but_flags (w0 w : kauth_resolver_work) : Prop :=
  w.kr_work = w0.kr_work ∧ w.kr_extend = w0.kr_extend ∧ w.kr_seqno = w0.kr_seqno ∧
  w.kr_refs = w0.kr_refs ∧ w.kr_result = w0.kr_result

/-- What every step of the resolver other than an enqueueing and a release
does to the work items: the state invariant is kept, the items on the
unsubmitted and submitted queues afterwards are items that were on these two
queues, but for their state, and the items of the done queue stay on it. -/
def work_frame (s s' : ResolverState) : Prop :=
  (work_item_invariant s → work_item_invariant s') ∧
  (∀ w ∈ s'.kauth_resolver_unsubmitted ++ s'.kauth_resolver_submitted,
    ∃ w0 ∈ s.kauth_resolver_unsubmitted ++ s.kauth_resolver_submitted, same_but_flags w0 w) ∧
  (∀ w ∈ s.kauth_resolver_done, w ∈ s'.kauth_resolver_done)

/-- The function `kauth_cred_uid2groups`; `groups` is the array at `groups` and
`gcount` the number at `gcount`, `none` for a null pointer. -/
def kauth_cred_uid2groups (k : Platform) (env : lookup_env) (c : IdentityCache) (uid : Nat)
    (groups : List Nat) (gcount : Option Nat) :
    Option (Nat × lookup_buffer × IdentityCache × List kauth_identity_extlookup) :=
  kauth_cred_cache_lookup k env c KI_VALID_UID KI_VALID_GROUPS (lookup_buffer.of_id uid)
    { lookup_buffer.of_id 0 with count := gcount, groups := groups }

/-- An entry of the concrete platform for uid 501 with the two supplementary
groups 20 and 30, valid until uptime 1000. -/
def supgroups_entry : kauth_identity :=
  { kauth_identity.zero xnu with
    ki_valid := KI_VALID_UID ||| KI_VALID_GROUPS, ki_uid := 501, ki_supgrpcnt := 2,
    ki_supgrps := [20, 30, 0, 0, 0, 0, 0, 0, 0, 0, 0, 0, 0, 0, 0, 0],
    ki_groups_expiry := 1000 }

/-- An identity cache with two entries: uid 502, and behind it uid 501 with
its supplementary groups. -/
def supgroups_cache : IdentityCache :=
  { kauth_identities := [uid_entry 502, supgroups_entry],
    kauth_identity_count := 2,
    kauth_identity_cachemax := KAUTH_IDENTITY_CACHEMAX_DEFAULT }

/-- The function `kauth_resolver_complete` from its entry to the
`KAUTH_RESOLVER_UNLOCK` before `copyinstr`, which it reaches when the request
found asks for a name and the message flags one as valid: the item, taken off
the submitted queue, marked DONE and holding the message and the result, and
the globals at that point.  `none` when the call does not get there. -/
def kauth_resolver_complete_unlink (k : Platform) (caller : identitysvc_caller)
    (s : ResolverState) : Option (kauth_resolver_work × ResolverState) :=
  match caller.copyin_message with
  | .error _ => none
  | .ok extl =>
    let (_, result, s) := kauth_resolver_complete_switch k extl.el_result s
    if extl.el_result ≠ k.KAUTH_EXTLOOKUP_FATAL then
      match extract_first (fun workp => decide (workp.kr_seqno = extl.el_seqno))
          s.kauth_resolver_submitted with
      | some (workp, rest) =>
        let want_extend_data := workp.kr_work.el_flags &&&
          (k.KAUTH_EXTLOOKUP_WANT_PWNAM ||| k.KAUTH_EXTLOOKUP_WANT_GRNAM)
        let workp :=
          { workp with
            kr_flags := clear_bits workp.kr_flags KAUTH_REQUEST_SUBMITTED ||| KAUTH_REQUEST_DONE
            kr_result := result
            kr_work := extl }
        let valid_name := extl.el_flags &&&
          (k.KAUTH_EXTLOOKUP_VALID_PWNAM ||| k.KAUTH_EXTLOOKUP_VALID_GRNAM)
        if want_extend_data ≠ 0 ∧ valid_name ≠ 0 then
          some (workp, { s with kauth_resolver_submitted := rest })
        else none
      | none => none
    else none

/-- The function `kauth_resolver_complete` from the `KAUTH_RESOLVER_LOCK` after
`copyinstr` to its end, for the item `workp` that the thread holds and the
globals `s` it finds: the item goes to the tail of the done queue, and the
return value is the error of `copyinstr`. -/
def kauth_resolver_complete_insert (caller : identitysvc_caller) (workp : kauth_resolver_work)
    (s : ResolverState) : Nat × ResolverState :=
  (caller.copyinstr, { s with kauth_resolver_done := s.kauth_resolver_done ++ [workp] })

/-- The tail of `identitysvc` up to the point at which `kauth_resolver_complete`
drops the resolver lock. -/
def identitysvc_result_unlink (k : Platform) (caller : identitysvc_caller) (st : KauthState)
    (opcode : Nat) : Option (kauth_resolver_work × KauthState) :=
  if opcode &&& k.KAUTH_EXTLOOKUP_RESULT ≠ 0 then
    (kauth_resolver_complete_unlink k caller st.resolver).map
      (fun r => (r.1, { st with resolver := r.2 }))
  else none

/-- The system call `identitysvc` up to the point at which
`kauth_resolver_complete` drops the resolver lock for `copyinstr`: the item
that the thread holds and the state that other threads find.  `none` when the
call does not get there: it is refused, is a registration or a request about
the cache sizes, panics in a trim, hands in no result, or completes without the
copy of a name. -/
def identitysvc_unlink (k : Platform) (caller : identitysvc_caller) (st : KauthState)
    (opcode : Nat) : Option (kauth_resolver_work × KauthState) :=
  if !caller.entitled then none
  else if opcode = k.KAUTH_EXTLOOKUP_REGISTER then none
  else if caller.uid ≠ 0 ∨ caller.pid ≠ st.resolver.kauth_resolver_identity then none
  else if opcode = k.KAUTH_GET_CACHE_SIZES then none
  else if opcode = k.KAUTH_SET_CACHE_SIZES then none
  else if opcode = k.KAUTH_CLEAR_CACHES then
    match identitysvc_clear_caches st with
    | none => none
    | some st => identitysvc_result_unlink k caller st opcode
  else if opcode = k.KAUTH_EXTLOOKUP_DEREGISTER then
    identitysvc_result_unlink k caller
      { st with resolver := { st.resolver with kauth_resolver_identity := 0
                                               kauth_resolver_registered := 0 } } opcode
  else identitysvc_result_unlink k caller st opcode

/-- The system call `identitysvc` from the point at which
`kauth_resolver_complete` has taken the resolver lock again, for the item
`workp` that the thread holds and the state `st` it finds, to its end. -/
def identitysvc_insert (k : Platform) (caller : identitysvc_caller) (st : KauthState)
    (opcode : Nat) (workp : kauth_resolver_work) : Option (Nat × KauthState) :=
  let (error, resolver) := kauth_resolver_complete_insert caller workp st.resolver
  let st := { st with resolver := resolver }
  if error ≠ 0 then some (error, st)
  else if opcode &&& k.KAUTH_EXTLOOKUP_WORKER ≠ 0 then
    match kauth_resolver_getwork k caller st.resolver with
    | none => none
    | some (error, resolver) => some (error, { st with resolver := resolver })
  else some (0, st)

/-- The function `kauth_resolver_getwork_continue`, which runs when a thread
that slept in `kauth_resolver_getwork` is woken with `result`: it returns
`result` when that is an error, sleeps again on an empty unsubmitted queue (the
call ends there, as in `kauth_resolver_getwork`), and else goes on to
`kauth_resolver_getwork2`. -/
def kauth_resolver_getwork_continue (k : Platform) (caller : identitysvc_caller) (result : Nat)
    (s : ResolverState) : Option (Nat × ResolverState) :=
  if result ≠ 0 then some (result, s)
  else
    match s.kauth_resolver_unsubmitted with
    | [] =>
      some (if s.kauth_resolver_identity = 0 then k.KAUTH_RESOLVER_FAILED_ERRCODE
            else caller.msleep, s)
    | _ :: _ => kauth_resolver_getwork2 k caller s

/-- The state of the work items: the state that `identitysvc` works on, and the
items `transit` that threads inside `kauth_resolver_complete` have taken off the
submitted queue and not yet put on the done queue, while they copy a name with
the resolver lock dropped. -/
structure WorkState where
  kauth : KauthState
  transit : List kauth_resolver_work
deriving DecidableEq, Repr

/-- The work items at boot: the state at boot, and no item in transit. -/
def WorkState.init : WorkState := { kauth := KauthState.init, transit := [] }

/-- An event in the life of the work items: an event on the resolver state (a
request enqueued by `kauth_resolver_submit`, a call of `identitysvc` that runs
with no other thread in between, a reset of the resolver identity); the end of
a submission, when the submitter of the item `seqno` wakes up with `error` and
releases its item; the wake-up with `result` of a resolver thread that slept in
`kauth_resolver_getwork`; the first part of a call of `identitysvc` that hands
in a result with a name, up to the unlock in `kauth_resolver_complete`; and the
rest of such a call, by the thread that holds the item `seqno` (that `caller`
and `opcode` are those of the first part is not asked for, which only adds
runs). -/
inductive WorkOp where
  | event (op : KauthOp) : WorkOp
  | wakeup (seqno : Nat) (lkp : kauth_identity_extlookup) (error : Nat) : WorkOp
  | getwork_continue (caller : identitysvc_caller) (result : Nat) : WorkOp
  | unlink (caller : identitysvc_caller) (opcode : Nat) : WorkOp
  | insert (caller : identitysvc_caller) (opcode seqno : Nat) : WorkOp

/-- The state after an event; `none` is a panic, a wake-up of a submitter that
has no item, a first part that does not reach the unlock, a second part of a
thread that holds no item, or the wake-up of a submitter whose item is in
transit: its `kr_flags` say DONE, and the `TAILQ_REMOVE` from the done queue of
an item that is on no queue is undefined. -/
def WorkOp.apply (k : Platform) (st : WorkState) : WorkOp → Option WorkState
  | .event op => (op.apply k st.kauth).map (fun r => { st with kauth := r.2 })
  | .wakeup seqno lkp error =>
    if st.transit.any (fun w => decide (w.kr_seqno = seqno)) then none
    else
      (kauth_resolver_submit_wakeup k st.kauth.resolver seqno lkp error).map
        (fun r => { st with kauth := { st.kauth with resolver := r.2.2 } })
  | .getwork_continue caller result =>
    (kauth_resolver_getwork_continue k caller result st.kauth.resolver).map
      (fun r => { st with kauth := { st.kauth with resolver := r.2 } })
  | .unlink caller opcode =>
    (identitysvc_unlink k caller st.kauth opcode).map
      (fun r => { kauth := r.2, transit := st.transit ++ [r.1] })
  | .insert caller opcode seqno =>
    match extract_first (fun w => decide (w.kr_seqno = seqno)) st.transit with
    | none => none
    | some (workp, rest) =>
      (identitysvc_insert k caller st.kauth opcode workp).map
        (fun r => { kauth := r.2, transit := rest })

/-- The states reachable from the state at boot by `n` events. -/
inductive WorkReachable (k : Platform) : Nat → WorkState → Prop where
  | init : WorkReachable k 0 WorkState.init
  | step (n : Nat) (st st' : WorkState) (op : WorkOp) :
      WorkReachable k n st → op.apply k st = some st' → WorkReachable k (n + 1) st'

/-- The sequence numbers of the live work items: those of the items on the
unsubmitted, the submitted and the done queue, then those of the items in
transit. -/
def live_seqnos (st : WorkState) : List Nat :=
  (st.kauth.resolver.kauth_resolver_unsubmitted ++ st.kauth.resolver.kauth_resolver_submitted ++
    st.kauth.resolver.kauth_resolver_done ++ st.transit).map (fun w => w.kr_seqno)

/-- The state invariant of the work items with the items in transit: the
invariant of the three queues, and every item in transit has exactly the flag
DONE and holds the one reference of its submitter. -/
def work_state_invariant (st : WorkState) : Prop :=
  work_item_invariant st.kauth.resolver ∧
  ∀ w ∈ st.transit, w.kr_flags = KAUTH_REQUEST_DONE ∧ w.kr_refs = 1

/-- A request of the concrete platform for the name of uid 501. -/
def name_request : kauth_identity_extlookup :=
  { kauth_identity_extlookup.zero with
    el_flags := xnu.KAUTH_EXTLOOKUP_VALID_UID ||| xnu.KAUTH_EXTLOOKUP_WANT_PWNAM
    el_uid := 501 }

/-- A completion message of the concrete platform that reports SUCCESS for
the request with the sequence number 31337 and flags a user name as valid. -/
def name_answer : kauth_identity_extlookup :=
  { name_request with
    el_seqno := 31337
    el_result := xnu.KAUTH_EXTLOOKUP_SUCCESS
    el_flags := xnu.KAUTH_EXTLOOKUP_VALID_UID ||| xnu.KAUTH_EXTLOOKUP_VALID_PWNAM }

/-- The events of a name lookup on the concrete platform up to the unlock in
`kauth_resolver_complete`: the resolver of pid 100 registers, the kernel
submits the request for the name of uid 501 with the name buffer at 4096, the
resolver collects the request, and hands in its result with the name. -/
def name_lookup_events : List WorkOp :=
  [.event register_op,
   .event (.submit name_request 4096),
   .event (.identitysvc (resolver_caller 100 (0, 0) kauth_identity_extlookup.zero)
     xnu.KAUTH_EXTLOOKUP_WORKER 0),
   .unlink (resolver_caller 100 (0, 0) name_answer) xnu.KAUTH_EXTLOOKUP_RESULT]

/-- The state after a run of events; `none` when an event has no state after it. -/
def WorkOp.run (k : Platform) : WorkState → List WorkOp → Option WorkState
  | st, [] => some st
  | st, op :: ops =>
    match op.apply k st with
    | none => none
    | some st1 => WorkOp.run k st1 ops

/-- The sequence numbers of the items on the unsubmitted, the submitted and
the done queue. -/
def queue_seqnos (s : ResolverState) : List Nat :=
  (s.kauth_resolver_unsubmitted ++ s.kauth_resolver_submitted ++ s.kauth_resolver_done).map
    (fun w => w.kr_seqno)

/-- The sequence number of the item that an event enqueues, as a list: that of
the item that the enqueueing half of `kauth_resolver_submit` puts on the
unsubmitted queue, and nothing for every other event. -/
def WorkOp.enqueues (k : Platform) (st : WorkState) : WorkOp → List Nat
  | .event (.submit lkp extend_data) =>
    (kauth_resolver_submit k st.kauth.resolver lkp extend_data).2.1.toList.map
      (fun w => w.kr_seqno)
  | _ => []

/-- The sequence number of the item that an event releases, as a list: that of
the submitter that wakes up, and nothing for every other event. -/
def WorkOp.releases : WorkOp → List Nat
  | .wakeup seqno _ _ => [seqno]
  | _ => []

/-- The work item of the name lookup of `name_lookup_events` as the first part
of `kauth_resolver_complete` leaves it: marked DONE, with the message of the
resolver in `kr_work`. -/
def transit_item : kauth_resolver_work :=
  { kr_work := name_answer, kr_extend := 4096, kr_seqno := 31337, kr_refs := 1,
    kr_flags := KAUTH_REQUEST_DONE, kr_result := 0 }

/-- The state after the events of `name_lookup_events`: the resolver of pid
100 is registered, the three queues are empty, and the item of the name lookup
is in transit. -/
def transit_state : WorkState :=
  { kauth :=
      { resolver :=
          { kauth_resolver_identity := 100, kauth_identitysvc_has_registered := 1,
            kauth_resolver_registered := 1, kauth_resolver_sequence := 31338,
            kauth_resolver_timeout := 30, kauth_resolver_unsubmitted := [],
            kauth_resolver_submitted := [], kauth_resolver_done := [] },
        identity := IdentityCache.init,
        groups := GroupsCache.init },
    transit := [transit_item] }

/-! # Theorems -/

/-! ## Properties of kauth_cred_change_egid -/

/-- When the first slot at or after `i` that holds `new_egid` is `j`, within
the `n` iterations left, the loop stores `old_egid` there and reports no
displacement. -/
theorem kauth_cred_change_egid_loop_hit (new_egid old_egid : Nat) (groups : List Nat) (j : Nat) :
    ∀ (n i : Nat), i ≤ j → j < i + n → groups.getD j 0 = new_egid →
      (∀ m, i ≤ m → m < j → groups.getD m 0 ≠ new_egid) →
      kauth_cred_change_egid_loop new_egid old_egid i n groups = (0, groups.set j old_egid) := by
  intro n
  induction n with
  | zero => intro i h1 h2; omega
  | succ n ih =>
    intro i h1 h2 hj hfirst
    unfold kauth_cred_change_egid_loop
    by_cases hij : i = j
    · subst hij; rw [if_pos hj]
    · have hne : groups.getD i 0 ≠ new_egid := hfirst i (le_refl i) (by omega)
      rw [if_neg hne]
      exact ih (i + 1) (by omega) (by omega) hj (fun m hm1 hm2 => hfirst m (by omega) hm2)

/-- Exchanging the head of a list with the element at position `m` of its
tail permutes every prefix that covers both. -/
theorem swap_head_take_perm (a b : Nat) :
    ∀ (l : List Nat) (m t : Nat), m < t → l.getD m 0 = b → m < l.length →
      (b :: (l.set m a).take t).Perm (a :: l.take t) := by
  intro l
  induction l with
  | nil => intro m t _ _ hlen; simp at hlen
  | cons x l ih =>
    intro m t hmt hb hlen
    cases t with
    | zero => omega
    | succ t =>
      cases m with
      | zero =>
        simp at hb
        subst hb
        simp only [List.set_cons_zero, List.take_succ_cons]
        exact List.Perm.swap _ _ _
      | succ m =>
        simp at hb hlen
        simp only [List.set_cons_succ, List.take_succ_cons]
        have h1 := ih m t (by omega) (by simpa using hb) hlen
        exact (List.Perm.swap _ _ _).trans (((h1.cons x)).trans (List.Perm.swap _ _ _))

/-- Exchanging slot 0 with a later slot `j` permutes every prefix that covers
both slots. -/
theorem swap_slot_zero_take_perm (groups : List Nat) (j n new_egid : Nat) (h1 : 1 ≤ j)
    (hjn : j < n) (hjlen : j < groups.length) (hb : groups.getD j 0 = new_egid) :
    (((groups.set j (groups.getD 0 0)).set 0 new_egid).take n).Perm (groups.take n) := by
  cases groups with
  | nil => simp at hjlen
  | cons a rest =>
    obtain ⟨j1, hj1⟩ : ∃ j1, j = j1 + 1 := ⟨j - 1, by omega⟩
    obtain ⟨t, ht⟩ : ∃ t, n = t + 1 := ⟨n - 1, by omega⟩
    subst hj1 ht
    simp only [List.set_cons_succ, List.set_cons_zero, List.take_succ_cons, List.getD_cons_zero]
    exact swap_head_take_perm a new_egid rest j1 t (by omega) (by simpa using hb)
      (by simpa using hjlen)

/-- C7 (group displacement).  For a credential whose supplementary slots
`cr_groups[1..cr_ngroups)` contain `new_egid`, with `j` the first such slot,
`kauth_cred_change_egid` returns 0 (no displacement), puts `new_egid` in slot
0 and the old effective GID in slot `j`, leaves every other slot, the length
of the array, `cr_ngroups` and all other fields unchanged, and the groups in
`cr_groups[0..cr_ngroups)` are a permutation of the groups before, hence the
same set. -/
theorem kauth_cred_change_egid_rotates (cred : ucred) (new_egid : Nat)
    (hlen : cred.cr_posix.cr_ngroups ≤ (cred.cr_posix.cr_groups.length : Int))
    (hmem : ∃ i : Nat, 1 ≤ i ∧ (i : Int) < cred.cr_posix.cr_ngroups ∧
      cred.cr_posix.cr_groups.getD i 0 = new_egid) :
    ∃ j : Nat, 1 ≤ j ∧ (j : Int) < cred.cr_posix.cr_ngroups ∧
      cred.cr_posix.cr_groups.getD j 0 = new_egid ∧
      (∀ i, 1 ≤ i → i < j → cred.cr_posix.cr_groups.getD i 0 ≠ new_egid) ∧
      (kauth_cred_change_egid cred new_egid).1 = 0 ∧
      (kauth_cred_change_egid cred new_egid).2 =
        { cred with cr_posix := { cred.cr_posix with
            cr_groups := (cred.cr_posix.cr_groups.set j (kauth_cred_getgid cred)).set 0 new_egid } } ∧
      (kauth_cred_change_egid cred new_egid).2.cr_posix.cr_groups.getD 0 0 = new_egid ∧
      (kauth_cred_change_egid cred new_egid).2.cr_posix.cr_groups.getD j 0 =
        kauth_cred_getgid cred ∧
      (∀ i, i ≠ 0 → i ≠ j →
        (kauth_cred_change_egid cred new_egid).2.cr_posix.cr_groups.getD i 0 =
          cred.cr_posix.cr_groups.getD i 0) ∧
      (kauth_cred_change_egid cred new_egid).2.cr_posix.cr_groups.length =
        cred.cr_posix.cr_groups.length ∧
      (kauth_cred_change_egid cred new_egid).2.cr_posix.cr_ngroups = cred.cr_posix.cr_ngroups ∧
      ((kauth_cred_change_egid cred new_egid).2.cr_posix.cr_groups.take
          cred.cr_posix.cr_ngroups.toNat).Perm
        (cred.cr_posix.cr_groups.take cred.cr_posix.cr_ngroups.toNat) ∧
      (∀ g, g ∈ (kauth_cred_change_egid cred new_egid).2.cr_posix.cr_groups.take
            cred.cr_posix.cr_ngroups.toNat ↔
          g ∈ cred.cr_posix.cr_groups.take cred.cr_posix.cr_ngroups.toNat) := by
  classical
  have hex : ∃ i : Nat, 1 ≤ i ∧ cred.cr_posix.cr_groups.getD i 0 = new_egid := by
    obtain ⟨i, h1, _, h3⟩ := hmem
    exact ⟨i, h1, h3⟩
  let j := Nat.find hex
  have hj : 1 ≤ j ∧ cred.cr_posix.cr_groups.getD j 0 = new_egid := Nat.find_spec hex
  have hjn : (j : Int) < cred.cr_posix.cr_ngroups := by
    obtain ⟨i, h1, h2, h3⟩ := hmem
    have : j ≤ i := Nat.find_min' hex ⟨h1, h3⟩
    omega
  have hfirst : ∀ i, 1 ≤ i → i < j → cred.cr_posix.cr_groups.getD i 0 ≠ new_egid := by
    intro i h1 h2 h3
    exact Nat.find_min hex h2 ⟨h1, h3⟩
  have hloop := kauth_cred_change_egid_loop_hit new_egid (kauth_cred_getgid cred)
    cred.cr_posix.cr_groups j (cred.cr_posix.cr_ngroups - 1).toNat 1 hj.1 (by omega) hj.2 hfirst
  have hjlen : j < cred.cr_posix.cr_groups.length := by omega
  have hres : (kauth_cred_change_egid cred new_egid) =
      (0, { cred with cr_posix := { cred.cr_posix with
            cr_groups := (cred.cr_posix.cr_groups.set j (kauth_cred_getgid cred)).set 0
              new_egid } }) := by
    simp only [kauth_cred_change_egid, hloop]
  have hperm : (((cred.cr_posix.cr_groups.set j (kauth_cred_getgid cred)).set 0 new_egid).take
        cred.cr_posix.cr_ngroups.toNat).Perm
      (cred.cr_posix.cr_groups.take cred.cr_posix.cr_ngroups.toNat) :=
    swap_slot_zero_take_perm cred.cr_posix.cr_groups j cred.cr_posix.cr_ngroups.toNat new_egid
      hj.1 (by omega) hjlen hj.2
  refine ⟨j, hj.1, hjn, hj.2, hfirst, ?_, ?_, ?_, ?_, ?_, ?_, ?_, ?_, ?_⟩
  · rw [hres]
  · rw [hres]
  · rw [hres]
    have : 0 < cred.cr_posix.cr_groups.length := by omega
    simp [List.getD_eq_getElem?_getD, List.getElem?_set, this]
  · rw [hres]
    have hj0 : j ≠ 0 := by omega
    simp [List.getD_eq_getElem?_getD, List.getElem?_set, hjlen, hj0, Ne.symm hj0]
  · intro i hi0 hij
    rw [hres]
    simp [List.getD_eq_getElem?_getD, List.getElem?_set, Ne.symm hi0, Ne.symm hij]
  · rw [hres]; simp
  · rw [hres]
  · rw [hres]; exact hperm
  · intro g
    rw [hres]
    exact hperm.mem_iff

/-! ## The credential table: creation and the fast paths -/

/-- The scan finds nothing, and changes nothing, when no object matches. -/
theorem find_and_ref_scan_miss (k : Platform) (cred : ucred) (bucket : Nat) :
    ∀ l : List ucred_rw, (∀ e ∈ l, ¬ chain_match k cred bucket e) →
      kauth_cred_find_and_ref_scan k cred bucket l = (.NOCRED, l) := by
  intro l
  induction l with
  | nil => intro _; rfl
  | cons e rest ih =>
    intro h
    have he : ¬ (e.crw_link = some bucket ∧ kauth_cred_is_equal k e.crw_cred cred = true) :=
      h e (List.mem_cons_self _ _)
    have hrest := ih (fun x hx => h x (List.mem_cons_of_mem _ hx))
    simp only [kauth_cred_find_and_ref_scan, if_neg he, hrest]

/-- The scan stops at a matching head of the list and takes a reference on it. -/
theorem find_and_ref_scan_head (k : Platform) (cred : ucred) (bucket : Nat) (e : ucred_rw)
    (rest : List ucred_rw) (hm : chain_match k cred bucket e) (hpos : e.crw_weak_ref ≠ 0) :
    kauth_cred_find_and_ref_scan k cred bucket (e :: rest) =
      (.addr e.addr, { e with crw_weak_ref := e.crw_weak_ref + 1 } :: rest) := by
  have hm1 : e.crw_link = some bucket ∧ kauth_cred_is_equal k e.crw_cred cred = true := hm
  simp only [kauth_cred_find_and_ref_scan, if_pos hm1, if_neg hpos]

/-- A credential is content-equal to itself. -/
theorem kauth_cred_is_equal_refl (k : Platform) (c : ucred) : kauth_cred_is_equal k c c = true := by
  simp [kauth_cred_is_equal, mac_cred_label_is_equal]

/-- Content equality only looks at the label when `CRF_MAC_ENFORCE` is set, and
then requires the labels to be equal. -/
theorem kauth_cred_is_equal_iff (k : Platform) (c1 c2 : ucred) :
    kauth_cred_is_equal k c1 c2 = true ↔
      c1.cr_posix = c2.cr_posix ∧ c1.cr_audit = c2.cr_audit ∧
        (c1.cr_posix.cr_flags &&& k.CRF_MAC_ENFORCE ≠ 0 → c1.cr_label = c2.cr_label) := by
  unfold kauth_cred_is_equal mac_cred_label_is_equal
  by_cases h1 : c1.cr_posix = c2.cr_posix
  · by_cases h2 : c1.cr_audit = c2.cr_audit
    · by_cases h3 : c1.cr_posix.cr_flags &&& k.CRF_MAC_ENFORCE ≠ 0
      · simp only [h1, h2, ne_eq, not_true_eq_false, if_false, true_and]
        rw [h1] at h3
        simp [h3]
      · simp only [h1, h2, ne_eq, not_true_eq_false, if_false, true_and]
        rw [h1] at h3
        simp only [ne_eq, not_not] at h3
        simp [h3]
    · simp [h1, h2]
  · simp [h1]

/-- Filtering out an address that no live object has leaves the table as it is. -/
theorem filter_fresh_addr (l : List ucred_rw) (a : Nat) (h : ∀ e ∈ l, e.addr < a) :
    l.filter (fun x => decide (x.addr ≠ a)) = l := by
  apply List.filter_eq_self.mpr
  intro e he
  have := h e he
  simp
  omega

/-- The canonical form of a template keeps its group count. -/
theorem kauth_cred_create_canonical_ngroups (k : Platform) (external : Nat × Option Nat)
    (cred : ucred) :
    (kauth_cred_create_canonical k external cred).cr_posix.cr_ngroups =
      cred.cr_posix.cr_ngroups := by
  simp only [kauth_cred_create_canonical]
  split
  · rfl
  · split <;> rfl

/-- When no object on the chain is content-equal to the canonical template or
to the object built from it, `kauth_cred_create` publishes that object. -/
theorem kauth_cred_create_fresh (k : Platform) (external : Nat × Option Nat) (s : CredStore)
    (cred : ucred) (hng : 1 ≤ cred.cr_posix.cr_ngroups)
    (h1 : ∀ e ∈ s.table, ¬ chain_match k (kauth_cred_create_canonical k external cred)
      (kauth_cred_get_bucket k (kauth_cred_create_canonical k external cred)) e)
    (h2 : ∀ e ∈ s.table, ¬ chain_match k (kauth_cred_create_object k external s cred).crw_cred
      (kauth_cred_get_bucket k (kauth_cred_create_canonical k external cred)) e) :
    kauth_cred_create k external s cred =
      some (.addr s.next_addr,
        { s with table := kauth_cred_create_object k external s cred :: s.table,
                 next_addr := s.next_addr + 1 }) := by
  have hng1 : ¬ (kauth_cred_create_canonical k external cred).cr_posix.cr_ngroups < 1 := by
    rw [kauth_cred_create_canonical_ngroups]; omega
  have hs1 := find_and_ref_scan_miss k _ _ s.table h1
  have hs2 := find_and_ref_scan_miss k _ _ s.table h2
  simp only [kauth_cred_create_object] at hs2
  simp only [kauth_cred_create, if_neg hng1, kauth_cred_find_and_ref, hs1, kauth_cred_alloc,
    kauth_cred_add, hs2, kauth_cred_create_object]
  simp

/-- C1 (dedup).  Let `A` and `B` be templates with the same POSIX, audit and
label content and at least one group, probed with the same outcome
`external` of the group-0 membership query, and let the store hold no
credential that is content-equal to the canonical template or to the object
built from it (the two differ only in the label, which
`kauth_cred_create` does not copy).  Then `kauth_cred_create` on `A` and then
on `B` returns the same object both times, that object was not in the store
before, and afterwards it is linked with reference count 2. -/
theorem kauth_cred_create_dedup (k : Platform) (external : Nat × Option Nat) (s : CredStore)
    (A B : ucred)
    (hposix : A.cr_posix = B.cr_posix) (haudit : A.cr_audit = B.cr_audit)
    (hlabel : A.cr_label = B.cr_label)
    (hng : 1 ≤ A.cr_posix.cr_ngroups)
    (haddr : ∀ e ∈ s.table, e.addr < s.next_addr)
    (hkern : ∀ a, s.vfs_context0_vc_ucred = .addr a → a < s.next_addr)
    (hnone1 : ∀ e ∈ s.table,
      kauth_cred_is_equal k e.crw_cred (kauth_cred_create_canonical k external A) = false)
    (hnone2 : ∀ e ∈ s.table,
      kauth_cred_is_equal k e.crw_cred
        { kauth_cred_create_canonical k external A with cr_label := k.mac_cred_label_init }
        = false) :
    ∃ (a : Nat) (s1 s2 : CredStore) (e : ucred_rw),
      kauth_cred_create k external s A = some (.addr a, s1) ∧
      kauth_cred_create k external s1 B = some (.addr a, s2) ∧
      s.deref a = none ∧
      s2.deref a = some e ∧ e.crw_weak_ref = 2 ∧ e.crw_link.isSome = true := by
  have hAB : A = B := by
    cases A; cases B; simp only at hposix haudit hlabel; simp [hposix, haudit, hlabel]
  subst hAB
  have h1 : ∀ e ∈ s.table, ¬ chain_match k (kauth_cred_create_canonical k external A)
      (kauth_cred_get_bucket k (kauth_cred_create_canonical k external A)) e := by
    intro e he hm
    have := hnone1 e he
    rw [hm.2] at this
    exact Bool.noConfusion this
  have h2 : ∀ e ∈ s.table, ¬ chain_match k (kauth_cred_create_object k external s A).crw_cred
      (kauth_cred_get_bucket k (kauth_cred_create_canonical k external A)) e := by
    intro e he hm
    have := hnone2 e he
    have hm2 := hm.2
    simp only [kauth_cred_create_object] at hm2
    rw [hm2] at this
    exact Bool.noConfusion this
  have hfirst := kauth_cred_create_fresh k external s A hng h1 h2
  have hfreshaddr : s.deref s.next_addr = none := by
    simp only [CredStore.deref, List.find?_eq_none, decide_eq_true_eq]
    intro e he
    have := haddr e he
    omega
  have hng1 : ¬ (kauth_cred_create_canonical k external A).cr_posix.cr_ngroups < 1 := by
    rw [kauth_cred_create_canonical_ngroups]; omega
  have hlink : (kauth_cred_create_object k external s A).crw_link =
      some (kauth_cred_get_bucket k (kauth_cred_create_canonical k external A)) := rfl
  have hweak : (kauth_cred_create_object k external s A).crw_weak_ref ≠ 0 := by
    simp [kauth_cred_create_object]
  by_cases hN : kauth_cred_is_equal k (kauth_cred_create_object k external s A).crw_cred
      (kauth_cred_create_canonical k external A) = true
  · -- the lookup of the second call hits the object published by the first
    have hscan := find_and_ref_scan_head k (kauth_cred_create_canonical k external A)
      (kauth_cred_get_bucket k (kauth_cred_create_canonical k external A))
      (kauth_cred_create_object k external s A) s.table ⟨hlink, hN⟩ hweak
    refine ⟨s.next_addr, _,
      { s with table := { kauth_cred_create_object k external s A with crw_weak_ref := 2 }
                 :: s.table, next_addr := s.next_addr + 1 },
      { kauth_cred_create_object k external s A with crw_weak_ref := 2 },
      hfirst, ?_, hfreshaddr, ?_, ?_, ?_⟩
    · simp only [kauth_cred_create, if_neg hng1, kauth_cred_find_and_ref, hscan]
      rfl
    · simp [CredStore.deref, kauth_cred_create_object]
    · rfl
    · rfl
  · -- the lookup misses on the label, and kauth_cred_add finds the object
    have hmiss : ∀ e ∈ kauth_cred_create_object k external s A :: s.table,
        ¬ chain_match k (kauth_cred_create_canonical k external A)
          (kauth_cred_get_bucket k (kauth_cred_create_canonical k external A)) e := by
      intro e he
      rcases List.mem_cons.mp he with rfl | he
      · exact fun hm => hN hm.2
      · exact h1 e he
    have hscan1 := find_and_ref_scan_miss k _ _ _ hmiss
    have hself : chain_match k (kauth_cred_create_object k external s A).crw_cred
        (kauth_cred_get_bucket k (kauth_cred_create_canonical k external A))
        (kauth_cred_create_object k external s A) :=
      ⟨hlink, kauth_cred_is_equal_refl k _⟩
    have hscan2 := find_and_ref_scan_head k (kauth_cred_create_object k external s A).crw_cred
      (kauth_cred_get_bucket k (kauth_cred_create_canonical k external A))
      (kauth_cred_create_object k external s A) s.table hself hweak
    simp only [kauth_cred_create_object] at hscan2
    have hk : kauth_cred_t.addr (s.next_addr + 1) ≠ s.vfs_context0_vc_ucred := by
      intro h
      have := hkern _ h.symm
      omega
    have hfilter : (s.table.filter (fun x => decide (x.addr ≠ s.next_addr + 1))) = s.table :=
      filter_fresh_addr s.table _ (fun e he => by have := haddr e he; omega)
    refine ⟨s.next_addr, _,
      { s with table := { kauth_cred_create_object k external s A with crw_weak_ref := 2 }
                 :: s.table, next_addr := s.next_addr + 1 + 1 },
      { kauth_cred_create_object k external s A with crw_weak_ref := 2 },
      hfirst, ?_, hfreshaddr, ?_, ?_, ?_⟩
    · simp only [kauth_cred_create, if_neg hng1, kauth_cred_find_and_ref, hscan1,
        kauth_cred_alloc, kauth_cred_add]
      simp only [kauth_cred_create_object, hscan2, kauth_cred_free, if_neg hk]
      simp
      intro a ha
      have := haddr a ha
      omega
    · simp [CredStore.deref, kauth_cred_create_object]
    · rfl
    · rfl

/-- Witness for C1: the dedup theorem applied on the concrete platform to the
empty table and a template with uid 501 and effective gid 20. -/
theorem kauth_cred_create_dedup_witness :
    ∃ (a : Nat) (s1 s2 : CredStore) (e : ucred_rw),
      kauth_cred_create xnu (0, none) empty_store (template 501 501 501 0 1 [20] 20)
        = some (.addr a, s1) ∧
      kauth_cred_create xnu (0, none) s1 (template 501 501 501 0 1 [20] 20)
        = some (.addr a, s2) ∧
      empty_store.deref a = none ∧
      s2.deref a = some e ∧ e.crw_weak_ref = 2 ∧ e.crw_link.isSome = true :=
  kauth_cred_create_dedup xnu (0, none) empty_store (template 501 501 501 0 1 [20] 20)
    (template 501 501 501 0 1 [20] 20) rfl rfl rfl (by decide)
    (by simp [empty_store]) (by simp [empty_store]) (by simp [empty_store])
    (by simp [empty_store])

/-- C3 (no-op fast path).  For a live credential `old` and a model that, after
taking over the audit information of `old` when `retain_auditinfo` is set, is
content-equal to `old`, `kauth_cred_update` returns `old` itself and the store
is unchanged: the table, every reference count and the allocator are as
before. -/
theorem kauth_cred_update_noop (k : Platform) (s : CredStore) (old_cred : Nat) (old : ucred_rw)
    (model_cred : ucred) (retain_auditinfo : Bool)
    (hold : s.deref old_cred = some old)
    (heq : kauth_cred_is_equal k old.crw_cred
      (if retain_auditinfo then { model_cred with cr_audit := old.crw_cred.cr_audit }
       else model_cred) = true) :
    kauth_cred_update k s old_cred model_cred retain_auditinfo = some (.addr old_cred, s) := by
  simp only [kauth_cred_update, hold]
  rw [if_pos heq]

/-- Witness for C3: re-applying its own content to the credential created
from the template on the concrete platform. -/
theorem kauth_cred_update_noop_witness :
    kauth_cred_update xnu
      { empty_store with
        table := [kauth_cred_create_object xnu (0, none) empty_store
          (template 501 501 501 0 1 [20] 20)],
        next_addr := 2 } 1
      (kauth_cred_create_object xnu (0, none) empty_store
        (template 501 501 501 0 1 [20] 20)).crw_cred true =
    some (.addr 1,
      { empty_store with
        table := [kauth_cred_create_object xnu (0, none) empty_store
          (template 501 501 501 0 1 [20] 20)],
        next_addr := 2 }) :=
  kauth_cred_update_noop xnu _ 1
    (kauth_cred_create_object xnu (0, none) empty_store (template 501 501 501 0 1 [20] 20))
    _ true (by decide) (by decide)

/-- C6 (setters short-circuit).  For a live credential `e` at address `cred`:
`kauth_cred_setresgid` with the current effective, real and saved GID,
`kauth_cred_setresuid` with the current real, effective and saved UID and
group-membership UID, `kauth_cred_setgroups` with the current group list,
count and group-membership UID, `kauth_cred_setuidgid` and
`kauth_cred_setsvuidgid` with the current IDs, and `kauth_cred_setauditinfo`
with the current audit information each return `cred` itself and leave the
store (table, reference counts, allocator) unchanged. -/
theorem kauth_cred_setters_noop (k : Platform) (s : CredStore) (cred : Nat) (e : ucred_rw)
    (hcred : s.deref cred = some e) :
    (∀ rgid egid svgid, e.crw_cred.cr_posix.cr_groups.getD 0 0 = egid →
      e.crw_cred.cr_posix.cr_rgid = rgid → e.crw_cred.cr_posix.cr_svgid = svgid →
      kauth_cred_setresgid k s cred rgid egid svgid = some (.addr cred, s)) ∧
    (∀ ruid euid svuid gmuid, e.crw_cred.cr_posix.cr_ruid = ruid →
      e.crw_cred.cr_posix.cr_uid = euid → e.crw_cred.cr_posix.cr_svuid = svuid →
      e.crw_cred.cr_posix.cr_gmuid = gmuid →
      kauth_cred_setresuid k s cred ruid euid svuid gmuid = some (.addr cred, s)) ∧
    (∀ (groups : List Nat) (groupcount gmuid : Nat), groupcount ≤ k.NGROUPS →
      e.crw_cred.cr_posix.cr_ngroups = (groupcount : Int) →
      (∀ i, i < groupcount → groups.getD i 0 = e.crw_cred.cr_posix.cr_groups.getD i 0) →
      e.crw_cred.cr_posix.cr_gmuid = gmuid →
      kauth_cred_setgroups k s cred groups groupcount gmuid = some (.addr cred, s)) ∧
    (∀ uid gid, e.crw_cred.cr_posix.cr_uid = uid → e.crw_cred.cr_posix.cr_ruid = uid →
      e.crw_cred.cr_posix.cr_svuid = uid → e.crw_cred.cr_posix.cr_groups.getD 0 0 = gid →
      e.crw_cred.cr_posix.cr_rgid = gid → e.crw_cred.cr_posix.cr_svgid = gid →
      kauth_cred_setuidgid k s cred uid gid = some (.addr cred, s)) ∧
    (∀ uid gid, e.crw_cred.cr_posix.cr_svuid = uid → e.crw_cred.cr_posix.cr_svgid = gid →
      kauth_cred_setsvuidgid k s cred uid gid = some (.addr cred, s)) ∧
    (∀ auditinfo, e.crw_cred.cr_audit = auditinfo →
      kauth_cred_setauditinfo k s cred auditinfo = some (.addr cred, s)) := by
  refine ⟨?_, ?_, ?_, ?_, ?_, ?_⟩
  · intro rgid egid svgid h1 h2 h3
    simp only [kauth_cred_setresgid, hcred]
    rw [if_pos ⟨h1, h2, h3⟩]
  · intro ruid euid svuid gmuid h1 h2 h3 h4
    simp only [kauth_cred_setresuid, hcred]
    rw [if_pos ⟨Or.inr h2, Or.inr h1, Or.inr h3, h4⟩]
  · intro groups groupcount gmuid hle h1 h2 h3
    simp only [kauth_cred_setgroups, hcred, Nat.min_eq_left hle]
    rw [if_pos]
    refine ⟨h3, h1, ?_⟩
    intro i hi
    exact (h2 i (List.mem_range.mp hi)).symm
  · intro uid gid h1 h2 h3 h4 h5 h6
    simp only [kauth_cred_setuidgid, hcred]
    rw [if_pos ⟨h1, h2, h3, h4, h5, h6⟩]
  · intro uid gid h1 h2
    simp only [kauth_cred_setsvuidgid, hcred]
    rw [if_pos ⟨h1, h2⟩]
  · intro auditinfo h1
    simp only [kauth_cred_setauditinfo, hcred]
    rw [if_pos h1]

/-! ## The credential table: lookups after a change, update, long-term holds -/

/-- A successful lookup returns a live object with the address asked for. -/
theorem deref_some (s : CredStore) (a : Nat) (e : ucred_rw) (h : s.deref a = some e) :
    e.addr = a ∧ e ∈ s.table := by
  unfold CredStore.deref at h
  have h1 := List.find?_some h
  have h2 := List.mem_of_find?_eq_some h
  simp only [decide_eq_true_eq] at h1
  exact ⟨h1, h2⟩

/-- Lookup in a list rewritten at address `a` by a function that keeps addresses. -/
theorem find_addr_map (f : ucred_rw → ucred_rw) (hf : ∀ e, (f e).addr = e.addr) (a b : Nat) :
    ∀ l : List ucred_rw,
      (l.map (fun e => if e.addr = a then f e else e)).find? (fun e => decide (e.addr = b)) =
        (l.find? (fun e => decide (e.addr = b))).map (fun e => if e.addr = a then f e else e) := by
  intro l
  induction l with
  | nil => rfl
  | cons x l ih =>
    have hx : (if x.addr = a then f x else x).addr = x.addr := by
      split
      · exact hf x
      · rfl
    by_cases hb : x.addr = b
    · rw [List.map_cons, List.find?_cons_of_pos _ (by rw [hx]; simp [hb]),
        List.find?_cons_of_pos _ (by simp [hb])]
      rfl
    · rw [List.map_cons, List.find?_cons_of_neg _ (by rw [hx]; simp [hb]),
        List.find?_cons_of_neg _ (by simp [hb])]
      exact ih

/-- The function `modify` keeps the kernel credential pointer. -/
theorem modify_vfs (s : CredStore) (a : Nat) (f : ucred_rw → ucred_rw) :
    (s.modify a f).vfs_context0_vc_ucred = s.vfs_context0_vc_ucred := rfl

/-- The function `modify` keeps the allocator. -/
theorem modify_next_addr (s : CredStore) (a : Nat) (f : ucred_rw → ucred_rw) :
    (s.modify a f).next_addr = s.next_addr := rfl

/-- Lookup after `modify`. -/
theorem deref_modify (s : CredStore) (a b : Nat) (f : ucred_rw → ucred_rw)
    (hf : ∀ e, (f e).addr = e.addr) :
    (s.modify a f).deref b = (s.deref b).map (fun e => if e.addr = a then f e else e) := by
  unfold CredStore.modify CredStore.deref
  exact find_addr_map f hf a b s.table

/-- Lookup of the modified address itself. -/
theorem deref_modify_same (s : CredStore) (a : Nat) (f : ucred_rw → ucred_rw)
    (hf : ∀ e, (f e).addr = e.addr) (e : ucred_rw) (h : s.deref a = some e) :
    (s.modify a f).deref a = some (f e) := by
  rw [deref_modify s a a f hf, h]
  simp [(deref_some s a e h).1]

/-- Lookup of another address is not affected by `modify`. -/
theorem deref_modify_other (s : CredStore) (a b : Nat) (f : ucred_rw → ucred_rw)
    (hf : ∀ e, (f e).addr = e.addr) (hab : b ≠ a) :
    (s.modify a f).deref b = s.deref b := by
  rw [deref_modify s a b f hf]
  cases h : s.deref b with
  | none => rfl
  | some e =>
    have := (deref_some s b e h).1
    simp [this, hab]

/-- Lookup after the object at address `a` was released. -/
theorem find_addr_filter (a b : Nat) :
    ∀ l : List ucred_rw,
      (l.filter (fun x => decide (x.addr ≠ a))).find? (fun e => decide (e.addr = b)) =
        if b = a then none else l.find? (fun e => decide (e.addr = b)) := by
  intro l
  induction l with
  | nil => simp
  | cons x l ih =>
    by_cases hxa : x.addr = a
    · rw [List.filter_cons_of_neg (by simp [hxa]), ih]
      by_cases hba : b = a
      · simp [hba]
      · have hxb : ¬ x.addr = b := by omega
        rw [List.find?_cons_of_neg _ (by simp [hxb])]
    · rw [List.filter_cons_of_pos (by simp [hxa])]
      by_cases hxb : x.addr = b
      · have hba : ¬ b = a := by omega
        rw [List.find?_cons_of_pos _ (by simp [hxb]), List.find?_cons_of_pos _ (by simp [hxb]),
          if_neg hba]
      · rw [List.find?_cons_of_neg _ (by simp [hxb]), List.find?_cons_of_neg _ (by simp [hxb])]
        exact ih

/-- With pairwise distinct addresses, every live object is the one found at its address. -/
theorem find_addr_of_mem :
    ∀ (l : List ucred_rw) (e : ucred_rw), (l.map (fun x => x.addr)).Nodup → e ∈ l →
      l.find? (fun x => decide (x.addr = e.addr)) = some e := by
  intro l
  induction l with
  | nil => intro e _ he; simp at he
  | cons x l ih =>
    intro e hnd he
    rw [List.map_cons, List.nodup_cons] at hnd
    rcases List.mem_cons.mp he with rfl | hel
    · rw [List.find?_cons_of_pos _ (by simp)]
    · have hne : ¬ x.addr = e.addr := by
        intro h
        apply hnd.1
        rw [h]
        exact List.mem_map_of_mem (fun x => x.addr) hel
      rw [List.find?_cons_of_neg _ (by simp [hne])]
      exact ih e hnd.2 hel

/-- Rewriting at an address that no object of the list has changes nothing. -/
theorem map_addr_absent (f : ucred_rw → ucred_rw) (a : Nat) :
    ∀ l : List ucred_rw, (∀ e ∈ l, e.addr ≠ a) →
      l.map (fun x => if x.addr = a then f x else x) = l := by
  intro l h
  induction l with
  | nil => rfl
  | cons x l ih =>
    have hx : x.addr ≠ a := h x (List.mem_cons_self _ _)
    rw [List.map_cons, if_neg hx, ih (fun e he => h e (List.mem_cons_of_mem _ he))]

/-- The outcome of the chain scan when addresses are distinct and every
matching object holds a reference: either nothing matches and the list is
unchanged, or some matching object is returned and it alone gains a
reference. -/
theorem find_and_ref_scan_spec (k : Platform) (cred : ucred) (bucket : Nat) :
    ∀ l : List ucred_rw, (l.map (fun x => x.addr)).Nodup →
      (∀ e ∈ l, chain_match k cred bucket e → e.crw_weak_ref ≠ 0) →
      ((∀ e ∈ l, ¬ chain_match k cred bucket e) ∧
          kauth_cred_find_and_ref_scan k cred bucket l = (.NOCRED, l)) ∨
      (∃ e, e ∈ l ∧ chain_match k cred bucket e ∧
          kauth_cred_find_and_ref_scan k cred bucket l =
            (.addr e.addr, l.map (fun x => if x.addr = e.addr then retain_weak x else x))) := by
  intro l
  induction l with
  | nil => intro _ _; left; exact ⟨fun e he => by simp at he, rfl⟩
  | cons x l ih =>
    intro hnd hpos
    rw [List.map_cons, List.nodup_cons] at hnd
    by_cases hx : chain_match k cred bucket x
    · right
      refine ⟨x, List.mem_cons_self _ _, hx, ?_⟩
      rw [find_and_ref_scan_head k cred bucket x l hx (hpos x (List.mem_cons_self _ _) hx)]
      have habs : ∀ e ∈ l, e.addr ≠ x.addr := by
        intro e he h
        apply hnd.1
        rw [← h]
        exact List.mem_map_of_mem (fun x => x.addr) he
      rw [List.map_cons, if_pos rfl, map_addr_absent retain_weak x.addr l habs]
      rfl
    · have hx1 : ¬ (x.crw_link = some bucket ∧ kauth_cred_is_equal k x.crw_cred cred = true) := hx
      rcases ih hnd.2 (fun e he => hpos e (List.mem_cons_of_mem _ he)) with ⟨hno, hscan⟩ | ⟨e, he, hm, hscan⟩
      · left
        refine ⟨?_, ?_⟩
        · intro e he
          rcases List.mem_cons.mp he with rfl | hel
          · exact hx
          · exact hno e hel
        · simp only [kauth_cred_find_and_ref_scan, if_neg hx1, hscan]
      · right
        refine ⟨e, List.mem_cons_of_mem _ he, hm, ?_⟩
        have hne : ¬ x.addr = e.addr := by
          intro h
          apply hnd.1
          rw [h]
          exact List.mem_map_of_mem (fun x => x.addr) he
        simp only [kauth_cred_find_and_ref_scan, if_neg hx1, hscan, List.map_cons, if_neg hne]

/-- The outcome of `kauth_cred_find_and_ref` on a store with distinct addresses
in which every linked object holds a reference. -/
theorem kauth_cred_find_and_ref_spec (k : Platform) (s : CredStore) (cred : ucred) (bucket : Nat)
    (hnd : (s.table.map (fun x => x.addr)).Nodup)
    (hpos : ∀ e ∈ s.table, e.crw_link.isSome = true → e.crw_weak_ref ≠ 0) :
    ((∀ e ∈ s.table, ¬ chain_match k cred bucket e) ∧
        kauth_cred_find_and_ref k s cred bucket = (.NOCRED, s)) ∨
    (∃ e, s.deref e.addr = some e ∧ chain_match k cred bucket e ∧
        kauth_cred_find_and_ref k s cred bucket = (.addr e.addr, s.modify e.addr retain_weak)) := by
  have hpos1 : ∀ e ∈ s.table, chain_match k cred bucket e → e.crw_weak_ref ≠ 0 := by
    intro e he hm
    apply hpos e he
    rw [hm.1]
    rfl
  rcases find_and_ref_scan_spec k cred bucket s.table hnd hpos1 with ⟨hno, hscan⟩ | ⟨e, he, hm, hscan⟩
  · left
    refine ⟨hno, ?_⟩
    simp only [kauth_cred_find_and_ref, hscan]
  · right
    refine ⟨e, find_addr_of_mem s.table e hnd he, hm, ?_⟩
    simp only [kauth_cred_find_and_ref, hscan]
    rfl

/-- Lookup in the store after a release. -/
theorem deref_released (s : CredStore) (a b : Nat) (last : Bool) (e : ucred_rw)
    (h : s.deref a = some e) :
    (s.released a last).deref b =
      if b = a then (if last then none else some (release_weak e)) else s.deref b := by
  unfold CredStore.released
  cases last with
  | true =>
    simp only [if_true, CredStore.deref]
    rw [find_addr_filter]
    by_cases hba : b = a
    · simp [hba]
    · rw [if_neg hba, if_neg hba]
      have h1 := deref_modify_other (s.modify a release_weak) a b unlink (fun _ => rfl) hba
      have h2 := deref_modify_other s a b release_weak (fun _ => rfl) hba
      unfold CredStore.deref at h1 h2
      rw [h1, h2]
  | false =>
    simp only [Bool.false_eq_true, if_false]
    by_cases hba : b = a
    · rw [if_pos hba, hba]
      exact deref_modify_same s a release_weak (fun _ => rfl) e h
    · rw [if_neg hba]
      exact deref_modify_other s a b release_weak (fun _ => rfl) hba

/-- The function `kauth_cred_unref` on a live, linked object that holds a
reference: it succeeds unless the last reference of the kernel credential or
of an object with a long-term hold is dropped. -/
theorem kauth_cred_unref_spec (s : CredStore) (a : Nat) (e : ucred_rw)
    (h : s.deref a = some e) (hw : e.crw_weak_ref ≠ 0) (hl : e.crw_link.isSome = true)
    (hlast : e.crw_weak_ref = 1 → e.cr_ref = 0 ∧ s.vfs_context0_vc_ucred ≠ .addr a) :
    kauth_cred_unref s a = some (s.released a (decide (e.crw_weak_ref = 1))) := by
  have haddr := (deref_some s a e h).1
  simp only [kauth_cred_unref, kauth_cred_unref_fast, h, if_neg hw]
  by_cases h1 : e.crw_weak_ref = 1
  · obtain ⟨hcr, hk⟩ := hlast h1
    have hd : (s.modify a (fun e => { e with crw_weak_ref := e.crw_weak_ref - 1 })).deref a
        = some (release_weak e) := deref_modify_same s a release_weak (fun _ => rfl) e h
    have hk1 : ¬ (kauth_cred_t.addr (release_weak e).addr = s.vfs_context0_vc_ucred) := by
      intro hh
      apply hk
      rw [← hh]
      simp [release_weak, haddr]
    obtain ⟨bk, hbk⟩ := Option.isSome_iff_exists.mp hl
    have hlink : (release_weak e).crw_link = some bk := hbk
    have hcr1 : ¬ ((release_weak e).cr_ref ≠ 0) := by simp [release_weak, hcr]
    have ha1 : (release_weak e).addr = a := haddr
    simp only [h1, decide_True, if_true, hd, kauth_cred_free, kauth_cred_remove_locked, ha1,
      hlink, CredStore.released]
    rw [if_neg (by rw [← ha1]; exact hk1), if_neg hcr1]
    rfl
  · have h2 : ¬ (e.crw_weak_ref - 1 = 0) := by omega
    simp only [h2, h1, decide_False, Bool.false_eq_true, if_false, CredStore.released]
    rfl

/-- The result of `kauth_cred_update` when the table holds a credential equal to the model. -/
theorem kauth_cred_update_hit (k : Platform) (s : CredStore) (old_cred : Nat) (old e : ucred_rw)
    (model_cred : ucred) (retain_auditinfo : Bool)
    (hold : s.deref old_cred = some old)
    (hne : kauth_cred_is_equal k old.crw_cred (update_model old model_cred retain_auditinfo)
      = false)
    (hfind : kauth_cred_find_and_ref k s (update_model old model_cred retain_auditinfo)
        (kauth_cred_get_bucket k (update_model old model_cred retain_auditinfo)) =
      (.addr e.addr, s.modify e.addr retain_weak))
    (hce : e.addr ≠ old_cred)
    (hw : old.crw_weak_ref ≠ 0) (hl : old.crw_link.isSome = true)
    (hlast : old.crw_weak_ref = 1 → old.cr_ref = 0 ∧ s.vfs_context0_vc_ucred ≠ .addr old_cred) :
    kauth_cred_update k s old_cred model_cred retain_auditinfo =
      some (.addr e.addr,
        (s.modify e.addr retain_weak).released old_cred (decide (old.crw_weak_ref = 1))) := by
  have haddr := (deref_some s old_cred old hold).1
  have hne1 : ¬ (kauth_cred_is_equal k old.crw_cred
      (update_model old model_cred retain_auditinfo) = true) := by
    rw [hne]; exact Bool.noConfusion
  have hd1 : (s.modify e.addr retain_weak).deref old_cred = some old := by
    rw [deref_modify_other s e.addr old_cred retain_weak (fun _ => rfl) (Ne.symm hce)]
    exact hold
  unfold update_model at hne1 hfind
  simp only [kauth_cred_update, hold, if_neg hne1, hfind, kauth_cred_unref_fast, hd1, if_neg hw]
  by_cases h1 : old.crw_weak_ref = 1
  · obtain ⟨hcr, hk⟩ := hlast h1
    have hd2 : ((s.modify e.addr retain_weak).modify old_cred
        (fun e => { e with crw_weak_ref := e.crw_weak_ref - 1 })).deref old_cred
        = some (release_weak old) :=
      deref_modify_same _ old_cred release_weak (fun _ => rfl) old hd1
    obtain ⟨bk, hbk⟩ := Option.isSome_iff_exists.mp hl
    have hlink : (release_weak old).crw_link = some bk := hbk
    have hk1 : ¬ (kauth_cred_t.addr old.addr = s.vfs_context0_vc_ucred) := by
      intro hh
      apply hk
      rw [← hh, haddr]
    have hcr1 : ¬ (old.cr_ref ≠ 0) := by simp [hcr]
    have hk2 : ¬ (kauth_cred_t.addr old_cred = s.vfs_context0_vc_ucred) := by
      rw [← haddr]; exact hk1
    simp only [h1, decide_True, if_true, kauth_cred_remove_locked, hd2, hlink, kauth_cred_free,
      CredStore.released, modify_vfs, haddr, if_neg hk2, if_neg hcr1, Bool.false_eq_true,
      if_false]
    rfl
  · have h2 : ¬ (old.crw_weak_ref - 1 = 0) := by omega
    simp only [h2, h1, decide_False, Bool.false_eq_true, if_false, CredStore.released]
    rfl

/-- The result of `kauth_cred_update` when no credential on the chain equals the model. -/
theorem kauth_cred_update_miss (k : Platform) (s : CredStore) (old_cred : Nat) (old : ucred_rw)
    (model_cred : ucred) (retain_auditinfo : Bool)
    (hold : s.deref old_cred = some old)
    (hne : kauth_cred_is_equal k old.crw_cred (update_model old model_cred retain_auditinfo)
      = false)
    (hmiss : ∀ e ∈ s.table, ¬ chain_match k (update_model old model_cred retain_auditinfo)
      (kauth_cred_get_bucket k (update_model old model_cred retain_auditinfo)) e)
    (hfresh : old_cred ≠ s.next_addr)
    (hw : old.crw_weak_ref ≠ 0) (hl : old.crw_link.isSome = true)
    (hlast : old.crw_weak_ref = 1 → old.cr_ref = 0 ∧ s.vfs_context0_vc_ucred ≠ .addr old_cred) :
    kauth_cred_update k s old_cred model_cred retain_auditinfo =
      some (.addr s.next_addr,
        CredStore.released
          { s with
            table := update_object k s (update_model old model_cred retain_auditinfo) :: s.table
            next_addr := s.next_addr + 1 }
          old_cred (decide (old.crw_weak_ref = 1))) := by
  have hne1 : ¬ (kauth_cred_is_equal k old.crw_cred
      (update_model old model_cred retain_auditinfo) = true) := by
    rw [hne]; exact Bool.noConfusion
  have hscan := find_and_ref_scan_miss k _ _ s.table hmiss
  have hd : CredStore.deref
      { s with
        table := update_object k s (update_model old model_cred retain_auditinfo) :: s.table
        next_addr := s.next_addr + 1 } old_cred = some old := by
    unfold CredStore.deref
    rw [List.find?_cons_of_neg _ (by simp [update_object]; omega)]
    exact hold
  have hun := kauth_cred_unref_spec _ old_cred old hd hw hl hlast
  unfold update_model at hne1 hscan hun
  unfold update_object at hun
  simp only [kauth_cred_update, hold, if_neg hne1, kauth_cred_find_and_ref, hscan,
    kauth_cred_dup, kauth_cred_alloc, kauth_cred_add]
  simp only [ne_eq, not_true_eq_false, if_false, hun]
  rfl

/-- C4 (update to different content).  Take a store with pairwise distinct
addresses below the allocator mark in which every linked credential holds a
reference, a linked credential `old` at `old_cred`, and a model that (with the
audit information of `old` when `retain_auditinfo` is set) is not
content-equal to `old`; the last reference of `old` may only go away if `old`
has no long-term hold and is not the kernel credential (otherwise the kernel
panics).  Then `kauth_cred_update` returns a credential `r` other than `old`
that afterwards is linked on the chain of the model's bucket and is
content-equal to the model; `r` is either a credential of the old table that
gained exactly one reference, or a new object holding the model with
reference count 1; `old` is gone when it held one reference and has one
reference less otherwise; no other credential changed. -/
theorem kauth_cred_update_changes (k : Platform) (s : CredStore) (old_cred : Nat)
    (old : ucred_rw) (model_cred : ucred) (retain_auditinfo : Bool)
    (hnd : (s.table.map (fun x => x.addr)).Nodup)
    (haddr : ∀ e ∈ s.table, e.addr < s.next_addr)
    (hpos : ∀ e ∈ s.table, e.crw_link.isSome = true → e.crw_weak_ref ≠ 0)
    (hold : s.deref old_cred = some old)
    (hl : old.crw_link.isSome = true)
    (hne : kauth_cred_is_equal k old.crw_cred (update_model old model_cred retain_auditinfo)
      = false)
    (hlast : old.crw_weak_ref = 1 → old.cr_ref = 0 ∧ s.vfs_context0_vc_ucred ≠ .addr old_cred) :
    ∃ (r : Nat) (s' : CredStore) (e' : ucred_rw),
      kauth_cred_update k s old_cred model_cred retain_auditinfo = some (.addr r, s') ∧
      r ≠ old_cred ∧
      s'.deref r = some e' ∧
      e'.crw_link =
        some (kauth_cred_get_bucket k (update_model old model_cred retain_auditinfo)) ∧
      kauth_cred_is_equal k e'.crw_cred (update_model old model_cred retain_auditinfo) = true ∧
      ((∃ e0, s.deref r = some e0 ∧ e' = { e0 with crw_weak_ref := e0.crw_weak_ref + 1 }) ∨
        (s.deref r = none ∧ e'.crw_weak_ref = 1 ∧ e'.cr_ref = 0 ∧
          e'.crw_cred = update_model old model_cred retain_auditinfo)) ∧
      s'.deref old_cred =
        (if old.crw_weak_ref = 1 then none
         else some { old with crw_weak_ref := old.crw_weak_ref - 1 }) ∧
      (∀ a, a ≠ r → a ≠ old_cred → s'.deref a = s.deref a) := by
  obtain ⟨holdaddr, holdmem⟩ := deref_some s old_cred old hold
  have hw : old.crw_weak_ref ≠ 0 := hpos old holdmem hl
  rcases kauth_cred_find_and_ref_spec k s (update_model old model_cred retain_auditinfo)
    (kauth_cred_get_bucket k (update_model old model_cred retain_auditinfo)) hnd hpos with
    ⟨hmiss, _⟩ | ⟨e, hde, hm, hfind⟩
  · -- miss: a duplicate of the model is published
    have hfresh : old_cred ≠ s.next_addr := by
      have := haddr old holdmem
      omega
    have hres := kauth_cred_update_miss k s old_cred old model_cred retain_auditinfo hold hne
      hmiss hfresh hw hl hlast
    have hd0 : ∀ a, a ≠ s.next_addr → CredStore.deref
        { s with
          table := update_object k s (update_model old model_cred retain_auditinfo) :: s.table
          next_addr := s.next_addr + 1 } a = s.deref a := by
      intro a ha
      unfold CredStore.deref
      rw [List.find?_cons_of_neg _ (by simp [update_object]; omega)]
    have hdold := hd0 old_cred hfresh
    rw [hold] at hdold
    have hnone : s.deref s.next_addr = none := by
      simp only [CredStore.deref, List.find?_eq_none, decide_eq_true_eq]
      intro x hx
      have := haddr x hx
      omega
    refine ⟨s.next_addr, _, update_object k s (update_model old model_cred retain_auditinfo),
      hres, Ne.symm hfresh, ?_, rfl, kauth_cred_is_equal_refl k _, Or.inr ⟨hnone, rfl, rfl, rfl⟩,
      ?_, ?_⟩
    · rw [deref_released _ old_cred s.next_addr _ old hdold, if_neg (Ne.symm hfresh)]
      unfold CredStore.deref
      rw [List.find?_cons_of_pos _ (by simp [update_object])]
    · rw [deref_released _ old_cred old_cred _ old hdold, if_pos rfl]
      by_cases h1 : old.crw_weak_ref = 1
      · simp [h1]
      · simp [h1, release_weak]
    · intro a har hao
      rw [deref_released _ old_cred a _ old hdold, if_neg hao]
      exact hd0 a har
  · -- hit: the credential found gains the reference
    have hce : e.addr ≠ old_cred := by
      intro h
      rw [h, hold] at hde
      have heo : old = e := Option.some.inj hde
      have hm2 := hm.2
      rw [← heo, hne] at hm2
      exact Bool.noConfusion hm2
    have hres := kauth_cred_update_hit k s old_cred old e model_cred retain_auditinfo hold hne
      hfind hce hw hl hlast
    have hd1 : (s.modify e.addr retain_weak).deref old_cred = some old := by
      rw [deref_modify_other s e.addr old_cred retain_weak (fun _ => rfl) (Ne.symm hce)]
      exact hold
    refine ⟨e.addr, _, retain_weak e, hres, hce, ?_, hm.1, hm.2, Or.inl ⟨e, hde, rfl⟩, ?_, ?_⟩
    · rw [deref_released _ old_cred e.addr _ old hd1, if_neg hce]
      exact deref_modify_same s e.addr retain_weak (fun _ => rfl) e hde
    · rw [deref_released _ old_cred old_cred _ old hd1, if_pos rfl]
      by_cases h1 : old.crw_weak_ref = 1
      · simp [h1]
      · simp [h1, release_weak]
    · intro a har hao
      rw [deref_released _ old_cred a _ old hd1, if_neg hao]
      exact deref_modify_other s e.addr a retain_weak (fun _ => rfl) har

/-- The function `kauth_cred_hold` with `need_ref` on a live object that holds
a reference and whose long-term count is below the ceiling. -/
theorem kauth_cred_hold_spec (s : CredStore) (n : Nat) (en : ucred_rw)
    (h : s.deref n = some en) (hw : en.crw_weak_ref ≠ 0) (hmax : en.cr_ref < KAUTH_CRED_REF_MAX) :
    ∃ s1, kauth_cred_hold s n true = some s1 ∧
      s1.vfs_context0_vc_ucred = s.vfs_context0_vc_ucred ∧
      ∀ a, s1.deref a = if a = n then some (held en) else s.deref a := by
  have hd1 : (s.modify n (fun e => { e with crw_weak_ref := e.crw_weak_ref + 1 })).deref n =
      some (retain_weak en) := deref_modify_same s n retain_weak (fun _ => rfl) en h
  have hmax1 : ¬ ((retain_weak en).cr_ref ≥ KAUTH_CRED_REF_MAX) := by
    simp only [retain_weak]; omega
  refine ⟨(s.modify n retain_weak).modify n (fun e => { e with cr_ref := e.cr_ref + 1 }),
    ?_, ?_, ?_⟩
  · simp only [kauth_cred_hold, kauth_cred_ref, h, if_neg hw, if_true, hd1, if_neg hmax1]
    rfl
  · rfl
  · intro a
    by_cases ha : a = n
    · rw [if_pos ha, ha]
      exact deref_modify_same (s.modify n retain_weak) n
        (fun e => { e with cr_ref := e.cr_ref + 1 }) (fun _ => rfl) (retain_weak en) hd1
    · rw [if_neg ha]
      rw [deref_modify_other (s.modify n retain_weak) n a
        (fun e => { e with cr_ref := e.cr_ref + 1 }) (fun _ => rfl) ha]
      exact deref_modify_other s n a retain_weak (fun _ => rfl) ha

/-- The function `kauth_cred_drop` on a live, linked object with a long-term
hold and a reference; its last reference may only go away together with its
last long-term hold, and never for the kernel credential. -/
theorem kauth_cred_drop_spec (s : CredStore) (o : Nat) (eo : ucred_rw)
    (h : s.deref o = some eo) (hw : eo.crw_weak_ref ≠ 0) (hl : eo.crw_link.isSome = true)
    (hcr : eo.cr_ref ≠ 0) (hmax : eo.cr_ref ≤ KAUTH_CRED_REF_MAX)
    (hlast : eo.crw_weak_ref = 1 → eo.cr_ref = 1 ∧ s.vfs_context0_vc_ucred ≠ .addr o) :
    ∃ s2, kauth_cred_drop s o = some s2 ∧
      ∀ a, s2.deref a =
        if a = o then (if eo.crw_weak_ref = 1 then none else some (dropped eo))
        else s.deref a := by
  have hd1 : (s.modify o (fun e => { e with cr_ref := e.cr_ref - 1 })).deref o =
      some { eo with cr_ref := eo.cr_ref - 1 } :=
    deref_modify_same s o (fun e => { e with cr_ref := e.cr_ref - 1 }) (fun _ => rfl) eo h
  have hun := kauth_cred_unref_spec _ o _ hd1 hw hl
    (fun h1 => ⟨by have := (hlast h1).1; simp only; omega, (hlast h1).2⟩)
  have hchk : ¬ (eo.cr_ref = 0 ∨ eo.cr_ref > KAUTH_CRED_REF_MAX) := by omega
  refine ⟨CredStore.released (s.modify o (fun e => { e with cr_ref := e.cr_ref - 1 })) o
    (decide (eo.crw_weak_ref = 1)), ?_, ?_⟩
  · simp only [kauth_cred_drop, h, if_neg hchk]
    exact hun
  · intro a
    rw [deref_released _ o a _ _ hd1]
    by_cases ha : a = o
    · rw [if_pos ha, if_pos ha]
      by_cases h1 : eo.crw_weak_ref = 1
      · simp [h1]
      · simp [h1, release_weak, dropped]
    · rw [if_neg ha, if_neg ha]
      exact deref_modify_other s o a _ (fun _ => rfl) ha

/-- The first statement of `kauth_cred_set`: a valid new credential gains one
reference and one long-term hold; nothing else changes. -/
theorem kauth_cred_set_hold_spec (s : CredStore) (new_cred : kauth_cred_t)
    (hnew : ∀ n, new_cred = .addr n → ∃ en, s.deref n = some en ∧ en.crw_weak_ref ≠ 0 ∧
      en.cr_ref < KAUTH_CRED_REF_MAX) :
    ∃ s1 : CredStore, kauth_cred_set_hold s new_cred = some s1 ∧
      s1.vfs_context0_vc_ucred = s.vfs_context0_vc_ucred ∧
      (∀ a, s1.deref a =
        if new_cred = .addr a then (s.deref a).map held else s.deref a) := by
  cases new_cred with
  | NOCRED => exact ⟨s, rfl, rfl, fun a => by simp⟩
  | FSCRED => exact ⟨s, rfl, rfl, fun a => by simp⟩
  | addr n =>
    obtain ⟨en, hen, hw, hmax⟩ := hnew n rfl
    obtain ⟨s1, hs1, hv1, hd1⟩ := kauth_cred_hold_spec s n en hen hw hmax
    refine ⟨s1, hs1, hv1, ?_⟩
    intro a
    rw [hd1 a]
    by_cases ha : a = n
    · subst ha; simp [hen]
    · have : ¬ (kauth_cred_t.addr n = kauth_cred_t.addr a) := by
        intro h; injection h with h; exact ha h.symm
      rw [if_neg ha, if_neg this]

/-- The last statement of `kauth_cred_set`, run in the state `s1` in which the
old credential is as it was in `s`: a valid old credential loses one long-term
hold and one reference, and is freed when that was its last reference. -/
theorem kauth_cred_set_drop_spec (s s1 : CredStore) (credp : kauth_cred_t)
    (hold : ∀ o, credp = .addr o → ∃ eo, s1.deref o = some eo ∧ s.deref o = some eo ∧
      eo.crw_weak_ref ≠ 0 ∧ eo.crw_link.isSome = true ∧ eo.cr_ref ≠ 0 ∧
      eo.cr_ref ≤ KAUTH_CRED_REF_MAX ∧
      (eo.crw_weak_ref = 1 → eo.cr_ref = 1 ∧ s1.vfs_context0_vc_ucred ≠ .addr o)) :
    ∃ s2 : CredStore, kauth_cred_set_drop s1 credp = some s2 ∧
      (∀ a, s2.deref a =
        if credp = .addr a then
          (s.deref a).bind (fun e => if e.crw_weak_ref = 1 then none else some (dropped e))
        else s1.deref a) := by
  cases credp with
  | NOCRED => exact ⟨s1, rfl, fun a => by simp⟩
  | FSCRED => exact ⟨s1, rfl, fun a => by simp⟩
  | addr o =>
    obtain ⟨eo, heo1, heo, hw, hl, hcr, hmax, hlast⟩ := hold o rfl
    obtain ⟨s2, hs2, hd2⟩ := kauth_cred_drop_spec s1 o eo heo1 hw hl hcr hmax hlast
    refine ⟨s2, hs2, ?_⟩
    intro a
    rw [hd2 a]
    by_cases ha : a = o
    · subst ha; simp [heo]
    · have : ¬ (kauth_cred_t.addr o = kauth_cred_t.addr a) := by
        intro h; injection h with h; exact ha h.symm
      rw [if_neg ha, if_neg this]

/-- C9 (long-term hold assignment).  `kauth_cred_set(credp, new_cred)` with
`*credp == old_cred`.  The protocol is assumed: a valid new credential is live,
holds a reference and is below the ceiling of long-term holds; a valid old
credential is live and linked, has a long-term hold and a reference, and its
last reference goes away only with its last long-term hold and never for the
kernel credential.  If the two pointers are equal nothing happens.  Otherwise
the call goes through exactly three states: first the new credential, if
valid, has gained one reference and one long-term hold while `*credp` still is
the old pointer; then `*credp` is the new pointer; and only then the old
credential, if valid, has lost one long-term hold and one reference, being
freed when that was its last reference.  No other credential changes. -/
theorem kauth_cred_set_order (s : CredStore) (credp new_cred : kauth_cred_t)
    (hnew : ∀ n, new_cred = .addr n → ∃ en, s.deref n = some en ∧ en.crw_weak_ref ≠ 0 ∧
      en.cr_ref < KAUTH_CRED_REF_MAX)
    (hold : ∀ o, credp = .addr o → ∃ eo, s.deref o = some eo ∧ eo.crw_weak_ref ≠ 0 ∧
      eo.crw_link.isSome = true ∧ eo.cr_ref ≠ 0 ∧ eo.cr_ref ≤ KAUTH_CRED_REF_MAX ∧
      (eo.crw_weak_ref = 1 → eo.cr_ref = 1 ∧ s.vfs_context0_vc_ucred ≠ .addr o)) :
    (credp = new_cred →
      kauth_cred_set_steps s credp new_cred = some [] ∧
      kauth_cred_set s credp new_cred = some (credp, s)) ∧
    (credp ≠ new_cred →
      ∃ s1 s2 : CredStore,
        kauth_cred_set_steps s credp new_cred =
          some [(credp, s1), (new_cred, s1), (new_cred, s2)] ∧
        kauth_cred_set s credp new_cred = some (new_cred, s2) ∧
        (∀ a, s1.deref a =
          if new_cred = .addr a then (s.deref a).map held else s.deref a) ∧
        (∀ a, s2.deref a =
          if credp = .addr a then
            (s.deref a).bind (fun e => if e.crw_weak_ref = 1 then none else some (dropped e))
          else s1.deref a)) := by
  refine ⟨?_, ?_⟩
  · intro heq
    have h1 : kauth_cred_set_steps s credp new_cred = some [] := by
      simp only [kauth_cred_set_steps, heq, ne_eq, not_true_eq_false, if_false]
    refine ⟨h1, ?_⟩
    simp only [kauth_cred_set, h1]
    rfl
  · intro hne
    obtain ⟨s1, hs1, hv1, hd1⟩ := kauth_cred_set_hold_spec s new_cred hnew
    have hold1 : ∀ o, credp = .addr o → ∃ eo, s1.deref o = some eo ∧ s.deref o = some eo ∧
        eo.crw_weak_ref ≠ 0 ∧ eo.crw_link.isSome = true ∧ eo.cr_ref ≠ 0 ∧
        eo.cr_ref ≤ KAUTH_CRED_REF_MAX ∧
        (eo.crw_weak_ref = 1 → eo.cr_ref = 1 ∧ s1.vfs_context0_vc_ucred ≠ .addr o) := by
      intro o hcp
      obtain ⟨eo, heo, hw, hl, hcr, hmax, hlast⟩ := hold o hcp
      have hno : ¬ (new_cred = kauth_cred_t.addr o) := by
        intro h; apply hne; rw [hcp, h]
      refine ⟨eo, ?_, heo, hw, hl, hcr, hmax, ?_⟩
      · rw [hd1 o, if_neg hno]; exact heo
      · intro h1; rw [hv1]; exact hlast h1
    obtain ⟨s2, hs2, hd2⟩ := kauth_cred_set_drop_spec s s1 credp hold1
    have hsteps : kauth_cred_set_steps s credp new_cred =
        some [(credp, s1), (new_cred, s1), (new_cred, s2)] := by
      simp only [kauth_cred_set_steps, ne_eq, hne, not_false_eq_true, if_true, hs1, hs2]
    refine ⟨s1, s2, hsteps, ?_, hd1, hd2⟩
    simp only [kauth_cred_set, hsteps]
    rfl

/-- Witness for C4: updating the only credential of `example_store` to uid 502
publishes a new credential and frees the old one. -/
theorem kauth_cred_update_changes_witness :
    ∃ (r : Nat) (s' : CredStore) (e' : ucred_rw),
      kauth_cred_update xnu example_store 1 (template 502 501 501 1 1 [20] 20) false
        = some (.addr r, s') ∧
      r ≠ 1 ∧
      s'.deref r = some e' ∧
      e'.crw_link = some (kauth_cred_get_bucket xnu
        (update_model example_object (template 502 501 501 1 1 [20] 20) false)) ∧
      kauth_cred_is_equal xnu e'.crw_cred
        (update_model example_object (template 502 501 501 1 1 [20] 20) false) = true ∧
      ((∃ e0, example_store.deref r = some e0 ∧
          e' = { e0 with crw_weak_ref := e0.crw_weak_ref + 1 }) ∨
        (example_store.deref r = none ∧ e'.crw_weak_ref = 1 ∧ e'.cr_ref = 0 ∧
          e'.crw_cred = update_model example_object (template 502 501 501 1 1 [20] 20) false)) ∧
      s'.deref 1 =
        (if example_object.crw_weak_ref = 1 then none
         else some { example_object with crw_weak_ref := example_object.crw_weak_ref - 1 }) ∧
      (∀ a, a ≠ r → a ≠ 1 → s'.deref a = example_store.deref a) :=
  kauth_cred_update_changes xnu example_store 1 example_object
    (template 502 501 501 1 1 [20] 20) false (by decide) (by decide) (by decide) (by decide)
    (by decide) (by decide) (by decide)

/-- Witness for C6, the scenario of the specification: `setresgid` with
rgid = egid = svgid = 20 on a credential that already has them returns the
credential and the store unchanged. -/
theorem kauth_cred_setters_noop_witness :
    kauth_cred_setresgid xnu example_store 1 20 20 20 = some (.addr 1, example_store) :=
  (kauth_cred_setters_noop xnu example_store 1 example_object (by decide)).1 20 20 20
    (by decide) (by decide) (by decide)

/-- Witness for C7: effective gid 20 with supplementary groups 12, 61, 80;
setting the effective gid to 61 exchanges slots 0 and 2. -/
theorem kauth_cred_change_egid_rotates_witness :
    (kauth_cred_change_egid (template 501 501 501 0 4 [20, 12, 61, 80] 20) 61).1 = 0 ∧
    ((kauth_cred_change_egid (template 501 501 501 0 4 [20, 12, 61, 80] 20) 61).2.cr_posix.cr_groups.take
        (template 501 501 501 0 4 [20, 12, 61, 80] 20).cr_posix.cr_ngroups.toNat).Perm
      ((template 501 501 501 0 4 [20, 12, 61, 80] 20).cr_posix.cr_groups.take
        (template 501 501 501 0 4 [20, 12, 61, 80] 20).cr_posix.cr_ngroups.toNat) := by
  obtain ⟨_, _, _, _, _, h0, _, _, _, _, _, _, hperm, _⟩ :=
    kauth_cred_change_egid_rotates (template 501 501 501 0 4 [20, 12, 61, 80] 20) 61
      (by decide) ⟨2, by decide, by decide, by decide⟩
  exact ⟨h0, hperm⟩

/-- Witness for C9: re-pointing a field from object 1 to object 2 of `two_store`. -/
theorem kauth_cred_set_order_witness :
    ∃ s1 s2 : CredStore,
      kauth_cred_set_steps two_store (.addr 1) (.addr 2) =
        some [(.addr 1, s1), (.addr 2, s1), (.addr 2, s2)] ∧
      kauth_cred_set two_store (.addr 1) (.addr 2) = some (.addr 2, s2) ∧
      (∀ a, s1.deref a =
        if kauth_cred_t.addr 2 = .addr a then (two_store.deref a).map held
        else two_store.deref a) ∧
      (∀ a, s2.deref a =
        if kauth_cred_t.addr 1 = .addr a then
          (two_store.deref a).bind
            (fun e => if e.crw_weak_ref = 1 then none else some (dropped e))
        else s1.deref a) :=
  (kauth_cred_set_order two_store (.addr 1) (.addr 2)
    (fun n h => by
      injection h with h
      subst h
      exact ⟨_, rfl, by decide, by decide⟩)
    (fun o h => by
      injection h with h
      subst h
      exact ⟨_, rfl, by decide, by decide, by decide, by decide, by decide⟩)).2 (by decide)

/-! ## Runs of the code on explicit inputs where it departs from the stated properties -/

set_option maxRecDepth 100000 in
/-- C2 (hash-consing uniqueness) fails on the code.  On the concrete platform,
starting from the empty table: create the credential X (uid 501, real uid 501),
create the credential Y (uid 0, real uid 501), then call
`kauth_cred_copy_real` on Y.  The real-uid copy of Y has the content of X, but
`kauth_cred_copy_real` searches and fills the bucket of Y (17), not the bucket
of the copy (102, where X is), so it publishes object 3 while object 1 is
still linked: two linked credentials that are content-equal. -/
theorem kauth_cred_copy_real_duplicates :
    ∃ s1 s2 s3 : CredStore,
      kauth_cred_create xnu (0, none) empty_store (template 501 501 0 1 1 [20] 20)
        = some (.addr 1, s1) ∧
      kauth_cred_create xnu (0, none) s1 (template 0 501 0 1 1 [20] 20)
        = some (.addr 2, s2) ∧
      kauth_cred_copy_real xnu s2 2 = some (.addr 3, s3) ∧
      ∃ e1 ∈ s3.table, ∃ e3 ∈ s3.table, e1.addr = 1 ∧ e3.addr = 3 ∧
        e1.crw_link = some 102 ∧ e3.crw_link = some 17 ∧
        kauth_cred_get_bucket xnu e3.crw_cred = 102 ∧
        e1.crw_cred = e3.crw_cred ∧
        kauth_cred_is_equal xnu e1.crw_cred e3.crw_cred = true := by
  refine ⟨_, _, _, rfl, rfl, rfl, ?_⟩
  decide

set_option maxRecDepth 100000 in
/-- C5 (`cr_ngroups >= 1` for every published credential) fails on the code:
`kauth_cred_setgroups` with `groupcount = 0` on the credential of
`example_store` publishes object 2 with `cr_ngroups = 0`. -/
theorem kauth_cred_setgroups_zero_groups :
    ∃ (s' : CredStore) (e' : ucred_rw),
      kauth_cred_setgroups xnu example_store 1 [] 0 4294967195 = some (.addr 2, s') ∧
      s'.deref 2 = some e' ∧ e'.crw_link.isSome = true ∧
      e'.crw_cred.cr_posix.cr_ngroups = 0 := by
  refine ⟨_, _, rfl, rfl, ?_, ?_⟩ <;> decide

set_option maxRecDepth 100000 in
/-- C8 (group-membership uid after `kauth_cred_setuidgid`) fails on the code.
The credential created for uid 501 has not opted out (`CRF_NOMEMBERD` clear,
`cr_gmuid = 501`); `kauth_cred_setuidgid` to uid 502 and gid 20 returns a
credential with the three UIDs 502, the three GIDs 20 and one group, but with
`cr_gmuid = KAUTH_UID_NONE` and `CRF_NOMEMBERD` set, not `cr_gmuid = 502`. -/
theorem kauth_cred_setuidgid_opts_out :
    ∃ (s1 s2 : CredStore) (e e' : ucred_rw),
      kauth_cred_create xnu (0, none) empty_store (template 501 501 501 0 1 [20] 20)
        = some (.addr 1, s1) ∧
      s1.deref 1 = some e ∧
      e.crw_cred.cr_posix.cr_flags &&& xnu.CRF_NOMEMBERD = 0 ∧
      e.crw_cred.cr_posix.cr_gmuid = 501 ∧
      kauth_cred_setuidgid xnu s1 1 502 20 = some (.addr 2, s2) ∧
      s2.deref 2 = some e' ∧
      e'.crw_cred.cr_posix.cr_uid = 502 ∧ e'.crw_cred.cr_posix.cr_ruid = 502 ∧
      e'.crw_cred.cr_posix.cr_svuid = 502 ∧
      e'.crw_cred.cr_posix.cr_groups.getD 0 0 = 20 ∧ e'.crw_cred.cr_posix.cr_rgid = 20 ∧
      e'.crw_cred.cr_posix.cr_svgid = 20 ∧ e'.crw_cred.cr_posix.cr_ngroups = 1 ∧
      e'.crw_cred.cr_posix.cr_gmuid = xnu.KAUTH_UID_NONE ∧
      e'.crw_cred.cr_posix.cr_gmuid ≠ 502 ∧
      e'.crw_cred.cr_posix.cr_flags &&& xnu.CRF_NOMEMBERD ≠ 0 := by
  refine ⟨_, _, _, _, rfl, rfl, ?_, ?_, rfl, rfl, ?_, ?_, ?_, ?_, ?_, ?_, ?_, ?_, ?_, ?_⟩ <;>
    decide

/-! ## The identity cache keeps UID and GID keys apart -/

/-- Setting bits of a mask that is disjoint from `b` does not change the bits under `b`. -/
theorem or_and_disjoint (v m b : Nat) (h : m &&& b = 0) : (v ||| m) &&& b = v &&& b := by
  rw [Nat.and_comm, Nat.and_or_distrib_left, Nat.and_comm b m, h, Nat.or_zero, Nat.and_comm]

/-- The entries after `modify_first` are old entries or the image of an old
entry that satisfies `p`. -/
theorem modify_first_mem {α : Type} (p : α → Bool) (f : α → α) :
    ∀ (l r : List α), modify_first p f l = some r →
      ∀ e ∈ r, e ∈ l ∨ ∃ x ∈ l, p x = true ∧ e = f x := by
  intro l
  induction l with
  | nil => intro r h; simp [modify_first] at h
  | cons x l ih =>
    intro r h e he
    unfold modify_first at h
    by_cases hp : p x = true
    · rw [if_pos hp] at h
      have hr : r = f x :: l := (Option.some.inj h).symm
      subst hr
      rcases List.mem_cons.mp he with rfl | hel
      · exact Or.inr ⟨x, List.mem_cons_self _ _, hp, rfl⟩
      · exact Or.inl (List.mem_cons_of_mem _ hel)
    · rw [if_neg hp] at h
      cases hm : modify_first p f l with
      | none => rw [hm] at h; simp at h
      | some r' =>
        rw [hm] at h
        have hr : r = x :: r' := (Option.some.inj h).symm
        subst hr
        rcases List.mem_cons.mp he with rfl | hel
        · exact Or.inl (List.mem_cons_self _ _)
        · rcases ih r' hm e hel with h1 | ⟨y, hy, hpy, hey⟩
          · exact Or.inl (List.mem_cons_of_mem _ h1)
          · exact Or.inr ⟨y, List.mem_cons_of_mem _ hy, hpy, hey⟩

/-- The entry taken out by `extract_first` and the entries left are old entries. -/
theorem extract_first_mem {α : Type} (p : α → Bool) :
    ∀ (l : List α) (x : α) (rest : List α), extract_first p l = some (x, rest) →
      x ∈ l ∧ p x = true ∧ ∀ e ∈ rest, e ∈ l := by
  intro l
  induction l with
  | nil => intro x rest h; simp [extract_first] at h
  | cons y l ih =>
    intro x rest h
    unfold extract_first at h
    by_cases hp : p y = true
    · rw [if_pos hp] at h
      have hh := Option.some.inj h
      have hx : y = x := congrArg Prod.fst hh
      have hr : l = rest := congrArg Prod.snd hh
      subst hx hr
      exact ⟨List.mem_cons_self _ _, hp, fun e he => List.mem_cons_of_mem _ he⟩
    · rw [if_neg hp] at h
      cases hm : extract_first p l with
      | none => rw [hm] at h; simp at h
      | some r' =>
        rw [hm] at h
        have hh := Option.some.inj h
        have hx : r'.1 = x := congrArg Prod.fst hh
        have hr : y :: r'.2 = rest := congrArg Prod.snd hh
        obtain ⟨h1, h2, h3⟩ := ih r'.1 r'.2 hm
        subst hx hr
        refine ⟨List.mem_cons_of_mem _ h1, h2, ?_⟩
        intro e he
        rcases List.mem_cons.mp he with rfl | hel
        · exact List.mem_cons_self _ _
        · exact List.mem_cons_of_mem _ (h3 e hel)

/-- Setting a non-key flag of `ki_valid` leaves the UID and GID flags as they are. -/
theorem ki_valid_or_key (v : Nat) :
    ((v ||| KI_VALID_GUID) &&& KI_VALID_UID = v &&& KI_VALID_UID ∧
     (v ||| KI_VALID_GUID) &&& KI_VALID_GID = v &&& KI_VALID_GID) ∧
    ((v ||| KI_VALID_NTSID) &&& KI_VALID_UID = v &&& KI_VALID_UID ∧
     (v ||| KI_VALID_NTSID) &&& KI_VALID_GID = v &&& KI_VALID_GID) ∧
    ((v ||| KI_VALID_PWNAM) &&& KI_VALID_UID = v &&& KI_VALID_UID ∧
     (v ||| KI_VALID_PWNAM) &&& KI_VALID_GID = v &&& KI_VALID_GID) ∧
    ((v ||| KI_VALID_GRNAM) &&& KI_VALID_UID = v &&& KI_VALID_UID ∧
     (v ||| KI_VALID_GRNAM) &&& KI_VALID_GID = v &&& KI_VALID_GID) ∧
    ((v ||| KI_VALID_GROUPS) &&& KI_VALID_UID = v &&& KI_VALID_UID ∧
     (v ||| KI_VALID_GROUPS) &&& KI_VALID_GID = v &&& KI_VALID_GID) :=
  ⟨⟨or_and_disjoint v _ _ (by decide), or_and_disjoint v _ _ (by decide)⟩,
   ⟨or_and_disjoint v _ _ (by decide), or_and_disjoint v _ _ (by decide)⟩,
   ⟨or_and_disjoint v _ _ (by decide), or_and_disjoint v _ _ (by decide)⟩,
   ⟨or_and_disjoint v _ _ (by decide), or_and_disjoint v _ _ (by decide)⟩,
   ⟨or_and_disjoint v _ _ (by decide), or_and_disjoint v _ _ (by decide)⟩⟩

/-- Entries with the same UID and GID flags are keyed alike. -/
theorem key_exclusive_of_bits (kip kip' : kauth_identity)
    (hb : kip'.ki_valid &&& KI_VALID_UID = kip.ki_valid &&& KI_VALID_UID ∧
      kip'.ki_valid &&& KI_VALID_GID = kip.ki_valid &&& KI_VALID_GID)
    (h : key_exclusive kip) : key_exclusive kip' := by
  unfold key_exclusive at *
  rw [hb.1, hb.2]
  exact h

/-- The merge of a registration keeps the UID and GID flags of the cached entry. -/
theorem kauth_identity_merge_bits (kip ip : kauth_identity) :
    (kauth_identity_merge kip ip).ki_valid &&& KI_VALID_UID = ip.ki_valid &&& KI_VALID_UID ∧
    (kauth_identity_merge kip ip).ki_valid &&& KI_VALID_GID = ip.ki_valid &&& KI_VALID_GID := by
  unfold kauth_identity_merge
  simp only
  split_ifs <;>
    simp only [(ki_valid_or_key _).1.1, (ki_valid_or_key _).1.2, (ki_valid_or_key _).2.1.1,
      (ki_valid_or_key _).2.1.2, and_self]

/-- The merge of a registration keeps the cached entry keyed by exactly one of UID and GID. -/
theorem kauth_identity_merge_key (kip ip : kauth_identity) (h : key_exclusive ip) :
    key_exclusive (kauth_identity_merge kip ip) :=
  key_exclusive_of_bits ip _ (kauth_identity_merge_bits kip ip) h

/-- The refresh of a user entry keeps its UID and GID flags. -/
theorem kauth_identity_refresh_user_bits (k : Platform) (now : Nat)
    (elp : kauth_identity_extlookup) (speculative_name : Option String) (kip : kauth_identity) :
    (kauth_identity_refresh_user k now elp speculative_name kip).ki_valid &&& KI_VALID_UID
      = kip.ki_valid &&& KI_VALID_UID ∧
    (kauth_identity_refresh_user k now elp speculative_name kip).ki_valid &&& KI_VALID_GID
      = kip.ki_valid &&& KI_VALID_GID := by
  unfold kauth_identity_refresh_user
  simp only
  split_ifs <;>
    simp only [(ki_valid_or_key _).1.1, (ki_valid_or_key _).1.2, (ki_valid_or_key _).2.1.1,
      (ki_valid_or_key _).2.1.2, (ki_valid_or_key _).2.2.1.1, (ki_valid_or_key _).2.2.1.2,
      (ki_valid_or_key _).2.2.2.2.1, (ki_valid_or_key _).2.2.2.2.2, and_self]

/-- The refresh of a group entry keeps its UID and GID flags. -/
theorem kauth_identity_refresh_group_bits (k : Platform) (now : Nat)
    (elp : kauth_identity_extlookup) (speculative_name : Option String) (kip : kauth_identity) :
    (kauth_identity_refresh_group k now elp speculative_name kip).ki_valid &&& KI_VALID_UID
      = kip.ki_valid &&& KI_VALID_UID ∧
    (kauth_identity_refresh_group k now elp speculative_name kip).ki_valid &&& KI_VALID_GID
      = kip.ki_valid &&& KI_VALID_GID := by
  unfold kauth_identity_refresh_group
  simp only
  split_ifs <;>
    simp only [(ki_valid_or_key _).1.1, (ki_valid_or_key _).1.2, (ki_valid_or_key _).2.1.1,
      (ki_valid_or_key _).2.1.2, (ki_valid_or_key _).2.2.2.1.1,
      (ki_valid_or_key _).2.2.2.1.2, and_self]

/-- The key flags after the first part of `kauth_identity_alloc`. -/
theorem kauth_identity_alloc_key_part_spec (k : Platform) (uid gid : Nat) (kip : kauth_identity)
    (h : kauth_identity_alloc_key_part k uid gid = some kip) :
    (kip.ki_valid &&& KI_VALID_UID ≠ 0 ↔ uid ≠ k.KAUTH_UID_NONE) ∧
    (kip.ki_valid &&& KI_VALID_GID ≠ 0 ↔ gid ≠ k.KAUTH_GID_NONE) ∧
    ¬ (uid ≠ k.KAUTH_UID_NONE ∧ gid ≠ k.KAUTH_GID_NONE) := by
  have hU : KI_VALID_UID &&& KI_VALID_UID ≠ 0 := by decide
  have hG : KI_VALID_GID &&& KI_VALID_GID ≠ 0 := by decide
  have hUG : KI_VALID_UID &&& KI_VALID_GID = 0 := by decide
  have hGU : KI_VALID_GID &&& KI_VALID_UID = 0 := by decide
  have h0U : 0 &&& KI_VALID_UID = 0 := by decide
  have h0G : 0 &&& KI_VALID_GID = 0 := by decide
  unfold kauth_identity_alloc_key_part at h
  simp only [kauth_identity.zero] at h
  by_cases hg : gid = k.KAUTH_GID_NONE <;> by_cases hu : uid = k.KAUTH_UID_NONE
  · simp only [hg, hu, ne_eq, not_true_eq_false, if_false] at h
    rw [← Option.some.inj h]
    simp only [h0U, h0G, hg, hu, ne_eq, not_true_eq_false, and_self, not_false_eq_true]
  · simp only [hg, hu, ne_eq, not_true_eq_false, not_false_eq_true, if_true, if_false,
      h0G] at h
    rw [← Option.some.inj h]
    simp only [hU, hUG, hg, hu, ne_eq, not_true_eq_false, not_false_eq_true, and_false,
      and_self]
  · simp only [hg, hu, ne_eq, not_true_eq_false, not_false_eq_true, if_true, if_false] at h
    rw [← Option.some.inj h]
    simp only [hG, hGU, hg, hu, ne_eq, not_true_eq_false, not_false_eq_true, false_and,
      and_self]
  · simp only [hg, hu, ne_eq, not_false_eq_true, if_true, hG] at h
    exact absurd h (by simp)

/-- The second part of `kauth_identity_alloc` keeps the key flags. -/
theorem kauth_identity_alloc_groups_part_spec (k : Platform) (kip kip' : kauth_identity)
    (supgrpcnt : Nat) (supgrps : Option (List Nat))
    (h : kauth_identity_alloc_groups_part k kip supgrpcnt supgrps = some (some kip')) :
    kip'.ki_valid &&& KI_VALID_UID = kip.ki_valid &&& KI_VALID_UID ∧
    kip'.ki_valid &&& KI_VALID_GID = kip.ki_valid &&& KI_VALID_GID := by
  unfold kauth_identity_alloc_groups_part at h
  split_ifs at h
  · exact absurd (Option.some.inj h) (by simp)
  · rw [← Option.some.inj (Option.some.inj h)]
    exact ⟨(ki_valid_or_key _).2.2.2.2.1, (ki_valid_or_key _).2.2.2.2.2⟩
  · rw [← Option.some.inj (Option.some.inj h)]
    exact ⟨rfl, rfl⟩

/-- The last part of `kauth_identity_alloc` keeps the key flags when the name
type is `KI_VALID_PWNAM` or `KI_VALID_GRNAM`. -/
theorem kauth_identity_alloc_fill_part_spec (kip : kauth_identity) (guidp : Option guid_t)
    (guid_expiry : Nat) (ntsidp : Option ntsid_t) (ntsid_expiry : Nat) (groups_expiry : Nat)
    (name : Option String) (nametype : Nat)
    (hnt : nametype = KI_VALID_PWNAM ∨ nametype = KI_VALID_GRNAM) :
    (kauth_identity_alloc_fill_part kip guidp guid_expiry ntsidp ntsid_expiry groups_expiry
        name nametype).ki_valid &&& KI_VALID_UID = kip.ki_valid &&& KI_VALID_UID ∧
    (kauth_identity_alloc_fill_part kip guidp guid_expiry ntsidp ntsid_expiry groups_expiry
        name nametype).ki_valid &&& KI_VALID_GID = kip.ki_valid &&& KI_VALID_GID := by
  unfold kauth_identity_alloc_fill_part
  rcases hnt with rfl | rfl <;> cases name <;> cases ntsidp <;> cases guidp <;>
    simp only [(ki_valid_or_key _).1.1, (ki_valid_or_key _).1.2, (ki_valid_or_key _).2.1.1,
      (ki_valid_or_key _).2.1.2, (ki_valid_or_key _).2.2.1.1, (ki_valid_or_key _).2.2.1.2,
      (ki_valid_or_key _).2.2.2.1.1, (ki_valid_or_key _).2.2.2.1.2, and_self]

/-- The key flags of an entry made by `kauth_identity_alloc` for a name type
`KI_VALID_PWNAM` or `KI_VALID_GRNAM`: the UID flag is set exactly when a UID
was given, the GID flag exactly when a GID was given, and not both were. -/
theorem kauth_identity_alloc_key (k : Platform) (uid gid : Nat) (guidp : Option guid_t)
    (guid_expiry : Nat) (ntsidp : Option ntsid_t) (ntsid_expiry : Nat) (supgrpcnt : Nat)
    (supgrps : Option (List Nat)) (groups_expiry : Nat) (name : Option String)
    (nametype : Nat) (kip : kauth_identity)
    (hnt : nametype = KI_VALID_PWNAM ∨ nametype = KI_VALID_GRNAM)
    (h : kauth_identity_alloc k uid gid guidp guid_expiry ntsidp ntsid_expiry supgrpcnt supgrps
      groups_expiry name nametype = some (some kip)) :
    (kip.ki_valid &&& KI_VALID_UID ≠ 0 ↔ uid ≠ k.KAUTH_UID_NONE) ∧
    (kip.ki_valid &&& KI_VALID_GID ≠ 0 ↔ gid ≠ k.KAUTH_GID_NONE) ∧
    ¬ (uid ≠ k.KAUTH_UID_NONE ∧ gid ≠ k.KAUTH_GID_NONE) := by
  unfold kauth_identity_alloc at h
  cases h1 : kauth_identity_alloc_key_part k uid gid with
  | none => rw [h1] at h; exact absurd h (by simp)
  | some kip1 =>
    rw [h1] at h
    simp only at h
    cases h2 : kauth_identity_alloc_groups_part k kip1 supgrpcnt supgrps with
    | none => rw [h2] at h; exact absurd h (by simp)
    | some r =>
      cases r with
      | none => rw [h2] at h; exact absurd h (by simp)
      | some kip2 =>
        rw [h2] at h
        simp only at h
        have hk := Option.some.inj (Option.some.inj h)
        obtain ⟨a1, a2, a3⟩ := kauth_identity_alloc_key_part_spec k uid gid kip1 h1
        obtain ⟨b1, b2⟩ := kauth_identity_alloc_groups_part_spec k kip1 kip2 supgrpcnt supgrps h2
        obtain ⟨c1, c2⟩ := kauth_identity_alloc_fill_part_spec kip2 guidp guid_expiry ntsidp
          ntsid_expiry groups_expiry name nametype hnt
        rw [← hk, c1, c2, b1, b2]
        exact ⟨a1, a2, a3⟩

/-- A registration that does not panic registers an entry keyed by exactly one
of UID and GID, and keeps every cached entry keyed that way. -/
theorem kauth_identity_register_and_free_keys (c c' : IdentityCache) (kip : kauth_identity)
    (hc : identity_keys_exclusive c)
    (h : kauth_identity_register_and_free c kip = some c') :
    key_exclusive kip ∧ identity_keys_exclusive c' := by
  unfold kauth_identity_register_and_free at h
  by_cases hboth : kip.ki_valid &&& KI_VALID_UID ≠ 0 ∧ kip.ki_valid &&& KI_VALID_GID ≠ 0
  · rw [if_pos hboth] at h; exact absurd h (by simp)
  · rw [if_neg hboth] at h
    by_cases hnone : kip.ki_valid &&& KI_VALID_UID = 0 ∧ kip.ki_valid &&& KI_VALID_GID = 0
    · rw [if_pos hnone] at h; exact absurd h (by simp)
    · rw [if_neg hnone] at h
      have hkip : key_exclusive kip := by
        unfold key_exclusive
        by_cases hu : kip.ki_valid &&& KI_VALID_UID = 0
        · right
          exact ⟨hu, fun hg => hnone ⟨hu, hg⟩⟩
        · left
          exact ⟨hu, by
            by_contra hg
            exact hboth ⟨hu, hg⟩⟩
      refine ⟨hkip, ?_⟩
      simp only at h
      have hmerge : ∀ (p : kauth_identity → Bool) (l : List kauth_identity),
          modify_first p (kauth_identity_merge kip) c.kauth_identities = some l →
          ∀ e ∈ l, key_exclusive e := by
        intro p l hl e he
        rcases modify_first_mem p _ _ l hl e he with h1 | ⟨x, hx, _, hex⟩
        · exact hc e h1
        · rw [hex]
          exact kauth_identity_merge_key kip x (hc x hx)
      have hins : ∀ e ∈ kip :: c.kauth_identities, key_exclusive e := by
        intro e he
        rcases List.mem_cons.mp he with rfl | hel
        · exact hkip
        · exact hc e hel
      split at h
      · rename_i l hfound
        have hc' := Option.some.inj h
        rw [← hc']
        intro e he
        split_ifs at hfound
        · exact hmerge _ l hfound e he
        · exact hmerge _ l hfound e he
      · split_ifs at h
        · rw [← Option.some.inj h]
          intro e he
          exact hins e (List.dropLast_subset _ he)
        · rw [← Option.some.inj h]
          exact hins

/-- Trimming only removes entries. -/
theorem kauth_identity_trimcache_loop_mem (newsize : Int) :
    ∀ (fuel : Nat) (c c' : IdentityCache),
      kauth_identity_trimcache_loop newsize fuel c = some c' →
      ∀ e ∈ c'.kauth_identities, e ∈ c.kauth_identities := by
  intro fuel
  induction fuel with
  | zero =>
    intro c c' h e he
    unfold kauth_identity_trimcache_loop at h
    split_ifs at h
    rw [← Option.some.inj h] at he
    exact he
  | succ fuel ih =>
    intro c c' h e he
    unfold kauth_identity_trimcache_loop at h
    split_ifs at h
    · split at h
      · exact absurd h (by simp)
      · have := ih _ c' h e he
        exact List.dropLast_subset _ this
    · rw [← Option.some.inj h] at he
      exact he

/-- A lookup only reorders the entries. -/
theorem kauth_identity_find_mem (p : kauth_identity → Bool) (c : IdentityCache) :
    ∀ e ∈ (kauth_identity_find p c).2.2.kauth_identities, e ∈ c.kauth_identities := by
  intro e he
  unfold kauth_identity_find at he
  cases hx : extract_first p c.kauth_identities with
  | none => rw [hx] at he; exact he
  | some r =>
    rw [hx] at he
    obtain ⟨h1, _, h3⟩ := extract_first_mem p c.kauth_identities r.1 r.2 hx
    rcases List.mem_cons.mp he with rfl | hel
    · exact h1
    · exact h3 e hel

/-- A registration of a UID-keyed entry that does not panic leaves the
GID-keyed entries as they were: every entry with the GID flag in the new cache
is an entry of the old cache. -/
theorem kauth_identity_register_and_free_gid (c c' : IdentityCache) (kip : kauth_identity)
    (hc : identity_keys_exclusive c) (hu : kip.ki_valid &&& KI_VALID_UID ≠ 0)
    (h : kauth_identity_register_and_free c kip = some c') :
    ∀ e ∈ c'.kauth_identities, e.ki_valid &&& KI_VALID_GID ≠ 0 → e ∈ c.kauth_identities := by
  have hkip := (kauth_identity_register_and_free_keys c c' kip hc h).1
  have hkg : kip.ki_valid &&& KI_VALID_GID = 0 := by
    rcases hkip with ⟨_, h2⟩ | ⟨h1, _⟩
    · exact h2
    · exact absurd h1 hu
  unfold kauth_identity_register_and_free at h
  have hboth : ¬ (kip.ki_valid &&& KI_VALID_UID ≠ 0 ∧ kip.ki_valid &&& KI_VALID_GID ≠ 0) :=
    fun hh => hh.2 hkg
  have hnone : ¬ (kip.ki_valid &&& KI_VALID_UID = 0 ∧ kip.ki_valid &&& KI_VALID_GID = 0) :=
    fun hh => hu hh.1
  rw [if_neg hboth, if_neg hnone] at h
  simp only [if_pos hu] at h
  intro e he heg
  split at h
  · rename_i l hfound
    rw [← Option.some.inj h] at he
    rcases modify_first_mem _ _ _ l hfound e he with h1 | ⟨x, hx, hpx, hex⟩
    · exact h1
    · exfalso
      have hxu : x.ki_valid &&& KI_VALID_UID ≠ 0 := by
        simp only [decide_eq_true_eq] at hpx
        exact hpx.1
      have hxg : x.ki_valid &&& KI_VALID_GID = 0 := by
        rcases hc x hx with ⟨_, h2⟩ | ⟨h1, _⟩
        · exact h2
        · exact absurd h1 hxu
      have hbits := kauth_identity_merge_bits kip x
      rw [← hex] at hbits
      rw [hbits.2] at heg
      exact heg hxg
  · have hins : ∀ e ∈ kip :: c.kauth_identities, e.ki_valid &&& KI_VALID_GID ≠ 0 →
        e ∈ c.kauth_identities := by
      intro e he heg
      rcases List.mem_cons.mp he with rfl | hel
      · exact absurd hkg heg
      · exact hel
    split_ifs at h
    · rw [← Option.some.inj h] at he
      exact hins e (List.dropLast_subset _ he) heg
    · rw [← Option.some.inj h] at he
      exact hins e he heg

/-- The user half of an upsert keeps the keys apart and leaves the GID-keyed
entries as they were. -/
theorem kauth_identity_updatecache_user_keys (k : Platform) (now : Nat) (c : IdentityCache)
    (elp : kauth_identity_extlookup) (speculative_name : Option String)
    (r : IdentityCache × Option kauth_identity)
    (hc : identity_keys_exclusive c)
    (h : kauth_identity_updatecache_user k now c elp speculative_name = some r) :
    identity_keys_exclusive r.1 ∧
    (∀ e ∈ r.1.kauth_identities, e.ki_valid &&& KI_VALID_GID ≠ 0 → e ∈ c.kauth_identities) := by
  unfold kauth_identity_updatecache_user at h
  split at h
  · rename_i kip rest hx
    obtain ⟨h1, h2, h3⟩ := extract_first_mem _ _ kip rest hx
    rw [← Option.some.inj h]
    have hbits := kauth_identity_refresh_user_bits k now elp speculative_name kip
    have hkip' := key_exclusive_of_bits kip _ hbits (hc kip h1)
    have hku : kip.ki_valid &&& KI_VALID_UID ≠ 0 := by
      simp only [decide_eq_true_eq] at h2
      exact h2.1
    refine ⟨?_, ?_⟩
    · intro e he
      rcases List.mem_cons.mp he with rfl | hel
      · exact hkip'
      · exact hc e (h3 e hel)
    · intro e he heg
      rcases List.mem_cons.mp he with rfl | hel
      · exfalso
        rcases hkip' with ⟨_, hg⟩ | ⟨hu0, _⟩
        · exact heg hg
        · rw [hbits.1] at hu0
          exact hku hu0
      · exact h3 e hel
  · split at h
    · exact absurd h (by simp)
    · rw [← Option.some.inj h]
      exact ⟨hc, fun e he _ => he⟩
    · rename_i kip halloc
      split at h
      · exact absurd h (by simp)
      · rename_i c1 hreg
        rw [← Option.some.inj h]
        have hk := kauth_identity_alloc_key k _ _ _ _ _ _ _ _ _ _ _ kip (Or.inl rfl) halloc
        have hgid : kip.ki_valid &&& KI_VALID_GID = 0 := by
          by_contra hg
          exact (hk.2.1.mp hg) rfl
        have hreg1 := kauth_identity_register_and_free_keys c c1 kip hc hreg
        have hku : kip.ki_valid &&& KI_VALID_UID ≠ 0 := by
          rcases hreg1.1 with ⟨hu, _⟩ | ⟨_, hg⟩
          · exact hu
          · exact absurd hgid hg
        exact ⟨hreg1.2, kauth_identity_register_and_free_gid c c1 kip hc hku hreg⟩

/-- The group half of an upsert keeps the keys apart. -/
theorem kauth_identity_updatecache_group_keys (k : Platform) (now : Nat) (c : IdentityCache)
    (elp : kauth_identity_extlookup) (speculative_name : Option String)
    (r : IdentityCache × Option kauth_identity)
    (hc : identity_keys_exclusive c)
    (h : kauth_identity_updatecache_group k now c elp speculative_name = some r) :
    identity_keys_exclusive r.1 := by
  unfold kauth_identity_updatecache_group at h
  split at h
  · rename_i kip rest hx
    obtain ⟨h1, _, h3⟩ := extract_first_mem _ _ kip rest hx
    rw [← Option.some.inj h]
    have hbits := kauth_identity_refresh_group_bits k now elp speculative_name kip
    have hkip' := key_exclusive_of_bits kip _ hbits (hc kip h1)
    intro e he
    rcases List.mem_cons.mp he with rfl | hel
    · exact hkip'
    · exact hc e (h3 e hel)
  · split at h
    · exact absurd h (by simp)
    · rw [← Option.some.inj h]
      exact hc
    · rename_i kip halloc
      split at h
      · exact absurd h (by simp)
      · rename_i c1 hreg
        rw [← Option.some.inj h]
        exact (kauth_identity_register_and_free_keys c c1 kip hc hreg).2

/-- An upsert that does not panic keeps the keys apart. -/
theorem kauth_identity_updatecache_keys (k : Platform) (now : Nat) (c : IdentityCache)
    (elp : kauth_identity_extlookup) (rkip : Bool) (extend_name : String)
    (r : IdentityCache × Option kauth_identity)
    (hc : identity_keys_exclusive c)
    (h : kauth_identity_updatecache k now c elp rkip extend_name = some r) :
    identity_keys_exclusive r.1 := by
  unfold kauth_identity_updatecache at h
  by_cases hu : elp.el_flags &&& k.KAUTH_EXTLOOKUP_VALID_UID ≠ 0
  · simp only [if_pos hu] at h
    obtain ⟨r1, hr1, hr⟩ := Option.map_eq_some'.mp h
    rw [← hr]
    exact (kauth_identity_updatecache_user_keys k now c elp _ r1 hc hr1).1
  · by_cases hg : elp.el_flags &&& k.KAUTH_EXTLOOKUP_VALID_GID ≠ 0
    · simp only [if_neg hu, if_pos hg] at h
      obtain ⟨r1, hr1, hr⟩ := Option.map_eq_some'.mp h
      rw [← hr]
      exact kauth_identity_updatecache_group_keys k now c elp _ r1 hc hr1
    · simp only [if_neg hu, if_neg hg] at h
      rw [← Option.some.inj h]
      exact hc

/-- Every operation on the identity cache that does not panic keeps the keys apart. -/
theorem identity_op_keys (k : Platform) (c c' : IdentityCache) (op : IdentityOp)
    (hc : identity_keys_exclusive c) (h : op.apply k c = some c') :
    identity_keys_exclusive c' := by
  cases op with
  | updatecache now elp rkip extend_name =>
    obtain ⟨r, hr, hr1⟩ := Option.map_eq_some'.mp h
    rw [← hr1]
    exact kauth_identity_updatecache_keys k now c elp rkip extend_name r hc hr
  | register_and_free kip => exact (kauth_identity_register_and_free_keys c c' kip hc h).2
  | trimcache newsize =>
    intro e he
    exact hc e (kauth_identity_trimcache_loop_mem newsize _ c c' h e he)
  | set_cachemax newsize =>
    intro e he
    exact hc e (kauth_identity_trimcache_loop_mem newsize _ _ c' h e he)
  | find_uid uid =>
    rw [← Option.some.inj h]
    intro e he
    exact hc e (kauth_identity_find_mem _ c e he)
  | find_gid gid =>
    rw [← Option.some.inj h]
    intro e he
    exact hc e (kauth_identity_find_mem _ c e he)
  | find_guid guid =>
    rw [← Option.some.inj h]
    intro e he
    exact hc e (kauth_identity_find_mem _ c e he)
  | find_ntsid ntsid =>
    rw [← Option.some.inj h]
    intro e he
    exact hc e (kauth_identity_find_mem _ c e he)
  | find_nam name valid =>
    rw [← Option.some.inj h]
    intro e he
    exact hc e (kauth_identity_find_mem _ c e he)

/-- Giving `kauth_identity_alloc` both a UID and a GID is a panic. -/
theorem kauth_identity_alloc_both_panics (k : Platform) (uid gid : Nat) (guidp : Option guid_t)
    (guid_expiry : Nat) (ntsidp : Option ntsid_t) (ntsid_expiry : Nat) (supgrpcnt : Nat)
    (supgrps : Option (List Nat)) (groups_expiry : Nat) (name : Option String)
    (nametype : Nat) (hu : uid ≠ k.KAUTH_UID_NONE) (hg : gid ≠ k.KAUTH_GID_NONE) :
    kauth_identity_alloc k uid gid guidp guid_expiry ntsidp ntsid_expiry supgrpcnt supgrps
      groups_expiry name nametype = none := by
  have hG : KI_VALID_GID &&& KI_VALID_GID ≠ 0 := by decide
  have h1 : kauth_identity_alloc_key_part k uid gid = none := by
    unfold kauth_identity_alloc_key_part
    simp only [kauth_identity.zero, if_pos hg, if_pos hu, if_pos hG]
  unfold kauth_identity_alloc
  rw [h1]

/-- Registering an entry with both key flags is a panic. -/
theorem kauth_identity_register_and_free_both_panics (c : IdentityCache) (kip : kauth_identity)
    (hu : kip.ki_valid &&& KI_VALID_UID ≠ 0) (hg : kip.ki_valid &&& KI_VALID_GID ≠ 0) :
    kauth_identity_register_and_free c kip = none := by
  unfold kauth_identity_register_and_free
  rw [if_pos ⟨hu, hg⟩]

/-- Every reachable state of the identity cache keeps the keys apart. -/
theorem identity_reachable_keys (k : Platform) (c : IdentityCache)
    (h : IdentityReachable k c) : identity_keys_exclusive c := by
  induction h with
  | init => intro e he; simp [IdentityCache.init] at he
  | step c c' op _ hop ih => exact identity_op_keys k c c' op ih hop

/-- C10 (mutual exclusivity of the UID and GID keys).
(1) In every state of the identity cache reached from the empty cache by
upserts, registrations, trims, changes of the bound and lookups, each entry has
exactly one of `KI_VALID_UID` and `KI_VALID_GID` set.
(2) `kauth_identity_alloc` panics when given both a UID and a GID, and, for
the name types its callers pass, never returns an entry with both flags.
(3) `kauth_identity_register_and_free` panics on an entry with both flags, and
whenever it returns the entry it registered has exactly one of them.
(4) `kauth_identity_updatecache` on a response flagged with both a valid UID and
a valid GID runs the user half only, and every GID-keyed entry of the
resulting cache is an unchanged entry of the cache before. -/
theorem identity_cache_mutual_exclusivity (k : Platform) :
    (∀ c, IdentityReachable k c → ∀ kip ∈ c.kauth_identities, key_exclusive kip) ∧
    (∀ (uid gid : Nat) (guidp : Option guid_t) (guid_expiry : Nat) (ntsidp : Option ntsid_t)
        (ntsid_expiry supgrpcnt : Nat) (supgrps : Option (List Nat)) (groups_expiry : Nat)
        (name : Option String) (nametype : Nat),
      (uid ≠ k.KAUTH_UID_NONE → gid ≠ k.KAUTH_GID_NONE →
        kauth_identity_alloc k uid gid guidp guid_expiry ntsidp ntsid_expiry supgrpcnt supgrps
          groups_expiry name nametype = none) ∧
      (nametype = KI_VALID_PWNAM ∨ nametype = KI_VALID_GRNAM →
        ∀ kip, kauth_identity_alloc k uid gid guidp guid_expiry ntsidp ntsid_expiry supgrpcnt
            supgrps groups_expiry name nametype = some (some kip) →
          ¬ (kip.ki_valid &&& KI_VALID_UID ≠ 0 ∧ kip.ki_valid &&& KI_VALID_GID ≠ 0))) ∧
    (∀ (c : IdentityCache) (kip : kauth_identity),
      (kip.ki_valid &&& KI_VALID_UID ≠ 0 → kip.ki_valid &&& KI_VALID_GID ≠ 0 →
        kauth_identity_register_and_free c kip = none) ∧
      (∀ c', kauth_identity_register_and_free c kip = some c' → key_exclusive kip)) ∧
    (∀ (now : Nat) (c : IdentityCache) (elp : kauth_identity_extlookup) (rkip : Bool)
        (extend_name : String),
      elp.el_flags &&& k.KAUTH_EXTLOOKUP_VALID_UID ≠ 0 →
      elp.el_flags &&& k.KAUTH_EXTLOOKUP_VALID_GID ≠ 0 →
      kauth_identity_updatecache k now c elp rkip extend_name =
        (kauth_identity_updatecache_user k now c elp
          (if elp.el_flags &&&
              (k.KAUTH_EXTLOOKUP_VALID_PWNAM ||| k.KAUTH_EXTLOOKUP_VALID_GRNAM) ≠ 0
           then some extend_name else none)).map
          (fun r => (r.1, if rkip then r.2 else none)) ∧
      (identity_keys_exclusive c →
        ∀ r, kauth_identity_updatecache k now c elp rkip extend_name = some r →
          ∀ e ∈ r.1.kauth_identities, e.ki_valid &&& KI_VALID_GID ≠ 0 →
            e ∈ c.kauth_identities)) := by
  refine ⟨?_, ?_, ?_, ?_⟩
  · intro c hc
    exact identity_reachable_keys k c hc
  · intro uid gid guidp guid_expiry ntsidp ntsid_expiry supgrpcnt supgrps groups_expiry name
      nametype
    refine ⟨?_, ?_⟩
    · intro hu hg
      exact kauth_identity_alloc_both_panics k uid gid guidp guid_expiry ntsidp ntsid_expiry
        supgrpcnt supgrps groups_expiry name nametype hu hg
    · intro hnt kip h hboth
      obtain ⟨h1, h2, h3⟩ := kauth_identity_alloc_key k uid gid guidp guid_expiry ntsidp
        ntsid_expiry supgrpcnt supgrps groups_expiry name nametype kip hnt h
      exact h3 ⟨h1.mp hboth.1, h2.mp hboth.2⟩
  · intro c kip
    refine ⟨?_, ?_⟩
    · intro hu hg
      exact kauth_identity_register_and_free_both_panics c kip hu hg
    · intro c' h
      -- the guards of the registration alone decide this
      unfold kauth_identity_register_and_free at h
      by_cases hboth : kip.ki_valid &&& KI_VALID_UID ≠ 0 ∧ kip.ki_valid &&& KI_VALID_GID ≠ 0
      · rw [if_pos hboth] at h; exact absurd h (by simp)
      · by_cases hnone : kip.ki_valid &&& KI_VALID_UID = 0 ∧ kip.ki_valid &&& KI_VALID_GID = 0
        · rw [if_neg hboth, if_pos hnone] at h; exact absurd h (by simp)
        · unfold key_exclusive
          by_cases hu : kip.ki_valid &&& KI_VALID_UID = 0
          · right
            exact ⟨hu, fun hg => hnone ⟨hu, hg⟩⟩
          · left
            exact ⟨hu, by
              by_contra hg
              exact hboth ⟨hu, hg⟩⟩
  · intro now c elp rkip extend_name hu hg
    have hdef : kauth_identity_updatecache k now c elp rkip extend_name =
        (kauth_identity_updatecache_user k now c elp
          (if elp.el_flags &&&
              (k.KAUTH_EXTLOOKUP_VALID_PWNAM ||| k.KAUTH_EXTLOOKUP_VALID_GRNAM) ≠ 0
           then some extend_name else none)).map
          (fun r => (r.1, if rkip then r.2 else none)) := by
      unfold kauth_identity_updatecache
      simp only [if_pos hu]
    refine ⟨hdef, ?_⟩
    intro hc r hr e he heg
    rw [hdef] at hr
    obtain ⟨r1, hr1, hr2⟩ := Option.map_eq_some'.mp hr
    rw [← hr2] at he
    exact (kauth_identity_updatecache_user_keys k now c elp _ r1 hc hr1).2 e he heg

/-- Witness for C10: the cache reached by writing `both_response` into the
empty cache has its entries keyed by exactly one of UID and GID. -/
theorem identity_cache_mutual_exclusivity_witness :
    ∀ kip ∈ both_cache.kauth_identities, key_exclusive kip :=
  (identity_cache_mutual_exclusivity xnu).1 both_cache
    (IdentityReachable.step IdentityCache.init both_cache
      (IdentityOp.updatecache 100 both_response false "") IdentityReachable.init (by decide))

/-! ## Lists: the first match taken out, and dropping from the tail -/

/-- What `extract_first` returns: the list splits at the first entry that
satisfies `p`. -/
theorem extract_first_spec {α : Type} (p : α → Bool) :
    ∀ (l : List α) (e : α) (r : List α), extract_first p l = some (e, r) →
      ∃ pre post, l = pre ++ e :: post ∧ r = pre ++ post ∧ p e = true ∧
        ∀ x ∈ pre, p x = false := by
  intro l
  induction l with
  | nil => intro e r h; simp [extract_first] at h
  | cons x l ih =>
    intro e r h
    unfold extract_first at h
    by_cases hp : p x = true
    · rw [if_pos hp] at h
      have h1 := Option.some.inj h
      have hx : x = e := congrArg Prod.fst h1
      have hl : l = r := congrArg Prod.snd h1
      subst hx; subst hl
      exact ⟨[], l, rfl, rfl, hp, by simp⟩
    · rw [if_neg hp] at h
      cases hm : extract_first p l with
      | none => rw [hm] at h; simp at h
      | some q =>
        rw [hm] at h
        have h1 := Option.some.inj h
        have he : q.1 = e := congrArg Prod.fst h1
        have hr : x :: q.2 = r := congrArg Prod.snd h1
        obtain ⟨pre, post, hl, hq, hpe, hpre⟩ := ih q.1 q.2 hm
        refine ⟨x :: pre, post, ?_, ?_, ?_, ?_⟩
        · rw [← he, hl]; rfl
        · rw [← hr, hq]; rfl
        · rw [← he]; exact hpe
        · intro y hy
          rcases List.mem_cons.mp hy with rfl | hy
          · simpa using hp
          · exact hpre y hy

/-- The function `extract_first` takes out the entry at which the list
splits, when no earlier entry satisfies `p`. -/
theorem extract_first_split {α : Type} (p : α → Bool) (e : α) (post : List α) :
    ∀ (pre : List α), (∀ x ∈ pre, p x = false) → p e = true →
      extract_first p (pre ++ e :: post) = some (e, pre ++ post) := by
  intro pre
  induction pre with
  | nil =>
    intro _ he
    show extract_first p (e :: post) = some (e, post)
    unfold extract_first
    rw [if_pos he]
  | cons x pre ih =>
    intro hpre he
    show extract_first p (x :: (pre ++ e :: post)) = some (e, x :: (pre ++ post))
    unfold extract_first
    have hx : p x = false := hpre x (List.mem_cons_self _ _)
    rw [if_neg (by simp [hx]), ih (fun y hy => hpre y (List.mem_cons_of_mem _ hy)) he]
    rfl

/-- The function `extract_first` finds an entry whenever one satisfies `p`. -/
theorem extract_first_isSome {α : Type} (p : α → Bool) :
    ∀ (l : List α), (∃ e ∈ l, p e = true) → ∃ q, extract_first p l = some q := by
  intro l
  induction l with
  | nil => intro h; obtain ⟨e, he, _⟩ := h; simp at he
  | cons x l ih =>
    intro h
    unfold extract_first
    by_cases hp : p x = true
    · rw [if_pos hp]; exact ⟨_, rfl⟩
    · rw [if_neg hp]
      obtain ⟨e, he, hpe⟩ := h
      rcases List.mem_cons.mp he with rfl | he
      · exact absurd hpe hp
      · obtain ⟨q, hq⟩ := ih ⟨e, he, hpe⟩
        rw [hq]; exact ⟨_, rfl⟩

/-- The function `extract_first` finds nothing when no entry satisfies `p`. -/
theorem extract_first_none {α : Type} (p : α → Bool) :
    ∀ (l : List α), (∀ e ∈ l, p e = false) → extract_first p l = none := by
  intro l
  induction l with
  | nil => intro _; rfl
  | cons x l ih =>
    intro h
    unfold extract_first
    have hx : p x = false := h x (List.mem_cons_self _ _)
    rw [if_neg (by simp [hx]), ih (fun e he => h e (List.mem_cons_of_mem _ he))]
    rfl

/-- The function `modify_first` finds nothing when no entry satisfies `p`. -/
theorem modify_first_none {α : Type} (p : α → Bool) (f : α → α) :
    ∀ (l : List α), (∀ e ∈ l, p e = false) → modify_first p f l = none := by
  intro l
  induction l with
  | nil => intro _; rfl
  | cons x l ih =>
    intro h
    unfold modify_first
    have hx : p x = false := h x (List.mem_cons_self _ _)
    rw [if_neg (by simp [hx]), ih (fun e he => h e (List.mem_cons_of_mem _ he))]
    rfl

/-- Dropping the last entry of a list longer than `m` keeps its first `m` entries. -/
theorem take_dropLast_of_lt {α : Type} (l : List α) (m : Nat) (h : m < l.length) :
    l.dropLast.take m = l.take m := by
  rw [List.dropLast_eq_take, List.take_take]
  congr 1
  omega

/-! ## Trimming the caches -/

/-- The loop of `kauth_identity_trimcache` on a cache whose counter is the
number of entries: with enough fuel and a bound that is not negative, it keeps
the first `newsize` entries. -/
theorem kauth_identity_trimcache_loop_spec (newsize : Int) (h0 : 0 ≤ newsize) :
    ∀ (fuel : Nat) (c : IdentityCache),
      c.kauth_identity_count = (c.kauth_identities.length : Int) →
      c.kauth_identities.length < fuel + newsize.toNat + 1 →
      kauth_identity_trimcache_loop newsize fuel c =
        some { c with kauth_identities := c.kauth_identities.take newsize.toNat,
                      kauth_identity_count := min c.kauth_identity_count newsize } := by
  intro fuel
  induction fuel with
  | zero =>
    intro c hc hf
    unfold kauth_identity_trimcache_loop
    have hle : ¬ c.kauth_identity_count > newsize := by omega
    rw [if_neg hle, List.take_of_length_le (by omega), min_eq_left (by omega)]
  | succ fuel ih =>
    intro c hc hf
    unfold kauth_identity_trimcache_loop
    by_cases hgt : c.kauth_identity_count > newsize
    · rw [if_pos hgt]
      cases hl : c.kauth_identities with
      | nil => rw [hl] at hc; simp at hc; omega
      | cons x l =>
        simp only []
        rw [hl] at hc hf
        have hlen : (x :: l).dropLast.length = (x :: l).length - 1 := List.length_dropLast _
        rw [ih _ (by simp only [hlen]; simp at hc ⊢; omega)
          (by simp only [hlen]; simp at hf ⊢; omega)]
        simp only []
        rw [take_dropLast_of_lt _ _ (by simp at hc ⊢; omega), min_eq_right (by omega),
          min_eq_right (by omega)]
    · rw [if_neg hgt, List.take_of_length_le (by omega), min_eq_left (by omega)]

/-- The loop of `kauth_groups_trimcache` on a cache whose counter is the
number of entries: with enough fuel and a bound that is not negative, it keeps
the first `new_size` entries. -/
theorem kauth_groups_trimcache_loop_spec (new_size : Int) (h0 : 0 ≤ new_size) :
    ∀ (fuel : Nat) (g : GroupsCache),
      g.kauth_groups_count = (g.kauth_groups.length : Int) →
      g.kauth_groups.length < fuel + new_size.toNat + 1 →
      kauth_groups_trimcache_loop new_size fuel g =
        some { g with kauth_groups := g.kauth_groups.take new_size.toNat,
                      kauth_groups_count := min g.kauth_groups_count new_size } := by
  intro fuel
  induction fuel with
  | zero =>
    intro g hc hf
    unfold kauth_groups_trimcache_loop
    have hle : ¬ g.kauth_groups_count > new_size := by omega
    rw [if_neg hle, List.take_of_length_le (by omega), min_eq_left (by omega)]
  | succ fuel ih =>
    intro g hc hf
    unfold kauth_groups_trimcache_loop
    by_cases hgt : g.kauth_groups_count > new_size
    · rw [if_pos hgt]
      cases hl : g.kauth_groups with
      | nil => rw [hl] at hc; simp at hc; omega
      | cons x l =>
        simp only []
        rw [hl] at hc hf
        have hlen : (x :: l).dropLast.length = (x :: l).length - 1 := List.length_dropLast _
        rw [ih _ (by simp only [hlen]; simp at hc ⊢; omega)
          (by simp only [hlen]; simp at hf ⊢; omega)]
        simp only []
        rw [take_dropLast_of_lt _ _ (by simp at hc ⊢; omega), min_eq_right (by omega),
          min_eq_right (by omega)]
    · rw [if_neg hgt, List.take_of_length_le (by omega), min_eq_left (by omega)]

/-- The function `kauth_identity_trimcache` on a cache whose counter is the
number of entries, for a bound that is not negative. -/
theorem kauth_identity_trimcache_spec (c : IdentityCache) (newsize : Int) (h0 : 0 ≤ newsize)
    (hc : c.kauth_identity_count = (c.kauth_identities.length : Int)) :
    kauth_identity_trimcache c newsize =
      some { c with kauth_identities := c.kauth_identities.take newsize.toNat,
                    kauth_identity_count := min c.kauth_identity_count newsize } :=
  kauth_identity_trimcache_loop_spec newsize h0 _ c hc (by omega)

/-- The function `kauth_groups_trimcache` on a cache whose counter is the
number of entries, for a bound that is not negative. -/
theorem kauth_groups_trimcache_spec (g : GroupsCache) (new_size : Int) (h0 : 0 ≤ new_size)
    (hc : g.kauth_groups_count = (g.kauth_groups.length : Int)) :
    kauth_groups_trimcache g new_size =
      some { g with kauth_groups := g.kauth_groups.take new_size.toNat,
                    kauth_groups_count := min g.kauth_groups_count new_size } :=
  kauth_groups_trimcache_loop_spec new_size h0 _ g hc (by omega)

/-- Taking `min(n, m)` entries of a list of `n` entries is taking `m`. -/
theorem take_min_length {α : Type} (l : List α) (m : Nat) :
    l.take (min l.length m) = l.take m := by
  by_cases h : m ≤ l.length
  · rw [min_eq_right h]
  · rw [min_eq_left (by omega), List.take_of_length_le (le_refl _),
      List.take_of_length_le (by omega)]

/-- C14 (trim).  On a cache whose counter is its number `n` of entries, and
for a bound `m` that is not negative, `kauth_identity_trimcache(m)` and
`kauth_groups_trimcache(m)` return, keep exactly the first `min(n, m)` entries
of the list in their order and set the counter to `min(n, m)`; the
`KAUTH_CLEAR_CACHES` branch of `identitysvc` (both trims with `m = 0`) leaves
both caches empty with their counters at 0. -/
theorem trimcache_keeps_most_recent (c : IdentityCache) (g : GroupsCache) (m : Int)
    (hm : 0 ≤ m) (hc : c.kauth_identity_count = (c.kauth_identities.length : Int))
    (hg : g.kauth_groups_count = (g.kauth_groups.length : Int)) :
    kauth_identity_trimcache c m =
      some { c with
        kauth_identities := c.kauth_identities.take (min c.kauth_identities.length m.toNat)
        kauth_identity_count := ((min c.kauth_identities.length m.toNat : Nat) : Int) } ∧
    kauth_groups_trimcache g m =
      some { g with
        kauth_groups := g.kauth_groups.take (min g.kauth_groups.length m.toNat)
        kauth_groups_count := ((min g.kauth_groups.length m.toNat : Nat) : Int) } ∧
    ∀ r : ResolverState,
      identitysvc_clear_caches { resolver := r, identity := c, groups := g } =
        some { resolver := r
               identity := { c with kauth_identities := [], kauth_identity_count := 0 }
               groups := { g with kauth_groups := [], kauth_groups_count := 0 } } := by
  have e1 : ∀ (n : Nat), ((min n m.toNat : Nat) : Int) = min (n : Int) m := by
    intro n; omega
  refine ⟨?_, ?_, ?_⟩
  · rw [kauth_identity_trimcache_spec c m hm hc, hc, e1, take_min_length]
  · rw [kauth_groups_trimcache_spec g m hm hg, hg, e1, take_min_length]
  · intro r
    unfold identitysvc_clear_caches
    simp only []
    rw [kauth_identity_trimcache_spec c 0 (le_refl _) hc,
      kauth_groups_trimcache_spec g 0 (le_refl _) hg]
    simp only [Int.toNat_zero, List.take_zero]
    rw [hc, hg, min_eq_right (by omega), min_eq_right (by omega)]

/-- Witness for C14: the three-entry caches trimmed to two entries, and cleared. -/
theorem trimcache_keeps_most_recent_witness :
    kauth_identity_trimcache (three_cache 100) 2 =
      some { kauth_identities := [uid_entry 501, uid_entry 502], kauth_identity_count := 2,
             kauth_identity_cachemax := 100 } ∧
    kauth_groups_trimcache three_groups 2 =
      some { three_groups with
        kauth_groups := three_groups.kauth_groups.take 2, kauth_groups_count := 2 } ∧
    ∀ r : ResolverState,
      identitysvc_clear_caches { resolver := r, identity := three_cache 100, groups := three_groups } =
        some { resolver := r
               identity := { three_cache 100 with kauth_identities := [], kauth_identity_count := 0 }
               groups := { three_groups with kauth_groups := [], kauth_groups_count := 0 } } :=
  trimcache_keeps_most_recent (three_cache 100) three_groups 2 (by decide) rfl rfl

/-! ## Lookups of the identity cache -/

/-- A hit of the common body of the lookups: the first entry that satisfies
`p` moves to the head, the others keep their order, and nothing else changes. -/
theorem kauth_identity_find_hit (p : kauth_identity → Bool) (c : IdentityCache)
    (hit : ∃ e ∈ c.kauth_identities, p e = true) :
    ∃ pre kip post, c.kauth_identities = pre ++ kip :: post ∧ (∀ x ∈ pre, p x = false) ∧
      p kip = true ∧
      kauth_identity_find p c =
        (0, some kip, { c with kauth_identities := kip :: (pre ++ post) }) := by
  obtain ⟨q, hq⟩ := extract_first_isSome p c.kauth_identities hit
  obtain ⟨pre, post, hl, hr, hp, hpre⟩ := extract_first_spec p c.kauth_identities q.1 q.2 hq
  refine ⟨pre, q.1, post, hl, hpre, hp, ?_⟩
  unfold kauth_identity_find
  rw [hq, ← hr]

/-- Each lookup is the common body run with its own test. -/
theorem lookup_run_eq (c : IdentityCache) (q : Lookup) :
    q.run c = kauth_identity_find q.hit c := by
  cases q <;> rfl

/-- The function `kauth_identity_register_and_free` on an entry with one key
that no cached entry has: the entry goes to the head, and the last entry of the
list is taken off when the counter passes the bound. -/
theorem kauth_identity_register_and_free_insert (c : IdentityCache) (kip : kauth_identity)
    (hk : key_exclusive kip)
    (hnew : ∀ ip ∈ c.kauth_identities, identity_key_match kip ip = false) :
    kauth_identity_register_and_free c kip =
      some (if c.kauth_identity_count + 1 > c.kauth_identity_cachemax then
          { c with kauth_identities := (kip :: c.kauth_identities).dropLast }
        else { c with kauth_identities := kip :: c.kauth_identities,
                      kauth_identity_count := c.kauth_identity_count + 1 }) := by
  unfold kauth_identity_register_and_free
  rcases hk with ⟨hu, hg⟩ | ⟨hu, hg⟩
  · rw [if_neg (by simp [hg]), if_neg (by simp [hu])]
    simp only [if_pos hu]
    rw [modify_first_none _ _ _ (by
      intro ip hip
      have := hnew ip hip
      unfold identity_key_match at this
      rw [if_pos hu] at this
      exact this)]
    simp only [Int.add_sub_cancel]
    split_ifs <;> rfl
  · rw [if_neg (by simp [hu]), if_neg (by simp [hg])]
    simp only [if_neg (not_not.mpr hu)]
    rw [modify_first_none _ _ _ (by
      intro ip hip
      have := hnew ip hip
      unfold identity_key_match at this
      rw [if_neg (not_not.mpr hu)] at this
      exact this)]
    simp only [Int.add_sub_cancel]
    split_ifs <;> rfl

/-- C11 (lookups promote on every hit).  When a lookup
(`kauth_identity_find_uid`, `_gid`, `_guid`, `_ntsid` or `_nam`) matches an
entry of the cache, it returns 0 and the first matching entry `kip`; afterwards
`kip` is first in the list, the other entries keep their relative order, and the
counter and the bound are unchanged.  The lookups read no clock, so this holds
whatever the expiry times of the entry are.  Consequently, on a cache of at
least two entries, a registration of an entry with a new key that takes the
counter past the bound right after the lookup returns the list with the new
entry first, `kip` second, and the last of the other entries removed: the
evicted entry is not the one just looked up. -/
theorem kauth_identity_find_promotes (c : IdentityCache) (q : Lookup)
    (hit : ∃ e ∈ c.kauth_identities, q.hit e = true) :
    ∃ pre kip post, c.kauth_identities = pre ++ kip :: post ∧ (∀ x ∈ pre, q.hit x = false) ∧
      q.hit kip = true ∧
      q.run c = (0, some kip, { c with kauth_identities := kip :: (pre ++ post) }) ∧
      ∀ new : kauth_identity, key_exclusive new →
        (∀ ip ∈ c.kauth_identities, identity_key_match new ip = false) →
        2 ≤ c.kauth_identities.length →
        c.kauth_identity_count + 1 > c.kauth_identity_cachemax →
        kauth_identity_register_and_free (q.run c).2.2 new =
          some { c with kauth_identities := new :: kip :: (pre ++ post).dropLast } := by
  obtain ⟨pre, kip, post, hl, hpre, hp, hfind⟩ := kauth_identity_find_hit q.hit c hit
  refine ⟨pre, kip, post, hl, hpre, hp, ?_, ?_⟩
  · rw [lookup_run_eq, hfind]
  · intro new hk hnew hlen hover
    rw [lookup_run_eq, hfind]
    have hne : pre ++ post ≠ [] := by
      intro h
      have h1 : (pre ++ post).length = 0 := by rw [h]; rfl
      rw [List.length_append] at h1
      rw [hl] at hlen
      simp only [List.length_append, List.length_cons] at hlen
      omega
    rw [kauth_identity_register_and_free_insert _ _ hk (by
      intro ip hip
      apply hnew ip
      rw [hl]
      simp only [List.mem_cons, List.mem_append] at hip ⊢
      tauto)]
    simp only []
    rw [if_pos hover, List.dropLast_cons_of_ne_nil (by simp),
      List.dropLast_cons_of_ne_nil hne]

set_option maxRecDepth 100000 in
/-- Witness for C11: the full three-entry cache, the lookup of uid 503 (its
least recently used entry) and the registration of uid 504 right after it. -/
theorem kauth_identity_find_promotes_witness :
    (key_exclusive (uid_entry 504) ∧
      (∀ ip ∈ (three_cache 3).kauth_identities, identity_key_match (uid_entry 504) ip = false) ∧
      2 ≤ (three_cache 3).kauth_identities.length ∧
      (three_cache 3).kauth_identity_count + 1 > (three_cache 3).kauth_identity_cachemax) ∧
    ∃ pre kip post, (three_cache 3).kauth_identities = pre ++ kip :: post ∧
      (∀ x ∈ pre, (Lookup.find_uid 503).hit x = false) ∧
      (Lookup.find_uid 503).hit kip = true ∧
      (Lookup.find_uid 503).run (three_cache 3) =
        (0, some kip, { three_cache 3 with kauth_identities := kip :: (pre ++ post) }) ∧
      ∀ new : kauth_identity, key_exclusive new →
        (∀ ip ∈ (three_cache 3).kauth_identities, identity_key_match new ip = false) →
        2 ≤ (three_cache 3).kauth_identities.length →
        (three_cache 3).kauth_identity_count + 1 > (three_cache 3).kauth_identity_cachemax →
        kauth_identity_register_and_free ((Lookup.find_uid 503).run (three_cache 3)).2.2 new =
          some { three_cache 3 with kauth_identities := new :: kip :: (pre ++ post).dropLast } :=
  ⟨⟨Or.inl (by decide), by decide, by decide, by decide⟩,
    kauth_identity_find_promotes (three_cache 3) (.find_uid 503)
      ⟨uid_entry 503, by decide, by decide⟩⟩

/-! ## The bound of the caches -/

/-- The scan of `kauth_cred_ismember_gid`: a hit of an entry that has not
expired moves it to the head; without such an entry the cache is untouched. -/
theorem kauth_cred_ismember_gid_scan_spec (now : Nat) (g : GroupsCache) (pcred : posix_cred)
    (gid : Nat) :
    ((∃ gm ∈ g.kauth_groups, gm.gm_uid = pcred.cr_gmuid ∧ gm.gm_gid = gid ∧
        kauth_groups_expired now gm = false) →
      ∃ pre gm post, g.kauth_groups = pre ++ gm :: post ∧
        (gm.gm_uid = pcred.cr_gmuid ∧ gm.gm_gid = gid ∧ kauth_groups_expired now gm = false) ∧
        (∀ x ∈ pre, ¬ (x.gm_uid = pcred.cr_gmuid ∧ x.gm_gid = gid ∧
          kauth_groups_expired now x = false)) ∧
        kauth_cred_ismember_gid_scan now g pcred gid =
          (some gm, { g with kauth_groups := gm :: (pre ++ post) })) ∧
    ((∀ gm ∈ g.kauth_groups, gm.gm_uid = pcred.cr_gmuid → gm.gm_gid = gid →
        kauth_groups_expired now gm = true) →
      kauth_cred_ismember_gid_scan now g pcred gid = (none, g)) := by
  refine ⟨?_, ?_⟩
  · intro hit
    obtain ⟨q, hq⟩ := extract_first_isSome
      (fun gm => decide (gm.gm_uid = pcred.cr_gmuid ∧ gm.gm_gid = gid) &&
        !kauth_groups_expired now gm) g.kauth_groups (by
        obtain ⟨gm, hgm, h1, h2, h3⟩ := hit
        exact ⟨gm, hgm, by simp [h1, h2, h3]⟩)
    obtain ⟨pre, post, hl, hr, hp, hpre⟩ := extract_first_spec _ g.kauth_groups q.1 q.2 hq
    refine ⟨pre, q.1, post, hl, ?_, ?_, ?_⟩
    · simpa [and_assoc] using hp
    · intro x hx hcon
      have := hpre x hx
      simp [hcon.1, hcon.2.1, hcon.2.2] at this
    · unfold kauth_cred_ismember_gid_scan
      rw [hq, ← hr]
  · intro hexp
    unfold kauth_cred_ismember_gid_scan
    rw [extract_first_none _ _ (by
      intro gm hgm
      by_cases hk : gm.gm_uid = pcred.cr_gmuid ∧ gm.gm_gid = gid
      · simp [hk, hexp gm hgm hk.1 hk.2]
      · simp [hk])]

/-- The function `kauth_groups_updatecache` on a response with a key that a
cached entry has: the first entry with the key is rewritten and moved to the
head, whatever its expiry time. -/
theorem kauth_groups_updatecache_hit (k : Platform) (now garbage : Nat) (g : GroupsCache)
    (el : kauth_identity_extlookup)
    (hflags : el.el_flags &&& (k.KAUTH_EXTLOOKUP_VALID_UID ||| k.KAUTH_EXTLOOKUP_VALID_GID |||
        k.KAUTH_EXTLOOKUP_VALID_MEMBERSHIP) =
      k.KAUTH_EXTLOOKUP_VALID_UID ||| k.KAUTH_EXTLOOKUP_VALID_GID |||
        k.KAUTH_EXTLOOKUP_VALID_MEMBERSHIP)
    (hit : ∃ gm ∈ g.kauth_groups, el.el_uid = gm.gm_uid ∧ el.el_gid = gm.gm_gid) :
    ∃ pre gm post, g.kauth_groups = pre ++ gm :: post ∧
      (el.el_uid = gm.gm_uid ∧ el.el_gid = gm.gm_gid) ∧
      (∀ x ∈ pre, ¬ (el.el_uid = x.gm_uid ∧ el.el_gid = x.gm_gid)) ∧
      kauth_groups_updatecache k now garbage g el =
        { g with kauth_groups := kauth_groups_refresh k now el gm :: (pre ++ post) } := by
  obtain ⟨q, hq⟩ := extract_first_isSome
    (fun gm => decide (el.el_uid = gm.gm_uid ∧ el.el_gid = gm.gm_gid)) g.kauth_groups (by
      obtain ⟨gm, hgm, h1⟩ := hit
      exact ⟨gm, hgm, by simp [h1]⟩)
  obtain ⟨pre, post, hl, hr, hp, hpre⟩ := extract_first_spec _ g.kauth_groups q.1 q.2 hq
  refine ⟨pre, q.1, post, hl, by simpa using hp, ?_, ?_⟩
  · intro x hx hcon
    have := hpre x hx
    simp [hcon] at this
  · unfold kauth_groups_updatecache
    simp only []
    rw [if_neg (not_not.mpr hflags), hq, ← hr]

/-- The lookup of the group membership cache, as the code has it.  With a
resolver registered, `kauth_cred_ismember_gid` promotes the first cached entry
with the key `(cr_gmuid, gid)` that has not expired, and answers from it.  When
every entry with the key has expired, the scan leaves the cache untouched and
the resolver is asked: if that call fails the cache stays as it was, the
expired entry where it was; if it succeeds the cache is what
`kauth_groups_updatecache` makes of the answer, and that function, given the
three valid flags and the key of a cached entry, rewrites the first entry with
the key and moves it to the head whatever its expiry time. -/
theorem kauth_cred_ismember_gid_promotes_unexpired (k : Platform) (registered now pid : Nat)
    (submit : kauth_identity_extlookup → Nat × kauth_identity_extlookup) (later garbage : Nat)
    (g : GroupsCache) (pcred : posix_cred) (gid : Nat) (hreg : registered ≠ 0) :
    ((∃ gm ∈ g.kauth_groups, gm.gm_uid = pcred.cr_gmuid ∧ gm.gm_gid = gid ∧
        kauth_groups_expired now gm = false) →
      ∃ pre gm post, g.kauth_groups = pre ++ gm :: post ∧
        (gm.gm_uid = pcred.cr_gmuid ∧ gm.gm_gid = gid ∧ kauth_groups_expired now gm = false) ∧
        (∀ x ∈ pre, ¬ (x.gm_uid = pcred.cr_gmuid ∧ x.gm_gid = gid ∧
          kauth_groups_expired now x = false)) ∧
        kauth_cred_ismember_gid_resolver k registered now pid submit later garbage g pcred gid =
          ((0, some (if gm.gm_flags &&& KAUTH_GROUP_ISMEMBER ≠ 0 then 1 else 0)),
            { g with kauth_groups := gm :: (pre ++ post) })) ∧
    ((∀ gm ∈ g.kauth_groups, gm.gm_uid = pcred.cr_gmuid → gm.gm_gid = gid →
        kauth_groups_expired now gm = true) →
      ((submit (kauth_cred_ismember_gid_request k pid pcred gid)).1 ≠ 0 →
        kauth_cred_ismember_gid_resolver k registered now pid submit later garbage g pcred gid =
          (((submit (kauth_cred_ismember_gid_request k pid pcred gid)).1, none), g)) ∧
      ((submit (kauth_cred_ismember_gid_request k pid pcred gid)).1 = 0 →
        (kauth_cred_ismember_gid_resolver k registered now pid submit later garbage g pcred
            gid).2 =
          kauth_groups_updatecache k later garbage g
            (submit (kauth_cred_ismember_gid_request k pid pcred gid)).2)) ∧
    (∀ el : kauth_identity_extlookup,
      el.el_flags &&& (k.KAUTH_EXTLOOKUP_VALID_UID ||| k.KAUTH_EXTLOOKUP_VALID_GID |||
          k.KAUTH_EXTLOOKUP_VALID_MEMBERSHIP) =
        k.KAUTH_EXTLOOKUP_VALID_UID ||| k.KAUTH_EXTLOOKUP_VALID_GID |||
          k.KAUTH_EXTLOOKUP_VALID_MEMBERSHIP →
      (∃ gm ∈ g.kauth_groups, el.el_uid = gm.gm_uid ∧ el.el_gid = gm.gm_gid) →
      ∃ pre gm post, g.kauth_groups = pre ++ gm :: post ∧
        (el.el_uid = gm.gm_uid ∧ el.el_gid = gm.gm_gid) ∧
        (∀ x ∈ pre, ¬ (el.el_uid = x.gm_uid ∧ el.el_gid = x.gm_gid)) ∧
        kauth_groups_updatecache k later garbage g el =
          { g with kauth_groups := kauth_groups_refresh k later el gm :: (pre ++ post) }) := by
  refine ⟨?_, ?_, ?_⟩
  · intro hit
    obtain ⟨pre, gm, post, hl, hgm, hpre, hscan⟩ :=
      (kauth_cred_ismember_gid_scan_spec now g pcred gid).1 hit
    refine ⟨pre, gm, post, hl, hgm, hpre, ?_⟩
    unfold kauth_cred_ismember_gid_resolver
    rw [if_neg hreg, hscan]
  · intro hexp
    have hscan := (kauth_cred_ismember_gid_scan_spec now g pcred gid).2 hexp
    refine ⟨?_, ?_⟩
    · intro herr
      unfold kauth_cred_ismember_gid_resolver
      rw [if_neg hreg, hscan]
      simp only []
      rw [if_pos herr]
    · intro herr
      unfold kauth_cred_ismember_gid_resolver
      rw [if_neg hreg, hscan]
      simp only []
      rw [if_neg (not_not.mpr herr)]
      split_ifs <;> rfl
  · intro el hflags hit
    exact kauth_groups_updatecache_hit k later garbage g el hflags hit

set_option maxRecDepth 100000 in
/-- An instance of the lemma above: uid 501 looked up in group 30 at uptime 100,
when the only entry with that key expired at uptime 10, with a resolver that
answers:
the cache afterwards is the one `kauth_groups_updatecache` makes of the answer. -/
theorem kauth_cred_ismember_gid_promotes_unexpired_witness :
    (∀ gm ∈ three_groups.kauth_groups, gm.gm_uid = member_cred.cr_gmuid → gm.gm_gid = 30 →
      kauth_groups_expired 100 gm = true) ∧
    (kauth_cred_ismember_gid_resolver xnu 1 100 77 submit_member 160 0 three_groups member_cred
        30).2 =
      kauth_groups_updatecache xnu 160 0 three_groups
        (submit_member (kauth_cred_ismember_gid_request xnu 77 member_cred 30)).2 :=
  ⟨by decide,
    ((kauth_cred_ismember_gid_promotes_unexpired xnu 1 100 77 submit_member 160 0 three_groups
      member_cred 30 (by decide)).2.1 (by decide)).2 rfl⟩

set_option maxRecDepth 100000 in
/-- C12 (lookups of the group membership cache promote), what the code does.
The cache holds, in second place, an entry for uid 501 and group 30 that
expired at uptime 10.  At uptime 100, with a resolver registered that does not
answer in time, `kauth_cred_ismember_gid` for that key returns `EWOULDBLOCK` and
leaves the list as it was: the entry found by its key is still in second place,
because the scan asks for an unexpired entry before it calls
`kauth_groups_lru`.  At uptime 5, when the same entry has not expired, the same
call moves it to the head.  The lookup of the identity cache moves an entry
whose GUID has expired to the head. -/
theorem kauth_cred_ismember_gid_expired_not_promoted :
    three_groups.kauth_groups.get? 1 =
      some { gm_uid := 501, gm_gid := 30, gm_expiry := 10, gm_flags := 1 } ∧
    kauth_groups_expired 100 { gm_uid := 501, gm_gid := 30, gm_expiry := 10, gm_flags := 1 } =
      true ∧
    kauth_cred_ismember_gid_resolver xnu 1 100 77 submit_timeout 100 0 three_groups member_cred
        30 = ((35, none), three_groups) ∧
    kauth_cred_ismember_gid xnu
        (kauth_cred_ismember_gid_resolver xnu 1 100 77 submit_timeout 100 0 three_groups
          member_cred 30).1 member_cred 30 0 = (35, 0) ∧
    kauth_cred_ismember_gid_resolver xnu 1 5 77 submit_timeout 5 0 three_groups member_cred 30 =
      ((0, some 1),
        { three_groups with
          kauth_groups :=
            [{ gm_uid := 501, gm_gid := 30, gm_expiry := 10, gm_flags := 1 },
             { gm_uid := 501, gm_gid := 20, gm_expiry := 0, gm_flags := 1 },
             { gm_uid := 502, gm_gid := 20, gm_expiry := 0, gm_flags := 0 }] }) ∧
    kauth_identity_guid_expired 100
        { uid_entry 502 with
          ki_valid := KI_VALID_UID ||| KI_VALID_GUID, ki_guid_expiry := 10 } = true ∧
    (kauth_identity_find_uid
        { IdentityCache.init with
          kauth_identities :=
            [uid_entry 501,
             { uid_entry 502 with
               ki_valid := KI_VALID_UID ||| KI_VALID_GUID, ki_guid_expiry := 10 }]
          kauth_identity_count := 2 } 502).2.2.kauth_identities =
      [{ uid_entry 502 with ki_valid := KI_VALID_UID ||| KI_VALID_GUID, ki_guid_expiry := 10 },
       uid_entry 501] := by
  refine ⟨rfl, by decide, by decide, by decide, by decide, by decide, by decide⟩

/-! ## Merging a response into a cached entry -/

/-- What `modify_first` returns on a hit: the first entry that satisfies `p`
is rewritten in place. -/
theorem modify_first_spec {α : Type} (p : α → Bool) (f : α → α) :
    ∀ (l : List α), (∃ e ∈ l, p e = true) →
      ∃ pre old post, l = pre ++ old :: post ∧ p old = true ∧ (∀ x ∈ pre, p x = false) ∧
        modify_first p f l = some (pre ++ f old :: post) := by
  intro l
  induction l with
  | nil => intro h; obtain ⟨e, he, _⟩ := h; simp at he
  | cons x l ih =>
    intro h
    unfold modify_first
    by_cases hp : p x = true
    · rw [if_pos hp]
      exact ⟨[], x, l, rfl, hp, by simp, rfl⟩
    · rw [if_neg hp]
      obtain ⟨e, he, hpe⟩ := h
      rcases List.mem_cons.mp he with rfl | he
      · exact absurd hpe hp
      · obtain ⟨pre, old, post, hl, hpo, hpre, hm⟩ := ih ⟨e, he, hpe⟩
        refine ⟨x :: pre, old, post, by rw [hl]; rfl, hpo, ?_, by rw [hm]; rfl⟩
        intro y hy
        rcases List.mem_cons.mp hy with rfl | hy
        · simpa using hp
        · exact hpre y hy

/-- The frame of the refresh of a cached user entry. -/
theorem kauth_identity_refresh_user_frame (k : Platform) (now : Nat)
    (elp : kauth_identity_extlookup) (speculative_name : Option String) (old : kauth_identity) :
    merge_frame (elp.el_flags &&& k.KAUTH_EXTLOOKUP_VALID_UGUID ≠ 0)
      (elp.el_flags &&& k.KAUTH_EXTLOOKUP_VALID_USID ≠ 0)
      (elp.el_flags &&& k.KAUTH_EXTLOOKUP_VALID_SUPGRPS ≠ 0)
      (elp.el_flags &&& k.KAUTH_EXTLOOKUP_VALID_PWNAM ≠ 0)
      (expiry_of now elp.el_uguid_valid) (expiry_of now elp.el_usid_valid) old
      (kauth_identity_refresh_user k now elp speculative_name old) := by
  unfold merge_frame kauth_identity_refresh_user
  simp only []
  split_ifs <;> simp_all

/-- The frame of the refresh of a cached group entry. -/
theorem kauth_identity_refresh_group_frame (k : Platform) (now : Nat)
    (elp : kauth_identity_extlookup) (speculative_name : Option String) (old : kauth_identity) :
    merge_frame (elp.el_flags &&& k.KAUTH_EXTLOOKUP_VALID_GGUID ≠ 0)
      (elp.el_flags &&& k.KAUTH_EXTLOOKUP_VALID_GSID ≠ 0) False
      (elp.el_flags &&& k.KAUTH_EXTLOOKUP_VALID_GRNAM ≠ 0)
      (expiry_of now elp.el_gguid_valid) (expiry_of now elp.el_gsid_valid) old
      (kauth_identity_refresh_group k now elp speculative_name old) := by
  unfold merge_frame kauth_identity_refresh_group
  simp only []
  split_ifs <;> simp_all

/-- The frame of the merge of `kauth_identity_register_and_free`. -/
theorem kauth_identity_merge_frame (kip old : kauth_identity) :
    merge_frame (kip.ki_valid &&& KI_VALID_GUID ≠ 0) (kip.ki_valid &&& KI_VALID_NTSID ≠ 0) False
      (kip.ki_valid &&& (KI_VALID_PWNAM ||| KI_VALID_GRNAM) ≠ 0)
      kip.ki_guid_expiry kip.ki_ntsid_expiry old (kauth_identity_merge kip old) := by
  unfold merge_frame kauth_identity_merge
  simp only []
  split_ifs <;> simp_all

/-- C15 (merge on upsert), as the code has it.  When
`kauth_identity_updatecache` finds the key of a response in the cache (the UID
of a response flagged with a valid UID, else the GID of one flagged with a valid
GID), it rewrites the first entry with that key and moves it to the head;
when `kauth_identity_register_and_free` finds the key of the incoming entry, it
rewrites the first entry with that key in place.  All other entries are
untouched.  In the rewritten entry the key is kept, and the GUID, the NTSID, the
supplementary groups with their expiry time, and the name keep their values
unless the incoming data flags them as valid (the registration never touches
the groups).  The expiry times of the GUID and of the NTSID are not kept: they
are always overwritten with the incoming ones. -/
theorem kauth_identity_merge_keeps_unflagged (k : Platform) (now : Nat) (c : IdentityCache)
    (elp : kauth_identity_extlookup) (rkip : Bool) (extend_name : String)
    (kip : kauth_identity) :
    (elp.el_flags &&& k.KAUTH_EXTLOOKUP_VALID_UID ≠ 0 →
      (∃ e ∈ c.kauth_identities, e.ki_valid &&& KI_VALID_UID ≠ 0 ∧ e.ki_uid = elp.el_uid) →
      ∃ pre old post new, c.kauth_identities = pre ++ old :: post ∧
        (old.ki_valid &&& KI_VALID_UID ≠ 0 ∧ old.ki_uid = elp.el_uid) ∧
        (∀ x ∈ pre, ¬ (x.ki_valid &&& KI_VALID_UID ≠ 0 ∧ x.ki_uid = elp.el_uid)) ∧
        kauth_identity_updatecache k now c elp rkip extend_name =
          some ({ c with kauth_identities := new :: (pre ++ post) },
            if rkip then some new else none) ∧
        merge_frame (elp.el_flags &&& k.KAUTH_EXTLOOKUP_VALID_UGUID ≠ 0)
          (elp.el_flags &&& k.KAUTH_EXTLOOKUP_VALID_USID ≠ 0)
          (elp.el_flags &&& k.KAUTH_EXTLOOKUP_VALID_SUPGRPS ≠ 0)
          (elp.el_flags &&& k.KAUTH_EXTLOOKUP_VALID_PWNAM ≠ 0)
          (expiry_of now elp.el_uguid_valid) (expiry_of now elp.el_usid_valid) old new) ∧
    (elp.el_flags &&& k.KAUTH_EXTLOOKUP_VALID_UID = 0 →
      elp.el_flags &&& k.KAUTH_EXTLOOKUP_VALID_GID ≠ 0 →
      (∃ e ∈ c.kauth_identities, e.ki_valid &&& KI_VALID_GID ≠ 0 ∧ e.ki_gid = elp.el_gid) →
      ∃ pre old post new, c.kauth_identities = pre ++ old :: post ∧
        (old.ki_valid &&& KI_VALID_GID ≠ 0 ∧ old.ki_gid = elp.el_gid) ∧
        (∀ x ∈ pre, ¬ (x.ki_valid &&& KI_VALID_GID ≠ 0 ∧ x.ki_gid = elp.el_gid)) ∧
        kauth_identity_updatecache k now c elp rkip extend_name =
          some ({ c with kauth_identities := new :: (pre ++ post) },
            if rkip then some new else none) ∧
        merge_frame (elp.el_flags &&& k.KAUTH_EXTLOOKUP_VALID_GGUID ≠ 0)
          (elp.el_flags &&& k.KAUTH_EXTLOOKUP_VALID_GSID ≠ 0) False
          (elp.el_flags &&& k.KAUTH_EXTLOOKUP_VALID_GRNAM ≠ 0)
          (expiry_of now elp.el_gguid_valid) (expiry_of now elp.el_gsid_valid) old new) ∧
    (key_exclusive kip →
      (∃ ip ∈ c.kauth_identities, identity_key_match kip ip = true) →
      ∃ pre old post, c.kauth_identities = pre ++ old :: post ∧
        identity_key_match kip old = true ∧
        (∀ x ∈ pre, identity_key_match kip x = false) ∧
        kauth_identity_register_and_free c kip =
          some { c with kauth_identities := pre ++ kauth_identity_merge kip old :: post } ∧
        merge_frame (kip.ki_valid &&& KI_VALID_GUID ≠ 0) (kip.ki_valid &&& KI_VALID_NTSID ≠ 0)
          False (kip.ki_valid &&& (KI_VALID_PWNAM ||| KI_VALID_GRNAM) ≠ 0)
          kip.ki_guid_expiry kip.ki_ntsid_expiry old (kauth_identity_merge kip old)) := by
  refine ⟨?_, ?_, ?_⟩
  · intro hu hit
    obtain ⟨q, hq⟩ := extract_first_isSome
      (fun kip => decide (kip.ki_valid &&& KI_VALID_UID ≠ 0 ∧ kip.ki_uid = elp.el_uid))
      c.kauth_identities (by
        obtain ⟨e, he, h1⟩ := hit
        exact ⟨e, he, by simpa using h1⟩)
    obtain ⟨pre, post, hl, hr, hp, hpre⟩ := extract_first_spec _ c.kauth_identities q.1 q.2 hq
    refine ⟨pre, q.1, post, _, hl, by simpa using hp, ?_, ?_,
      kauth_identity_refresh_user_frame k now elp
        (if elp.el_flags &&&
            (k.KAUTH_EXTLOOKUP_VALID_PWNAM ||| k.KAUTH_EXTLOOKUP_VALID_GRNAM) ≠ 0
         then some extend_name else none) q.1⟩
    · intro x hx hcon
      have := hpre x hx
      simp [hcon] at this
    · unfold kauth_identity_updatecache
      simp only [if_pos hu]
      unfold kauth_identity_updatecache_user
      rw [hq, ← hr]
      rfl
  · intro hu hg hit
    obtain ⟨q, hq⟩ := extract_first_isSome
      (fun kip => decide (kip.ki_valid &&& KI_VALID_GID ≠ 0 ∧ kip.ki_gid = elp.el_gid))
      c.kauth_identities (by
        obtain ⟨e, he, h1⟩ := hit
        exact ⟨e, he, by simpa using h1⟩)
    obtain ⟨pre, post, hl, hr, hp, hpre⟩ := extract_first_spec _ c.kauth_identities q.1 q.2 hq
    refine ⟨pre, q.1, post, _, hl, by simpa using hp, ?_, ?_,
      kauth_identity_refresh_group_frame k now elp
        (if elp.el_flags &&&
            (k.KAUTH_EXTLOOKUP_VALID_PWNAM ||| k.KAUTH_EXTLOOKUP_VALID_GRNAM) ≠ 0
         then some extend_name else none) q.1⟩
    · intro x hx hcon
      have := hpre x hx
      simp [hcon] at this
    · unfold kauth_identity_updatecache
      simp only [if_neg (not_not.mpr hu), if_pos hg]
      unfold kauth_identity_updatecache_group
      rw [hq, ← hr]
      rfl
  · intro hk hit
    obtain ⟨pre, old, post, hl, hpo, hpre, hm⟩ :=
      modify_first_spec (identity_key_match kip) (kauth_identity_merge kip) c.kauth_identities hit
    refine ⟨pre, old, post, hl, hpo, hpre, ?_, kauth_identity_merge_frame kip old⟩
    unfold kauth_identity_register_and_free
    rcases hk with ⟨hu, hg⟩ | ⟨hu, hg⟩
    · rw [if_neg (by simp [hg]), if_neg (by simp [hu])]
      simp only [if_pos hu]
      have hfun : (fun ip : kauth_identity =>
          decide (ip.ki_valid &&& KI_VALID_UID ≠ 0 ∧ ip.ki_uid = kip.ki_uid)) =
          identity_key_match kip := by
        funext ip
        unfold identity_key_match
        rw [if_pos hu]
      rw [hfun, hm]
    · rw [if_neg (by simp [hu]), if_neg (by simp [hg])]
      simp only [if_neg (not_not.mpr hu)]
      have hfun : (fun ip : kauth_identity =>
          decide (ip.ki_valid &&& KI_VALID_GID ≠ 0 ∧ ip.ki_gid = kip.ki_gid)) =
          identity_key_match kip := by
        funext ip
        unfold identity_key_match
        rw [if_neg (not_not.mpr hu)]
      rw [hfun, hm]

set_option maxRecDepth 100000 in
/-- Counterexample to C15 as stated: the cache holds uid 501 with a GUID that
is valid until uptime 1000.  A response for uid 501 that flags only the UID and
the supplementary groups is merged at uptime 100.  The GUID is kept, but its
expiry time is overwritten with 0 although the response does not flag the GUID
as valid. -/
theorem kauth_identity_updatecache_resets_guid_expiry :
    groups_response.el_flags &&& xnu.KAUTH_EXTLOOKUP_VALID_UGUID = 0 ∧
    guid_cache.kauth_identities.map (fun e => (e.ki_uid, e.ki_guid, e.ki_guid_expiry)) =
      [(501, example_guid, 1000)] ∧
    (kauth_identity_updatecache xnu 100 guid_cache groups_response false "").map
        (fun r => r.1.kauth_identities.map (fun e => (e.ki_uid, e.ki_guid, e.ki_guid_expiry))) =
      some [(501, example_guid, 0)] := by
  refine ⟨by decide, by decide, by decide⟩

set_option maxRecDepth 100000 in
/-- Witness for C15: the response that flags the supplementary groups of
uid 501, merged into the cache that holds uid 501 with a GUID. -/
theorem kauth_identity_merge_keeps_unflagged_witness :
    ∃ pre old post new, guid_cache.kauth_identities = pre ++ old :: post ∧
      (old.ki_valid &&& KI_VALID_UID ≠ 0 ∧ old.ki_uid = groups_response.el_uid) ∧
      (∀ x ∈ pre, ¬ (x.ki_valid &&& KI_VALID_UID ≠ 0 ∧ x.ki_uid = groups_response.el_uid)) ∧
      kauth_identity_updatecache xnu 100 guid_cache groups_response false "" =
        some ({ guid_cache with kauth_identities := new :: (pre ++ post) },
          if false then some new else none) ∧
      merge_frame (groups_response.el_flags &&& xnu.KAUTH_EXTLOOKUP_VALID_UGUID ≠ 0)
        (groups_response.el_flags &&& xnu.KAUTH_EXTLOOKUP_VALID_USID ≠ 0)
        (groups_response.el_flags &&& xnu.KAUTH_EXTLOOKUP_VALID_SUPGRPS ≠ 0)
        (groups_response.el_flags &&& xnu.KAUTH_EXTLOOKUP_VALID_PWNAM ≠ 0)
        (expiry_of 100 groups_response.el_uguid_valid)
        (expiry_of 100 groups_response.el_usid_valid) old new :=
  (kauth_identity_merge_keeps_unflagged xnu 100 guid_cache groups_response false ""
    (uid_entry 501)).1 (by decide) ⟨_, List.mem_cons_self _ _, by decide, by decide⟩

/-! ## Registration of a resolver -/

/-- Clearing the bits of `m` leaves none of them set. -/
theorem clear_bits_and (x m : Nat) : clear_bits x m &&& m = 0 := by
  unfold clear_bits
  apply Nat.eq_of_testBit_eq
  intro i
  simp only [Nat.testBit_and, Nat.testBit_xor, Nat.zero_testBit]
  cases x.testBit i <;> cases m.testBit i <;> rfl

/-- Setting the bits of `m` leaves them set. -/
theorem or_and_self (x m : Nat) : (x ||| m) &&& m = m := by
  apply Nat.eq_of_testBit_eq
  intro i
  simp only [Nat.testBit_and, Nat.testBit_or]
  cases x.testBit i <;> cases m.testBit i <;> rfl

/-- A demoted item is marked unsubmitted and no longer submitted. -/
theorem demote_flags (workp : kauth_resolver_work) :
    (demote workp).kr_flags &&& KAUTH_REQUEST_UNSUBMITTED ≠ 0 ∧
    (demote workp).kr_flags &&& KAUTH_REQUEST_SUBMITTED = 0 := by
  unfold demote
  simp only []
  refine ⟨?_, ?_⟩
  · rw [or_and_self]; decide
  · rw [or_and_disjoint _ _ _ (by decide), clear_bits_and]

/-- The loop of the registration, with enough fuel: the submitted queue is
emptied onto the head of the unsubmitted queue, in its order, every item
demoted. -/
theorem identitysvc_register_loop_spec :
    ∀ (fuel : Nat) (s : ResolverState), s.kauth_resolver_submitted.length ≤ fuel →
      identitysvc_register_loop fuel s =
        { s with kauth_resolver_submitted := []
                 kauth_resolver_unsubmitted :=
                   s.kauth_resolver_submitted.map demote ++ s.kauth_resolver_unsubmitted } := by
  intro fuel
  induction fuel with
  | zero =>
    intro s h
    have hnil : s.kauth_resolver_submitted = [] := List.length_eq_zero.mp (Nat.le_zero.mp h)
    unfold identitysvc_register_loop
    cases s
    simp only [] at hnil
    subst hnil
    rfl
  | succ fuel ih =>
    intro s h
    unfold identitysvc_register_loop
    cases hlast : s.kauth_resolver_submitted.getLast? with
    | none =>
      have hnil : s.kauth_resolver_submitted = [] := List.getLast?_eq_none_iff.mp hlast
      cases s
      simp only [] at hnil
      subst hnil
      rfl
    | some workp =>
      simp only []
      have hsplit : s.kauth_resolver_submitted.dropLast ++ [workp] = s.kauth_resolver_submitted :=
        List.dropLast_append_getLast? workp (by rw [hlast]; exact rfl)
      rw [ih _ (by
        simp only [List.length_dropLast]
        omega)]
      simp only []
      congr 1
      rw [← hsplit]
      simp [List.dropLast_concat]

/-- The `KAUTH_EXTLOOKUP_REGISTER` call of an entitled caller that passes the
superuser check returns 0 after the locked block. -/
theorem identitysvc_register_result (k : Platform) (caller : identitysvc_caller)
    (st : KauthState) (message : Nat) (hent : caller.entitled = true)
    (hsu : caller.issuser = 0) :
    identitysvc k caller st k.KAUTH_EXTLOOKUP_REGISTER message =
      some (0, { st with resolver := identitysvc_register caller.pid message st.resolver }) := by
  unfold identitysvc
  rw [if_neg (by simp [hent]), if_pos rfl, if_neg (by simp [hsu])]

/-- The locked block of the registration for a caller other than the recorded
resolver. -/
theorem identitysvc_register_new (new_id message : Nat) (s : ResolverState)
    (hnew : s.kauth_resolver_identity ≠ new_id) :
    identitysvc_register new_id message s =
      { s with
        kauth_resolver_submitted := []
        kauth_resolver_unsubmitted :=
          s.kauth_resolver_submitted.map demote ++ s.kauth_resolver_unsubmitted
        kauth_resolver_timeout :=
          if message > 30 ∧ message < 10000 then (message : Int) else s.kauth_resolver_timeout
        kauth_resolver_identity := new_id
        kauth_resolver_registered := 1
        kauth_identitysvc_has_registered := 1 } := by
  unfold identitysvc_register
  rw [if_pos hnew, identitysvc_register_loop_spec _ _ (le_refl _)]
  simp only []
  split_ifs <;> rfl

/-- The locked block of the registration for the recorded resolver itself. -/
theorem identitysvc_register_same (new_id message : Nat) (s : ResolverState)
    (hsame : s.kauth_resolver_identity = new_id) :
    identitysvc_register new_id message s = s := by
  unfold identitysvc_register
  rw [if_neg (not_not.mpr hsame)]

/-- C17 (re-registration demotes in-flight work).  For a
`KAUTH_EXTLOOKUP_REGISTER` call of an entitled caller that passes the superuser
check: when the pid of the caller differs from the recorded resolver identity,
the call returns 0, the submitted queue is empty afterwards, the unsubmitted
queue is the old submitted queue followed by the old unsubmitted queue, each in
its order, every demoted item differs from what it was only in `kr_flags`,
which has `KAUTH_REQUEST_UNSUBMITTED` set and `KAUTH_REQUEST_SUBMITTED` clear,
the recorded identity is the pid of the caller, and both registration flags
are 1; the done queue, the sequence number and the caches are untouched.  When
the pid of the caller is the recorded identity, the call returns 0 and changes
nothing. -/
theorem identitysvc_register_demotes (k : Platform) (caller : identitysvc_caller)
    (st : KauthState) (message : Nat) (hent : caller.entitled = true)
    (hsu : caller.issuser = 0) :
    (caller.pid ≠ st.resolver.kauth_resolver_identity →
      ∃ s : ResolverState,
        identitysvc k caller st k.KAUTH_EXTLOOKUP_REGISTER message =
          some (0, { st with resolver := s }) ∧
        s.kauth_resolver_submitted = [] ∧
        s.kauth_resolver_unsubmitted =
          st.resolver.kauth_resolver_submitted.map demote ++
            st.resolver.kauth_resolver_unsubmitted ∧
        (∀ workp ∈ st.resolver.kauth_resolver_submitted,
          demote workp = { workp with kr_flags := (demote workp).kr_flags } ∧
          (demote workp).kr_flags &&& KAUTH_REQUEST_UNSUBMITTED ≠ 0 ∧
          (demote workp).kr_flags &&& KAUTH_REQUEST_SUBMITTED = 0) ∧
        s.kauth_resolver_identity = caller.pid ∧
        s.kauth_resolver_registered = 1 ∧
        s.kauth_identitysvc_has_registered = 1 ∧
        s.kauth_resolver_done = st.resolver.kauth_resolver_done ∧
        s.kauth_resolver_sequence = st.resolver.kauth_resolver_sequence) ∧
    (caller.pid = st.resolver.kauth_resolver_identity →
      identitysvc k caller st k.KAUTH_EXTLOOKUP_REGISTER message = some (0, st)) := by
  refine ⟨?_, ?_⟩
  · intro hnew
    refine ⟨identitysvc_register caller.pid message st.resolver,
      identitysvc_register_result k caller st message hent hsu, ?_⟩
    rw [identitysvc_register_new _ _ _ (Ne.symm hnew)]
    refine ⟨rfl, rfl, ?_, rfl, rfl, rfl, rfl, rfl⟩
    intro workp _
    exact ⟨rfl, demote_flags workp⟩
  · intro hsame
    rw [identitysvc_register_result k caller st message hent hsu,
      identitysvc_register_same _ _ _ hsame.symm]

set_option maxRecDepth 100000 in
/-- Witness for C17: pid 200 registers while pid 100 is recorded with two
requests handed out and one waiting; afterwards the three requests wait to be
collected in the order 31337, 31338, 31339, all marked unsubmitted. -/
theorem identitysvc_register_demotes_witness :
    (resolver_caller 200 (0, 0) kauth_identity_extlookup.zero).pid ≠
      (busy_state 30).resolver.kauth_resolver_identity ∧
    ∃ s : ResolverState,
      identitysvc xnu (resolver_caller 200 (0, 0) kauth_identity_extlookup.zero) (busy_state 30)
          xnu.KAUTH_EXTLOOKUP_REGISTER 0 = some (0, { busy_state 30 with resolver := s }) ∧
      s.kauth_resolver_submitted = [] ∧
      s.kauth_resolver_unsubmitted =
        [work_item 31337 KAUTH_REQUEST_UNSUBMITTED, work_item 31338 KAUTH_REQUEST_UNSUBMITTED,
         work_item 31339 KAUTH_REQUEST_UNSUBMITTED] ∧
      s.kauth_resolver_identity = 200 ∧ s.kauth_resolver_registered = 1 := by
  obtain ⟨s, h1, h2, h3, _, h5, h6, _⟩ :=
    (identitysvc_register_demotes xnu (resolver_caller 200 (0, 0) kauth_identity_extlookup.zero)
      (busy_state 30) 0 rfl rfl).1 (by decide)
  exact ⟨by decide, s, h1, h2, by rw [h3]; decide, h5, h6⟩

/-- C18 (timeout override), as the code has it.  On a
`KAUTH_EXTLOOKUP_REGISTER` call of an entitled caller that passes the superuser
check and whose pid differs from the recorded resolver identity, with the
requested timeout `t` as the argument, `kauth_resolver_timeout` becomes `t`
exactly when `30 < t < 10000`, and is left as it was otherwise: a request for
30 seconds is not taken. -/
theorem identitysvc_register_timeout (k : Platform) (caller : identitysvc_caller)
    (st : KauthState) (t : Nat) (hent : caller.entitled = true) (hsu : caller.issuser = 0)
    (hnew : caller.pid ≠ st.resolver.kauth_resolver_identity) :
    ∃ st1 : KauthState,
      identitysvc k caller st k.KAUTH_EXTLOOKUP_REGISTER t = some (0, st1) ∧
      (30 < t ∧ t < 10000 → st1.resolver.kauth_resolver_timeout = (t : Int)) ∧
      (¬ (30 < t ∧ t < 10000) →
        st1.resolver.kauth_resolver_timeout = st.resolver.kauth_resolver_timeout) := by
  refine ⟨_, identitysvc_register_result k caller st t hent hsu, ?_, ?_⟩
  · intro ht
    rw [identitysvc_register_new _ _ _ (Ne.symm hnew)]
    simp only []
    rw [if_pos ht]
  · intro ht
    rw [identitysvc_register_new _ _ _ (Ne.symm hnew)]
    simp only []
    rw [if_neg ht]

set_option maxRecDepth 100000 in
/-- Witness for C18: pid 200 registers with a requested timeout of 31 seconds
while pid 100 is recorded with a timeout of 60 seconds. -/
theorem identitysvc_register_timeout_witness :
    ∃ st1 : KauthState,
      identitysvc xnu (resolver_caller 200 (0, 0) kauth_identity_extlookup.zero) (busy_state 60)
        xnu.KAUTH_EXTLOOKUP_REGISTER 31 = some (0, st1) ∧
      (30 < 31 ∧ 31 < 10000 → st1.resolver.kauth_resolver_timeout = ((31 : Nat) : Int)) ∧
      (¬ (30 < 31 ∧ 31 < 10000) →
        st1.resolver.kauth_resolver_timeout = (busy_state 60).resolver.kauth_resolver_timeout) :=
  identitysvc_register_timeout xnu (resolver_caller 200 (0, 0) kauth_identity_extlookup.zero)
    (busy_state 60) 31 rfl rfl (by decide)

set_option maxRecDepth 100000 in
/-- Counterexample to C18 as stated: pid 100 is recorded with a timeout of 60
seconds, and pid 200 registers with a requested timeout of 30 seconds, a value
of the interval from 30 up to 10000.  The call returns 0 and the timeout is
still 60, not 30. -/
theorem identitysvc_register_timeout_thirty :
    (busy_state 60).resolver.kauth_resolver_timeout = 60 ∧
    (identitysvc xnu (resolver_caller 200 (0, 0) kauth_identity_extlookup.zero) (busy_state 60)
        xnu.KAUTH_EXTLOOKUP_REGISTER 30).map
      (fun r => (r.1, r.2.resolver.kauth_resolver_identity, r.2.resolver.kauth_resolver_timeout)) =
      some (0, 200, 60) := by
  refine ⟨rfl, by decide⟩

/-! ## The cache-size request -/

/-- C16 (cache-size policy).  For a `KAUTH_SET_CACHE_SIZES` call of the
registered resolver (entitled, root, its pid the recorded identity) whose
request is read without error: if `kcs_group_size` or `kcs_id_size` exceeds
10000 the call returns `EINVAL` and the state, both bounds and both caches
included, is unchanged; if both are at most 10000, and the counters of the
caches are their numbers of entries, the call returns 0, both bounds are the
requested sizes, and each cache keeps its first entries up to its new bound. -/
theorem identitysvc_set_cache_sizes_policy (k : Platform) (caller : identitysvc_caller)
    (st : KauthState) (message kcs_group_size kcs_id_size : Nat)
    (hent : caller.entitled = true)
    (hop1 : k.KAUTH_SET_CACHE_SIZES ≠ k.KAUTH_EXTLOOKUP_REGISTER)
    (hop2 : k.KAUTH_SET_CACHE_SIZES ≠ k.KAUTH_GET_CACHE_SIZES)
    (huid : caller.uid = 0) (hpid : caller.pid = st.resolver.kauth_resolver_identity)
    (hcopy : caller.copyin_sizes = .ok (kcs_group_size, kcs_id_size)) :
    (kcs_group_size > 10000 ∨ kcs_id_size > 10000 →
      identitysvc k caller st k.KAUTH_SET_CACHE_SIZES message = some (k.EINVAL, st)) ∧
    (kcs_group_size ≤ 10000 → kcs_id_size ≤ 10000 →
      st.identity.kauth_identity_count = (st.identity.kauth_identities.length : Int) →
      st.groups.kauth_groups_count = (st.groups.kauth_groups.length : Int) →
      identitysvc k caller st k.KAUTH_SET_CACHE_SIZES message =
        some (0, { st with
          identity :=
            { kauth_identities := st.identity.kauth_identities.take kcs_id_size
              kauth_identity_count := min st.identity.kauth_identity_count (kcs_id_size : Int)
              kauth_identity_cachemax := (kcs_id_size : Int) }
          groups :=
            { kauth_groups := st.groups.kauth_groups.take kcs_group_size
              kauth_groups_count := min st.groups.kauth_groups_count (kcs_group_size : Int)
              kauth_groups_cachemax := (kcs_group_size : Int) } })) := by
  have hdispatch : identitysvc k caller st k.KAUTH_SET_CACHE_SIZES message =
      identitysvc_set_cache_sizes k st kcs_group_size kcs_id_size := by
    unfold identitysvc
    rw [if_neg (by simp [hent]), if_neg hop1, if_neg (by simp [huid, hpid]), if_neg hop2,
      if_pos rfl, hcopy]
  rw [hdispatch]
  unfold identitysvc_set_cache_sizes KAUTH_CACHES_MAX_SIZE
  refine ⟨?_, ?_⟩
  · intro hbig
    rw [if_pos hbig]
  · intro h1 h2 hi hg
    rw [if_neg (by omega)]
    simp only []
    rw [kauth_identity_trimcache_spec
        { st.identity with kauth_identity_cachemax := (kcs_id_size : Int) } _
        (Int.natCast_nonneg _) hi,
      kauth_groups_trimcache_spec
        { st.groups with kauth_groups_cachemax := (kcs_group_size : Int) } _
        (Int.natCast_nonneg _) hg]
    simp only [Int.toNat_ofNat]

set_option maxRecDepth 100000 in
/-- Witness for C16: the resolver of pid 100 asks for a group cache of 2 and
an identity cache of 1 entries while both caches hold 3. -/
theorem identitysvc_set_cache_sizes_policy_witness :
    identitysvc xnu (resolver_caller 100 (2, 1) kauth_identity_extlookup.zero) (busy_state 30)
        xnu.KAUTH_SET_CACHE_SIZES 0 =
      some (0, { busy_state 30 with
        identity :=
          { kauth_identities := (busy_state 30).identity.kauth_identities.take 1
            kauth_identity_count := min (busy_state 30).identity.kauth_identity_count ((1 : Nat) : Int)
            kauth_identity_cachemax := ((1 : Nat) : Int) }
        groups :=
          { kauth_groups := (busy_state 30).groups.kauth_groups.take 2
            kauth_groups_count := min (busy_state 30).groups.kauth_groups_count ((2 : Nat) : Int)
            kauth_groups_cachemax := ((2 : Nat) : Int) } }) :=
  (identitysvc_set_cache_sizes_policy xnu (resolver_caller 100 (2, 1) kauth_identity_extlookup.zero)
    (busy_state 30) 0 2 1 rfl (by decide) (by decide) rfl rfl rfl).2 (by decide) (by decide)
    rfl rfl

/-! ## Sequence numbers -/

/-- The registration does not touch the sequence number. -/
theorem identitysvc_register_sequence (new_id message : Nat) (s : ResolverState) :
    (identitysvc_register new_id message s).kauth_resolver_sequence =
      s.kauth_resolver_sequence := by
  by_cases h : s.kauth_resolver_identity = new_id
  · rw [identitysvc_register_same _ _ _ h]
  · rw [identitysvc_register_new _ _ _ h]

/-- The function `kauth_resolver_complete` does not touch the sequence number. -/
theorem kauth_resolver_complete_sequence (k : Platform) (caller : identitysvc_caller)
    (s : ResolverState) :
    (kauth_resolver_complete k caller s).2.kauth_resolver_sequence =
      s.kauth_resolver_sequence := by
  unfold kauth_resolver_complete
  split
  · rfl
  · rename_i extl _
    have hsw : (kauth_resolver_complete_switch k extl.el_result s).2.2.kauth_resolver_sequence =
        s.kauth_resolver_sequence := by
      unfold kauth_resolver_complete_switch
      split_ifs <;> rfl
    simp only []
    by_cases hf : extl.el_result ≠ k.KAUTH_EXTLOOKUP_FATAL
    · rw [if_pos hf]
      split
      · exact hsw
      · exact hsw
    · rw [if_neg hf]
      exact hsw

/-- The function `kauth_resolver_getwork` does not touch the sequence number. -/
theorem kauth_resolver_getwork_sequence (k : Platform) (caller : identitysvc_caller)
    (s : ResolverState) (r : Nat × ResolverState)
    (h : kauth_resolver_getwork k caller s = some r) :
    r.2.kauth_resolver_sequence = s.kauth_resolver_sequence := by
  unfold kauth_resolver_getwork at h
  split at h
  · rw [← Option.some.inj h]
  · unfold kauth_resolver_getwork2 at h
    split at h
    · exact absurd h (by simp)
    · simp only [] at h
      split_ifs at h <;> rw [← Option.some.inj h]

/-- The tail of `identitysvc` does not touch the sequence number. -/
theorem identitysvc_result_worker_sequence (k : Platform) (caller : identitysvc_caller)
    (st : KauthState) (opcode : Nat) (r : Nat × KauthState)
    (h : identitysvc_result_worker k caller st opcode = some r) :
    r.2.resolver.kauth_resolver_sequence = st.resolver.kauth_resolver_sequence := by
  unfold identitysvc_result_worker at h
  have hc := kauth_resolver_complete_sequence k caller st.resolver
  by_cases hres : opcode &&& k.KAUTH_EXTLOOKUP_RESULT ≠ 0
  · simp only [if_pos hres] at h
    split_ifs at h
    · rw [← Option.some.inj h]; exact hc
    · split at h
      · exact absurd h (by simp)
      · rename_i error resolver hget
        rw [← Option.some.inj h]
        exact (kauth_resolver_getwork_sequence k caller _ _ hget).trans hc
    · rw [← Option.some.inj h]; exact hc
  · simp only [if_neg hres] at h
    split_ifs at h
    · rw [← Option.some.inj h]
    · split at h
      · exact absurd h (by simp)
      · rename_i error resolver hget
        rw [← Option.some.inj h]
        exact kauth_resolver_getwork_sequence k caller _ _ hget
    · rw [← Option.some.inj h]

/-- The system call `identitysvc` does not touch the sequence number. -/
theorem identitysvc_sequence (k : Platform) (caller : identitysvc_caller) (st : KauthState)
    (opcode message : Nat) (r : Nat × KauthState)
    (h : identitysvc k caller st opcode message = some r) :
    r.2.resolver.kauth_resolver_sequence = st.resolver.kauth_resolver_sequence := by
  unfold identitysvc at h
  split_ifs at h
  · rw [← Option.some.inj h]
  · rw [← Option.some.inj h]
  · rw [← Option.some.inj h]
    exact identitysvc_register_sequence _ _ _
  · rw [← Option.some.inj h]
  · rw [← Option.some.inj h]
  · split at h
    · rw [← Option.some.inj h]
    · unfold identitysvc_set_cache_sizes at h
      split_ifs at h
      · rw [← Option.some.inj h]
      · split at h
        · exact absurd h (by simp)
        · split at h
          · exact absurd h (by simp)
          · rw [← Option.some.inj h]
  · split at h
    · exact absurd h (by simp)
    · rename_i st1 hclear
      have h1 := identitysvc_result_worker_sequence k caller st1 opcode r h
      rw [h1]
      unfold identitysvc_clear_caches at hclear
      split at hclear
      · exact absurd hclear (by simp)
      · split at hclear
        · exact absurd hclear (by simp)
        · rw [← Option.some.inj hclear]
  · have h1 := identitysvc_result_worker_sequence k caller _ opcode r h
    exact h1
  · exact identitysvc_result_worker_sequence k caller _ opcode r h

/-- One event: an item that it enqueues carries the current sequence number,
in `kr_seqno` and in the request, and the sequence number advances by one
modulo `2^32`; an event that enqueues nothing leaves the sequence number alone. -/
theorem kauth_op_sequence (k : Platform) (st st1 : KauthState) (op : KauthOp)
    (w : Option kauth_resolver_work) (h : op.apply k st = some (w, st1)) :
    (w = none → st1.resolver.kauth_resolver_sequence = st.resolver.kauth_resolver_sequence) ∧
    (∀ workp, w = some workp →
      workp.kr_seqno = st.resolver.kauth_resolver_sequence ∧
      workp.kr_work.el_seqno = st.resolver.kauth_resolver_sequence ∧
      st1.resolver.kauth_resolver_sequence =
        (st.resolver.kauth_resolver_sequence + 1) % 4294967296) := by
  cases op with
  | submit lkp extend_data =>
    unfold KauthOp.apply kauth_resolver_submit at h
    simp only [] at h
    have h1 := Option.some.inj h
    by_cases hid : st.resolver.kauth_resolver_identity = 0
    · simp only [if_pos hid] at h1
      have hw : none = w := congrArg Prod.fst h1
      have hs : _ = st1 := congrArg Prod.snd h1
      subst hw; subst hs
      exact ⟨fun _ => rfl, fun workp hwp => absurd hwp (by simp)⟩
    · simp only [if_neg hid] at h1
      have hw : some _ = w := congrArg Prod.fst h1
      have hs : _ = st1 := congrArg Prod.snd h1
      subst hw; subst hs
      refine ⟨fun hn => absurd hn (by simp), ?_⟩
      intro workp hwp
      rw [← Option.some.inj hwp]
      exact ⟨rfl, rfl, rfl⟩
  | identitysvc caller opcode message =>
    unfold KauthOp.apply at h
    obtain ⟨r, hr, hr1⟩ := Option.map_eq_some'.mp h
    have hw : none = w := congrArg Prod.fst hr1
    have hs : r.2 = st1 := congrArg Prod.snd hr1
    subst hw; subst hs
    exact ⟨fun _ => identitysvc_sequence k caller st opcode message r hr,
      fun workp hwp => absurd hwp (by simp)⟩
  | identity_reset =>
    unfold KauthOp.apply at h
    have h1 := Option.some.inj h
    have hw : none = w := congrArg Prod.fst h1
    have hs : _ = st1 := congrArg Prod.snd h1
    subst hw; subst hs
    refine ⟨fun _ => ?_, fun workp hwp => absurd hwp (by simp)⟩
    simp only []
    unfold kauth_resolver_identity_reset
    split_ifs <;> rfl

/-- The items that a run enqueues carry consecutive sequence numbers modulo
`2^32`, starting from the sequence number of the state the run starts in. -/
theorem enqueued_seqno (k : Platform) :
    ∀ (ops : List KauthOp) (st : KauthState),
      st.resolver.kauth_resolver_sequence < 4294967296 →
      ∀ (i : Nat) (workp : kauth_resolver_work), (enqueued k st ops)[i]? = some workp →
        workp.kr_seqno = (st.resolver.kauth_resolver_sequence + i) % 4294967296 ∧
        workp.kr_work.el_seqno = workp.kr_seqno := by
  intro ops
  induction ops with
  | nil =>
    intro st _ i workp h
    simp [enqueued] at h
  | cons op ops ih =>
    intro st hst i workp h
    unfold enqueued at h
    cases hop : op.apply k st with
    | none => rw [hop] at h; simp at h
    | some r =>
      obtain ⟨w, st1⟩ := r
      rw [hop] at h
      obtain ⟨hnone, hsome⟩ := kauth_op_sequence k st st1 op w hop
      cases w with
      | none =>
        simp only [] at h
        have h1 := ih st1 (by rw [hnone rfl]; exact hst) i workp h
        rw [hnone rfl] at h1
        exact h1
      | some w0 =>
        simp only [] at h
        obtain ⟨a1, a2, a3⟩ := hsome w0 rfl
        cases i with
        | zero =>
          simp only [List.getElem?_cons_zero] at h
          rw [← Option.some.inj h]
          exact ⟨by rw [a1]; omega, by rw [a1, a2]⟩
        | succ j =>
          simp only [List.getElem?_cons_succ] at h
          have h1 := ih st1 (by rw [a3]; omega) j workp h
          rw [a3] at h1
          exact ⟨by rw [h1.1]; omega, h1.2⟩

/-- An event that enqueues nothing can be dropped from the head of a run. -/
theorem enqueued_cons_none (k : Platform) (st st1 : KauthState) (op : KauthOp)
    (ops : List KauthOp) (h : op.apply k st = some (none, st1)) :
    enqueued k st (op :: ops) = enqueued k st1 ops := by
  rw [enqueued, h]

/-- With a resolver recorded, `n` submissions in a row enqueue `n` items. -/
theorem enqueued_submits_length (k : Platform) (lkp : kauth_identity_extlookup)
    (extend_data : Nat) :
    ∀ (n : Nat) (st : KauthState), st.resolver.kauth_resolver_identity ≠ 0 →
      (enqueued k st (List.replicate n (.submit lkp extend_data))).length = n := by
  intro n
  induction n with
  | zero => intro st _; rfl
  | succ n ih =>
    intro st hid
    rw [List.replicate_succ, enqueued]
    simp only [KauthOp.apply, kauth_resolver_submit, if_neg hid]
    rw [List.length_cons]
    congr 1
    apply ih
    exact hid

/-- C19 (sequence numbers), as the code has it.  For every run of events from
boot (submissions, calls of `identitysvc`, resets of the resolver identity),
the item enqueued by the `i`-th enqueueing submission, counted from 0, carries
the sequence number `(31337 + i) mod 2^32` in `kr_seqno` and in its request:
31337 for the first item, then one more each time, in the 32 bits of
`kauth_resolver_sequence`.  So of two enqueued items the later one has the
strictly greater sequence number as long as the counter has not wrapped
(`31337 + j < 2^32` for the later item `j`), and two items share no sequence
number when fewer than `2^32` submissions lie between them. -/
theorem kauth_resolver_sequence_numbers (k : Platform) (ops : List KauthOp) :
    (∀ (i : Nat) (workp : kauth_resolver_work),
      (enqueued k KauthState.init ops)[i]? = some workp →
      workp.kr_seqno = (31337 + i) % 4294967296 ∧ workp.kr_work.el_seqno = workp.kr_seqno) ∧
    (∀ (i j : Nat) (wi wj : kauth_resolver_work), i < j →
      (enqueued k KauthState.init ops)[i]? = some wi →
      (enqueued k KauthState.init ops)[j]? = some wj →
      31337 + j < 4294967296 → wi.kr_seqno < wj.kr_seqno) ∧
    (∀ (i j : Nat) (wi wj : kauth_resolver_work), i < j → j < i + 4294967296 →
      (enqueued k KauthState.init ops)[i]? = some wi →
      (enqueued k KauthState.init ops)[j]? = some wj →
      wi.kr_seqno ≠ wj.kr_seqno) := by
  have hinit : KauthState.init.resolver.kauth_resolver_sequence = 31337 := rfl
  have key := enqueued_seqno k ops KauthState.init (by rw [hinit]; omega)
  rw [hinit] at key
  refine ⟨key, ?_, ?_⟩
  · intro i j wi wj hij hi hj hwrap
    rw [(key i wi hi).1, (key j wj hj).1]
    omega
  · intro i j wi wj hij hnear hi hj
    rw [(key i wi hi).1, (key j wj hj).1]
    omega

set_option maxRecDepth 100000 in
/-- Witness for C19: after a registration the first two submissions enqueue
the items 31337 and 31338. -/
theorem kauth_resolver_sequence_numbers_witness :
    (enqueued xnu KauthState.init [register_op, submit_op, submit_op]).map
      (fun workp => workp.kr_seqno) = [31337, 31338] ∧
    (work_item 31337 KAUTH_REQUEST_UNSUBMITTED).kr_seqno <
      (work_item 31338 KAUTH_REQUEST_UNSUBMITTED).kr_seqno :=
  ⟨by decide,
    (kauth_resolver_sequence_numbers xnu [register_op, submit_op, submit_op]).2.1 0 1 _ _
      (by decide) (by decide) (by decide) (by decide)⟩

/-- Counterexample to C19 as stated: after a registration, 4294935960
submissions in a row enqueue as many items (nothing collects them).  The first
carries the sequence number 31337; the last carries 0, which is smaller, because
the 32-bit counter has wrapped. -/
theorem kauth_resolver_sequence_wraps :
    ∃ wi wj : kauth_resolver_work,
      (enqueued xnu KauthState.init
        (register_op :: List.replicate 4294935960 submit_op))[0]? = some wi ∧
      (enqueued xnu KauthState.init
        (register_op :: List.replicate 4294935960 submit_op))[4294935959]? = some wj ∧
      wi.kr_seqno = 31337 ∧ wj.kr_seqno = 0 := by
  have hreg : ∃ st1 : KauthState, register_op.apply xnu KauthState.init = some (none, st1) ∧
      st1.resolver.kauth_resolver_identity ≠ 0 := ⟨_, rfl, by decide⟩
  obtain ⟨st1, hst1, hid⟩ := hreg
  have hlen := enqueued_submits_length xnu kauth_identity_extlookup.zero 0 4294935960 st1 hid
  have heq : enqueued xnu KauthState.init (register_op :: List.replicate 4294935960 submit_op) =
      enqueued xnu st1 (List.replicate 4294935960 (.submit kauth_identity_extlookup.zero 0)) :=
    enqueued_cons_none xnu KauthState.init st1 register_op _ hst1
  have hinit : KauthState.init.resolver.kauth_resolver_sequence = 31337 := rfl
  have key := enqueued_seqno xnu (register_op :: List.replicate 4294935960 submit_op)
    KauthState.init (by rw [hinit]; omega)
  rw [hinit, heq] at key
  rw [heq]
  have h0 : 0 < (enqueued xnu st1
      (List.replicate 4294935960 (.submit kauth_identity_extlookup.zero 0))).length := by
    rw [hlen]; omega
  have hj : 4294935959 < (enqueued xnu st1
      (List.replicate 4294935960 (.submit kauth_identity_extlookup.zero 0))).length := by
    rw [hlen]; omega
  refine ⟨_, _, List.getElem?_eq_getElem h0, List.getElem?_eq_getElem hj, ?_, ?_⟩
  · rw [(key 0 _ (List.getElem?_eq_getElem h0)).1]
  · rw [(key 4294935959 _ (List.getElem?_eq_getElem hj)).1]

/-! ## Completion of a request -/

/-- The `switch` of `kauth_resolver_complete` on a status other than FATAL:
no error, the globals untouched, and the result by status. -/
theorem kauth_resolver_complete_switch_nonfatal (k : Platform) (el_result : Nat)
    (s : ResolverState) (hnf : el_result ≠ k.KAUTH_EXTLOOKUP_FATAL) :
    kauth_resolver_complete_switch k el_result s =
      (0,
        if el_result = k.KAUTH_EXTLOOKUP_INPROG ∨ el_result = k.KAUTH_EXTLOOKUP_SUCCESS then 0
        else if el_result = k.KAUTH_EXTLOOKUP_BADRQ then k.EINVAL
        else k.KAUTH_RESOLVER_FAILED_ERRCODE, s) := by
  unfold kauth_resolver_complete_switch
  split_ifs <;> simp_all

/-- C20 (non-fatal completion).  For a completion message that is read
without error and whose `el_result` is not FATAL: if an item of the submitted
queue has the `kr_seqno` of the message, the first such item is taken off the
submitted queue and put at the tail of the done queue, with
`KAUTH_REQUEST_DONE` set and `KAUTH_REQUEST_SUBMITTED` clear in `kr_flags` (its
flags are exactly DONE when they were exactly SUBMITTED), its `kr_work` replaced
by the message, and its `kr_result` 0 for SUCCESS and INPROG, `EINVAL` for BADRQ
and `KAUTH_RESOLVER_FAILED_ERRCODE` for FAILURE and every other status; the
other items keep their queues and their order, and the unsubmitted queue and the
other globals are untouched.  If no submitted item has that sequence number,
the state is unchanged and the call returns 0. -/
theorem kauth_resolver_complete_nonfatal (k : Platform) (caller : identitysvc_caller)
    (s : ResolverState) (extl : kauth_identity_extlookup)
    (hcopy : caller.copyin_message = .ok extl)
    (hnf : extl.el_result ≠ k.KAUTH_EXTLOOKUP_FATAL) :
    ((∃ w ∈ s.kauth_resolver_submitted, w.kr_seqno = extl.el_seqno) →
      ∃ pre workp post, s.kauth_resolver_submitted = pre ++ workp :: post ∧
        workp.kr_seqno = extl.el_seqno ∧
        (∀ x ∈ pre, x.kr_seqno ≠ extl.el_seqno) ∧
        (kauth_resolver_complete k caller s).2 =
          { s with
            kauth_resolver_submitted := pre ++ post
            kauth_resolver_done := s.kauth_resolver_done ++
              [{ workp with
                 kr_flags :=
                   clear_bits workp.kr_flags KAUTH_REQUEST_SUBMITTED ||| KAUTH_REQUEST_DONE
                 kr_result :=
                   if extl.el_result = k.KAUTH_EXTLOOKUP_INPROG ∨
                       extl.el_result = k.KAUTH_EXTLOOKUP_SUCCESS then 0
                   else if extl.el_result = k.KAUTH_EXTLOOKUP_BADRQ then k.EINVAL
                   else k.KAUTH_RESOLVER_FAILED_ERRCODE
                 kr_work := extl }] } ∧
        (clear_bits workp.kr_flags KAUTH_REQUEST_SUBMITTED ||| KAUTH_REQUEST_DONE) &&&
          KAUTH_REQUEST_DONE ≠ 0 ∧
        (clear_bits workp.kr_flags KAUTH_REQUEST_SUBMITTED ||| KAUTH_REQUEST_DONE) &&&
          KAUTH_REQUEST_SUBMITTED = 0 ∧
        (workp.kr_flags = KAUTH_REQUEST_SUBMITTED →
          clear_bits workp.kr_flags KAUTH_REQUEST_SUBMITTED ||| KAUTH_REQUEST_DONE =
            KAUTH_REQUEST_DONE)) ∧
    ((∀ w ∈ s.kauth_resolver_submitted, w.kr_seqno ≠ extl.el_seqno) →
      kauth_resolver_complete k caller s = (0, s)) := by
  refine ⟨?_, ?_⟩
  · intro hit
    obtain ⟨q, hq⟩ := extract_first_isSome
      (fun workp : kauth_resolver_work => decide (workp.kr_seqno = extl.el_seqno))
      s.kauth_resolver_submitted (by
        obtain ⟨w, hw, h1⟩ := hit
        exact ⟨w, hw, by simpa using h1⟩)
    obtain ⟨pre, post, hl, hr, hp, hpre⟩ :=
      extract_first_spec _ s.kauth_resolver_submitted q.1 q.2 hq
    refine ⟨pre, q.1, post, hl, by simpa using hp, ?_, ?_, ?_, ?_, ?_⟩
    · intro x hx
      simpa using hpre x hx
    · unfold kauth_resolver_complete
      rw [hcopy]
      simp only []
      rw [kauth_resolver_complete_switch_nonfatal k _ s hnf]
      simp only []
      rw [if_pos hnf, hq, ← hr]
    · rw [or_and_self]; decide
    · rw [or_and_disjoint _ _ _ (by decide), clear_bits_and]
    · intro hflags
      rw [hflags]
      decide
  · intro hmiss
    unfold kauth_resolver_complete
    rw [hcopy]
    simp only []
    rw [kauth_resolver_complete_switch_nonfatal k _ s hnf]
    simp only []
    rw [if_pos hnf, extract_first_none _ _ (by
      intro w hw
      simpa using hmiss w hw)]

set_option maxRecDepth 100000 in
/-- Witness for C20: the resolver reports SUCCESS for the request 31338,
the second of the two handed out. -/
theorem kauth_resolver_complete_nonfatal_witness :
    ∃ pre workp post, (busy_state 30).resolver.kauth_resolver_submitted = pre ++ workp :: post ∧
      workp.kr_seqno = success_message.el_seqno ∧
      (∀ x ∈ pre, x.kr_seqno ≠ success_message.el_seqno) ∧
      (kauth_resolver_complete xnu (resolver_caller 100 (0, 0) success_message)
          (busy_state 30).resolver).2 =
        { (busy_state 30).resolver with
          kauth_resolver_submitted := pre ++ post
          kauth_resolver_done := (busy_state 30).resolver.kauth_resolver_done ++
            [{ workp with
               kr_flags :=
                 clear_bits workp.kr_flags KAUTH_REQUEST_SUBMITTED ||| KAUTH_REQUEST_DONE
               kr_result :=
                 if success_message.el_result = xnu.KAUTH_EXTLOOKUP_INPROG ∨
                     success_message.el_result = xnu.KAUTH_EXTLOOKUP_SUCCESS then 0
                 else if success_message.el_result = xnu.KAUTH_EXTLOOKUP_BADRQ then xnu.EINVAL
                 else xnu.KAUTH_RESOLVER_FAILED_ERRCODE
               kr_work := success_message }] } ∧
      (clear_bits workp.kr_flags KAUTH_REQUEST_SUBMITTED ||| KAUTH_REQUEST_DONE) &&&
        KAUTH_REQUEST_DONE ≠ 0 ∧
      (clear_bits workp.kr_flags KAUTH_REQUEST_SUBMITTED ||| KAUTH_REQUEST_DONE) &&&
        KAUTH_REQUEST_SUBMITTED = 0 ∧
      (workp.kr_flags = KAUTH_REQUEST_SUBMITTED →
        clear_bits workp.kr_flags KAUTH_REQUEST_SUBMITTED ||| KAUTH_REQUEST_DONE =
          KAUTH_REQUEST_DONE) :=
  (kauth_resolver_complete_nonfatal xnu (resolver_caller 100 (0, 0) success_message)
    (busy_state 30).resolver success_message rfl (by decide)).1
    ⟨work_item 31338 KAUTH_REQUEST_SUBMITTED, by decide, rfl⟩

/-! ## Death of the resolver -/

/-- With no resolver recorded, every call of `identitysvc` other than a
registration, from a process other than pid 0, is refused with `EPERM` and
changes nothing. -/
theorem identitysvc_refused (k : Platform) (caller : identitysvc_caller) (st : KauthState)
    (opcode message : Nat) (hid : st.resolver.kauth_resolver_identity = 0)
    (hpid : caller.pid ≠ 0) (hop : opcode ≠ k.KAUTH_EXTLOOKUP_REGISTER) :
    identitysvc k caller st opcode message = some (k.EPERM, st) := by
  unfold identitysvc
  by_cases hent : caller.entitled = true
  · rw [if_neg (by simp [hent]), if_neg hop, if_pos (Or.inr (by rw [hid]; exact hpid))]
  · rw [if_pos (by simpa using hent)]

/-- With no resolver recorded, `kauth_resolver_submit` returns `EWOULDBLOCK`
and leaves the globals alone. -/
theorem kauth_resolver_submit_unregistered (k : Platform) (s : ResolverState)
    (lkp : kauth_identity_extlookup) (extend_data : Nat)
    (hid : s.kauth_resolver_identity = 0) :
    kauth_resolver_submit k s lkp extend_data = (k.EWOULDBLOCK, none, s) := by
  unfold kauth_resolver_submit
  rw [if_pos hid]

/-- C21 (fatal completion).  For a completion message that is read without
error and whose `el_result` is `KAUTH_EXTLOOKUP_FATAL`, `kauth_resolver_complete`
returns `KAUTH_RESOLVER_FAILED_ERRCODE` and changes the globals only by clearing
`kauth_resolver_identity` and `kauth_resolver_registered`: the three queues and
every item on them are as before, whatever the sequence number of the message.
While no resolver is recorded, every call of `identitysvc` other than a
registration (so every RESULT and WORKER call) from a process other than pid 0
returns `EPERM` and changes nothing, and neither a reset of the identity nor a
submission records a resolver. -/
theorem kauth_resolver_complete_fatal (k : Platform) (caller : identitysvc_caller)
    (s : ResolverState) (extl : kauth_identity_extlookup)
    (hcopy : caller.copyin_message = .ok extl)
    (hfatal : extl.el_result = k.KAUTH_EXTLOOKUP_FATAL)
    (h1 : k.KAUTH_EXTLOOKUP_FATAL ≠ k.KAUTH_EXTLOOKUP_INPROG)
    (h2 : k.KAUTH_EXTLOOKUP_FATAL ≠ k.KAUTH_EXTLOOKUP_SUCCESS) :
    kauth_resolver_complete k caller s =
      (k.KAUTH_RESOLVER_FAILED_ERRCODE,
        { s with kauth_resolver_identity := 0, kauth_resolver_registered := 0 }) ∧
    (∀ (caller2 : identitysvc_caller) (st : KauthState) (opcode message : Nat),
      st.resolver.kauth_resolver_identity = 0 → caller2.pid ≠ 0 →
      opcode ≠ k.KAUTH_EXTLOOKUP_REGISTER →
      identitysvc k caller2 st opcode message = some (k.EPERM, st)) ∧
    (∀ s0 : ResolverState, s0.kauth_resolver_identity = 0 →
      kauth_resolver_identity_reset s0 = s0 ∧
      ∀ (lkp : kauth_identity_extlookup) (extend_data : Nat),
        kauth_resolver_submit k s0 lkp extend_data = (k.EWOULDBLOCK, none, s0)) := by
  refine ⟨?_, ?_, ?_⟩
  · unfold kauth_resolver_complete
    rw [hcopy]
    simp only []
    unfold kauth_resolver_complete_switch
    rw [hfatal, if_neg h1, if_neg h2, if_pos rfl]
    simp only []
    rw [if_neg (by simp)]
  · intro caller2 st opcode message hid hpid hop
    exact identitysvc_refused k caller2 st opcode message hid hpid hop
  · intro s0 hid
    refine ⟨?_, fun lkp extend_data => kauth_resolver_submit_unregistered k s0 lkp extend_data hid⟩
    unfold kauth_resolver_identity_reset
    rw [if_neg (by simp [hid])]

set_option maxRecDepth 100000 in
/-- Witness for C21: the resolver of pid 100 reports FATAL for the request
31338, one of the two handed out. -/
theorem kauth_resolver_complete_fatal_witness :
    kauth_resolver_complete xnu (resolver_caller 100 (0, 0) fatal_message)
        (busy_state 30).resolver =
      (xnu.KAUTH_RESOLVER_FAILED_ERRCODE,
        { (busy_state 30).resolver with
          kauth_resolver_identity := 0, kauth_resolver_registered := 0 }) :=
  (kauth_resolver_complete_fatal xnu (resolver_caller 100 (0, 0) fatal_message)
    (busy_state 30).resolver fatal_message rfl rfl (by decide) (by decide)).1

/-- C23 (no resolver, fail fast).  When no resolver identity is recorded at
entry to `kauth_resolver_submit` and none is recorded after its short sleep,
the call returns `EWOULDBLOCK`; the request structure is as the caller passed
it, no item is enqueued, and the globals (the three queues and
`kauth_resolver_sequence` among them) are those found after the sleep. -/
theorem kauth_resolver_submit_no_resolver (k : Platform) (at_entry after_sleep : ResolverState)
    (lkp : kauth_identity_extlookup) (extend_data : Nat)
    (h0 : at_entry.kauth_resolver_identity = 0)
    (h1 : after_sleep.kauth_resolver_identity = 0) :
    kauth_resolver_submit_entry k at_entry after_sleep lkp extend_data =
      (k.EWOULDBLOCK, lkp, none, after_sleep) := by
  unfold kauth_resolver_submit_entry
  simp only [if_pos h0]
  rw [kauth_resolver_submit_unregistered k after_sleep lkp extend_data h1]

/-- Witness for C23: a submission at boot, before any resolver has registered. -/
theorem kauth_resolver_submit_no_resolver_witness :
    kauth_resolver_submit_entry xnu ResolverState.init ResolverState.init
        kauth_identity_extlookup.zero 0 =
      (xnu.EWOULDBLOCK, kauth_identity_extlookup.zero, none, ResolverState.init) :=
  kauth_resolver_submit_no_resolver xnu ResolverState.init ResolverState.init
    kauth_identity_extlookup.zero 0 rfl rfl

/-- The item found for a submitter carries the sequence number asked for. -/
theorem resolver_find_work_seqno (s : ResolverState) (seqno : Nat) (workp : kauth_resolver_work)
    (h : resolver_find_work s seqno = some workp) : workp.kr_seqno = seqno := by
  unfold resolver_find_work at h
  have := List.find?_some h
  simpa using this

/-- An item that is on a queue can be removed from it. -/
theorem remove_work_of_mem (workp : kauth_resolver_work) (queue : List kauth_resolver_work)
    (h : workp ∈ queue) : ∃ rest, remove_work workp.kr_seqno queue = some rest := by
  obtain ⟨q, hq⟩ := extract_first_isSome
    (fun w : kauth_resolver_work => decide (w.kr_seqno = workp.kr_seqno)) queue
    ⟨workp, h, by simp⟩
  exact ⟨q.2, by unfold remove_work; rw [hq]; rfl⟩

/-- The macro `TAILQ_REMOVE` of an item by its sequence number takes that item
out of the queue it is on, at its first place, when no other item on the queue
carries the number. -/
theorem remove_work_of_unique (seqno : Nat) (workp : kauth_resolver_work)
    (queue : List kauth_resolver_work) (hm : workp ∈ queue) (hseq : workp.kr_seqno = seqno)
    (hone : ∀ w ∈ queue, w.kr_seqno = seqno → w = workp) :
    ∃ pre post, queue = pre ++ workp :: post ∧ (∀ x ∈ pre, x.kr_seqno ≠ seqno) ∧
      remove_work seqno queue = some (pre ++ post) := by
  obtain ⟨q, hq⟩ := extract_first_isSome
    (fun w : kauth_resolver_work => decide (w.kr_seqno = seqno)) queue
    ⟨workp, hm, by simp [hseq]⟩
  obtain ⟨e, r⟩ := q
  obtain ⟨pre, post, h1, h2, h3, h4⟩ := extract_first_spec _ _ _ _ hq
  have he : e = workp := by
    apply hone e
    · rw [h1]; simp
    · simpa using h3
  subst he
  refine ⟨pre, post, h1, ?_, ?_⟩
  · intro x hx
    simpa using h4 x hx
  · unfold remove_work
    rw [hq, h2]
    rfl

/-- C24 (resolver death on an unclaimed timeout).  A submitter whose wait
ended with `EWOULDBLOCK`, whose item holds its one reference, is in exactly one
of the three states and is on the queue of that state, no other item on the
three queues carrying its sequence number (by which the second half of
`kauth_resolver_submit` finds the item here, in place of the pointer): the call
returns `EWOULDBLOCK` with the request structure as it was, and the item is
removed from its queue, which was `pre ++ workp :: post` and is `pre ++ post`
afterwards, the other two queues being untouched.  When the item is in the
state UNSUBMITTED, `kauth_resolver_identity` and `kauth_resolver_registered` are
0 afterwards; when it is SUBMITTED or DONE, both are as before.  With the
identity cleared, a submission that finds no resolver recorded after its short
sleep returns `EWOULDBLOCK` and enqueues nothing, and every call of
`identitysvc` other than a registration, from a process other than pid 0, is
refused and changes nothing, so the identity stays cleared until a
registration. -/
theorem kauth_resolver_submit_timeout (k : Platform) (s : ResolverState) (seqno : Nat)
    (lkp : kauth_identity_extlookup) (workp : kauth_resolver_work)
    (hfind : resolver_find_work s seqno = some workp) (hrefs : workp.kr_refs = 1)
    (herr : k.EWOULDBLOCK ≠ 0)
    (hon : (workp.kr_flags = KAUTH_REQUEST_UNSUBMITTED ∧ workp ∈ s.kauth_resolver_unsubmitted) ∨
      (workp.kr_flags = KAUTH_REQUEST_SUBMITTED ∧ workp ∈ s.kauth_resolver_submitted) ∨
      (workp.kr_flags = KAUTH_REQUEST_DONE ∧ workp ∈ s.kauth_resolver_done))
    (hone : ∀ w ∈ s.kauth_resolver_unsubmitted ++ s.kauth_resolver_submitted ++
      s.kauth_resolver_done, w.kr_seqno = seqno → w = workp) :
    ∃ s1 : ResolverState,
      kauth_resolver_submit_wakeup k s seqno lkp k.EWOULDBLOCK = some (k.EWOULDBLOCK, lkp, s1) ∧
      s1.kauth_identitysvc_has_registered = s.kauth_identitysvc_has_registered ∧
      s1.kauth_resolver_sequence = s.kauth_resolver_sequence ∧
      s1.kauth_resolver_timeout = s.kauth_resolver_timeout ∧
      (workp.kr_flags = KAUTH_REQUEST_UNSUBMITTED →
        s1.kauth_resolver_identity = 0 ∧ s1.kauth_resolver_registered = 0 ∧
        (∃ pre post, s.kauth_resolver_unsubmitted = pre ++ workp :: post ∧
          (∀ x ∈ pre, x.kr_seqno ≠ seqno) ∧ s1.kauth_resolver_unsubmitted = pre ++ post) ∧
        s1.kauth_resolver_submitted = s.kauth_resolver_submitted ∧
        s1.kauth_resolver_done = s.kauth_resolver_done) ∧
      (workp.kr_flags = KAUTH_REQUEST_SUBMITTED →
        s1.kauth_resolver_identity = s.kauth_resolver_identity ∧
        s1.kauth_resolver_registered = s.kauth_resolver_registered ∧
        (∃ pre post, s.kauth_resolver_submitted = pre ++ workp :: post ∧
          (∀ x ∈ pre, x.kr_seqno ≠ seqno) ∧ s1.kauth_resolver_submitted = pre ++ post) ∧
        s1.kauth_resolver_unsubmitted = s.kauth_resolver_unsubmitted ∧
        s1.kauth_resolver_done = s.kauth_resolver_done) ∧
      (workp.kr_flags = KAUTH_REQUEST_DONE →
        s1.kauth_resolver_identity = s.kauth_resolver_identity ∧
        s1.kauth_resolver_registered = s.kauth_resolver_registered ∧
        (∃ pre post, s.kauth_resolver_done = pre ++ workp :: post ∧
          (∀ x ∈ pre, x.kr_seqno ≠ seqno) ∧ s1.kauth_resolver_done = pre ++ post) ∧
        s1.kauth_resolver_unsubmitted = s.kauth_resolver_unsubmitted ∧
        s1.kauth_resolver_submitted = s.kauth_resolver_submitted) ∧
      (s1.kauth_resolver_identity = 0 →
        (∀ (after_sleep : ResolverState) (lkp1 : kauth_identity_extlookup) (extend_data : Nat),
          after_sleep.kauth_resolver_identity = 0 →
          kauth_resolver_submit_entry k s1 after_sleep lkp1 extend_data =
            (k.EWOULDBLOCK, lkp1, none, after_sleep)) ∧
        (∀ (caller : identitysvc_caller) (identity : IdentityCache) (groups : GroupsCache)
            (opcode message : Nat),
          caller.pid ≠ 0 → opcode ≠ k.KAUTH_EXTLOOKUP_REGISTER →
          identitysvc k caller { resolver := s1, identity := identity, groups := groups } opcode
              message =
            some (k.EPERM, { resolver := s1, identity := identity, groups := groups }))) := by
  have hseq := resolver_find_work_seqno s seqno workp hfind
  have hnext : ∀ s1 : ResolverState, s1.kauth_resolver_identity = 0 →
      (∀ (after_sleep : ResolverState) (lkp1 : kauth_identity_extlookup) (extend_data : Nat),
        after_sleep.kauth_resolver_identity = 0 →
        kauth_resolver_submit_entry k s1 after_sleep lkp1 extend_data =
          (k.EWOULDBLOCK, lkp1, none, after_sleep)) ∧
      (∀ (caller : identitysvc_caller) (identity : IdentityCache) (groups : GroupsCache)
          (opcode message : Nat),
        caller.pid ≠ 0 → opcode ≠ k.KAUTH_EXTLOOKUP_REGISTER →
        identitysvc k caller { resolver := s1, identity := identity, groups := groups } opcode
            message =
          some (k.EPERM, { resolver := s1, identity := identity, groups := groups })) := by
    intro s1 hid
    refine ⟨?_, ?_⟩
    · intro after_sleep lkp1 extend_data hafter
      unfold kauth_resolver_submit_entry
      simp only [if_pos hid]
      rw [kauth_resolver_submit_unregistered k after_sleep lkp1 extend_data hafter]
    · intro caller identity groups opcode message hpid hop
      exact identitysvc_refused k caller _ opcode message hid hpid hop
  have hU : KAUTH_REQUEST_UNSUBMITTED ≠ KAUTH_REQUEST_SUBMITTED := by decide
  have hD : KAUTH_REQUEST_UNSUBMITTED ≠ KAUTH_REQUEST_DONE := by decide
  have hSD : KAUTH_REQUEST_SUBMITTED ≠ KAUTH_REQUEST_DONE := by decide
  unfold kauth_resolver_submit_wakeup
  rw [hfind]
  simp only [if_neg herr, hrefs]
  rcases hon with ⟨hf, hm⟩ | ⟨hf, hm⟩ | ⟨hf, hm⟩
  · obtain ⟨pre, post, hsplit, hpre, hrest⟩ := remove_work_of_unique seqno workp _ hm hseq
      (fun w hw => hone w (by simp [hw]))
    have b1 : KAUTH_REQUEST_UNSUBMITTED &&& KAUTH_REQUEST_UNSUBMITTED ≠ 0 := by decide
    have b2 : ¬ KAUTH_REQUEST_UNSUBMITTED &&& KAUTH_REQUEST_DONE ≠ 0 := by decide
    have b3 : ¬ KAUTH_REQUEST_UNSUBMITTED &&& KAUTH_REQUEST_SUBMITTED ≠ 0 := by decide
    rw [hf]
    simp only [b1, b2, b3, and_self, if_true, if_false, ne_eq, not_true_eq_false,
      not_false_eq_true, le_refl, sub_self, hrest, Option.map_some']
    refine ⟨_, rfl, rfl, rfl, rfl, ?_, ?_, ?_, ?_⟩
    · intro _; exact ⟨rfl, rfl, ⟨pre, post, hsplit, hpre, rfl⟩, rfl, rfl⟩
    · intro h; exact absurd h hU
    · intro h; exact absurd h hD
    · intro hid; exact hnext _ hid
  · obtain ⟨pre, post, hsplit, hpre, hrest⟩ := remove_work_of_unique seqno workp _ hm hseq
      (fun w hw => hone w (by simp [hw]))
    have b1 : ¬ KAUTH_REQUEST_SUBMITTED &&& KAUTH_REQUEST_UNSUBMITTED ≠ 0 := by decide
    have b2 : ¬ KAUTH_REQUEST_SUBMITTED &&& KAUTH_REQUEST_DONE ≠ 0 := by decide
    have b3 : KAUTH_REQUEST_SUBMITTED &&& KAUTH_REQUEST_SUBMITTED ≠ 0 := by decide
    rw [hf]
    simp only [b1, b2, b3, and_false, if_true, if_false, ne_eq, not_true_eq_false,
      not_false_eq_true, le_refl, sub_self, hrest, Option.map_some']
    refine ⟨_, rfl, rfl, rfl, rfl, ?_, ?_, ?_, ?_⟩
    · intro h; exact absurd h.symm hU
    · intro _; exact ⟨rfl, rfl, ⟨pre, post, hsplit, hpre, rfl⟩, rfl, rfl⟩
    · intro h; exact absurd h hSD
    · intro hid; exact hnext _ hid
  · obtain ⟨pre, post, hsplit, hpre, hrest⟩ := remove_work_of_unique seqno workp _ hm hseq
      (fun w hw => hone w (by simp [hw]))
    have b1 : ¬ KAUTH_REQUEST_DONE &&& KAUTH_REQUEST_UNSUBMITTED ≠ 0 := by decide
    have b2 : KAUTH_REQUEST_DONE &&& KAUTH_REQUEST_DONE ≠ 0 := by decide
    rw [hf]
    simp only [b1, b2, and_false, if_true, if_false, ne_eq, not_true_eq_false,
      not_false_eq_true, le_refl, sub_self, hrest, Option.map_some']
    refine ⟨_, rfl, rfl, rfl, rfl, ?_, ?_, ?_, ?_⟩
    · intro h; exact absurd h.symm hD
    · intro h; exact absurd h.symm hSD
    · intro _; exact ⟨rfl, rfl, ⟨pre, post, hsplit, hpre, rfl⟩, rfl, rfl⟩
    · intro hid; exact hnext _ hid

/-- The macro `TAILQ_REMOVE` of an item by its sequence number on a queue that
splits at the first item with that number. -/
theorem remove_work_split (seqno : Nat) (pre post : List kauth_resolver_work)
    (e : kauth_resolver_work) (hpre : ∀ x ∈ pre, x.kr_seqno ≠ seqno) (he : e.kr_seqno = seqno) :
    remove_work seqno (pre ++ e :: post) = some (pre ++ post) := by
  unfold remove_work
  rw [extract_first_split _ e post pre (fun x hx => by simpa using hpre x hx) (by simpa using he)]
  rfl

set_option maxRecDepth 100000 in
/-- Witness for C24, on the state with the requests 31337 and 31338 handed to
the resolver and the request 31339 not yet collected.  The submitter of 31339
times out: the identity is cleared and the unsubmitted queue is empty.  The
submitter of 31338 times out: the identity stays, and of the two items on the
submitted queue the first, 31337, is left. -/
theorem kauth_resolver_submit_timeout_witness :
    (∃ s1 : ResolverState,
      kauth_resolver_submit_wakeup xnu (busy_state 30).resolver 31339
          kauth_identity_extlookup.zero xnu.EWOULDBLOCK =
        some (xnu.EWOULDBLOCK, kauth_identity_extlookup.zero, s1) ∧
      s1.kauth_resolver_identity = 0 ∧ s1.kauth_resolver_registered = 0 ∧
      s1.kauth_resolver_unsubmitted = [] ∧
      s1.kauth_resolver_submitted =
        [work_item 31337 KAUTH_REQUEST_SUBMITTED, work_item 31338 KAUTH_REQUEST_SUBMITTED] ∧
      s1.kauth_resolver_done = []) ∧
    (∃ s1 : ResolverState,
      kauth_resolver_submit_wakeup xnu (busy_state 30).resolver 31338
          kauth_identity_extlookup.zero xnu.EWOULDBLOCK =
        some (xnu.EWOULDBLOCK, kauth_identity_extlookup.zero, s1) ∧
      s1.kauth_resolver_identity = 100 ∧ s1.kauth_resolver_registered = 1 ∧
      s1.kauth_resolver_unsubmitted = [work_item 31339 KAUTH_REQUEST_UNSUBMITTED] ∧
      s1.kauth_resolver_submitted = [work_item 31337 KAUTH_REQUEST_SUBMITTED] ∧
      s1.kauth_resolver_done = []) := by
  constructor
  · obtain ⟨s1, h1, _, _, _, h2, _⟩ :=
      kauth_resolver_submit_timeout xnu (busy_state 30).resolver 31339
        kauth_identity_extlookup.zero (work_item 31339 KAUTH_REQUEST_UNSUBMITTED) (by decide) rfl
        (by decide) (Or.inl ⟨rfl, by decide⟩) (by decide)
    obtain ⟨a, b, ⟨pre, post, hsplit, hpre, hq⟩, c, d⟩ := h2 rfl
    have hrem := remove_work_split 31339 pre post (work_item 31339 KAUTH_REQUEST_UNSUBMITTED) hpre rfl
    rw [← hsplit, ← hq] at hrem
    have hrem2 : remove_work 31339 (busy_state 30).resolver.kauth_resolver_unsubmitted =
        some [] := by decide
    exact ⟨s1, h1, a, b, Option.some.inj (hrem.symm.trans hrem2), c, d⟩
  · obtain ⟨s1, h1, _, _, _, _, h3, _⟩ :=
      kauth_resolver_submit_timeout xnu (busy_state 30).resolver 31338
        kauth_identity_extlookup.zero (work_item 31338 KAUTH_REQUEST_SUBMITTED) (by decide) rfl
        (by decide) (Or.inr (Or.inl ⟨rfl, by decide⟩)) (by decide)
    obtain ⟨a, b, ⟨pre, post, hsplit, hpre, hq⟩, c, d⟩ := h3 rfl
    have hrem := remove_work_split 31338 pre post (work_item 31338 KAUTH_REQUEST_SUBMITTED) hpre rfl
    rw [← hsplit, ← hq] at hrem
    have hrem2 : remove_work 31338 (busy_state 30).resolver.kauth_resolver_submitted =
        some [work_item 31337 KAUTH_REQUEST_SUBMITTED] := by decide
    exact ⟨s1, h1, a, b, c, Option.some.inj (hrem.symm.trans hrem2), d⟩

/-! ## A completion with mismatched name flags -/

set_option maxRecDepth 100000 in
/-- C22 (mismatched extension flags), what the code does.  The request 31338
was handed to the resolver and asks for no name.  The resolver completes it
with SUCCESS and a message that flags a user name as valid.
`kauth_resolver_complete` returns `EFAULT` to the resolver, but the item has
been moved to the done queue in the state DONE, with the message as its
`kr_work` and 0 as its `kr_result`; the wait of its submitter ends with 0, and
the second half of `kauth_resolver_submit` returns 0 with the message of the
resolver in the request structure.  A translation that receives such an answer
to a request without a name buffer (`kauth_cred_uid2guid`, whose `extend_data`
is null) goes on to `kauth_identity_updatecache`, which reads the name at the
null address: a panic. -/
theorem kauth_resolver_complete_mismatch_completes :
    (work_item 31338 KAUTH_REQUEST_SUBMITTED).kr_work.el_flags &&&
      (xnu.KAUTH_EXTLOOKUP_WANT_PWNAM ||| xnu.KAUTH_EXTLOOKUP_WANT_GRNAM) = 0 ∧
    name_message.el_flags &&&
      (xnu.KAUTH_EXTLOOKUP_VALID_PWNAM ||| xnu.KAUTH_EXTLOOKUP_VALID_GRNAM) ≠ 0 ∧
    kauth_resolver_complete xnu (resolver_caller 100 (0, 0) name_message)
        (busy_state 30).resolver =
      (xnu.EFAULT,
        { (busy_state 30).resolver with
          kauth_resolver_submitted := [work_item 31337 KAUTH_REQUEST_SUBMITTED]
          kauth_resolver_done :=
            [{ work_item 31338 KAUTH_REQUEST_DONE with kr_work := name_message }] }) ∧
    KERNEL_IS_WAITING_ON_EXTERNAL_CREDENTIAL_RESOLVER xnu
        (kauth_resolver_complete xnu (resolver_caller 100 (0, 0) name_message)
          (busy_state 30).resolver).2
        { work_item 31338 KAUTH_REQUEST_DONE with kr_work := name_message } 0 = some 0 ∧
    (kauth_resolver_submit_wakeup xnu
        (kauth_resolver_complete xnu (resolver_caller 100 (0, 0) name_message)
          (busy_state 30).resolver).2
        31338 (work_item 31338 KAUTH_REQUEST_SUBMITTED).kr_work 0).map
      (fun r => (r.1, r.2.1, r.2.2.kauth_resolver_done)) = some (0, name_message, []) ∧
    kauth_cred_uid2guid xnu name_answer_env IdentityCache.init 501 (lookup_buffer.of_id 0) =
      none := by
  refine ⟨by decide, by decide, by decide, by decide, by decide, by decide⟩

/-! ## Translations answered from the identity cache -/

/-- A bit that is set under one mask is set under a larger one. -/
theorem and_or_ne_zero (v a b : Nat) (h : v &&& a ≠ 0) : v &&& (a ||| b) ≠ 0 := by
  intro h0
  apply h
  apply Nat.eq_of_testBit_eq
  intro i
  have hi := congrArg (fun n => n.testBit i) h0
  simp only [Nat.testBit_and, Nat.testBit_or, Nat.zero_testBit] at hi ⊢
  cases hv : v.testBit i <;> cases ha : a.testBit i <;> simp_all

/-- The search of `kauth_cred_cache_lookup` is the lookup that `lookup_of` names. -/
theorem kauth_cred_cache_lookup_find_eq (c : IdentityCache) (from_kind : Nat)
    (src : lookup_buffer) :
    kauth_cred_cache_lookup_find c from_kind src =
      (lookup_of from_kind src).map (fun q => q.run c) := by
  unfold kauth_cred_cache_lookup_find lookup_of
  split_ifs <;> rfl

/-- The expiry test of `kauth_cred_cache_lookup` fails exactly when the
governing expiry time is neither 0 nor later than the uptime. -/
theorem kauth_cred_cache_lookup_expired_iff (now from_kind to_kind : Nat) (ki : kauth_identity) :
    kauth_cred_cache_lookup_expired now from_kind to_kind ki ≠ some true ↔
      ∀ expiry, governing_expiry from_kind to_kind ki = some expiry →
        expiry = 0 ∨ now < expiry := by
  unfold kauth_cred_cache_lookup_expired governing_expiry kauth_identity_guid_expired
    kauth_identity_ntsid_expired kauth_identity_groups_expired
  split_ifs <;> simp <;> omega

/-- A search that hits: the first entry that passes the test of the lookup is
copied out and promoted. -/
theorem lookup_run_split (c : IdentityCache) (q : Lookup) (pre post : List kauth_identity)
    (kip : kauth_identity) (hl : c.kauth_identities = pre ++ kip :: post)
    (hkip : q.hit kip = true) (hpre : ∀ x ∈ pre, q.hit x = false) :
    q.run c = (0, some kip, { c with kauth_identities := kip :: (pre ++ post) }) := by
  rw [lookup_run_eq]
  unfold kauth_identity_find
  rw [hl, extract_first_split q.hit kip post pre hpre hkip]

/-- The middle of `kauth_cred_cache_lookup` on an entry that was found, has
the field asked for and has not expired: a hit. -/
theorem kauth_cred_cache_lookup_verdict_found (now from_kind to_kind : Nat)
    (ki : kauth_identity) (hvalid : ki.ki_valid &&& to_kind ≠ 0)
    (hexp : kauth_cred_cache_lookup_expired now from_kind to_kind ki ≠ some true) :
    kauth_cred_cache_lookup_verdict now from_kind to_kind 0 ki = .found := by
  unfold kauth_cred_cache_lookup_verdict
  have h1 : to_kind &&& ki.ki_valid ≠ 0 := by
    rw [Nat.and_comm]; exact hvalid
  simp only [h1, and_false, if_false, ne_eq, not_true_eq_false]
  rw [if_neg hexp, if_pos hvalid]

/-- The conclusion of a hit for each kind asked for: what `dst` holds. -/
theorem kauth_cred_cache_lookup_return_spec (k : Platform) (from_kind to_kind : Nat)
    (kip : kauth_identity) (dst : lookup_buffer) (c : IdentityCache)
    (hvalid : kip.ki_valid &&& to_kind ≠ 0)
    (hto : to_kind ∈ [KI_VALID_UID, KI_VALID_GID, KI_VALID_GUID, KI_VALID_NTSID, KI_VALID_GROUPS,
      KI_VALID_PWNAM, KI_VALID_GRNAM]) :
    ∃ dst1 : lookup_buffer,
      kauth_cred_cache_lookup_return k to_kind kip
        (if (to_kind = KI_VALID_PWNAM ∨ to_kind = KI_VALID_GRNAM) ∧
            ¬ (from_kind = KI_VALID_PWNAM ∨ from_kind = KI_VALID_GRNAM) ∧
            (some kip).isSome = true ∧
            kip.ki_valid &&& (KI_VALID_PWNAM ||| KI_VALID_GRNAM) ≠ 0 then
          { (if to_kind = KI_VALID_PWNAM ∨ to_kind = KI_VALID_GRNAM then
              { dst with name := "" } else dst) with name := kip.ki_name.getD "" }
        else
          (if to_kind = KI_VALID_PWNAM ∨ to_kind = KI_VALID_GRNAM then
            { dst with name := "" } else dst)) c [] = (0, dst1, c, []) ∧
      (to_kind = KI_VALID_UID → dst1 = { dst with id := kip.ki_uid }) ∧
      (to_kind = KI_VALID_GID → dst1 = { dst with id := kip.ki_gid }) ∧
      (to_kind = KI_VALID_GUID → dst1 = { dst with guid := kip.ki_guid }) ∧
      (to_kind = KI_VALID_NTSID → dst1 = { dst with ntsid := kip.ki_ntsid }) ∧
      (to_kind = KI_VALID_GROUPS →
        dst1 = { dst with
          count := dst.count.map fun count => min kip.ki_supgrpcnt count
          groups := bcopy_groups kip.ki_supgrps dst.groups
            (match dst.count with
              | some count => min kip.ki_supgrpcnt count
              | none => kip.ki_supgrpcnt) }) ∧
      (to_kind = KI_VALID_PWNAM ∨ to_kind = KI_VALID_GRNAM →
        dst1 = { dst with
          name := if from_kind = KI_VALID_PWNAM ∨ from_kind = KI_VALID_GRNAM then ""
                  else kip.ki_name.getD "" }) := by
  simp only [List.mem_cons, List.mem_singleton, List.not_mem_nil, or_false] at hto
  rcases hto with rfl | rfl | rfl | rfl | rfl | rfl | rfl
  · refine ⟨{ dst with id := kip.ki_uid }, ?_, fun _ => rfl, ?_, ?_, ?_, ?_, ?_⟩ <;>
      first
        | (intro h; exact absurd h (by decide))
        | (simp [kauth_cred_cache_lookup_return, kauth_cred_cache_lookup_found, KI_VALID_UID,
            KI_VALID_PWNAM, KI_VALID_GRNAM])
  · refine ⟨{ dst with id := kip.ki_gid }, ?_, ?_, fun _ => rfl, ?_, ?_, ?_, ?_⟩ <;>
      first
        | (intro h; exact absurd h (by decide))
        | (simp [kauth_cred_cache_lookup_return, kauth_cred_cache_lookup_found, KI_VALID_UID,
            KI_VALID_GID, KI_VALID_PWNAM, KI_VALID_GRNAM])
  · refine ⟨{ dst with guid := kip.ki_guid }, ?_, ?_, ?_, fun _ => rfl, ?_, ?_, ?_⟩ <;>
      first
        | (intro h; exact absurd h (by decide))
        | (simp [kauth_cred_cache_lookup_return, kauth_cred_cache_lookup_found, KI_VALID_UID,
            KI_VALID_GID, KI_VALID_GUID, KI_VALID_PWNAM, KI_VALID_GRNAM])
  · refine ⟨{ dst with ntsid := kip.ki_ntsid }, ?_, ?_, ?_, ?_, fun _ => rfl, ?_, ?_⟩ <;>
      first
        | (intro h; exact absurd h (by decide))
        | (simp [kauth_cred_cache_lookup_return, kauth_cred_cache_lookup_found, KI_VALID_UID,
            KI_VALID_GID, KI_VALID_GUID, KI_VALID_NTSID, KI_VALID_PWNAM, KI_VALID_GRNAM])
  · refine ⟨_, ?_, ?_, ?_, ?_, ?_, fun _ => rfl, ?_⟩ <;>
      first
        | (intro h; exact absurd h (by decide))
        | (simp [kauth_cred_cache_lookup_return, kauth_cred_cache_lookup_found, KI_VALID_UID,
            KI_VALID_GID, KI_VALID_GUID, KI_VALID_NTSID, KI_VALID_GROUPS, KI_VALID_PWNAM,
            KI_VALID_GRNAM]
           cases dst.count <;> first | exact ⟨rfl, rfl⟩ | rfl)
  · have hn : kip.ki_valid &&& (KI_VALID_PWNAM ||| KI_VALID_GRNAM) ≠ 0 :=
      and_or_ne_zero _ _ _ hvalid
    refine ⟨_, ?_, ?_, ?_, ?_, ?_, ?_, fun _ => rfl⟩ <;>
      first
        | (intro h; exact absurd h (by decide))
        | (by_cases hf : from_kind = KI_VALID_PWNAM ∨ from_kind = KI_VALID_GRNAM <;>
            simp_all [kauth_cred_cache_lookup_return, kauth_cred_cache_lookup_found,
              KI_VALID_UID, KI_VALID_GID, KI_VALID_GUID, KI_VALID_NTSID, KI_VALID_GROUPS,
              KI_VALID_PWNAM, KI_VALID_GRNAM])
  · have hn : kip.ki_valid &&& (KI_VALID_PWNAM ||| KI_VALID_GRNAM) ≠ 0 := by
      rw [Nat.or_comm]; exact and_or_ne_zero _ _ _ hvalid
    refine ⟨_, ?_, ?_, ?_, ?_, ?_, ?_, fun _ => rfl⟩ <;>
      first
        | (intro h; exact absurd h (by decide))
        | (by_cases hf : from_kind = KI_VALID_PWNAM ∨ from_kind = KI_VALID_GRNAM <;>
            simp_all [kauth_cred_cache_lookup_return, kauth_cred_cache_lookup_found,
              KI_VALID_UID, KI_VALID_GID, KI_VALID_GUID, KI_VALID_NTSID, KI_VALID_GROUPS,
              KI_VALID_PWNAM, KI_VALID_GRNAM])

/-- The cache hit of `kauth_cred_cache_lookup`: when the first entry that
matches `src` has the valid bit of `to_kind` set and the expiry time that
governs the translation is 0 or later than the uptime, the call returns 0 with
the cached field in `dst`, hands no request to the resolver and moves the entry
to the head of the cache. -/
theorem kauth_cred_cache_lookup_first_match (k : Platform) (env : lookup_env) (c : IdentityCache)
    (from_kind to_kind : Nat) (src dst : lookup_buffer) (q : Lookup)
    (pre post : List kauth_identity) (kip : kauth_identity)
    (hq : lookup_of from_kind src = some q)
    (hl : c.kauth_identities = pre ++ kip :: post)
    (hkip : q.hit kip = true) (hpre : ∀ x ∈ pre, q.hit x = false)
    (hvalid : kip.ki_valid &&& to_kind ≠ 0)
    (hexp : ∀ expiry, governing_expiry from_kind to_kind kip = some expiry →
      expiry = 0 ∨ env.now < expiry)
    (hnull : dst.null = false)
    (hto : to_kind ∈ [KI_VALID_UID, KI_VALID_GID, KI_VALID_GUID, KI_VALID_NTSID, KI_VALID_GROUPS,
      KI_VALID_PWNAM, KI_VALID_GRNAM]) :
    ∃ dst1 : lookup_buffer,
      kauth_cred_cache_lookup k env c from_kind to_kind src dst =
        some (0, dst1, { c with kauth_identities := kip :: (pre ++ post) }, []) ∧
      (to_kind = KI_VALID_UID → dst1 = { dst with id := kip.ki_uid }) ∧
      (to_kind = KI_VALID_GID → dst1 = { dst with id := kip.ki_gid }) ∧
      (to_kind = KI_VALID_GUID → dst1 = { dst with guid := kip.ki_guid }) ∧
      (to_kind = KI_VALID_NTSID → dst1 = { dst with ntsid := kip.ki_ntsid }) ∧
      (to_kind = KI_VALID_GROUPS →
        dst1 = { dst with
          count := dst.count.map fun count => min kip.ki_supgrpcnt count
          groups := bcopy_groups kip.ki_supgrps dst.groups
            (match dst.count with
              | some count => min kip.ki_supgrpcnt count
              | none => kip.ki_supgrpcnt) }) ∧
      (to_kind = KI_VALID_PWNAM ∨ to_kind = KI_VALID_GRNAM →
        dst1 = { dst with
          name := if from_kind = KI_VALID_PWNAM ∨ from_kind = KI_VALID_GRNAM then ""
                  else kip.ki_name.getD "" }) := by
  have hfind : kauth_cred_cache_lookup_find c from_kind src =
      some (0, some kip, { c with kauth_identities := kip :: (pre ++ post) }) := by
    rw [kauth_cred_cache_lookup_find_eq, hq]
    simp only [Option.map_some']
    rw [lookup_run_split c q pre post kip hl hkip hpre]
  have hverdict := kauth_cred_cache_lookup_verdict_found env.now from_kind to_kind kip hvalid
    ((kauth_cred_cache_lookup_expired_iff env.now from_kind to_kind kip).mpr hexp)
  obtain ⟨dst1, hret, hdst⟩ := kauth_cred_cache_lookup_return_spec k from_kind to_kind kip dst
    { c with kauth_identities := kip :: (pre ++ post) } hvalid hto
  refine ⟨dst1, ?_, hdst⟩
  unfold kauth_cred_cache_lookup
  rw [if_neg (by simp [hnull])]
  simp only []
  rw [hfind]
  simp only [Option.getD_some]
  rw [hverdict]
  simp only []
  rw [hret]

/-- What `bcopy_groups` leaves in the destination array: the array keeps its
length, slot `i` holds slot `i` of the source for `i < n` (0 where the source
list is shorter) and keeps its content for `i ≥ n`. -/
theorem bcopy_groups_spec (src dst : List Nat) (n : Nat) :
    (bcopy_groups src dst n).length = dst.length ∧
    ∀ i, i < dst.length →
      (bcopy_groups src dst n).getD i 0 = if i < n then src.getD i 0 else dst.getD i 0 := by
  induction n generalizing src dst with
  | zero => cases src <;> cases dst <;> simp [bcopy_groups]
  | succ n ih =>
    cases dst with
    | nil => cases src <;> simp [bcopy_groups]
    | cons d dst =>
      cases src with
      | nil =>
        obtain ⟨h1, h2⟩ := ih [] dst
        refine ⟨by simp [bcopy_groups, h1], ?_⟩
        intro i hi
        cases i with
        | zero => simp [bcopy_groups]
        | succ i =>
          have := h2 i (by simpa using hi)
          simp only [bcopy_groups, List.getD_cons_succ, this, List.getD_nil]
          simp
      | cons s src =>
        obtain ⟨h1, h2⟩ := ih src dst
        refine ⟨by simp [bcopy_groups, h1], ?_⟩
        intro i hi
        cases i with
        | zero => simp [bcopy_groups]
        | succ i =>
          have := h2 i (by simpa using hi)
          simp only [bcopy_groups, List.getD_cons_succ, this]
          simp

/-- C26 (cache hit).  For `kauth_cred_cache_lookup(from, to, src, dst)` with
`from` and `to` among the kinds the function knows and `dst` not null: when the
first entry of the identity cache that matches `src` has the valid bit of `to`
set, and the expiry time that governs the translation (that of the GUID, the
NTSID or the supplementary groups when `to` is one of them, else that of the
GUID or the NTSID when `from` is one of them, else none) is 0 or later than the
uptime, the call returns 0, hands no request to the resolver, and leaves the
cache as it was but for that entry, which is moved to the head.  `dst` holds the
cached field: the UID, the GID, the GUID, the NTSID, the supplementary groups
up to the count the caller allows, or the name.  For the supplementary groups,
with `limit` the cached count, or the smaller of it and the count the caller
passes: the count of the caller, when there is one, is `limit`, the array of
the caller keeps its length, slot `i` of it holds the cached group `i` for
`i < limit` and what it held before for `i ≥ limit`. -/
theorem kauth_cred_cache_lookup_hit (k : Platform) (env : lookup_env) (c : IdentityCache)
    (from_kind to_kind : Nat) (src dst : lookup_buffer) (q : Lookup)
    (pre post : List kauth_identity) (kip : kauth_identity)
    (hq : lookup_of from_kind src = some q)
    (hl : c.kauth_identities = pre ++ kip :: post)
    (hkip : q.hit kip = true) (hpre : ∀ x ∈ pre, q.hit x = false)
    (hvalid : kip.ki_valid &&& to_kind ≠ 0)
    (hexp : ∀ expiry, governing_expiry from_kind to_kind kip = some expiry →
      expiry = 0 ∨ env.now < expiry)
    (hnull : dst.null = false)
    (hto : to_kind ∈ [KI_VALID_UID, KI_VALID_GID, KI_VALID_GUID, KI_VALID_NTSID, KI_VALID_GROUPS,
      KI_VALID_PWNAM, KI_VALID_GRNAM]) :
    ∃ dst1 : lookup_buffer,
      kauth_cred_cache_lookup k env c from_kind to_kind src dst =
        some (0, dst1, { c with kauth_identities := kip :: (pre ++ post) }, []) ∧
      (to_kind = KI_VALID_UID → dst1 = { dst with id := kip.ki_uid }) ∧
      (to_kind = KI_VALID_GID → dst1 = { dst with id := kip.ki_gid }) ∧
      (to_kind = KI_VALID_GUID → dst1 = { dst with guid := kip.ki_guid }) ∧
      (to_kind = KI_VALID_NTSID → dst1 = { dst with ntsid := kip.ki_ntsid }) ∧
      (to_kind = KI_VALID_GROUPS →
        dst1 = { dst with
          count := dst.count.map fun count => min kip.ki_supgrpcnt count
          groups := bcopy_groups kip.ki_supgrps dst.groups
            (match dst.count with
              | some count => min kip.ki_supgrpcnt count
              | none => kip.ki_supgrpcnt) }) ∧
      (to_kind = KI_VALID_GROUPS →
        ∀ limit, limit = (match dst.count with
            | some count => min kip.ki_supgrpcnt count
            | none => kip.ki_supgrpcnt) →
          dst1.null = dst.null ∧ dst1.id = dst.id ∧ dst1.guid = dst.guid ∧
          dst1.ntsid = dst.ntsid ∧ dst1.name = dst.name ∧
          dst1.count = dst.count.map (fun _ => limit) ∧
          dst1.groups.length = dst.groups.length ∧
          ∀ i, i < dst.groups.length →
            dst1.groups.getD i 0 =
              if i < limit then kip.ki_supgrps.getD i 0 else dst.groups.getD i 0) ∧
      (to_kind = KI_VALID_PWNAM ∨ to_kind = KI_VALID_GRNAM →
        dst1 = { dst with
          name := if from_kind = KI_VALID_PWNAM ∨ from_kind = KI_VALID_GRNAM then ""
                  else kip.ki_name.getD "" }) := by
  obtain ⟨dst1, h1, h2, h3, h4, h5, h6, h7⟩ :=
    kauth_cred_cache_lookup_first_match k env c from_kind to_kind src dst q pre post kip hq hl
      hkip hpre hvalid hexp hnull hto
  refine ⟨dst1, h1, h2, h3, h4, h5, h6, ?_, h7⟩
  intro hg limit hlimit
  have hd := h6 hg
  subst hlimit
  obtain ⟨hlen, hslot⟩ := bcopy_groups_spec kip.ki_supgrps dst.groups
    (match dst.count with
      | some count => min kip.ki_supgrpcnt count
      | none => kip.ki_supgrpcnt)
  rw [hd]
  refine ⟨rfl, rfl, rfl, rfl, rfl, ?_, hlen, hslot⟩
  show dst.count.map (fun count => min kip.ki_supgrpcnt count) = _
  cases dst.count <;> rfl

set_option maxRecDepth 100000 in
/-- Witness for C26: `kauth_cred_uid2guid(501)` at uptime 100 on the cache
that holds uid 501 with a GUID valid until uptime 1000; and
`kauth_cred_uid2groups(501)` with room for three groups, in an array that holds
7, 8 and 9, on the cache that holds uid 501 in second place with the groups 20
and 30: the count comes back as 2, the array as 20, 30 and 9, and the entry is
at the head of the cache. -/
theorem kauth_cred_cache_lookup_hit_witness :
    (∃ dst1 : lookup_buffer,
      kauth_cred_uid2guid xnu timeout_env guid_cache 501 (lookup_buffer.of_id 0) =
        some (0, dst1, guid_cache, []) ∧
      dst1 = { lookup_buffer.of_id 0 with guid := example_guid }) ∧
    (∃ dst1 : lookup_buffer,
      kauth_cred_uid2groups xnu timeout_env supgroups_cache 501 [7, 8, 9] (some 3) =
        some (0, dst1,
          { supgroups_cache with kauth_identities := [supgroups_entry, uid_entry 502] }, []) ∧
      dst1.count = some 2 ∧ dst1.groups.length = 3 ∧
      dst1.groups.getD 0 0 = 20 ∧ dst1.groups.getD 1 0 = 30 ∧ dst1.groups.getD 2 0 = 9) := by
  constructor
  · obtain ⟨dst1, h1, _, _, h4, _⟩ :=
      kauth_cred_cache_lookup_hit xnu timeout_env guid_cache KI_VALID_UID KI_VALID_GUID
        (lookup_buffer.of_id 501) (lookup_buffer.of_id 0) (.find_uid 501) [] []
        { kauth_identity.zero xnu with
          ki_valid := KI_VALID_UID ||| KI_VALID_GUID, ki_uid := 501, ki_guid := example_guid,
          ki_guid_expiry := 1000 } rfl rfl (by decide) (by simp) (by decide)
        (by intro expiry h; right; cases h; decide) rfl (by decide)
    exact ⟨dst1, h1, h4 rfl⟩
  · obtain ⟨dst1, h1, _, _, _, _, _, h7, _⟩ :=
      kauth_cred_cache_lookup_hit xnu timeout_env supgroups_cache KI_VALID_UID KI_VALID_GROUPS
        (lookup_buffer.of_id 501)
        { lookup_buffer.of_id 0 with count := some 3, groups := [7, 8, 9] } (.find_uid 501)
        [uid_entry 502] [] supgroups_entry rfl rfl (by decide)
        (by intro x hx; simp at hx; subst hx; decide) (by decide)
        (by intro expiry h; right; cases h; decide) rfl (by decide)
    obtain ⟨_, _, _, _, _, hc, hlen, hslot⟩ := h7 rfl 2 rfl
    exact ⟨dst1, h1, hc, hlen, hslot 0 (by decide), hslot 1 (by decide), hslot 2 (by decide)⟩

set_option maxRecDepth 100000 in
/-- C25 (incompatible namespace), what the code does.  The identity cache
holds one entry: uid 501 with a GUID that is valid until uptime 1000, keyed by
UID and with no GID.  At uptime 100 `kauth_cred_guid2gid` on that GUID does not
return `ENOENT` at once: the test that turns a missing valid bit into `ENOENT`
runs first and sends the call to the resolver, so one request is submitted.
With a resolver that does not answer in time the call returns `EWOULDBLOCK`;
with one that answers without a valid field it returns `ENOENT` after the round
trip. -/
theorem kauth_cred_guid2gid_asks_resolver :
    guid_cache.kauth_identities.map
        (fun e => (e.ki_valid, e.ki_uid, e.ki_guid, e.ki_guid_expiry,
          kauth_identity_guid_expired 100 e)) =
      [(KI_VALID_UID ||| KI_VALID_GUID, 501, example_guid, 1000, false)] ∧
    guid_cache.kauth_identities.map
        (fun e => kauth_cred_cache_lookup_verdict 100 KI_VALID_GUID KI_VALID_GID 0 e) =
      [.resolve] ∧
    (kauth_cred_guid2gid xnu timeout_env guid_cache example_guid (lookup_buffer.of_id 0)).map
        (fun r => (r.1, r.2.2.2.length)) = some (xnu.EWOULDBLOCK, 1) ∧
    (kauth_cred_guid2gid xnu empty_answer_env guid_cache example_guid
        (lookup_buffer.of_id 0)).map
        (fun r => (r.1, r.2.2.2.length)) = some (ENOENT, 1) := by
  refine ⟨by decide, by decide, by decide, by decide⟩

/-- A bit that is set stays set when further bits are set. -/
theorem or_and_ne_zero (v m a : Nat) (h : v &&& a ≠ 0) : (v ||| m) &&& a ≠ 0 := by
  intro h0
  apply h
  apply Nat.eq_of_testBit_eq
  intro i
  have hi := congrArg (fun n => n.testBit i) h0
  simp only [Nat.testBit_and, Nat.testBit_or, Nat.zero_testBit] at hi ⊢
  cases hv : v.testBit i <;> cases ha : a.testBit i <;> simp_all

/-- The GUID flag is set once it has been set, whatever is set after it. -/
theorem guid_flag_set (v : Nat) : (v ||| KI_VALID_GUID) &&& KI_VALID_GUID ≠ 0 := by
  rw [or_and_self]; decide

/-- The refresh of a cached user entry by a response that flags the user GUID:
the entry keeps its UID and holds the GUID of the response, flagged valid, with
the expiry time of the response. -/
theorem kauth_identity_refresh_user_guid (k : Platform) (now : Nat)
    (elp : kauth_identity_extlookup) (speculative_name : Option String) (kip : kauth_identity)
    (h : elp.el_flags &&& k.KAUTH_EXTLOOKUP_VALID_UGUID ≠ 0) :
    (kauth_identity_refresh_user k now elp speculative_name kip).ki_uid = kip.ki_uid ∧
    (kauth_identity_refresh_user k now elp speculative_name kip).ki_guid = elp.el_uguid ∧
    (kauth_identity_refresh_user k now elp speculative_name kip).ki_guid_expiry =
      expiry_of now elp.el_uguid_valid ∧
    (kauth_identity_refresh_user k now elp speculative_name kip).ki_valid &&& KI_VALID_GUID
      ≠ 0 := by
  unfold kauth_identity_refresh_user
  simp only [if_pos h]
  split_ifs <;> refine ⟨rfl, rfl, rfl, ?_⟩ <;>
    first
      | exact guid_flag_set _
      | exact or_and_ne_zero _ _ _ (guid_flag_set _)
      | exact or_and_ne_zero _ _ _ (or_and_ne_zero _ _ _ (guid_flag_set _))

/-- An entry made by `kauth_identity_alloc` for a UID and a GUID holds both,
the GUID flagged valid, with the expiry time given. -/
theorem kauth_identity_alloc_user_guid (k : Platform) (uid : Nat) (g : guid_t)
    (guid_expiry : Nat) (ntsidp : Option ntsid_t) (ntsid_expiry : Nat) (supgrpcnt : Nat)
    (supgrps : Option (List Nat)) (groups_expiry : Nat) (name : Option String)
    (nametype : Nat) (kip : kauth_identity) (hu : uid ≠ k.KAUTH_UID_NONE)
    (h : kauth_identity_alloc k uid k.KAUTH_GID_NONE (some g) guid_expiry ntsidp ntsid_expiry
      supgrpcnt supgrps groups_expiry name nametype = some (some kip)) :
    kip.ki_uid = uid ∧ kip.ki_guid = g ∧ kip.ki_guid_expiry = guid_expiry ∧
    kip.ki_valid &&& KI_VALID_GUID ≠ 0 := by
  have hkey : kauth_identity_alloc_key_part k uid k.KAUTH_GID_NONE =
      some { kauth_identity.zero k with ki_uid := uid, ki_valid := KI_VALID_UID } := by
    unfold kauth_identity_alloc_key_part
    simp only [ne_eq, not_true_eq_false, if_false, if_pos hu]
    rw [if_neg (by simp [kauth_identity.zero])]
  unfold kauth_identity_alloc at h
  rw [hkey] at h
  simp only [] at h
  cases hg : kauth_identity_alloc_groups_part k
      { kauth_identity.zero k with ki_uid := uid, ki_valid := KI_VALID_UID } supgrpcnt supgrps with
  | none => rw [hg] at h; exact absurd h (by simp)
  | some o =>
    rw [hg] at h
    cases o with
    | none => exact absurd h (by simp)
    | some kip1 =>
      simp only [Option.some.injEq] at h
      have huid : kip1.ki_uid = uid := by
        unfold kauth_identity_alloc_groups_part at hg
        split_ifs at hg
        · exact absurd (Option.some.inj hg) (by simp)
        · rw [← Option.some.inj (Option.some.inj hg)]
        · rw [← Option.some.inj (Option.some.inj hg)]
      rw [← h]
      unfold kauth_identity_alloc_fill_part
      cases ntsidp <;> cases name <;> refine ⟨huid, rfl, rfl, ?_⟩ <;>
        first
          | exact guid_flag_set _
          | exact or_and_ne_zero _ _ _ (guid_flag_set _)
          | exact or_and_ne_zero _ _ _ (or_and_ne_zero _ _ _ (guid_flag_set _))

/-- The supplementary groups make `kauth_identity_alloc` return `NULL` only
when the count is larger than `NGROUPS` or when the count is not 0 and the
array is null. -/
theorem kauth_identity_alloc_groups_part_null (k : Platform) (kip : kauth_identity)
    (supgrpcnt : Nat) (supgrps : Option (List Nat))
    (h : kauth_identity_alloc_groups_part k kip supgrpcnt supgrps = some none) :
    supgrpcnt > k.NGROUPS ∨ (supgrpcnt ≠ 0 ∧ supgrps = none) := by
  unfold kauth_identity_alloc_groups_part at h
  split_ifs at h with h1 h2 h3
  · rcases h2 with h2 | h2
    · exact Or.inl h2
    · exact Or.inr ⟨h1, h2⟩
  · exact absurd (Option.some.inj h) (by simp)
  · exact absurd (Option.some.inj h) (by simp)

/-- The user half of `kauth_identity_updatecache` for a response that flags the
user GUID, on a cache within its bound whose bound is at least 1, when the
supplementary groups of the response, if flagged, fit an entry: the entry for
the UID of the response is at the head of the cache afterwards, holds the GUID
of the response flagged valid, and has the expiry time of the response. -/
theorem kauth_identity_updatecache_user_head (k : Platform) (now : Nat) (c c1 : IdentityCache)
    (elp : kauth_identity_extlookup) (speculative_name : Option String)
    (r : Option kauth_identity)
    (hguid : elp.el_flags &&& k.KAUTH_EXTLOOKUP_VALID_UGUID ≠ 0)
    (hgroups : elp.el_flags &&& k.KAUTH_EXTLOOKUP_VALID_SUPGRPS ≠ 0 →
      elp.el_sup_grp_cnt ≤ k.NGROUPS)
    (hb : identity_bound c) (hmax : 1 ≤ c.kauth_identity_cachemax)
    (h : kauth_identity_updatecache_user k now c elp speculative_name = some (c1, r)) :
    ∃ kip rest, c1.kauth_identities = kip :: rest ∧
      kip.ki_valid &&& KI_VALID_UID ≠ 0 ∧ kip.ki_uid = elp.el_uid ∧
      kip.ki_valid &&& KI_VALID_GUID ≠ 0 ∧ kip.ki_guid = elp.el_uguid ∧
      kip.ki_guid_expiry = expiry_of now elp.el_uguid_valid := by
  unfold kauth_identity_updatecache_user at h
  cases hx : extract_first
      (fun kip => decide (kip.ki_valid &&& KI_VALID_UID ≠ 0 ∧ kip.ki_uid = elp.el_uid))
      c.kauth_identities with
  | some q =>
    obtain ⟨old, rest⟩ := q
    rw [hx] at h
    simp only [Option.some.injEq, Prod.mk.injEq] at h
    obtain ⟨_, _, _, _, hp, _⟩ := extract_first_spec _ _ _ _ hx
    simp only [decide_eq_true_eq] at hp
    obtain ⟨h1, h2, h3, h4⟩ :=
      kauth_identity_refresh_user_guid k now elp speculative_name old hguid
    refine ⟨kauth_identity_refresh_user k now elp speculative_name old, rest, ?_, ?_, ?_,
      h4, h2, h3⟩
    · rw [← h.1]
    · rw [(kauth_identity_refresh_user_bits k now elp speculative_name old).1]; exact hp.1
    · rw [h1]; exact hp.2
  | none =>
    rw [hx] at h
    simp only [if_pos hguid] at h
    cases ha : kauth_identity_alloc k elp.el_uid k.KAUTH_GID_NONE (some elp.el_uguid)
        (expiry_of now elp.el_uguid_valid)
        (if elp.el_flags &&& k.KAUTH_EXTLOOKUP_VALID_USID ≠ 0 then some elp.el_usid else none)
        (expiry_of now elp.el_usid_valid)
        (if elp.el_flags &&& k.KAUTH_EXTLOOKUP_VALID_SUPGRPS ≠ 0 then elp.el_sup_grp_cnt else 0)
        (if elp.el_flags &&& k.KAUTH_EXTLOOKUP_VALID_SUPGRPS ≠ 0 then some elp.el_sup_groups
         else none)
        (expiry_of now elp.el_member_valid)
        (if elp.el_flags &&& k.KAUTH_EXTLOOKUP_VALID_PWNAM ≠ 0 then speculative_name else none)
        KI_VALID_PWNAM with
    | none => rw [ha] at h; exact absurd h (by simp)
    | some o =>
      rw [ha] at h
      cases o with
      | none =>
        exfalso
        unfold kauth_identity_alloc at ha
        cases hk : kauth_identity_alloc_key_part k elp.el_uid k.KAUTH_GID_NONE with
        | none => rw [hk] at ha; exact absurd ha (by simp)
        | some kip0 =>
          rw [hk] at ha
          simp only [] at ha
          cases hg : kauth_identity_alloc_groups_part k kip0
              (if elp.el_flags &&& k.KAUTH_EXTLOOKUP_VALID_SUPGRPS ≠ 0 then elp.el_sup_grp_cnt
               else 0)
              (if elp.el_flags &&& k.KAUTH_EXTLOOKUP_VALID_SUPGRPS ≠ 0 then
                some elp.el_sup_groups else none) with
          | none => rw [hg] at ha; exact absurd ha (by simp)
          | some o2 =>
            rw [hg] at ha
            cases o2 with
            | some kip1 => exact absurd ha (by simp)
            | none =>
              rcases kauth_identity_alloc_groups_part_null k kip0 _ _ hg with h1 | ⟨h1, h2⟩
              · by_cases hs : elp.el_flags &&& k.KAUTH_EXTLOOKUP_VALID_SUPGRPS ≠ 0
                · have hle := hgroups hs
                  rw [if_pos hs] at h1
                  omega
                · rw [if_neg hs] at h1
                  omega
              · by_cases hs : elp.el_flags &&& k.KAUTH_EXTLOOKUP_VALID_SUPGRPS ≠ 0
                · rw [if_pos hs] at h2
                  exact absurd h2 (by simp)
                · rw [if_neg hs] at h1
                  exact h1 rfl
      | some kip =>
        simp only [] at h
        cases hr : kauth_identity_register_and_free c kip with
        | none => rw [hr] at h; exact absurd h (by simp)
        | some c2 =>
          rw [hr] at h
          simp only [Option.some.injEq, Prod.mk.injEq] at h
          have hkey := kauth_identity_alloc_key k _ _ _ _ _ _ _ _ _ _ _ kip (Or.inl rfl) ha
          have hu : elp.el_uid ≠ k.KAUTH_UID_NONE := by
            intro hu
            have h1 : kip.ki_valid &&& KI_VALID_UID = 0 := by
              by_contra hne; exact (hkey.1.mp hne) hu
            have h2 : kip.ki_valid &&& KI_VALID_GID = 0 := by
              by_contra hne; exact (hkey.2.1.mp hne) rfl
            unfold kauth_identity_register_and_free at hr
            rw [if_neg (by simp [h1]), if_pos ⟨h1, h2⟩] at hr
            exact absurd hr (by simp)
          have hU : kip.ki_valid &&& KI_VALID_UID ≠ 0 := hkey.1.mpr hu
          have hG : kip.ki_valid &&& KI_VALID_GID = 0 := by
            by_contra hne; exact (hkey.2.1.mp hne) rfl
          obtain ⟨h1, h2, h3, h4⟩ := kauth_identity_alloc_user_guid k _ _ _ _ _ _ _ _ _ _ kip hu ha
          have hnew : ∀ ip ∈ c.kauth_identities, identity_key_match kip ip = false := by
            intro ip hip
            by_contra hm
            have hm1 : identity_key_match kip ip = true := by
              cases hv : identity_key_match kip ip
              · exact absurd hv hm
              · rfl
            unfold identity_key_match at hm1
            rw [if_pos hU, h1] at hm1
            obtain ⟨q, hq⟩ := extract_first_isSome
              (fun kip => decide (kip.ki_valid &&& KI_VALID_UID ≠ 0 ∧ kip.ki_uid = elp.el_uid))
              c.kauth_identities ⟨ip, hip, hm1⟩
            rw [hx] at hq
            exact absurd hq (by simp)
          rw [kauth_identity_register_and_free_insert c kip (Or.inl ⟨hU, hG⟩) hnew] at hr
          have hc2 : c2 = c1 := h.1
          subst hc2
          simp only [Option.some.injEq] at hr
          by_cases hfull : c.kauth_identity_count + 1 > c.kauth_identity_cachemax
          · rw [if_pos hfull] at hr
            have hlen : c.kauth_identities ≠ [] := by
              intro he
              have := hb.1
              rw [he] at this
              simp only [List.length_nil, Nat.cast_zero] at this
              omega
            obtain ⟨x, l, hl⟩ := List.exists_cons_of_ne_nil hlen
            refine ⟨kip, (x :: l).dropLast, ?_, hU, h1, h4, h2, h3⟩
            rw [← hr, hl]
            rfl
          · rw [if_neg hfull] at hr
            refine ⟨kip, c.kauth_identities, ?_, hU, h1, h4, h2, h3⟩
            rw [← hr]

/-- C27 (read after resolve).  Let `kauth_identity_updatecache` at uptime `now`
write a response that flags a UID and a user GUID as valid into an identity
cache that is within its bound, with a bound of at least 1 (and let the
supplementary groups of the response, if flagged, be at most `NGROUPS`, so that
an entry is made).  Then the entry for that UID is at the head of the cache,
holds the GUID of the response, and expires at 0 (never) or at `now` plus
`el_uguid_valid`.  In every cache in which this entry is the first one for the
UID, at every uptime at which the expiry time is 0 or has not been reached,
`kauth_cred_uid2guid` for the UID returns 0 with the GUID of the response and
hands no request to the resolver; it moves the entry to the head. -/
theorem kauth_cred_uid2guid_after_resolve (k : Platform) (now : Nat) (c c1 : IdentityCache)
    (elp : kauth_identity_extlookup) (rkip : Bool) (extend_name : String)
    (r : Option kauth_identity)
    (huid : elp.el_flags &&& k.KAUTH_EXTLOOKUP_VALID_UID ≠ 0)
    (hguid : elp.el_flags &&& k.KAUTH_EXTLOOKUP_VALID_UGUID ≠ 0)
    (hgroups : elp.el_flags &&& k.KAUTH_EXTLOOKUP_VALID_SUPGRPS ≠ 0 →
      elp.el_sup_grp_cnt ≤ k.NGROUPS)
    (hb : identity_bound c) (hmax : 1 ≤ c.kauth_identity_cachemax)
    (h : kauth_identity_updatecache k now c elp rkip extend_name = some (c1, r)) :
    ∃ kip rest, c1.kauth_identities = kip :: rest ∧
      kip.ki_uid = elp.el_uid ∧ kip.ki_guid = elp.el_uguid ∧
      kip.ki_guid_expiry = (if elp.el_uguid_valid ≠ 0 then now + elp.el_uguid_valid else 0) ∧
      (∀ (env : lookup_env) (guidp : lookup_buffer), guidp.null = false →
        (kip.ki_guid_expiry = 0 ∨ env.now < kip.ki_guid_expiry) →
        kauth_cred_uid2guid k env c1 elp.el_uid guidp =
          some (0, { guidp with guid := elp.el_uguid }, c1, [])) ∧
      (∀ (env : lookup_env) (c2 : IdentityCache) (pre post : List kauth_identity)
          (guidp : lookup_buffer),
        c2.kauth_identities = pre ++ kip :: post →
        (∀ x ∈ pre, ¬ (x.ki_valid &&& KI_VALID_UID ≠ 0 ∧ elp.el_uid = x.ki_uid)) →
        guidp.null = false →
        (kip.ki_guid_expiry = 0 ∨ env.now < kip.ki_guid_expiry) →
        kauth_cred_uid2guid k env c2 elp.el_uid guidp =
          some (0, { guidp with guid := elp.el_uguid },
            { c2 with kauth_identities := kip :: (pre ++ post) }, [])) := by
  unfold kauth_identity_updatecache at h
  simp only [if_pos huid] at h
  cases hu : kauth_identity_updatecache_user k now c elp
      (if elp.el_flags &&&
          (k.KAUTH_EXTLOOKUP_VALID_PWNAM ||| k.KAUTH_EXTLOOKUP_VALID_GRNAM) ≠ 0
        then some extend_name else none) with
  | none => rw [hu] at h; exact absurd h (by simp)
  | some q =>
    obtain ⟨c3, r3⟩ := q
    rw [hu] at h
    simp only [Option.map_some', Option.some.injEq, Prod.mk.injEq] at h
    obtain ⟨hc, _⟩ := h
    subst hc
    obtain ⟨kip, rest, hl, hU, hkuid, hG, hkguid, hkexp⟩ :=
      kauth_identity_updatecache_user_head k now c c3 elp _ r3 hguid hgroups hb hmax hu
    have hgen : ∀ (env : lookup_env) (c2 : IdentityCache) (pre post : List kauth_identity)
        (guidp : lookup_buffer),
        c2.kauth_identities = pre ++ kip :: post →
        (∀ x ∈ pre, ¬ (x.ki_valid &&& KI_VALID_UID ≠ 0 ∧ elp.el_uid = x.ki_uid)) →
        guidp.null = false →
        (kip.ki_guid_expiry = 0 ∨ env.now < kip.ki_guid_expiry) →
        kauth_cred_uid2guid k env c2 elp.el_uid guidp =
          some (0, { guidp with guid := elp.el_uguid },
            { c2 with kauth_identities := kip :: (pre ++ post) }, []) := by
      intro env c2 pre post guidp hl2 hpre hnull hexp
      obtain ⟨dst1, h1, _, _, h4, _⟩ :=
        kauth_cred_cache_lookup_first_match k env c2 KI_VALID_UID KI_VALID_GUID
          (lookup_buffer.of_id elp.el_uid) guidp (.find_uid elp.el_uid) pre post kip rfl hl2
          (by simp [Lookup.hit, hU, hkuid, lookup_buffer.of_id])
          (by
            intro x hx
            have := hpre x hx
            simp only [Lookup.hit, lookup_buffer.of_id]
            exact decide_eq_false this)
          hG
          (by
            intro expiry he
            simp only [governing_expiry, if_true, Option.some.injEq] at he
            rw [← he]; exact hexp)
          hnull (by decide)
      unfold kauth_cred_uid2guid
      rw [h1, h4 rfl, hkguid]
    refine ⟨kip, rest, hl, hkuid, hkguid, hkexp, ?_, hgen⟩
    intro env guidp hnull hexp
    have := hgen env c3 [] rest guidp hl (by simp) hnull hexp
    rw [this]
    simp only [List.nil_append]
    rw [← hl]

set_option maxRecDepth 100000 in
/-- Witness for C27: the response `guid_response` for uid 502 is written at
uptime 100 into the full cache of three entries with the bound 3. -/
theorem kauth_cred_uid2guid_after_resolve_witness :
    ∃ kip rest,
      ((kauth_identity_updatecache xnu 100 (three_cache 3) guid_response true "").getD
        (IdentityCache.init, none)).1.kauth_identities = kip :: rest ∧
      kip.ki_uid = guid_response.el_uid ∧ kip.ki_guid = guid_response.el_uguid ∧
      kip.ki_guid_expiry =
        (if guid_response.el_uguid_valid ≠ 0 then 100 + guid_response.el_uguid_valid else 0) ∧
      (∀ (env : lookup_env) (guidp : lookup_buffer), guidp.null = false →
        (kip.ki_guid_expiry = 0 ∨ env.now < kip.ki_guid_expiry) →
        kauth_cred_uid2guid xnu env
            ((kauth_identity_updatecache xnu 100 (three_cache 3) guid_response true "").getD
              (IdentityCache.init, none)).1 guid_response.el_uid guidp =
          some (0, { guidp with guid := guid_response.el_uguid },
            ((kauth_identity_updatecache xnu 100 (three_cache 3) guid_response true "").getD
              (IdentityCache.init, none)).1, [])) ∧
      (∀ (env : lookup_env) (c2 : IdentityCache) (pre post : List kauth_identity)
          (guidp : lookup_buffer),
        c2.kauth_identities = pre ++ kip :: post →
        (∀ x ∈ pre, ¬ (x.ki_valid &&& KI_VALID_UID ≠ 0 ∧ guid_response.el_uid = x.ki_uid)) →
        guidp.null = false →
        (kip.ki_guid_expiry = 0 ∨ env.now < kip.ki_guid_expiry) →
        kauth_cred_uid2guid xnu env c2 guid_response.el_uid guidp =
          some (0, { guidp with guid := guid_response.el_uguid },
            { c2 with kauth_identities := kip :: (pre ++ post) }, [])) :=
  kauth_cred_uid2guid_after_resolve xnu 100 (three_cache 3) _ guid_response true "" 
    ((kauth_identity_updatecache xnu 100 (three_cache 3) guid_response true "").getD
        (IdentityCache.init, none)).2
    (by decide) (by decide) (by decide) ⟨by decide, by decide⟩ (by decide) (by decide)

/-- An entry of a list of bytes, or the default 0, is a byte. -/
theorem getD_byte (l : List Nat) (h : ∀ b ∈ l, b < 256) (i : Nat) : l.getD i 0 < 256 := by
  by_cases hi : i < l.length
  · rw [List.getD_eq_getElem l 0 hi]
    exact h _ (List.getElem_mem hi)
  · rw [List.getD_eq_default l 0 (by omega)]
    decide

/-- The four bytes that the kernel loads as a host word and swaps are the
number that the bytes spell in big-endian order. -/
theorem OSSwapHostToBigInt32_load32_host (bytes : List Nat) (h : ∀ b ∈ bytes, b < 256) :
    OSSwapHostToBigInt32 (load32_host bytes) = big_endian32 bytes := by
  have h0 := getD_byte bytes h 0
  have h1 := getD_byte bytes h 1
  have h2 := getD_byte bytes h 2
  have h3 := getD_byte bytes h 3
  unfold OSSwapHostToBigInt32 load32_host big_endian32
  generalize bytes.getD 0 0 = b0 at h0 ⊢
  generalize bytes.getD 1 0 = b1 at h1 ⊢
  generalize bytes.getD 2 0 = b2 at h2 ⊢
  generalize bytes.getD 3 0 = b3 at h3 ⊢
  have e0 : (b0 + 256 * b1 + 65536 * b2 + 16777216 * b3) % 256 = b0 := by omega
  have e1 : (b0 + 256 * b1 + 65536 * b2 + 16777216 * b3) / 256 % 256 = b1 := by omega
  have e2 : (b0 + 256 * b1 + 65536 * b2 + 16777216 * b3) / 65536 % 256 = b2 := by omega
  have e3 : (b0 + 256 * b1 + 65536 * b2 + 16777216 * b3) / 16777216 % 256 = b3 := by omega
  rw [e0, e1, e2, e3]
  omega

/-- The function `kauth_wellknown_guid` on the GUIDs of Everybody and Nobody. -/
theorem kauth_wellknown_guid_everybody_nobody (k : Platform) :
    kauth_wellknown_guid k everybody_guid = k.KAUTH_WKG_EVERYBODY ∧
    kauth_wellknown_guid k nobody_guid = k.KAUTH_WKG_NOBODY :=
  ⟨rfl, rfl⟩

/-- C28 (well-known GUIDs).  For a GUID of bytes, on a platform whose four
well-known kinds differ from `KAUTH_WKG_NOT`: `kauth_wellknown_guid` reports a
well-known GUID exactly when the first 12 bytes are the fingerprint
`ab cd ef ab cd ef ab cd ef ab cd ef` and the last 4 bytes, read big-endian, are
one of the codes `0x0000000c`, `0xfffffffe`, `0x0000000a` and `0x00000010`.  For
every credential, uptime, resolver, identity cache, group cache and content of
`*resultp`, `kauth_cred_ismember_guid` returns 0 with `*resultp = 1` for the
GUID of Everybody and 0 with `*resultp = 0` for the GUID of Nobody, with both
caches as they were and no request handed to the resolver. -/
theorem kauth_cred_ismember_guid_wellknown (k : Platform) (guid : guid_t)
    (hbytes : ∀ b ∈ guid, b < 256)
    (hnot : k.KAUTH_WKG_EVERYBODY ≠ k.KAUTH_WKG_NOT ∧ k.KAUTH_WKG_NOBODY ≠ k.KAUTH_WKG_NOT ∧
      k.KAUTH_WKG_OWNER ≠ k.KAUTH_WKG_NOT ∧ k.KAUTH_WKG_GROUP ≠ k.KAUTH_WKG_NOT)
    (hne : k.KAUTH_WKG_NOBODY ≠ k.KAUTH_WKG_EVERYBODY) :
    (kauth_wellknown_guid k guid ≠ k.KAUTH_WKG_NOT ↔
      guid.take 12 = fingerprint ∧
      big_endian32 (guid.drop 12) ∈ [0x0000000c, 0xfffffffe, 0x0000000a, 0x00000010]) ∧
    (∀ (env : lookup_env) (c : IdentityCache) (g : GroupsCache) (pcred : posix_cred)
        (resultp : Nat),
      kauth_cred_ismember_guid k env c g pcred everybody_guid resultp =
        some ((0, 1), c, g, [])) ∧
    (∀ (env : lookup_env) (c : IdentityCache) (g : GroupsCache) (pcred : posix_cred)
        (resultp : Nat),
      kauth_cred_ismember_guid k env c g pcred nobody_guid resultp =
        some ((0, 0), c, g, [])) := by
  refine ⟨?_, ?_, ?_⟩
  · unfold kauth_wellknown_guid
    by_cases hf : guid.take 12 = fingerprint
    · rw [if_pos hf]
      simp only []
      rw [OSSwapHostToBigInt32_load32_host _
        (fun b hb => hbytes b (List.mem_of_mem_drop hb))]
      simp only [List.mem_cons, List.mem_singleton, List.not_mem_nil, or_false, hf, true_and]
      split_ifs with h1 h2 h3 h4
      · exact ⟨fun _ => Or.inl h1, fun _ => hnot.1⟩
      · exact ⟨fun _ => Or.inr (Or.inl h2), fun _ => hnot.2.1⟩
      · exact ⟨fun _ => Or.inr (Or.inr (Or.inl h3)), fun _ => hnot.2.2.1⟩
      · exact ⟨fun _ => Or.inr (Or.inr (Or.inr h4)), fun _ => hnot.2.2.2⟩
      · constructor
        · intro h; exact absurd rfl h
        · intro h
          rcases h with h | h | h | h
          · exact absurd h h1
          · exact absurd h h2
          · exact absurd h h3
          · exact absurd h h4
    · rw [if_neg hf]
      exact ⟨fun h => absurd rfl h, fun h => absurd h.1 hf⟩
  · intro env c g pcred resultp
    unfold kauth_cred_ismember_guid
    simp only []
    rw [(kauth_wellknown_guid_everybody_nobody k).1, if_neg (Ne.symm hne), if_pos rfl]
  · intro env c g pcred resultp
    unfold kauth_cred_ismember_guid
    simp only []
    rw [(kauth_wellknown_guid_everybody_nobody k).2, if_pos rfl]

/-- Witness for C28: the concrete platform and the GUID of Everybody. -/
theorem kauth_cred_ismember_guid_wellknown_witness :
    (kauth_wellknown_guid xnu everybody_guid ≠ xnu.KAUTH_WKG_NOT ↔
      everybody_guid.take 12 = fingerprint ∧
      big_endian32 (everybody_guid.drop 12) ∈
        [0x0000000c, 0xfffffffe, 0x0000000a, 0x00000010]) ∧
    (∀ (env : lookup_env) (c : IdentityCache) (g : GroupsCache) (pcred : posix_cred)
        (resultp : Nat),
      kauth_cred_ismember_guid xnu env c g pcred everybody_guid resultp =
        some ((0, 1), c, g, [])) ∧
    (∀ (env : lookup_env) (c : IdentityCache) (g : GroupsCache) (pcred : posix_cred)
        (resultp : Nat),
      kauth_cred_ismember_guid xnu env c g pcred nobody_guid resultp =
        some ((0, 0), c, g, [])) :=
  kauth_cred_ismember_guid_wellknown xnu everybody_guid (by decide) (by decide) (by decide)

/-- The function `kauth_cred_ismember_gid` with its state agrees with the
function on the POSIX part and with the part under `CONFIG_EXT_RESOLVER`: the
same return value and `*resultp`, and, when the inline list has no match and
the credential has not opted out, the same group cache. -/
theorem kauth_cred_ismember_gid_state_eq (k : Platform) (env : lookup_env) (g : GroupsCache)
    (pcred : posix_cred) (gid resultp : Nat) :
    (kauth_cred_ismember_gid_state k env g pcred gid resultp).1 =
      kauth_cred_ismember_gid k
        (kauth_cred_ismember_gid_resolver k env.registered env.now env.pid
          (fun el => ((env.submit el none).1, (env.submit el none).2.1)) env.later env.garbage
          g pcred gid).1 pcred gid resultp ∧
    (gid ∉ pcred.cr_groups.take pcred.cr_ngroups.toNat → pcred.cr_gmuid ≠ k.KAUTH_UID_NONE →
      (kauth_cred_ismember_gid_state k env g pcred gid resultp).2.1 =
        (kauth_cred_ismember_gid_resolver k env.registered env.now env.pid
          (fun el => ((env.submit el none).1, (env.submit el none).2.1)) env.later env.garbage
          g pcred gid).2) := by
  unfold kauth_cred_ismember_gid_state kauth_cred_ismember_gid kauth_cred_ismember_gid_resolver
  by_cases h1 : gid ∈ pcred.cr_groups.take pcred.cr_ngroups.toNat
  · rw [if_pos h1, if_pos h1]
    exact ⟨rfl, fun h => absurd h1 h⟩
  · rw [if_neg h1, if_neg h1]
    by_cases h2 : pcred.cr_gmuid = k.KAUTH_UID_NONE
    · rw [if_pos h2, if_pos h2]
      exact ⟨rfl, fun _ h => absurd h2 h⟩
    · rw [if_neg h2, if_neg h2]
      by_cases h3 : env.registered = 0
      · rw [if_pos h3, if_pos h3]
        exact ⟨rfl, fun _ _ => rfl⟩
      · rw [if_neg h3, if_neg h3]
        cases hs : kauth_cred_ismember_gid_scan env.now g pcred gid with
        | mk found g1 =>
          cases found with
          | some gm => exact ⟨rfl, fun _ _ => rfl⟩
          | none =>
            show _ ∧ _
            by_cases h4 : (env.submit (kauth_cred_ismember_gid_request k env.pid pcred gid)
                none).1 ≠ 0
            · simp only [if_pos h4]
              exact ⟨rfl, fun _ _ => trivial⟩
            · simp only [if_neg h4]
              split_ifs <;> exact ⟨rfl, fun _ _ => rfl⟩

/-- C29 (inline list first).  For every credential, GID, uptime, resolver,
group cache and content of `*resultp`: `kauth_cred_ismember_gid` returns 0 with
`*resultp = 1` when the GID is among the first `cr_ngroups` entries of
`cr_groups`; when it is not, and `cr_gmuid` is `KAUTH_UID_NONE` or no resolver
is registered, it returns 0 with `*resultp = 0`.  In these cases the group cache
is as it was and no request is handed to the resolver. -/
theorem kauth_cred_ismember_gid_inline (k : Platform) (env : lookup_env) (g : GroupsCache)
    (pcred : posix_cred) (gid resultp : Nat) :
    (gid ∈ pcred.cr_groups.take pcred.cr_ngroups.toNat →
      kauth_cred_ismember_gid_state k env g pcred gid resultp = ((0, 1), g, [])) ∧
    (gid ∉ pcred.cr_groups.take pcred.cr_ngroups.toNat →
      pcred.cr_gmuid = k.KAUTH_UID_NONE ∨ env.registered = 0 →
      kauth_cred_ismember_gid_state k env g pcred gid resultp = ((0, 0), g, [])) := by
  unfold kauth_cred_ismember_gid_state
  refine ⟨fun h => by rw [if_pos h], fun h h2 => ?_⟩
  rw [if_neg h]
  by_cases h3 : pcred.cr_gmuid = k.KAUTH_UID_NONE
  · rw [if_pos h3]
  · rw [if_neg h3]
    rcases h2 with h2 | h2
    · exact absurd h2 h3
    · rw [if_pos h2]

/-- Witness for C29: the credential `member_cred` carries group 20 inline and
not group 30; group 30 is asked for with no resolver registered. -/
theorem kauth_cred_ismember_gid_inline_witness :
    kauth_cred_ismember_gid_state xnu timeout_env three_groups member_cred 20 7 =
      ((0, 1), three_groups, []) ∧
    kauth_cred_ismember_gid_state xnu { timeout_env with registered := 0 } three_groups
      member_cred 30 7 = ((0, 0), three_groups, []) :=
  ⟨(kauth_cred_ismember_gid_inline xnu timeout_env three_groups member_cred 20 7).1
      (by decide),
   (kauth_cred_ismember_gid_inline xnu { timeout_env with registered := 0 } three_groups
      member_cred 30 7).2 (by decide) (Or.inr rfl)⟩

/-- A check of `kauth_cred_gid_subset` that returns an error stores nothing in
`*resultp`. -/
theorem kauth_cred_gid_subset_checks_error (k : Platform) (env : lookup_env)
    (pcred2 : posix_cred) :
    ∀ (l : List Nat) (g : GroupsCache) (res : Nat) (requests : List kauth_identity_extlookup),
      (kauth_cred_gid_subset_checks k env pcred2 l g res requests).1.1 ≠ 0 →
      (kauth_cred_gid_subset_checks k env pcred2 l g res requests).1.2 = none := by
  intro l
  induction l with
  | nil => intro g res requests h; exact absurd rfl h
  | cons gid rest ih =>
    intro g res requests h
    unfold kauth_cred_gid_subset_checks at h ⊢
    simp only [] at h ⊢
    by_cases h1 : (kauth_cred_ismember_gid_state k env g pcred2 gid res).1.1 ≠ 0
    · rw [if_pos h1]
    · rw [if_neg h1] at h ⊢
      by_cases h2 : (kauth_cred_ismember_gid_state k env g pcred2 gid res).1.2 = 0 ∧
          gid ≠ pcred2.cr_rgid ∧ gid ≠ pcred2.cr_svgid
      · rw [if_pos h2] at h
        exact absurd rfl h
      · rw [if_neg h2] at h ⊢
        exact ih _ _ _ h

/-- C30 (no write on error).  For every credential, GID, uptime, resolver
outcome, group cache and content of `*resultp`: when `kauth_cred_ismember_gid`
returns a value other than 0, `*resultp` holds the value it had before the
call; and the same holds of `kauth_cred_gid_subset` for every pair of
credentials. -/
theorem kauth_cred_ismember_gid_error_keeps_resultp (k : Platform) (env : lookup_env)
    (g : GroupsCache) (pcred pcred1 pcred2 : posix_cred) (gid resultp : Nat) :
    ((kauth_cred_ismember_gid_state k env g pcred gid resultp).1.1 ≠ 0 →
      (kauth_cred_ismember_gid_state k env g pcred gid resultp).1.2 = resultp) ∧
    ((kauth_cred_gid_subset k env g pcred1 pcred2 resultp).1.1 ≠ 0 →
      (kauth_cred_gid_subset k env g pcred1 pcred2 resultp).1.2 = resultp) := by
  constructor
  · unfold kauth_cred_ismember_gid_state
    by_cases h1 : gid ∈ pcred.cr_groups.take pcred.cr_ngroups.toNat
    · simp only [if_pos h1]; intro h; exact absurd rfl h
    · simp only [if_neg h1]
      by_cases h2 : pcred.cr_gmuid = k.KAUTH_UID_NONE
      · simp only [if_pos h2]; intro h; exact absurd rfl h
      · simp only [if_neg h2]
        by_cases h3 : env.registered = 0
        · simp only [if_pos h3]; intro h; exact absurd rfl h
        · simp only [if_neg h3]
          cases hs : kauth_cred_ismember_gid_scan env.now g pcred gid with
          | mk found g1 =>
            cases found with
            | some gm => intro h; exact absurd rfl h
            | none =>
              simp only []
              by_cases h4 : (env.submit (kauth_cred_ismember_gid_request k env.pid pcred gid)
                  none).1 ≠ 0
              · rw [if_pos h4]; intro _; rfl
              · rw [if_neg h4]
                split_ifs
                · intro h; exact absurd rfl h
                · intro h; exact absurd rfl h
                · intro _; rfl
  · unfold kauth_cred_gid_subset
    simp only []
    intro h
    rw [kauth_cred_gid_subset_checks_error k env pcred2 _ _ _ _ h]
    rfl

set_option maxRecDepth 100000 in
/-- Witness for C30: the resolver does not answer in time; group 30 is neither
inline in `member_cred` nor in the group cache, so both calls return
`EWOULDBLOCK` and `*resultp` keeps the value 7. -/
theorem kauth_cred_ismember_gid_error_keeps_resultp_witness :
    (kauth_cred_ismember_gid_state xnu timeout_env three_groups member_cred 30 7).1 =
      (xnu.EWOULDBLOCK, 7) ∧
    (kauth_cred_gid_subset xnu timeout_env three_groups
      { member_cred with cr_groups := [30] } member_cred 7).1 = (xnu.EWOULDBLOCK, 7) :=
  ⟨Prod.ext (by decide)
    ((kauth_cred_ismember_gid_error_keeps_resultp xnu timeout_env three_groups member_cred
      { member_cred with cr_groups := [30] } member_cred 30 7).1 (by decide)),
   Prod.ext (by decide)
    ((kauth_cred_ismember_gid_error_keeps_resultp xnu timeout_env three_groups member_cred
      { member_cred with cr_groups := [30] } member_cred 30 7).2 (by decide))⟩

/-- The function `kauth_cred_ismember_gid` on a credential that has opted out
of external resolution: the inline list decides. -/
theorem kauth_cred_ismember_gid_state_opted_out (k : Platform) (env : lookup_env)
    (g : GroupsCache) (pcred : posix_cred) (gid resultp : Nat)
    (hopt : pcred.cr_gmuid = k.KAUTH_UID_NONE) :
    kauth_cred_ismember_gid_state k env g pcred gid resultp =
      ((0, if gid ∈ pcred.cr_groups.take pcred.cr_ngroups.toNat then 1 else 0), g, []) := by
  unfold kauth_cred_ismember_gid_state
  by_cases h : gid ∈ pcred.cr_groups.take pcred.cr_ngroups.toNat
  · rw [if_pos h, if_pos h]
  · rw [if_neg h, if_neg h, if_pos hopt]

/-- The checks of `kauth_cred_gid_subset` against a credential that has opted
out of external resolution: they return 0, leave the group cache and the
requests as they were, and store 1 when every group checked is in the inline
list of the second credential or is its real or saved GID, else 0. -/
theorem kauth_cred_gid_subset_checks_opted_out (k : Platform) (env : lookup_env)
    (pcred2 : posix_cred) (hopt : pcred2.cr_gmuid = k.KAUTH_UID_NONE) :
    ∀ (l : List Nat) (g : GroupsCache) (res : Nat) (requests : List kauth_identity_extlookup),
      ∃ result : Nat,
        kauth_cred_gid_subset_checks k env pcred2 l g res requests =
          ((0, some result), g, requests) ∧
        ((∀ gid ∈ l, gid ∈ pcred2.cr_groups.take pcred2.cr_ngroups.toNat ∨
            gid = pcred2.cr_rgid ∨ gid = pcred2.cr_svgid) → result = 1) ∧
        (¬ (∀ gid ∈ l, gid ∈ pcred2.cr_groups.take pcred2.cr_ngroups.toNat ∨
            gid = pcred2.cr_rgid ∨ gid = pcred2.cr_svgid) → result = 0) := by
  intro l
  induction l with
  | nil =>
    intro g res requests
    exact ⟨1, rfl, fun _ => rfl, fun h => absurd (by simp) h⟩
  | cons gid rest ih =>
    intro g res requests
    unfold kauth_cred_gid_subset_checks
    simp only []
    rw [kauth_cred_ismember_gid_state_opted_out k env g pcred2 gid res hopt]
    simp only [ne_eq, not_true_eq_false, if_false, List.append_nil]
    by_cases hin : gid ∈ pcred2.cr_groups.take pcred2.cr_ngroups.toNat
    · simp only [if_pos hin, one_ne_zero, false_and, if_false]
      obtain ⟨result, h1, h2, h3⟩ := ih g 1 requests
      refine ⟨result, h1, ?_, ?_⟩
      · intro hall
        exact h2 (fun x hx => hall x (List.mem_cons_of_mem _ hx))
      · intro hnot
        apply h3
        intro hall
        apply hnot
        intro x hx
        rcases List.mem_cons.mp hx with rfl | hx
        · exact Or.inl hin
        · exact hall x hx
    · simp only [if_neg hin, true_and]
      by_cases hrs : gid ≠ pcred2.cr_rgid ∧ gid ≠ pcred2.cr_svgid
      · rw [if_pos hrs]
        refine ⟨0, rfl, ?_, fun _ => rfl⟩
        intro hall
        rcases hall gid (List.mem_cons_self _ _) with h | h | h
        · exact absurd h hin
        · exact absurd h hrs.1
        · exact absurd h hrs.2
      · rw [if_neg hrs]
        obtain ⟨result, h1, h2, h3⟩ := ih g 0 requests
        refine ⟨result, h1, ?_, ?_⟩
        · intro hall
          exact h2 (fun x hx => hall x (List.mem_cons_of_mem _ hx))
        · intro hnot
          apply h3
          intro hall
          apply hnot
          intro x hx
          rcases List.mem_cons.mp hx with rfl | hx
          · by_cases h1 : x = pcred2.cr_rgid
            · exact Or.inr (Or.inl h1)
            · by_cases h2 : x = pcred2.cr_svgid
              · exact Or.inr (Or.inr h2)
              · exact absurd ⟨h1, h2⟩ hrs
          · exact hall x hx

/-- C31 (subset).  Let the second credential have opted out of external
resolution (`cr_gmuid` is `KAUTH_UID_NONE`), so that its inline list is
authoritative.  For every first credential, uptime, resolver, group cache and
content of `*resultp`, `kauth_cred_gid_subset` returns 0, leaves the group cache
as it was and asks the resolver nothing; `*resultp` is 1 when every group of
the first credential (the first `cr_ngroups` entries of its `cr_groups`, its
real GID and its saved GID) is among the first `cr_ngroups` entries of the
`cr_groups` of the second or is the real or saved GID of the second, and 0
otherwise.  It is 1 when both credentials are the same. -/
theorem kauth_cred_gid_subset_opted_out (k : Platform) (env : lookup_env) (g : GroupsCache)
    (pcred1 pcred2 : posix_cred) (resultp : Nat)
    (hopt : pcred2.cr_gmuid = k.KAUTH_UID_NONE) :
    ∃ result : Nat,
      kauth_cred_gid_subset k env g pcred1 pcred2 resultp = ((0, result), g, []) ∧
      ((∀ gid ∈ pcred1.cr_groups.take pcred1.cr_ngroups.toNat ++
            [pcred1.cr_rgid, pcred1.cr_svgid],
          gid ∈ pcred2.cr_groups.take pcred2.cr_ngroups.toNat ∨
            gid = pcred2.cr_rgid ∨ gid = pcred2.cr_svgid) → result = 1) ∧
      (¬ (∀ gid ∈ pcred1.cr_groups.take pcred1.cr_ngroups.toNat ++
            [pcred1.cr_rgid, pcred1.cr_svgid],
          gid ∈ pcred2.cr_groups.take pcred2.cr_ngroups.toNat ∨
            gid = pcred2.cr_rgid ∨ gid = pcred2.cr_svgid) → result = 0) ∧
      (pcred1 = pcred2 → result = 1) := by
  obtain ⟨result, h1, h2, h3⟩ := kauth_cred_gid_subset_checks_opted_out k env pcred2 hopt
    (pcred1.cr_groups.take pcred1.cr_ngroups.toNat ++ [pcred1.cr_rgid, pcred1.cr_svgid]) g 1 []
  refine ⟨result, ?_, h2, h3, ?_⟩
  · unfold kauth_cred_gid_subset
    simp only []
    rw [h1]
    rfl
  · intro heq
    apply h2
    intro gid hgid
    rw [heq] at hgid
    rcases List.mem_append.mp hgid with h | h
    · exact Or.inl h
    · simp only [List.mem_cons, List.mem_singleton, List.not_mem_nil, or_false] at h
      rcases h with h | h
      · exact Or.inr (Or.inl h)
      · exact Or.inr (Or.inr h)

/-- Witness for C31: the credential `member_cred` with `cr_gmuid` set to
`KAUTH_UID_NONE`, compared with itself. -/
theorem kauth_cred_gid_subset_opted_out_witness :
    kauth_cred_gid_subset xnu timeout_env three_groups
        { member_cred with cr_gmuid := xnu.KAUTH_UID_NONE }
        { member_cred with cr_gmuid := xnu.KAUTH_UID_NONE } 7 =
      ((0, 1), three_groups, []) := by
  obtain ⟨result, h1, _, _, h4⟩ :=
    kauth_cred_gid_subset_opted_out xnu timeout_env three_groups
      { member_cred with cr_gmuid := xnu.KAUTH_UID_NONE }
      { member_cred with cr_gmuid := xnu.KAUTH_UID_NONE } 7 rfl
  rw [h1, h4 rfl]

/-- A request is within two masks exactly when it is within each. -/
theorem and_and_eq_iff (r a b : Nat) : r &&& a &&& b = r ↔ r &&& a = r ∧ r &&& b = r := by
  constructor
  · intro h
    have hb : ∀ i, (r.testBit i && a.testBit i && b.testBit i) = r.testBit i := by
      intro i
      have := congrArg (fun n => n.testBit i) h
      simpa only [Nat.testBit_and] using this
    constructor <;>
    · apply Nat.eq_of_testBit_eq
      intro i
      have := hb i
      simp only [Nat.testBit_and]
      cases hr : r.testBit i <;> cases ha : a.testBit i <;> cases hc : b.testBit i <;> simp_all
  · rintro ⟨h1, h2⟩
    rw [h1, h2]

/-- C32 (the access check is the unoptimised POSIX check).  For every
credential, object UID, GID and mode, request, uptime, resolver, group cache and
content of the local `is_member`: the return value of `posix_cred_access` is
that of the unoptimised check, which grants access (0) when the UID of the
credential is that of the object and the request is within the owner bits, or
`kauth_cred_ismember_gid` reports membership in the group of the object and the
request is within the group bits, or it does not report membership and the
request is within the world bits, and returns `EACCES` otherwise.  When the
request is within both the group bits and the world bits, the result is 0, the
group cache is as it was and no request is handed to the resolver. -/
theorem posix_cred_access_unoptimised (k : Platform) (env : lookup_env) (g : GroupsCache)
    (pcred : posix_cred) (object_uid object_gid object_mode mode_req is_member : Nat) :
    (posix_cred_access k env g pcred object_uid object_gid object_mode mode_req is_member).1 =
      unoptimised_access k env g pcred object_uid object_gid object_mode mode_req is_member ∧
    (mode_req &&& (((object_mode &&& k.S_IRWXG) <<< 3) % 2 ^ 16) = mode_req →
      mode_req &&& (((object_mode &&& k.S_IRWXO) <<< 6) % 2 ^ 16) = mode_req →
      posix_cred_access k env g pcred object_uid object_gid object_mode mode_req is_member =
        (0, g, [])) := by
  unfold posix_cred_access unoptimised_access
  simp only []
  generalize object_mode &&& k.S_IRWXU = mode_owner
  generalize ((object_mode &&& k.S_IRWXG) <<< 3) % 2 ^ 16 = mode_group
  generalize ((object_mode &&& k.S_IRWXO) <<< 6) % 2 ^ 16 = mode_world
  generalize kauth_cred_ismember_gid_state k env g pcred object_gid is_member = r
  constructor
  · by_cases ho : pcred.cr_uid = object_uid ∧ mode_req &&& mode_owner = mode_req
    · rw [if_pos ho, if_pos (Or.inl ho)]
    · rw [if_neg ho]
      by_cases hgw : mode_req &&& mode_group &&& mode_world = mode_req
      · rw [if_pos hgw]
        obtain ⟨hg, hw⟩ := (and_and_eq_iff _ _ _).mp hgw
        by_cases hm : r.1.1 = 0 ∧ r.1.2 ≠ 0
        · rw [if_pos (Or.inr (Or.inl ⟨hm, hg⟩))]
        · rw [if_pos (Or.inr (Or.inr ⟨hm, hw⟩))]
      · rw [if_neg hgw]
        by_cases hg : mode_req &&& mode_group = mode_req
        · have hw : ¬ mode_req &&& mode_world = mode_req :=
            fun hw => hgw ((and_and_eq_iff _ _ _).mpr ⟨hg, hw⟩)
          rw [if_neg (by simp [hg])]
          by_cases hm : r.1.1 = 0 ∧ r.1.2 ≠ 0
          · rw [if_pos hm, if_pos (Or.inr (Or.inl ⟨hm, hg⟩))]
          · rw [if_neg hm, if_pos hw, if_neg]
            rintro (h | h | h)
            · exact ho h
            · exact hm h.1
            · exact hw h.2
        · rw [if_pos hg]
          by_cases hm : r.1.1 = 0 ∧ r.1.2 ≠ 0
          · rw [if_pos hm, if_neg]
            rintro (h | h | h)
            · exact ho h
            · exact hg h.2
            · exact h.1 hm
          · rw [if_neg hm]
            by_cases hw : mode_req &&& mode_world = mode_req
            · rw [if_neg (by simp [hw]), if_pos (Or.inr (Or.inr ⟨hm, hw⟩))]
            · rw [if_pos hw, if_neg]
              rintro (h | h | h)
              · exact ho h
              · exact hm h.1
              · exact hw h.2
  · intro hg hw
    by_cases ho : pcred.cr_uid = object_uid ∧ mode_req &&& mode_owner = mode_req
    · rw [if_pos ho]
    · rw [if_neg ho, if_pos ((and_and_eq_iff _ _ _).mpr ⟨hg, hw⟩)]

/-- An error of the membership query in `posix_cred_access` counts as "not a
member" for an exclusion group too: when the owner test does not grant the
request, the group bits do not grant it, the world bits do, and
`kauth_cred_ismember_gid` returns an error, the access is granted. -/
theorem posix_cred_access_exclusion_error (k : Platform) (env : lookup_env) (g : GroupsCache)
    (pcred : posix_cred) (object_uid object_gid object_mode mode_req is_member : Nat)
    (ho : ¬ (pcred.cr_uid = object_uid ∧ mode_req &&& (object_mode &&& k.S_IRWXU) = mode_req))
    (hg : mode_req &&& (((object_mode &&& k.S_IRWXG) <<< 3) % 2 ^ 16) ≠ mode_req)
    (hw : mode_req &&& (((object_mode &&& k.S_IRWXO) <<< 6) % 2 ^ 16) = mode_req)
    (herr : (kauth_cred_ismember_gid_state k env g pcred object_gid is_member).1.1 ≠ 0) :
    (posix_cred_access k env g pcred object_uid object_gid object_mode mode_req is_member).1
      = 0 := by
  unfold posix_cred_access
  simp only []
  rw [if_neg ho, if_neg (fun h => hg ((and_and_eq_iff _ _ _).mp h).1), if_pos hg,
    if_neg (fun h => herr h.1), if_neg (fun h => h hw)]

set_option maxRecDepth 100000 in
/-- C34 (errors of the membership query for an exclusion group), what the code
does.  The object belongs to uid 0 and has the mode `0707`: its group is
excluded, the world may read.  The credential `member_cred` (uid 501, group 20
inline, memberships resolved externally) asks to read.  When the object has the
group 20, of which the credential is a member, the access is denied with
`EACCES`.  When the object has the group 30 and the resolver does not answer in
time, `kauth_cred_ismember_gid` returns `EWOULDBLOCK`, and the access is
granted through the world bits: the error counts as "not a member". -/
theorem posix_cred_access_exclusion_timeout :
    (kauth_cred_ismember_gid_state xnu timeout_env GroupsCache.init member_cred 20 0).1 = (0, 1) ∧
    (posix_cred_access xnu timeout_env GroupsCache.init member_cred 0 20 0o707 0o400 0).1 =
      xnu.EACCES ∧
    (kauth_cred_ismember_gid_state xnu timeout_env GroupsCache.init member_cred 30 0).1 =
      (xnu.EWOULDBLOCK, 0) ∧
    (posix_cred_access xnu timeout_env GroupsCache.init member_cred 0 30 0o707 0o400 0).1 = 0 ∧
    (posix_cred_access xnu timeout_env GroupsCache.init member_cred 0 30 0o707 0o400 1).1 = 0 := by
  refine ⟨by decide, by decide, by decide, by decide, by decide⟩

/-- Witness for C32: a request to read an object of mode `0777`, which the
group bits and the world bits both grant. -/
theorem posix_cred_access_unoptimised_witness :
    posix_cred_access xnu timeout_env three_groups member_cred 0 30 0o777 0o400 0 =
      (0, three_groups, []) :=
  (posix_cred_access_unoptimised xnu timeout_env three_groups member_cred 0 30 0o777 0o400 0).2
    (by decide) (by decide)

set_option maxRecDepth 100000 in
/-- C33 (stale entry as fallback), what the code does.  The identity cache
holds uid 501 with a GUID whose expiry time, 1000, has passed at uptime 2000.
`kauth_cred_uid2guid(501)` asks the resolver.  When the resolver does not answer
in time, the call returns `EWOULDBLOCK` and leaves `*guidp` as it was: the
expired translation is not used.  The expired translation is returned, with 0,
only when the resolver call succeeds with an answer that carries no valid
field. -/
theorem kauth_cred_uid2guid_stale_not_used :
    guid_cache.kauth_identities.map
        (fun e => (e.ki_uid, e.ki_guid, e.ki_guid_expiry,
          kauth_identity_guid_expired 2000 e)) = [(501, example_guid, 1000, true)] ∧
    (kauth_cred_uid2guid xnu { timeout_env with now := 2000 } guid_cache 501
        (lookup_buffer.of_id 0)).map (fun r => (r.1, r.2.1, r.2.2.1, r.2.2.2.length)) =
      some (xnu.EWOULDBLOCK, lookup_buffer.of_id 0, guid_cache, 1) ∧
    (kauth_cred_uid2guid xnu { empty_answer_env with now := 2000 } guid_cache 501
        (lookup_buffer.of_id 0)).map (fun r => (r.1, r.2.1, r.2.2.1, r.2.2.2.length)) =
      some (0, { lookup_buffer.of_id 0 with guid := example_guid }, guid_cache, 1) := by
  refine ⟨by decide, by decide, by decide⟩

/-- The middle of `kauth_cred_cache_lookup` on an entry that was found and has
the field asked for: the resolver is called when the expiry function chosen
says that the entry has expired, else the entry is a hit. -/
theorem kauth_cred_cache_lookup_verdict_valid (now from_kind to_kind : Nat)
    (ki : kauth_identity) (hvalid : ki.ki_valid &&& to_kind ≠ 0) :
    kauth_cred_cache_lookup_verdict now from_kind to_kind 0 ki =
      if kauth_cred_cache_lookup_expired now from_kind to_kind ki = some true then .resolve
      else .found := by
  by_cases hexp : kauth_cred_cache_lookup_expired now from_kind to_kind ki = some true
  · rw [if_pos hexp]
    unfold kauth_cred_cache_lookup_verdict
    have h1 : to_kind &&& ki.ki_valid ≠ 0 := by
      rw [Nat.and_comm]; exact hvalid
    simp only [h1, and_false, if_false, ne_eq, not_true_eq_false]
    rw [if_pos hexp]
  · rw [if_neg hexp]
    exact kauth_cred_cache_lookup_verdict_found now from_kind to_kind ki hvalid hexp

/-- C35 (the governing expiry time).  For an entry that the search of
`kauth_cred_cache_lookup` found and that has the field `to` valid: it is judged
by `kauth_identity_guid_expired` when `to` is the GUID, by
`kauth_identity_ntsid_expired` when `to` is the NTSID and by
`kauth_identity_groups_expired` when `to` is the supplementary groups; for any
other `to` it is judged by the GUID function when `from` is the GUID and by the
NTSID function when `from` is the NTSID, and is a hit whatever its expiry times
when `from` is neither.  An entry judged expired sends the call to the
resolver, one judged unexpired is a hit.  Each function reports expiry exactly
when the expiry time is not 0 and is at most the uptime.  In the last case,
with `to` a UID, a GID or a name, the whole call returns 0 and hands no request
to the resolver. -/
theorem kauth_cred_cache_lookup_governing_expiry (now from_kind to_kind : Nat)
    (ki : kauth_identity) (hvalid : ki.ki_valid &&& to_kind ≠ 0) :
    (to_kind = KI_VALID_GUID →
      kauth_cred_cache_lookup_verdict now from_kind to_kind 0 ki =
        if kauth_identity_guid_expired now ki = true then .resolve else .found) ∧
    (to_kind = KI_VALID_NTSID →
      kauth_cred_cache_lookup_verdict now from_kind to_kind 0 ki =
        if kauth_identity_ntsid_expired now ki = true then .resolve else .found) ∧
    (to_kind = KI_VALID_GROUPS →
      kauth_cred_cache_lookup_verdict now from_kind to_kind 0 ki =
        if kauth_identity_groups_expired now ki = true then .resolve else .found) ∧
    (to_kind ≠ KI_VALID_GUID → to_kind ≠ KI_VALID_NTSID → to_kind ≠ KI_VALID_GROUPS →
      (from_kind = KI_VALID_GUID →
        kauth_cred_cache_lookup_verdict now from_kind to_kind 0 ki =
          if kauth_identity_guid_expired now ki = true then .resolve else .found) ∧
      (from_kind = KI_VALID_NTSID →
        kauth_cred_cache_lookup_verdict now from_kind to_kind 0 ki =
          if kauth_identity_ntsid_expired now ki = true then .resolve else .found) ∧
      (from_kind ≠ KI_VALID_GUID → from_kind ≠ KI_VALID_NTSID →
        kauth_cred_cache_lookup_verdict now from_kind to_kind 0 ki = .found)) ∧
    ((kauth_identity_guid_expired now ki = true ↔
        ki.ki_guid_expiry ≠ 0 ∧ ki.ki_guid_expiry ≤ now) ∧
      (kauth_identity_ntsid_expired now ki = true ↔
        ki.ki_ntsid_expiry ≠ 0 ∧ ki.ki_ntsid_expiry ≤ now) ∧
      (kauth_identity_groups_expired now ki = true ↔
        ki.ki_groups_expiry ≠ 0 ∧ ki.ki_groups_expiry ≤ now)) ∧
    (∀ (k : Platform) (env : lookup_env) (c : IdentityCache) (src dst : lookup_buffer)
        (q : Lookup) (pre post : List kauth_identity),
      to_kind ∈ [KI_VALID_UID, KI_VALID_GID, KI_VALID_PWNAM, KI_VALID_GRNAM] →
      from_kind ≠ KI_VALID_GUID → from_kind ≠ KI_VALID_NTSID →
      lookup_of from_kind src = some q →
      c.kauth_identities = pre ++ ki :: post →
      q.hit ki = true → (∀ x ∈ pre, q.hit x = false) → dst.null = false →
      ∃ dst1 : lookup_buffer,
        kauth_cred_cache_lookup k env c from_kind to_kind src dst =
          some (0, dst1, { c with kauth_identities := ki :: (pre ++ post) }, [])) := by
  have hv := kauth_cred_cache_lookup_verdict_valid now from_kind to_kind ki hvalid
  refine ⟨?_, ?_, ?_, ?_, ?_, ?_⟩
  · intro h
    rw [hv]
    unfold kauth_cred_cache_lookup_expired
    rw [if_pos h]
    simp only [Option.some.injEq]
  · intro h
    have h1 : to_kind ≠ KI_VALID_GUID := by rw [h]; decide
    rw [hv]
    unfold kauth_cred_cache_lookup_expired
    rw [if_neg h1, if_pos h]
    simp only [Option.some.injEq]
  · intro h
    have h1 : to_kind ≠ KI_VALID_GUID := by rw [h]; decide
    have h2 : to_kind ≠ KI_VALID_NTSID := by rw [h]; decide
    rw [hv]
    unfold kauth_cred_cache_lookup_expired
    rw [if_neg h1, if_neg h2, if_pos h]
    simp only [Option.some.injEq]
  · intro h1 h2 h3
    refine ⟨?_, ?_, ?_⟩
    · intro h
      rw [hv]
      unfold kauth_cred_cache_lookup_expired
      rw [if_neg h1, if_neg h2, if_neg h3, if_pos h]
      simp only [Option.some.injEq]
    · intro h
      have h4 : from_kind ≠ KI_VALID_GUID := by rw [h]; decide
      rw [hv]
      unfold kauth_cred_cache_lookup_expired
      rw [if_neg h1, if_neg h2, if_neg h3, if_neg h4, if_pos h]
      simp only [Option.some.injEq]
    · intro h4 h5
      rw [hv]
      unfold kauth_cred_cache_lookup_expired
      rw [if_neg h1, if_neg h2, if_neg h3, if_neg h4, if_neg h5]
      simp
  · unfold kauth_identity_guid_expired kauth_identity_ntsid_expired
      kauth_identity_groups_expired
    refine ⟨?_, ?_, ?_⟩ <;> split_ifs <;> simp <;> omega
  · intro k env c src dst q pre post hto hf1 hf2 hq hl hkip hpre hnull
    have hto1 : to_kind ≠ KI_VALID_GUID ∧ to_kind ≠ KI_VALID_NTSID ∧
        to_kind ≠ KI_VALID_GROUPS := by
      simp only [List.mem_cons, List.mem_singleton, List.not_mem_nil, or_false] at hto
      rcases hto with h | h | h | h <;> rw [h] <;> decide
    have hto2 : to_kind ∈ [KI_VALID_UID, KI_VALID_GID, KI_VALID_GUID, KI_VALID_NTSID,
        KI_VALID_GROUPS, KI_VALID_PWNAM, KI_VALID_GRNAM] := by
      simp only [List.mem_cons, List.mem_singleton, List.not_mem_nil, or_false] at hto ⊢
      tauto
    obtain ⟨dst1, h1, _⟩ :=
      kauth_cred_cache_lookup_first_match k env c from_kind to_kind src dst q pre post ki hq hl
        hkip hpre hvalid
        (by
          intro expiry he
          unfold governing_expiry at he
          rw [if_neg hto1.1, if_neg hto1.2.1, if_neg hto1.2.2, if_neg hf1, if_neg hf2] at he
          exact absurd he (by simp))
        hnull hto2
    exact ⟨dst1, h1⟩

set_option maxRecDepth 100000 in
/-- Witness for C35: the entry of `guid_cache` (uid 501, GUID valid until
uptime 1000) at uptime 2000, asked for its GUID by UID and for its UID by
GUID. -/
theorem kauth_cred_cache_lookup_governing_expiry_witness :
    kauth_cred_cache_lookup_verdict 2000 KI_VALID_UID KI_VALID_GUID 0
        { kauth_identity.zero xnu with
          ki_valid := KI_VALID_UID ||| KI_VALID_GUID, ki_uid := 501, ki_guid := example_guid,
          ki_guid_expiry := 1000 } = .resolve ∧
    kauth_cred_cache_lookup_verdict 2000 KI_VALID_GUID KI_VALID_UID 0
        { kauth_identity.zero xnu with
          ki_valid := KI_VALID_UID ||| KI_VALID_GUID, ki_uid := 501, ki_guid := example_guid,
          ki_guid_expiry := 1000 } = .resolve :=
  ⟨((kauth_cred_cache_lookup_governing_expiry 2000 KI_VALID_UID KI_VALID_GUID
      { kauth_identity.zero xnu with
        ki_valid := KI_VALID_UID ||| KI_VALID_GUID, ki_uid := 501, ki_guid := example_guid,
        ki_guid_expiry := 1000 } (by decide)).1 rfl).trans (by decide),
   (((kauth_cred_cache_lookup_governing_expiry 2000 KI_VALID_GUID KI_VALID_UID
      { kauth_identity.zero xnu with
        ki_valid := KI_VALID_UID ||| KI_VALID_GUID, ki_uid := 501, ki_guid := example_guid,
        ki_guid_expiry := 1000 } (by decide)).2.2.2.1 (by decide) (by decide) (by decide)).1
      rfl).trans (by decide)⟩

/-- An item handed out is marked submitted and no longer unsubmitted; it keeps
its sequence number, its request and its buffer address; and an item whose
flags are exactly UNSUBMITTED gets exactly SUBMITTED. -/
theorem promote_spec (workp : kauth_resolver_work) :
    (promote workp).kr_flags &&& KAUTH_REQUEST_SUBMITTED ≠ 0 ∧
    (promote workp).kr_flags &&& KAUTH_REQUEST_UNSUBMITTED = 0 ∧
    (promote workp).kr_seqno = workp.kr_seqno ∧
    (promote workp).kr_work = workp.kr_work ∧
    (promote workp).kr_extend = workp.kr_extend ∧
    (promote workp).kr_refs = workp.kr_refs ∧
    (workp.kr_flags = KAUTH_REQUEST_UNSUBMITTED →
      (promote workp).kr_flags = KAUTH_REQUEST_SUBMITTED) := by
  unfold promote
  refine ⟨?_, ?_, rfl, rfl, rfl, rfl, ?_⟩
  · rw [or_and_self]; decide
  · rw [or_and_disjoint _ _ _ (by decide), clear_bits_and]
  · intro h
    show clear_bits workp.kr_flags KAUTH_REQUEST_UNSUBMITTED ||| KAUTH_REQUEST_SUBMITTED =
      KAUTH_REQUEST_SUBMITTED
    rw [h]
    decide

/-- The function `kauth_resolver_getwork2` on a non-empty unsubmitted queue:
it returns, with the globals unchanged when it returns an error, and with the
head of the queue moved to the tail of the submitted queue when it returns 0. -/
theorem kauth_resolver_getwork2_spec (k : Platform) (caller : identitysvc_caller)
    (s : ResolverState) (workp : kauth_resolver_work) (rest : List kauth_resolver_work)
    (hq : s.kauth_resolver_unsubmitted = workp :: rest) :
    ∃ error,
      kauth_resolver_getwork2 k caller s =
        some (error,
          if error = 0 then
            { s with kauth_resolver_unsubmitted := rest
                     kauth_resolver_submitted := s.kauth_resolver_submitted ++ [promote workp] }
          else s) := by
  unfold kauth_resolver_getwork2
  rw [hq]
  simp only []
  by_cases h1 : caller.copyout_before ≠ 0
  · rw [if_pos h1]
    exact ⟨caller.copyout_before, by rw [if_neg h1]⟩
  · rw [if_neg h1]
    by_cases h2 : caller.copyout_after ≠ 0
    · rw [if_pos h2]
      exact ⟨caller.copyout_after, by rw [if_neg h2]⟩
    · rw [if_neg h2]
      by_cases h3 : (if workp.kr_work.el_flags &&&
            (k.KAUTH_EXTLOOKUP_VALID_PWNAM ||| k.KAUTH_EXTLOOKUP_VALID_GRNAM) ≠ 0 then
          if caller.copyin_uaddr ≠ 0 then caller.copyin_uaddr else caller.copyoutstr
        else 0) ≠ 0
      · rw [if_pos h3]
        exact ⟨_, by rw [if_neg h3]⟩
      · rw [if_neg h3]
        exact ⟨0, by rw [if_pos rfl]; rfl⟩

/-- An item is itself but for its state. -/
theorem same_but_flags_refl (w : kauth_resolver_work) : same_but_flags w w :=
  ⟨rfl, rfl, rfl, rfl, rfl⟩

/-- The relation `same_but_flags` composes. -/
theorem same_but_flags_trans (a b c : kauth_resolver_work) (h1 : same_but_flags a b)
    (h2 : same_but_flags b c) : same_but_flags a c :=
  ⟨h2.1.trans h1.1, h2.2.1.trans h1.2.1, h2.2.2.1.trans h1.2.2.1, h2.2.2.2.1.trans h1.2.2.2.1,
    h2.2.2.2.2.trans h1.2.2.2.2⟩

/-- A step that leaves the three queues alone keeps the frame. -/
theorem work_frame_of_queues (s s' : ResolverState)
    (hu : s'.kauth_resolver_unsubmitted = s.kauth_resolver_unsubmitted)
    (hs : s'.kauth_resolver_submitted = s.kauth_resolver_submitted)
    (hd : s'.kauth_resolver_done = s.kauth_resolver_done) : work_frame s s' := by
  unfold work_frame work_item_invariant
  rw [hu, hs, hd]
  exact ⟨fun h => h, fun w hw => ⟨w, hw, same_but_flags_refl w⟩, fun w hw => hw⟩

/-- The frame composes. -/
theorem work_frame_trans (a b c : ResolverState) (h1 : work_frame a b) (h2 : work_frame b c) :
    work_frame a c := by
  refine ⟨fun h => h2.1 (h1.1 h), ?_, fun w hw => h2.2.2 w (h1.2.2 w hw)⟩
  intro w hw
  obtain ⟨w1, hw1, hs1⟩ := h2.2.1 w hw
  obtain ⟨w0, hw0, hs0⟩ := h1.2.1 w1 hw1
  exact ⟨w0, hw0, same_but_flags_trans w0 w1 w hs0 hs1⟩

/-- A demoted item is the item but for its state, and an item that was
exactly SUBMITTED is exactly UNSUBMITTED. -/
theorem demote_spec (workp : kauth_resolver_work) :
    same_but_flags workp (demote workp) ∧
    (workp.kr_flags = KAUTH_REQUEST_SUBMITTED →
      (demote workp).kr_flags = KAUTH_REQUEST_UNSUBMITTED) := by
  refine ⟨⟨rfl, rfl, rfl, rfl, rfl⟩, ?_⟩
  intro h
  show clear_bits workp.kr_flags KAUTH_REQUEST_SUBMITTED ||| KAUTH_REQUEST_UNSUBMITTED =
    KAUTH_REQUEST_UNSUBMITTED
  rw [h]
  decide

/-- The registration of a resolver keeps the frame. -/
theorem work_frame_register (new_id message : Nat) (s : ResolverState) :
    work_frame s (identitysvc_register new_id message s) := by
  by_cases h : s.kauth_resolver_identity = new_id
  · rw [identitysvc_register_same _ _ _ h]
    exact work_frame_of_queues s s rfl rfl rfl
  · rw [identitysvc_register_new _ _ _ h]
    refine ⟨?_, ?_, fun w hw => hw⟩
    · intro hinv
      refine ⟨?_, ?_, hinv.2.2⟩
      · intro w hw
        simp only [List.mem_append, List.mem_map] at hw
        rcases hw with ⟨w0, hw0, rfl⟩ | hw
        · exact ⟨(demote_spec w0).2 (hinv.2.1 w0 hw0).1, (hinv.2.1 w0 hw0).2⟩
        · exact hinv.1 w hw
      · intro w hw
        simp at hw
    · intro w hw
      simp only [List.append_nil, List.mem_append, List.mem_map] at hw
      rcases hw with ⟨w0, hw0, rfl⟩ | hw
      · exact ⟨w0, List.mem_append_right _ hw0, (demote_spec w0).1⟩
      · exact ⟨w, List.mem_append_left _ hw, same_but_flags_refl w⟩

/-- A completed item is exactly DONE when it was exactly SUBMITTED, and keeps
its reference count. -/
theorem complete_item_spec (extl : kauth_identity_extlookup) (result : Nat)
    (workp : kauth_resolver_work) (h : workp.kr_flags = KAUTH_REQUEST_SUBMITTED) :
    (complete_item extl result workp).kr_flags = KAUTH_REQUEST_DONE ∧
    (complete_item extl result workp).kr_refs = workp.kr_refs := by
  refine ⟨?_, rfl⟩
  show clear_bits workp.kr_flags KAUTH_REQUEST_SUBMITTED ||| KAUTH_REQUEST_DONE =
    KAUTH_REQUEST_DONE
  rw [h]
  decide

/-- The queues after `kauth_resolver_complete`: either all three are as before,
or one item of the submitted queue has been taken out, completed and put at the
tail of the done queue. -/
theorem kauth_resolver_complete_queues (k : Platform) (caller : identitysvc_caller)
    (s : ResolverState) :
    (kauth_resolver_complete k caller s).2.kauth_resolver_unsubmitted =
      s.kauth_resolver_unsubmitted ∧
    (((kauth_resolver_complete k caller s).2.kauth_resolver_submitted =
        s.kauth_resolver_submitted ∧
      (kauth_resolver_complete k caller s).2.kauth_resolver_done = s.kauth_resolver_done) ∨
     ∃ (pre post : List kauth_resolver_work) (w : kauth_resolver_work)
        (extl : kauth_identity_extlookup) (result : Nat),
      s.kauth_resolver_submitted = pre ++ w :: post ∧
      (kauth_resolver_complete k caller s).2.kauth_resolver_submitted = pre ++ post ∧
      (kauth_resolver_complete k caller s).2.kauth_resolver_done =
        s.kauth_resolver_done ++ [complete_item extl result w]) := by
  unfold kauth_resolver_complete
  split
  · exact ⟨rfl, Or.inl ⟨rfl, rfl⟩⟩
  · rename_i extl _
    have hsw : (kauth_resolver_complete_switch k extl.el_result s).2.2.kauth_resolver_unsubmitted =
          s.kauth_resolver_unsubmitted ∧
        (kauth_resolver_complete_switch k extl.el_result s).2.2.kauth_resolver_submitted =
          s.kauth_resolver_submitted ∧
        (kauth_resolver_complete_switch k extl.el_result s).2.2.kauth_resolver_done =
          s.kauth_resolver_done := by
      unfold kauth_resolver_complete_switch
      split_ifs <;> exact ⟨rfl, rfl, rfl⟩
    simp only []
    by_cases hf : extl.el_result ≠ k.KAUTH_EXTLOOKUP_FATAL
    · rw [if_pos hf]
      cases hx : extract_first (fun workp => decide (workp.kr_seqno = extl.el_seqno))
          (kauth_resolver_complete_switch k extl.el_result s).2.2.kauth_resolver_submitted with
      | none => exact ⟨hsw.1, Or.inl ⟨hsw.2.1, hsw.2.2⟩⟩
      | some q =>
        obtain ⟨w, rest⟩ := q
        obtain ⟨pre, post, h1, h2, _, _⟩ := extract_first_spec _ _ _ _ hx
        refine ⟨hsw.1, Or.inr ⟨pre, post, w, extl,
          (kauth_resolver_complete_switch k extl.el_result s).2.1, ?_, ?_, ?_⟩⟩
        · rw [← hsw.2.1]; exact h1
        · exact h2
        · show _ ++ _ = _
          rw [hsw.2.2]
          rfl
    · rw [if_neg hf]
      exact ⟨hsw.1, Or.inl ⟨hsw.2.1, hsw.2.2⟩⟩

/-- The function `kauth_resolver_complete` keeps the frame. -/
theorem work_frame_complete (k : Platform) (caller : identitysvc_caller) (s : ResolverState) :
    work_frame s (kauth_resolver_complete k caller s).2 := by
  obtain ⟨hu, h | ⟨pre, post, w, extl, result, h1, h2, h3⟩⟩ :=
    kauth_resolver_complete_queues k caller s
  · exact work_frame_of_queues _ _ hu h.1 h.2
  · unfold work_frame work_item_invariant
    rw [hu, h2, h3, h1]
    refine ⟨?_, ?_, fun x hx => List.mem_append_left _ hx⟩
    · intro hinv
      refine ⟨hinv.1, ?_, ?_⟩
      · intro x hx
        apply hinv.2.1
        rcases List.mem_append.mp hx with hx | hx
        · exact List.mem_append_left _ hx
        · exact List.mem_append_right _ (List.mem_cons_of_mem _ hx)
      · intro x hx
        rcases List.mem_append.mp hx with hx | hx
        · exact hinv.2.2 x hx
        · rw [List.mem_singleton.mp hx]
          have hw := hinv.2.1 w (List.mem_append_right _ (List.mem_cons_self _ _))
          obtain ⟨c1, c2⟩ := complete_item_spec extl result w hw.1
          exact ⟨c1, c2.trans hw.2⟩
    · intro x hx
      refine ⟨x, ?_, same_but_flags_refl x⟩
      rcases List.mem_append.mp hx with hx | hx
      · exact List.mem_append_left _ hx
      · apply List.mem_append_right
        rcases List.mem_append.mp hx with hx | hx
        · exact List.mem_append_left _ hx
        · exact List.mem_append_right _ (List.mem_cons_of_mem _ hx)

/-- The function `kauth_resolver_getwork` keeps the frame. -/
theorem work_frame_getwork (k : Platform) (caller : identitysvc_caller) (s : ResolverState)
    (r : Nat × ResolverState) (h : kauth_resolver_getwork k caller s = some r) :
    work_frame s r.2 := by
  cases hq : s.kauth_resolver_unsubmitted with
  | nil =>
    unfold kauth_resolver_getwork at h
    rw [hq] at h
    rw [← Option.some.inj h]
    exact work_frame_of_queues s s rfl rfl rfl
  | cons workp rest =>
    have hg : kauth_resolver_getwork k caller s = kauth_resolver_getwork2 k caller s := by
      unfold kauth_resolver_getwork
      rw [hq]
    obtain ⟨error, h2⟩ := kauth_resolver_getwork2_spec k caller s workp rest hq
    rw [hg, h2] at h
    rw [← Option.some.inj h]
    by_cases he : error = 0
    · simp only [if_pos he]
      obtain ⟨_, _, p3, p4, p5, p6, p7⟩ := promote_spec workp
      unfold work_frame work_item_invariant
      simp only []
      rw [hq]
      refine ⟨?_, ?_, fun x hx => hx⟩
      · intro hinv
        refine ⟨fun x hx => hinv.1 x (List.mem_cons_of_mem _ hx), ?_, hinv.2.2⟩
        intro x hx
        rcases List.mem_append.mp hx with hx | hx
        · exact hinv.2.1 x hx
        · rw [List.mem_singleton.mp hx]
          have hw := hinv.1 workp (List.mem_cons_self _ _)
          exact ⟨p7 hw.1, p6.trans hw.2⟩
      · intro x hx
        rcases List.mem_append.mp hx with hx | hx
        · exact ⟨x, List.mem_append_left _ (List.mem_cons_of_mem _ hx), same_but_flags_refl x⟩
        · rcases List.mem_append.mp hx with hx | hx
          · exact ⟨x, List.mem_append_right _ hx, same_but_flags_refl x⟩
          · rw [List.mem_singleton.mp hx]
            exact ⟨workp, List.mem_append_left _ (List.mem_cons_self _ _), p4, p5, p3, p6, rfl⟩
    · simp only [if_neg he]
      exact work_frame_of_queues s s rfl rfl rfl

/-- The tail of `identitysvc` keeps the frame. -/
theorem work_frame_result_worker (k : Platform) (caller : identitysvc_caller) (st : KauthState)
    (opcode : Nat) (r : Nat × KauthState)
    (h : identitysvc_result_worker k caller st opcode = some r) :
    work_frame st.resolver r.2.resolver := by
  unfold identitysvc_result_worker at h
  have hc := work_frame_complete k caller st.resolver
  by_cases hres : opcode &&& k.KAUTH_EXTLOOKUP_RESULT ≠ 0
  · simp only [if_pos hres] at h
    split_ifs at h
    · rw [← Option.some.inj h]; exact hc
    · split at h
      · exact absurd h (by simp)
      · rename_i error resolver hget
        rw [← Option.some.inj h]
        exact work_frame_trans _ _ _ hc (work_frame_getwork k caller _ _ hget)
    · rw [← Option.some.inj h]; exact hc
  · simp only [if_neg hres] at h
    split_ifs at h with h0 hw
    · exact absurd rfl h0
    · split at h
      · exact absurd h (by simp)
      · rename_i error resolver hget
        rw [← Option.some.inj h]
        exact work_frame_getwork k caller _ _ hget
    · rw [← Option.some.inj h]
      exact work_frame_of_queues _ _ rfl rfl rfl

/-- The system call `identitysvc` keeps the frame. -/
theorem work_frame_identitysvc (k : Platform) (caller : identitysvc_caller) (st : KauthState)
    (opcode message : Nat) (r : Nat × KauthState)
    (h : identitysvc k caller st opcode message = some r) :
    work_frame st.resolver r.2.resolver := by
  unfold identitysvc at h
  split_ifs at h
  · rw [← Option.some.inj h]; exact work_frame_of_queues _ _ rfl rfl rfl
  · rw [← Option.some.inj h]; exact work_frame_of_queues _ _ rfl rfl rfl
  · rw [← Option.some.inj h]
    exact work_frame_register _ _ _
  · rw [← Option.some.inj h]; exact work_frame_of_queues _ _ rfl rfl rfl
  · rw [← Option.some.inj h]; exact work_frame_of_queues _ _ rfl rfl rfl
  · split at h
    · rw [← Option.some.inj h]; exact work_frame_of_queues _ _ rfl rfl rfl
    · unfold identitysvc_set_cache_sizes at h
      split_ifs at h
      · rw [← Option.some.inj h]; exact work_frame_of_queues _ _ rfl rfl rfl
      · split at h
        · exact absurd h (by simp)
        · split at h
          · exact absurd h (by simp)
          · rw [← Option.some.inj h]; exact work_frame_of_queues _ _ rfl rfl rfl
  · split at h
    · exact absurd h (by simp)
    · rename_i st1 hclear
      have hres : st1.resolver = st.resolver := by
        unfold identitysvc_clear_caches at hclear
        split at hclear
        · exact absurd hclear (by simp)
        · split at hclear
          · exact absurd hclear (by simp)
          · rw [← Option.some.inj hclear]
      have := work_frame_result_worker k caller st1 opcode r h
      rw [hres] at this
      exact this
  · have := work_frame_result_worker k caller _ opcode r h
    exact work_frame_trans _ _ _ (work_frame_of_queues _ _ rfl rfl rfl) this
  · exact work_frame_result_worker k caller st opcode r h

/-- The macro `TAILQ_REMOVE` of an item by its sequence number takes one item
with that number out of the queue. -/
theorem remove_work_spec (seqno : Nat) (queue rest : List kauth_resolver_work)
    (h : remove_work seqno queue = some rest) :
    ∃ pre e post, queue = pre ++ e :: post ∧ rest = pre ++ post ∧ e.kr_seqno = seqno := by
  unfold remove_work at h
  cases hx : extract_first (fun workp => decide (workp.kr_seqno = seqno)) queue with
  | none => rw [hx] at h; exact absurd h (by simp)
  | some q =>
    obtain ⟨e, r⟩ := q
    rw [hx] at h
    obtain ⟨pre, post, h1, h2, h3, _⟩ := extract_first_spec _ _ _ _ hx
    refine ⟨pre, e, post, h1, ?_, by simpa using h3⟩
    rw [← h2]
    exact (Option.some.inj h).symm

/-- The enqueueing half of `kauth_resolver_submit` keeps the state invariant;
the items on the unsubmitted and submitted queues afterwards are those that
were there and the item enqueued; the done queue is untouched. -/
theorem work_submit_spec (k : Platform) (s : ResolverState) (lkp : kauth_identity_extlookup)
    (extend_data : Nat) :
    (work_item_invariant s →
      work_item_invariant (kauth_resolver_submit k s lkp extend_data).2.2) ∧
    (∀ w ∈ (kauth_resolver_submit k s lkp extend_data).2.2.kauth_resolver_unsubmitted ++
        (kauth_resolver_submit k s lkp extend_data).2.2.kauth_resolver_submitted,
      (∃ w0 ∈ s.kauth_resolver_unsubmitted ++ s.kauth_resolver_submitted, same_but_flags w0 w) ∨
      (kauth_resolver_submit k s lkp extend_data).2.1 = some w) ∧
    (∀ w ∈ s.kauth_resolver_done,
      w ∈ (kauth_resolver_submit k s lkp extend_data).2.2.kauth_resolver_done) := by
  unfold kauth_resolver_submit
  by_cases hid : s.kauth_resolver_identity = 0
  · simp only [if_pos hid]
    exact ⟨fun h => h, fun w hw => Or.inl ⟨w, hw, same_but_flags_refl w⟩, fun w hw => hw⟩
  · simp only [if_neg hid]
    refine ⟨?_, ?_, fun w hw => hw⟩
    · intro hinv
      refine ⟨?_, hinv.2.1, hinv.2.2⟩
      intro w hw
      rcases List.mem_append.mp hw with hw | hw
      · exact hinv.1 w hw
      · rw [List.mem_singleton.mp hw]
        exact ⟨rfl, rfl⟩
    · intro w hw
      rcases List.mem_append.mp hw with hw | hw
      · rcases List.mem_append.mp hw with hw | hw
        · exact Or.inl ⟨w, List.mem_append_left _ hw, same_but_flags_refl w⟩
        · rw [List.mem_singleton.mp hw]
          exact Or.inr rfl
      · exact Or.inl ⟨w, List.mem_append_right _ hw, same_but_flags_refl w⟩

/-- The second half of `kauth_resolver_submit` on globals that satisfy the
state invariant: the invariant is kept, no item comes onto the unsubmitted or
the submitted queue, and the only item that can leave the done queue carries the
sequence number of the submitter. -/
theorem work_wakeup_spec (k : Platform) (s : ResolverState) (seqno : Nat)
    (lkp : kauth_identity_extlookup) (error : Nat)
    (r : Nat × kauth_identity_extlookup × ResolverState) (hinv : work_item_invariant s)
    (h : kauth_resolver_submit_wakeup k s seqno lkp error = some r) :
    work_item_invariant r.2.2 ∧
    (∀ w ∈ r.2.2.kauth_resolver_unsubmitted ++ r.2.2.kauth_resolver_submitted,
      w ∈ s.kauth_resolver_unsubmitted ++ s.kauth_resolver_submitted) ∧
    (∀ w ∈ s.kauth_resolver_done, w ∈ r.2.2.kauth_resolver_done ∨ w.kr_seqno = seqno) := by
  unfold kauth_resolver_submit_wakeup at h
  cases hfind : resolver_find_work s seqno with
  | none => rw [hfind] at h; exact absurd h (by simp)
  | some workp =>
    rw [hfind] at h
    simp only [] at h
    have hmem : workp ∈ s.kauth_resolver_unsubmitted ++ s.kauth_resolver_submitted ++
        s.kauth_resolver_done := by
      unfold resolver_find_work at hfind
      exact List.mem_of_find?_eq_some hfind
    have hrefs : workp.kr_refs = 1 := by
      rcases List.mem_append.mp hmem with hm | hm
      · rcases List.mem_append.mp hm with hm | hm
        · exact (hinv.1 workp hm).2
        · exact (hinv.2.1 workp hm).2
      · exact (hinv.2.2 workp hm).2
    rw [if_pos (by rw [hrefs]; decide)] at h
    generalize hs0 : (if error = k.EWOULDBLOCK ∧
        workp.kr_flags &&& KAUTH_REQUEST_UNSUBMITTED ≠ 0 then
        { s with kauth_resolver_identity := 0, kauth_resolver_registered := 0 }
      else s) = s0 at h
    have hq : s0.kauth_resolver_unsubmitted = s.kauth_resolver_unsubmitted ∧
        s0.kauth_resolver_submitted = s.kauth_resolver_submitted ∧
        s0.kauth_resolver_done = s.kauth_resolver_done := by
      rw [← hs0]
      split_ifs <;> exact ⟨rfl, rfl, rfl⟩
    have hinv0 : work_item_invariant s0 := by
      unfold work_item_invariant
      rw [hq.1, hq.2.1, hq.2.2]
      exact hinv
    rw [← hq.1, ← hq.2.1, ← hq.2.2]
    clear hs0 hq hinv hmem hfind
    generalize (if error = 0 then workp.kr_result else error) = result at h
    generalize (if error = 0 then workp.kr_work else lkp) = lkp1 at h
    split_ifs at h with hd hsub hun
    · cases hr : remove_work seqno s0.kauth_resolver_done with
      | none => rw [hr] at h; exact absurd h (by simp)
      | some queue =>
        rw [hr] at h
        rw [← Option.some.inj h]
        obtain ⟨pre, e, post, h1, h2, h3⟩ := remove_work_spec _ _ _ hr
        refine ⟨⟨hinv0.1, hinv0.2.1, ?_⟩, fun w hw => hw, ?_⟩
        · intro w hw
          apply hinv0.2.2
          show w ∈ s0.kauth_resolver_done
          have hw : w ∈ queue := hw
          rw [h1]
          rw [h2] at hw
          rcases List.mem_append.mp hw with hw | hw
          · exact List.mem_append_left _ hw
          · exact List.mem_append_right _ (List.mem_cons_of_mem _ hw)
        · intro w hw
          rw [h1] at hw
          show w ∈ queue ∨ _
          rw [h2]
          rcases List.mem_append.mp hw with hw | hw
          · exact Or.inl (List.mem_append_left _ hw)
          · rcases List.mem_cons.mp hw with hw | hw
            · exact Or.inr (by rw [hw]; exact h3)
            · exact Or.inl (List.mem_append_right _ hw)
    · cases hr : remove_work seqno s0.kauth_resolver_submitted with
      | none => rw [hr] at h; exact absurd h (by simp)
      | some queue =>
        rw [hr] at h
        rw [← Option.some.inj h]
        obtain ⟨pre, e, post, h1, h2, h3⟩ := remove_work_spec _ _ _ hr
        have hsubset : ∀ w ∈ queue, w ∈ s0.kauth_resolver_submitted := by
          intro w hw
          rw [h1]
          rw [h2] at hw
          rcases List.mem_append.mp hw with hw | hw
          · exact List.mem_append_left _ hw
          · exact List.mem_append_right _ (List.mem_cons_of_mem _ hw)
        refine ⟨⟨hinv0.1, fun w hw => hinv0.2.1 w (hsubset w hw), hinv0.2.2⟩, ?_,
          fun w hw => Or.inl hw⟩
        intro w hw
        rcases List.mem_append.mp hw with hw | hw
        · exact List.mem_append_left _ hw
        · exact List.mem_append_right _ (hsubset w hw)
    · cases hr : remove_work seqno s0.kauth_resolver_unsubmitted with
      | none => rw [hr] at h; exact absurd h (by simp)
      | some queue =>
        rw [hr] at h
        rw [← Option.some.inj h]
        obtain ⟨pre, e, post, h1, h2, h3⟩ := remove_work_spec _ _ _ hr
        have hsubset : ∀ w ∈ queue, w ∈ s0.kauth_resolver_unsubmitted := by
          intro w hw
          rw [h1]
          rw [h2] at hw
          rcases List.mem_append.mp hw with hw | hw
          · exact List.mem_append_left _ hw
          · exact List.mem_append_right _ (List.mem_cons_of_mem _ hw)
        refine ⟨⟨fun w hw => hinv0.1 w (hsubset w hw), hinv0.2.1, hinv0.2.2⟩, ?_,
          fun w hw => Or.inl hw⟩
        intro w hw
        rcases List.mem_append.mp hw with hw | hw
        · exact List.mem_append_left _ (hsubset w hw)
        · exact List.mem_append_right _ hw
    · rw [← Option.some.inj h]
      exact ⟨hinv0, fun w hw => hw, fun w hw => Or.inl hw⟩

/-- The two parts of `kauth_resolver_complete` make up the function: when the
first part reaches the unlock with the item `w` and the globals `s1`, the
function run with no other thread in between gives what the second part gives
on `w` and `s1`. -/
theorem kauth_resolver_complete_split (k : Platform) (caller : identitysvc_caller)
    (s s1 : ResolverState) (w : kauth_resolver_work)
    (h : kauth_resolver_complete_unlink k caller s = some (w, s1)) :
    kauth_resolver_complete k caller s = kauth_resolver_complete_insert caller w s1 := by
  unfold kauth_resolver_complete_unlink at h
  unfold kauth_resolver_complete
  cases hext : caller.copyin_message with
  | error e => rw [hext] at h; exact absurd h (by simp)
  | ok extl =>
    rw [hext] at h
    simp only [] at h ⊢
    by_cases hf : extl.el_result ≠ k.KAUTH_EXTLOOKUP_FATAL
    · rw [if_pos hf] at h
      rw [if_pos hf]
      cases hx : extract_first (fun workp => decide (workp.kr_seqno = extl.el_seqno))
          (kauth_resolver_complete_switch k extl.el_result s).2.2.kauth_resolver_submitted with
      | none => rw [hx] at h; exact absurd h (by simp)
      | some q =>
        obtain ⟨workp, rest⟩ := q
        rw [hx] at h
        simp only [] at h ⊢
        by_cases hw : workp.kr_work.el_flags &&&
            (k.KAUTH_EXTLOOKUP_WANT_PWNAM ||| k.KAUTH_EXTLOOKUP_WANT_GRNAM) ≠ 0 ∧
            extl.el_flags &&&
              (k.KAUTH_EXTLOOKUP_VALID_PWNAM ||| k.KAUTH_EXTLOOKUP_VALID_GRNAM) ≠ 0
        · rw [if_pos hw] at h
          rw [if_pos hw]
          have h1 := Option.some.inj h
          rw [← (Prod.mk.inj h1).1, ← (Prod.mk.inj h1).2]
          rfl
        · rw [if_neg hw] at h
          exact absurd h (by simp)
    · rw [if_neg hf] at h
      exact absurd h (by simp)

/-- The two parts of `identitysvc` make up the system call: when the first part
reaches the unlock with the item `w` and the state `st1`, the call run with no
other thread in between gives what the second part gives on `w` and `st1`. -/
theorem identitysvc_split (k : Platform) (caller : identitysvc_caller) (st st1 : KauthState)
    (opcode message : Nat) (w : kauth_resolver_work)
    (h : identitysvc_unlink k caller st opcode = some (w, st1)) :
    identitysvc k caller st opcode message = identitysvc_insert k caller st1 opcode w := by
  have tail : ∀ st0 : KauthState, identitysvc_result_unlink k caller st0 opcode = some (w, st1) →
      identitysvc_result_worker k caller st0 opcode = identitysvc_insert k caller st1 opcode w := by
    intro st0 h0
    unfold identitysvc_result_unlink at h0
    by_cases hres : opcode &&& k.KAUTH_EXTLOOKUP_RESULT ≠ 0
    · rw [if_pos hres] at h0
      cases hu : kauth_resolver_complete_unlink k caller st0.resolver with
      | none => rw [hu] at h0; exact absurd h0 (by simp)
      | some r =>
        obtain ⟨w0, s1⟩ := r
        rw [hu] at h0
        have h1 := Option.some.inj h0
        have hw : w0 = w := (Prod.mk.inj h1).1
        have hs : { st0 with resolver := s1 } = st1 := (Prod.mk.inj h1).2
        subst hw
        have hc := kauth_resolver_complete_split k caller st0.resolver s1 w0 hu
        unfold identitysvc_result_worker identitysvc_insert
        rw [if_pos hres, hc, ← hs]
    · rw [if_neg hres] at h0
      exact absurd h0 (by simp)
  unfold identitysvc_unlink at h
  unfold identitysvc
  by_cases h1 : (!caller.entitled) = true
  · rw [if_pos h1] at h; exact absurd h (by simp)
  rw [if_neg h1] at h
  rw [if_neg h1]
  by_cases h2 : opcode = k.KAUTH_EXTLOOKUP_REGISTER
  · rw [if_pos h2] at h; exact absurd h (by simp)
  rw [if_neg h2] at h
  rw [if_neg h2]
  by_cases h3 : caller.uid ≠ 0 ∨ caller.pid ≠ st.resolver.kauth_resolver_identity
  · rw [if_pos h3] at h; exact absurd h (by simp)
  rw [if_neg h3] at h
  rw [if_neg h3]
  by_cases h4 : opcode = k.KAUTH_GET_CACHE_SIZES
  · rw [if_pos h4] at h; exact absurd h (by simp)
  rw [if_neg h4] at h
  rw [if_neg h4]
  by_cases h5 : opcode = k.KAUTH_SET_CACHE_SIZES
  · rw [if_pos h5] at h; exact absurd h (by simp)
  rw [if_neg h5] at h
  rw [if_neg h5]
  by_cases h6 : opcode = k.KAUTH_CLEAR_CACHES
  · rw [if_pos h6] at h
    rw [if_pos h6]
    cases hclear : identitysvc_clear_caches st with
    | none => rw [hclear] at h; exact absurd h (by simp)
    | some st0 =>
      rw [hclear] at h
      exact tail st0 h
  rw [if_neg h6] at h
  rw [if_neg h6]
  by_cases h7 : opcode = k.KAUTH_EXTLOOKUP_DEREGISTER
  · rw [if_pos h7] at h
    rw [if_pos h7]
    exact tail _ h
  · rw [if_neg h7] at h
    rw [if_neg h7]
    exact tail _ h

/-- A relation between the resolver globals before and after a step that holds
when the queues are untouched, composes, and holds across a registration, a
completion and a request for work, holds across the tail of `identitysvc`. -/
theorem identitysvc_result_worker_relation (R : ResolverState → ResolverState → Prop)
    (hq : ∀ s s' : ResolverState,
      s'.kauth_resolver_unsubmitted = s.kauth_resolver_unsubmitted →
      s'.kauth_resolver_submitted = s.kauth_resolver_submitted →
      s'.kauth_resolver_done = s.kauth_resolver_done → R s s')
    (ht : ∀ a b c : ResolverState, R a b → R b c → R a c)
    (k : Platform)
    (hcomp : ∀ (caller : identitysvc_caller) (s : ResolverState),
      R s (kauth_resolver_complete k caller s).2)
    (hget : ∀ (caller : identitysvc_caller) (s : ResolverState) (r : Nat × ResolverState),
      kauth_resolver_getwork k caller s = some r → R s r.2)
    (caller : identitysvc_caller) (st : KauthState) (opcode : Nat) (r : Nat × KauthState)
    (h : identitysvc_result_worker k caller st opcode = some r) :
    R st.resolver r.2.resolver := by
  unfold identitysvc_result_worker at h
  have hc := hcomp caller st.resolver
  by_cases hres : opcode &&& k.KAUTH_EXTLOOKUP_RESULT ≠ 0
  · simp only [if_pos hres] at h
    split_ifs at h
    · rw [← Option.some.inj h]; exact hc
    · split at h
      · exact absurd h (by simp)
      · rename_i error resolver hg
        rw [← Option.some.inj h]
        exact ht _ _ _ hc (hget caller _ _ hg)
    · rw [← Option.some.inj h]; exact hc
  · simp only [if_neg hres] at h
    split_ifs at h with h0 hw
    · exact absurd rfl h0
    · split at h
      · exact absurd h (by simp)
      · rename_i error resolver hg
        rw [← Option.some.inj h]
        exact hget caller _ _ hg
    · rw [← Option.some.inj h]
      exact hq _ _ rfl rfl rfl

/-- A relation between the resolver globals before and after a step that holds
when the queues are untouched, composes, and holds across a registration, a
completion and a request for work, holds across every call of `identitysvc`. -/
theorem identitysvc_relation (R : ResolverState → ResolverState → Prop)
    (hq : ∀ s s' : ResolverState,
      s'.kauth_resolver_unsubmitted = s.kauth_resolver_unsubmitted →
      s'.kauth_resolver_submitted = s.kauth_resolver_submitted →
      s'.kauth_resolver_done = s.kauth_resolver_done → R s s')
    (ht : ∀ a b c : ResolverState, R a b → R b c → R a c)
    (hreg : ∀ (new_id message : Nat) (s : ResolverState),
      R s (identitysvc_register new_id message s))
    (k : Platform)
    (hcomp : ∀ (caller : identitysvc_caller) (s : ResolverState),
      R s (kauth_resolver_complete k caller s).2)
    (hget : ∀ (caller : identitysvc_caller) (s : ResolverState) (r : Nat × ResolverState),
      kauth_resolver_getwork k caller s = some r → R s r.2)
    (caller : identitysvc_caller) (st : KauthState) (opcode message : Nat) (r : Nat × KauthState)
    (h : identitysvc k caller st opcode message = some r) :
    R st.resolver r.2.resolver := by
  have htail := identitysvc_result_worker_relation R hq ht k hcomp hget caller
  unfold identitysvc at h
  split_ifs at h
  · rw [← Option.some.inj h]; exact hq _ _ rfl rfl rfl
  · rw [← Option.some.inj h]; exact hq _ _ rfl rfl rfl
  · rw [← Option.some.inj h]
    exact hreg _ _ _
  · rw [← Option.some.inj h]; exact hq _ _ rfl rfl rfl
  · rw [← Option.some.inj h]; exact hq _ _ rfl rfl rfl
  · split at h
    · rw [← Option.some.inj h]; exact hq _ _ rfl rfl rfl
    · unfold identitysvc_set_cache_sizes at h
      split_ifs at h
      · rw [← Option.some.inj h]; exact hq _ _ rfl rfl rfl
      · split at h
        · exact absurd h (by simp)
        · split at h
          · exact absurd h (by simp)
          · rw [← Option.some.inj h]; exact hq _ _ rfl rfl rfl
  · split at h
    · exact absurd h (by simp)
    · rename_i st1 hclear
      have hres : st1.resolver = st.resolver := by
        unfold identitysvc_clear_caches at hclear
        split at hclear
        · exact absurd hclear (by simp)
        · split at hclear
          · exact absurd hclear (by simp)
          · rw [← Option.some.inj hclear]
      have := htail st1 opcode r h
      rw [hres] at this
      exact this
  · have := htail _ opcode r h
    exact ht st.resolver
      { st.resolver with kauth_resolver_identity := 0, kauth_resolver_registered := 0 } _
      (hq _ _ rfl rfl rfl) this
  · exact htail st opcode r h

/-- The sequence numbers on the queues are those of the three queues in turn. -/
theorem queue_seqnos_eq (s : ResolverState) :
    queue_seqnos s =
      s.kauth_resolver_unsubmitted.map (fun w => w.kr_seqno) ++
        s.kauth_resolver_submitted.map (fun w => w.kr_seqno) ++
        s.kauth_resolver_done.map (fun w => w.kr_seqno) := by
  unfold queue_seqnos
  rw [List.map_append, List.map_append]

/-- The live sequence numbers are those on the queues and those in transit. -/
theorem live_seqnos_eq (st : WorkState) :
    live_seqnos st = queue_seqnos st.kauth.resolver ++ st.transit.map (fun w => w.kr_seqno) := by
  unfold live_seqnos queue_seqnos
  rw [List.map_append]

/-- A registration keeps the sequence numbers on the queues. -/
theorem queue_seqnos_register (new_id message : Nat) (s : ResolverState) :
    (queue_seqnos (identitysvc_register new_id message s)).Perm (queue_seqnos s) := by
  by_cases h : s.kauth_resolver_identity = new_id
  · rw [identitysvc_register_same _ _ _ h]
  · rw [identitysvc_register_new _ _ _ h, queue_seqnos_eq, queue_seqnos_eq]
    have hd : (s.kauth_resolver_submitted.map demote).map (fun w => w.kr_seqno) =
        s.kauth_resolver_submitted.map (fun w => w.kr_seqno) := by
      rw [List.map_map]
      rfl
    simp only [List.map_append, List.map_nil, List.append_nil, hd]
    rw [List.perm_iff_count]
    intro a
    simp only [List.count_append]
    omega

/-- A completion keeps the sequence numbers on the queues. -/
theorem queue_seqnos_complete (k : Platform) (caller : identitysvc_caller) (s : ResolverState) :
    (queue_seqnos (kauth_resolver_complete k caller s).2).Perm (queue_seqnos s) := by
  obtain ⟨hu, h | ⟨pre, post, w, extl, result, h1, h2, h3⟩⟩ :=
    kauth_resolver_complete_queues k caller s
  · rw [queue_seqnos_eq, queue_seqnos_eq, hu, h.1, h.2]
  · rw [queue_seqnos_eq, queue_seqnos_eq, hu, h2, h3, h1]
    have hc : (complete_item extl result w).kr_seqno = w.kr_seqno := rfl
    rw [List.perm_iff_count]
    intro a
    simp only [List.map_append, List.map_cons, List.map_nil, List.count_append, List.count_cons,
      List.count_nil, hc]
    omega

/-- A request for work keeps the sequence numbers on the queues. -/
theorem queue_seqnos_getwork (k : Platform) (caller : identitysvc_caller) (s : ResolverState)
    (r : Nat × ResolverState) (h : kauth_resolver_getwork k caller s = some r) :
    (queue_seqnos r.2).Perm (queue_seqnos s) := by
  cases hq : s.kauth_resolver_unsubmitted with
  | nil =>
    unfold kauth_resolver_getwork at h
    rw [hq] at h
    rw [← Option.some.inj h]
  | cons workp rest =>
    have hg : kauth_resolver_getwork k caller s = kauth_resolver_getwork2 k caller s := by
      unfold kauth_resolver_getwork
      rw [hq]
    obtain ⟨error, h2⟩ := kauth_resolver_getwork2_spec k caller s workp rest hq
    rw [hg, h2] at h
    rw [← Option.some.inj h]
    by_cases he : error = 0
    · simp only [if_pos he]
      rw [queue_seqnos_eq, queue_seqnos_eq, hq]
      have hp : (promote workp).kr_seqno = workp.kr_seqno := rfl
      rw [List.perm_iff_count]
      intro a
      simp only [List.map_append, List.map_cons, List.map_nil, List.count_append,
        List.count_cons, List.count_nil, hp]
      omega
    · simp only [if_neg he]
      exact List.Perm.refl _

/-- Every call of `identitysvc` keeps the sequence numbers on the queues. -/
theorem queue_seqnos_identitysvc (k : Platform) (caller : identitysvc_caller) (st : KauthState)
    (opcode message : Nat) (r : Nat × KauthState)
    (h : identitysvc k caller st opcode message = some r) :
    (queue_seqnos r.2.resolver).Perm (queue_seqnos st.resolver) := by
  refine identitysvc_relation (fun s s' => (queue_seqnos s').Perm (queue_seqnos s)) ?_ ?_ ?_ k ?_ ?_
    caller st opcode message r h
  · intro s s' h1 h2 h3
    rw [queue_seqnos_eq, queue_seqnos_eq, h1, h2, h3]
  · intro a b c h1 h2
    exact h2.trans h1
  · exact queue_seqnos_register
  · exact queue_seqnos_complete k
  · exact queue_seqnos_getwork k

/-- What the first part of `kauth_resolver_complete` does to the queues: one
item of the submitted queue, the first with the sequence number of the message,
is taken out and completed; the other two queues are untouched. -/
theorem kauth_resolver_complete_unlink_spec (k : Platform) (caller : identitysvc_caller)
    (s s1 : ResolverState) (w : kauth_resolver_work)
    (h : kauth_resolver_complete_unlink k caller s = some (w, s1)) :
    ∃ (pre post : List kauth_resolver_work) (w0 : kauth_resolver_work)
        (extl : kauth_identity_extlookup) (result : Nat),
      s.kauth_resolver_submitted = pre ++ w0 :: post ∧
      s1.kauth_resolver_submitted = pre ++ post ∧
      s1.kauth_resolver_unsubmitted = s.kauth_resolver_unsubmitted ∧
      s1.kauth_resolver_done = s.kauth_resolver_done ∧
      s1.kauth_resolver_sequence = s.kauth_resolver_sequence ∧
      w = complete_item extl result w0 := by
  unfold kauth_resolver_complete_unlink at h
  cases hext : caller.copyin_message with
  | error e => rw [hext] at h; exact absurd h (by simp)
  | ok extl =>
    rw [hext] at h
    simp only [] at h
    have hsw : (kauth_resolver_complete_switch k extl.el_result s).2.2.kauth_resolver_unsubmitted =
          s.kauth_resolver_unsubmitted ∧
        (kauth_resolver_complete_switch k extl.el_result s).2.2.kauth_resolver_submitted =
          s.kauth_resolver_submitted ∧
        (kauth_resolver_complete_switch k extl.el_result s).2.2.kauth_resolver_done =
          s.kauth_resolver_done ∧
        (kauth_resolver_complete_switch k extl.el_result s).2.2.kauth_resolver_sequence =
          s.kauth_resolver_sequence := by
      unfold kauth_resolver_complete_switch
      split_ifs <;> exact ⟨rfl, rfl, rfl, rfl⟩
    by_cases hf : extl.el_result ≠ k.KAUTH_EXTLOOKUP_FATAL
    · rw [if_pos hf] at h
      cases hx : extract_first (fun workp => decide (workp.kr_seqno = extl.el_seqno))
          (kauth_resolver_complete_switch k extl.el_result s).2.2.kauth_resolver_submitted with
      | none => rw [hx] at h; exact absurd h (by simp)
      | some q =>
        obtain ⟨workp, rest⟩ := q
        rw [hx] at h
        simp only [] at h
        by_cases hw : workp.kr_work.el_flags &&&
            (k.KAUTH_EXTLOOKUP_WANT_PWNAM ||| k.KAUTH_EXTLOOKUP_WANT_GRNAM) ≠ 0 ∧
            extl.el_flags &&&
              (k.KAUTH_EXTLOOKUP_VALID_PWNAM ||| k.KAUTH_EXTLOOKUP_VALID_GRNAM) ≠ 0
        · rw [if_pos hw] at h
          have h1 := Option.some.inj h
          obtain ⟨pre, post, e1, e2, _, _⟩ := extract_first_spec _ _ _ _ hx
          refine ⟨pre, post, workp, extl,
            (kauth_resolver_complete_switch k extl.el_result s).2.1, ?_, ?_, ?_, ?_, ?_, ?_⟩
          · rw [← hsw.2.1]; exact e1
          · rw [← (Prod.mk.inj h1).2]; exact e2
          · rw [← (Prod.mk.inj h1).2]; exact hsw.1
          · rw [← (Prod.mk.inj h1).2]; exact hsw.2.2.1
          · rw [← (Prod.mk.inj h1).2]; exact hsw.2.2.2
          · rw [← (Prod.mk.inj h1).1]; rfl
        · rw [if_neg hw] at h
          exact absurd h (by simp)
    · rw [if_neg hf] at h
      exact absurd h (by simp)

/-- What the first part of `identitysvc` does to the queues: one item of the
submitted queue is taken out and completed; the other two queues are
untouched. -/
theorem identitysvc_unlink_spec (k : Platform) (caller : identitysvc_caller) (st st1 : KauthState)
    (opcode : Nat) (w : kauth_resolver_work)
    (h : identitysvc_unlink k caller st opcode = some (w, st1)) :
    ∃ (pre post : List kauth_resolver_work) (w0 : kauth_resolver_work)
        (extl : kauth_identity_extlookup) (result : Nat),
      st.resolver.kauth_resolver_submitted = pre ++ w0 :: post ∧
      st1.resolver.kauth_resolver_submitted = pre ++ post ∧
      st1.resolver.kauth_resolver_unsubmitted = st.resolver.kauth_resolver_unsubmitted ∧
      st1.resolver.kauth_resolver_done = st.resolver.kauth_resolver_done ∧
      st1.resolver.kauth_resolver_sequence = st.resolver.kauth_resolver_sequence ∧
      w = complete_item extl result w0 := by
  have tail : ∀ st0 : KauthState, identitysvc_result_unlink k caller st0 opcode = some (w, st1) →
      ∃ (pre post : List kauth_resolver_work) (w0 : kauth_resolver_work)
          (extl : kauth_identity_extlookup) (result : Nat),
        st0.resolver.kauth_resolver_submitted = pre ++ w0 :: post ∧
        st1.resolver.kauth_resolver_submitted = pre ++ post ∧
        st1.resolver.kauth_resolver_unsubmitted = st0.resolver.kauth_resolver_unsubmitted ∧
        st1.resolver.kauth_resolver_done = st0.resolver.kauth_resolver_done ∧
        st1.resolver.kauth_resolver_sequence = st0.resolver.kauth_resolver_sequence ∧
        w = complete_item extl result w0 := by
    intro st0 h0
    unfold identitysvc_result_unlink at h0
    by_cases hres : opcode &&& k.KAUTH_EXTLOOKUP_RESULT ≠ 0
    · rw [if_pos hres] at h0
      cases hu : kauth_resolver_complete_unlink k caller st0.resolver with
      | none => rw [hu] at h0; exact absurd h0 (by simp)
      | some r =>
        obtain ⟨w0, s1⟩ := r
        rw [hu] at h0
        have h1 := Option.some.inj h0
        have hw : w0 = w := (Prod.mk.inj h1).1
        have hs : { st0 with resolver := s1 } = st1 := (Prod.mk.inj h1).2
        subst hw
        rw [← hs]
        exact kauth_resolver_complete_unlink_spec k caller st0.resolver s1 w0 hu
    · rw [if_neg hres] at h0
      exact absurd h0 (by simp)
  unfold identitysvc_unlink at h
  by_cases h1 : (!caller.entitled) = true
  · rw [if_pos h1] at h; exact absurd h (by simp)
  rw [if_neg h1] at h
  by_cases h2 : opcode = k.KAUTH_EXTLOOKUP_REGISTER
  · rw [if_pos h2] at h; exact absurd h (by simp)
  rw [if_neg h2] at h
  by_cases h3 : caller.uid ≠ 0 ∨ caller.pid ≠ st.resolver.kauth_resolver_identity
  · rw [if_pos h3] at h; exact absurd h (by simp)
  rw [if_neg h3] at h
  by_cases h4 : opcode = k.KAUTH_GET_CACHE_SIZES
  · rw [if_pos h4] at h; exact absurd h (by simp)
  rw [if_neg h4] at h
  by_cases h5 : opcode = k.KAUTH_SET_CACHE_SIZES
  · rw [if_pos h5] at h; exact absurd h (by simp)
  rw [if_neg h5] at h
  by_cases h6 : opcode = k.KAUTH_CLEAR_CACHES
  · rw [if_pos h6] at h
    cases hclear : identitysvc_clear_caches st with
    | none => rw [hclear] at h; exact absurd h (by simp)
    | some st0 =>
      rw [hclear] at h
      have hres : st0.resolver = st.resolver := by
        unfold identitysvc_clear_caches at hclear
        split at hclear
        · exact absurd hclear (by simp)
        · split at hclear
          · exact absurd hclear (by simp)
          · rw [← Option.some.inj hclear]
      have := tail st0 h
      rw [hres] at this
      exact this
  rw [if_neg h6] at h
  by_cases h7 : opcode = k.KAUTH_EXTLOOKUP_DEREGISTER
  · rw [if_pos h7] at h
    exact tail
      { st with resolver := { st.resolver with kauth_resolver_identity := 0
                                               kauth_resolver_registered := 0 } } h
  · rw [if_neg h7] at h
    exact tail st h

/-- What the second part of `identitysvc` does to the queues: the item that the
thread holds goes to the tail of the done queue, and then, when work is asked
for and the copy of the name went well, `kauth_resolver_getwork` runs. -/
theorem identitysvc_insert_spec (k : Platform) (caller : identitysvc_caller) (st : KauthState)
    (opcode : Nat) (w : kauth_resolver_work) (r : Nat × KauthState)
    (h : identitysvc_insert k caller st opcode w = some r) :
    r.2.resolver =
        { st.resolver with kauth_resolver_done := st.resolver.kauth_resolver_done ++ [w] } ∨
      ∃ r1 : Nat × ResolverState,
        kauth_resolver_getwork k caller
            { st.resolver with kauth_resolver_done := st.resolver.kauth_resolver_done ++ [w] } =
          some r1 ∧
        r.2.resolver = r1.2 := by
  unfold identitysvc_insert kauth_resolver_complete_insert at h
  simp only [] at h
  by_cases he : caller.copyinstr ≠ 0
  · rw [if_pos he] at h
    rw [← Option.some.inj h]
    exact Or.inl rfl
  · rw [if_neg he] at h
    by_cases hw : opcode &&& k.KAUTH_EXTLOOKUP_WORKER ≠ 0
    · rw [if_pos hw] at h
      cases hg : kauth_resolver_getwork k caller
          { st.resolver with kauth_resolver_done := st.resolver.kauth_resolver_done ++ [w] } with
      | none => rw [hg] at h; exact absurd h (by simp)
      | some r1 =>
        rw [hg] at h
        rw [← Option.some.inj h]
        exact Or.inr ⟨r1, rfl, rfl⟩
    · rw [if_neg hw] at h
      rw [← Option.some.inj h]
      exact Or.inl rfl

/-- The enqueueing half of `kauth_resolver_submit` adds the sequence number of
the item it enqueues, if any, to those on the queues. -/
theorem queue_seqnos_submit (k : Platform) (s : ResolverState) (lkp : kauth_identity_extlookup)
    (extend_data : Nat) :
    (queue_seqnos (kauth_resolver_submit k s lkp extend_data).2.2).Perm
      (queue_seqnos s ++
        (kauth_resolver_submit k s lkp extend_data).2.1.toList.map (fun w => w.kr_seqno)) ∧
    (kauth_resolver_submit k s lkp extend_data).2.1.toList.map (fun w => w.kr_seqno) =
      (if s.kauth_resolver_identity = 0 then [] else [s.kauth_resolver_sequence]) ∧
    (kauth_resolver_submit k s lkp extend_data).2.2.kauth_resolver_sequence =
      (if s.kauth_resolver_identity = 0 then s.kauth_resolver_sequence
       else (s.kauth_resolver_sequence + 1) % 4294967296) := by
  refine ⟨?_, ?_, ?_⟩
  · unfold kauth_resolver_submit
    by_cases hid : s.kauth_resolver_identity = 0
    · simp only [if_pos hid]
      simp
    · simp only [if_neg hid]
      rw [queue_seqnos_eq, queue_seqnos_eq]
      rw [List.perm_iff_count]
      intro a
      simp only [List.map_append, List.map_cons, List.map_nil, List.count_append,
        List.count_cons, List.count_nil, Option.toList]
      omega
  · unfold kauth_resolver_submit
    split_ifs <;> rfl
  · unfold kauth_resolver_submit
    split_ifs <;> rfl

/-- The second half of `kauth_resolver_submit` on globals that satisfy the
state invariant takes one item with the sequence number of the submitter off
the queue that its flag names, and leaves the other queues alone. -/
theorem kauth_resolver_submit_wakeup_queues (k : Platform) (s : ResolverState) (seqno : Nat)
    (lkp : kauth_identity_extlookup) (error : Nat)
    (r : Nat × kauth_identity_extlookup × ResolverState) (hinv : work_item_invariant s)
    (h : kauth_resolver_submit_wakeup k s seqno lkp error = some r) :
    r.2.2.kauth_resolver_sequence = s.kauth_resolver_sequence ∧
    ∃ (pre post : List kauth_resolver_work) (e : kauth_resolver_work), e.kr_seqno = seqno ∧
      ((s.kauth_resolver_done = pre ++ e :: post ∧ r.2.2.kauth_resolver_done = pre ++ post ∧
          r.2.2.kauth_resolver_unsubmitted = s.kauth_resolver_unsubmitted ∧
          r.2.2.kauth_resolver_submitted = s.kauth_resolver_submitted) ∨
       (s.kauth_resolver_submitted = pre ++ e :: post ∧
          r.2.2.kauth_resolver_submitted = pre ++ post ∧
          r.2.2.kauth_resolver_unsubmitted = s.kauth_resolver_unsubmitted ∧
          r.2.2.kauth_resolver_done = s.kauth_resolver_done) ∨
       (s.kauth_resolver_unsubmitted = pre ++ e :: post ∧
          r.2.2.kauth_resolver_unsubmitted = pre ++ post ∧
          r.2.2.kauth_resolver_submitted = s.kauth_resolver_submitted ∧
          r.2.2.kauth_resolver_done = s.kauth_resolver_done)) := by
  unfold kauth_resolver_submit_wakeup at h
  cases hfind : resolver_find_work s seqno with
  | none => rw [hfind] at h; exact absurd h (by simp)
  | some workp =>
    rw [hfind] at h
    simp only [] at h
    have hmem : workp ∈ s.kauth_resolver_unsubmitted ++ s.kauth_resolver_submitted ++
        s.kauth_resolver_done := by
      unfold resolver_find_work at hfind
      exact List.mem_of_find?_eq_some hfind
    have hwork : workp.kr_refs = 1 ∧ (workp.kr_flags = KAUTH_REQUEST_UNSUBMITTED ∨
        workp.kr_flags = KAUTH_REQUEST_SUBMITTED ∨ workp.kr_flags = KAUTH_REQUEST_DONE) := by
      rcases List.mem_append.mp hmem with hm | hm
      · rcases List.mem_append.mp hm with hm | hm
        · exact ⟨(hinv.1 workp hm).2, Or.inl (hinv.1 workp hm).1⟩
        · exact ⟨(hinv.2.1 workp hm).2, Or.inr (Or.inl (hinv.2.1 workp hm).1)⟩
      · exact ⟨(hinv.2.2 workp hm).2, Or.inr (Or.inr (hinv.2.2 workp hm).1)⟩
    obtain ⟨hrefs, hflags⟩ := hwork
    rw [if_pos (by rw [hrefs]; decide)] at h
    generalize hs0 : (if error = k.EWOULDBLOCK ∧
        workp.kr_flags &&& KAUTH_REQUEST_UNSUBMITTED ≠ 0 then
        { s with kauth_resolver_identity := 0, kauth_resolver_registered := 0 }
      else s) = s0 at h
    have hq : s0.kauth_resolver_unsubmitted = s.kauth_resolver_unsubmitted ∧
        s0.kauth_resolver_submitted = s.kauth_resolver_submitted ∧
        s0.kauth_resolver_done = s.kauth_resolver_done ∧
        s0.kauth_resolver_sequence = s.kauth_resolver_sequence := by
      rw [← hs0]
      split_ifs <;> exact ⟨rfl, rfl, rfl, rfl⟩
    rw [← hq.1, ← hq.2.1, ← hq.2.2.1, ← hq.2.2.2]
    clear hs0 hq hinv hmem hfind
    generalize (if error = 0 then workp.kr_result else error) = result at h
    generalize (if error = 0 then workp.kr_work else lkp) = lkp1 at h
    split_ifs at h with hd hsub hun
    · cases hr : remove_work seqno s0.kauth_resolver_done with
      | none => rw [hr] at h; exact absurd h (by simp)
      | some queue =>
        rw [hr] at h
        rw [← Option.some.inj h]
        obtain ⟨pre, e, post, h1, h2, h3⟩ := remove_work_spec _ _ _ hr
        exact ⟨rfl, pre, post, e, h3, Or.inl ⟨h1, h2, rfl, rfl⟩⟩
    · cases hr : remove_work seqno s0.kauth_resolver_submitted with
      | none => rw [hr] at h; exact absurd h (by simp)
      | some queue =>
        rw [hr] at h
        rw [← Option.some.inj h]
        obtain ⟨pre, e, post, h1, h2, h3⟩ := remove_work_spec _ _ _ hr
        exact ⟨rfl, pre, post, e, h3, Or.inr (Or.inl ⟨h1, h2, rfl, rfl⟩)⟩
    · cases hr : remove_work seqno s0.kauth_resolver_unsubmitted with
      | none => rw [hr] at h; exact absurd h (by simp)
      | some queue =>
        rw [hr] at h
        rw [← Option.some.inj h]
        obtain ⟨pre, e, post, h1, h2, h3⟩ := remove_work_spec _ _ _ hr
        exact ⟨rfl, pre, post, e, h3, Or.inr (Or.inr ⟨h1, h2, rfl, rfl⟩)⟩
    · exfalso
      rcases hflags with hfl | hfl | hfl
      · rw [hfl] at hun; exact hun (by decide)
      · rw [hfl] at hsub; exact hsub (by decide)
      · rw [hfl] at hd; exact hd (by decide)

/-- The second half of `kauth_resolver_submit` on globals that satisfy the
state invariant takes the sequence number of the submitter, once, out of those
on the queues. -/
theorem queue_seqnos_wakeup (k : Platform) (s : ResolverState) (seqno : Nat)
    (lkp : kauth_identity_extlookup) (error : Nat)
    (r : Nat × kauth_identity_extlookup × ResolverState) (hinv : work_item_invariant s)
    (h : kauth_resolver_submit_wakeup k s seqno lkp error = some r) :
    (queue_seqnos s).Perm (seqno :: queue_seqnos r.2.2) := by
  obtain ⟨_, pre, post, e, he, hc | hc | hc⟩ :=
    kauth_resolver_submit_wakeup_queues k s seqno lkp error r hinv h
  all_goals
    obtain ⟨h1, h2, h3, h4⟩ := hc
    rw [queue_seqnos_eq, queue_seqnos_eq, h1, h2, h3, h4, List.perm_iff_count]
    intro a
    simp only [List.map_append, List.map_cons, List.map_nil, List.count_append,
      List.count_cons, List.count_nil, he]
    omega

/-- A change of the sequence numbers on the queues that leaves the items in
transit alone is the same change of the live sequence numbers. -/
theorem live_seqnos_of_queues (st st' : WorkState) (add rel : List Nat)
    (hq : (queue_seqnos st'.kauth.resolver ++ rel).Perm (queue_seqnos st.kauth.resolver ++ add))
    (ht : st'.transit = st.transit) :
    (live_seqnos st' ++ rel).Perm (live_seqnos st ++ add) := by
  rw [live_seqnos_eq, live_seqnos_eq, ht]
  rw [List.perm_iff_count] at hq ⊢
  intro a
  have := hq a
  simp only [List.count_append] at this ⊢
  omega

/-- One event on a state that satisfies the state invariant.  The invariant
holds afterwards.  The live sequence numbers afterwards, with the one released,
are those before, with the one enqueued.  The event enqueues nothing and leaves
`kauth_resolver_sequence` alone, or it enqueues an item with the number
`kauth_resolver_sequence` and advances the counter by one modulo `2^32`.  Every
item on the unsubmitted or the submitted queue afterwards was on one of these
two queues before, but for its state, or is the item enqueued.  Every item
that was on the done queue or in transit is on the done queue or in transit
afterwards, unless the event is the release of an item with its sequence
number. -/
theorem work_state_step (k : Platform) (st st' : WorkState) (op : WorkOp)
    (hinv : work_state_invariant st) (h : op.apply k st = some st') :
    work_state_invariant st' ∧
    (live_seqnos st' ++ op.releases).Perm (live_seqnos st ++ op.enqueues k st) ∧
    ((op.enqueues k st = [] ∧
        st'.kauth.resolver.kauth_resolver_sequence = st.kauth.resolver.kauth_resolver_sequence) ∨
      (op.enqueues k st = [st.kauth.resolver.kauth_resolver_sequence] ∧
        st'.kauth.resolver.kauth_resolver_sequence =
          (st.kauth.resolver.kauth_resolver_sequence + 1) % 4294967296)) ∧
    (∀ w ∈ st'.kauth.resolver.kauth_resolver_unsubmitted ++
        st'.kauth.resolver.kauth_resolver_submitted,
      (∃ w0 ∈ st.kauth.resolver.kauth_resolver_unsubmitted ++
          st.kauth.resolver.kauth_resolver_submitted, same_but_flags w0 w) ∨
      ∃ lkp extend_data, op = .event (.submit lkp extend_data) ∧
        (kauth_resolver_submit k st.kauth.resolver lkp extend_data).2.1 = some w) ∧
    (∀ w ∈ st.kauth.resolver.kauth_resolver_done ++ st.transit,
      w ∈ st'.kauth.resolver.kauth_resolver_done ++ st'.transit ∨
        ∃ lkp error, op = .wakeup w.kr_seqno lkp error) := by
  obtain ⟨hq, ht⟩ := hinv
  have hstay : ∀ (d' : List kauth_resolver_work),
      (∀ w ∈ st.kauth.resolver.kauth_resolver_done, w ∈ d') →
      ∀ w ∈ st.kauth.resolver.kauth_resolver_done ++ st.transit, w ∈ d' ++ st.transit := by
    intro d' hd w hw
    rcases List.mem_append.mp hw with hw | hw
    · exact List.mem_append_left _ (hd w hw)
    · exact List.mem_append_right _ hw
  cases op with
  | event op =>
    cases op with
    | submit lkp extend_data =>
      have h1 : st' = { st with kauth := { st.kauth with resolver :=
          (kauth_resolver_submit k st.kauth.resolver lkp extend_data).2.2 } } := by
        simp only [WorkOp.apply, KauthOp.apply, Option.map_some', Option.some.injEq] at h
        exact h.symm
      rw [h1]
      obtain ⟨a, b, c⟩ := work_submit_spec k st.kauth.resolver lkp extend_data
      obtain ⟨p1, p2, p3⟩ := queue_seqnos_submit k st.kauth.resolver lkp extend_data
      refine ⟨⟨a hq, ht⟩, ?_, ?_, ?_, ?_⟩
      · show (live_seqnos _ ++ []).Perm (live_seqnos st ++ _)
        exact live_seqnos_of_queues st _ _ [] (by rw [List.append_nil]; exact p1) rfl
      · show (List.map _ _ = [] ∧ _) ∨ (List.map _ _ = _ ∧ _)
        rw [p2]
        show (_ ∧ (kauth_resolver_submit k st.kauth.resolver lkp
          extend_data).2.2.kauth_resolver_sequence = _) ∨ (_ ∧ (kauth_resolver_submit k
          st.kauth.resolver lkp extend_data).2.2.kauth_resolver_sequence = _)
        rw [p3]
        by_cases hid : st.kauth.resolver.kauth_resolver_identity = 0
        · rw [if_pos hid, if_pos hid]; exact Or.inl ⟨rfl, rfl⟩
        · rw [if_neg hid, if_neg hid]; exact Or.inr ⟨rfl, rfl⟩
      · intro w hw
        rcases b w hw with hb | hb
        · exact Or.inl hb
        · exact Or.inr ⟨lkp, extend_data, rfl, hb⟩
      · intro w hw
        exact Or.inl (hstay _ c w hw)
    | identitysvc caller opcode message =>
      cases hi : Kauth.identitysvc k caller st.kauth opcode message with
      | none =>
        simp only [WorkOp.apply, KauthOp.apply, hi, Option.map_none'] at h
        exact absurd h (by simp)
      | some r =>
        have h1 : st' = { st with kauth := r.2 } := by
          simp only [WorkOp.apply, KauthOp.apply, hi, Option.map_some', Option.some.injEq] at h
          exact h.symm
        rw [h1]
        obtain ⟨a, b, c⟩ := work_frame_identitysvc k caller st.kauth opcode message r hi
        have p := queue_seqnos_identitysvc k caller st.kauth opcode message r hi
        refine ⟨⟨a hq, ht⟩, ?_, Or.inl ⟨rfl, identitysvc_sequence k caller st.kauth opcode
          message r hi⟩, fun w hw => Or.inl (b w hw), fun w hw => Or.inl (hstay _ c w hw)⟩
        show (live_seqnos _ ++ []).Perm (live_seqnos st ++ [])
        exact live_seqnos_of_queues st _ [] []
          (by rw [List.append_nil, List.append_nil]; exact p) rfl
    | identity_reset =>
      have h1 : st' = { st with kauth := { st.kauth with resolver :=
          (kauth_resolver_identity_reset st.kauth.resolver) } } := by
        simp only [WorkOp.apply, KauthOp.apply, Option.map_some', Option.some.injEq] at h
        exact h.symm
      rw [h1]
      have hres : (kauth_resolver_identity_reset st.kauth.resolver).kauth_resolver_unsubmitted =
            st.kauth.resolver.kauth_resolver_unsubmitted ∧
          (kauth_resolver_identity_reset st.kauth.resolver).kauth_resolver_submitted =
            st.kauth.resolver.kauth_resolver_submitted ∧
          (kauth_resolver_identity_reset st.kauth.resolver).kauth_resolver_done =
            st.kauth.resolver.kauth_resolver_done ∧
          (kauth_resolver_identity_reset st.kauth.resolver).kauth_resolver_sequence =
            st.kauth.resolver.kauth_resolver_sequence := by
        unfold kauth_resolver_identity_reset
        split_ifs <;> exact ⟨rfl, rfl, rfl, rfl⟩
      obtain ⟨a, b, c⟩ := work_frame_of_queues st.kauth.resolver
        (kauth_resolver_identity_reset st.kauth.resolver) hres.1 hres.2.1 hres.2.2.1
      refine ⟨⟨a hq, ht⟩, ?_, Or.inl ⟨rfl, hres.2.2.2⟩, fun w hw => Or.inl (b w hw),
        fun w hw => Or.inl (hstay _ c w hw)⟩
      show (live_seqnos _ ++ []).Perm (live_seqnos st ++ [])
      refine live_seqnos_of_queues st _ [] [] ?_ rfl
      rw [List.append_nil, List.append_nil, queue_seqnos_eq, queue_seqnos_eq]
      show (List.map _ (kauth_resolver_identity_reset st.kauth.resolver).kauth_resolver_unsubmitted
        ++ List.map _ (kauth_resolver_identity_reset st.kauth.resolver).kauth_resolver_submitted
        ++ List.map _ (kauth_resolver_identity_reset st.kauth.resolver).kauth_resolver_done).Perm _
      rw [hres.1, hres.2.1, hres.2.2.1]
  | wakeup seqno lkp error =>
    have hany : st.transit.any (fun w => decide (w.kr_seqno = seqno)) = false := by
      cases hb : st.transit.any (fun w => decide (w.kr_seqno = seqno)) with
      | false => rfl
      | true =>
        simp only [WorkOp.apply, hb, if_true] at h
        exact absurd h (by simp)
    cases hw : kauth_resolver_submit_wakeup k st.kauth.resolver seqno lkp error with
    | none =>
      simp only [WorkOp.apply, hany, hw, Option.map_none'] at h
      exact absurd h (by simp)
    | some r =>
      have h1 : st' = { st with kauth := { st.kauth with resolver := r.2.2 } } := by
        simp only [WorkOp.apply, hany, hw, Option.map_some', Bool.false_eq_true, if_false,
          Option.some.injEq] at h
        exact h.symm
      rw [h1]
      obtain ⟨a, b, c⟩ := work_wakeup_spec k st.kauth.resolver seqno lkp error r hq hw
      have p := queue_seqnos_wakeup k st.kauth.resolver seqno lkp error r hq hw
      have hs := (kauth_resolver_submit_wakeup_queues k st.kauth.resolver seqno lkp error r hq
        hw).1
      refine ⟨⟨a, ht⟩, ?_, Or.inl ⟨rfl, hs⟩,
        fun w hw => Or.inl ⟨w, b w hw, same_but_flags_refl w⟩, ?_⟩
      · show (live_seqnos _ ++ [seqno]).Perm (live_seqnos st ++ [])
        refine live_seqnos_of_queues st _ [] [seqno] ?_ rfl
        rw [List.append_nil]
        show (queue_seqnos r.2.2 ++ [seqno]).Perm _
        rw [List.perm_iff_count] at p ⊢
        intro x
        have := p x
        simp only [List.count_append, List.count_cons, List.count_nil] at this ⊢
        omega
      · intro w hw
        rcases List.mem_append.mp hw with hw | hw
        · rcases c w hw with hc | hc
          · exact Or.inl (List.mem_append_left _ hc)
          · exact Or.inr ⟨lkp, error, by rw [hc]⟩
        · exact Or.inl (List.mem_append_right _ hw)
  | getwork_continue caller result =>
    cases hg : kauth_resolver_getwork_continue k caller result st.kauth.resolver with
    | none =>
      simp only [WorkOp.apply, hg, Option.map_none'] at h
      exact absurd h (by simp)
    | some r =>
      have h1 : st' = { st with kauth := { st.kauth with resolver := r.2 } } := by
        simp only [WorkOp.apply, hg, Option.map_some', Option.some.injEq] at h
        exact h.symm
      rw [h1]
      have hframe : work_frame st.kauth.resolver r.2 ∧
          (queue_seqnos r.2).Perm (queue_seqnos st.kauth.resolver) ∧
          r.2.kauth_resolver_sequence = st.kauth.resolver.kauth_resolver_sequence := by
        unfold kauth_resolver_getwork_continue at hg
        by_cases hr : result ≠ 0
        · rw [if_pos hr] at hg
          rw [← Option.some.inj hg]
          exact ⟨work_frame_of_queues _ _ rfl rfl rfl, List.Perm.refl _, rfl⟩
        · rw [if_neg hr] at hg
          have hg2 : kauth_resolver_getwork k caller st.kauth.resolver = some r := by
            unfold kauth_resolver_getwork
            cases hu : st.kauth.resolver.kauth_resolver_unsubmitted with
            | nil => rw [hu] at hg; exact hg
            | cons w0 rest => rw [hu] at hg; exact hg
          exact ⟨work_frame_getwork k caller _ r hg2, queue_seqnos_getwork k caller _ r hg2,
            kauth_resolver_getwork_sequence k caller _ r hg2⟩
      obtain ⟨⟨a, b, c⟩, p, hs⟩ := hframe
      refine ⟨⟨a hq, ht⟩, ?_, Or.inl ⟨rfl, hs⟩, fun w hw => Or.inl (b w hw),
        fun w hw => Or.inl (hstay _ c w hw)⟩
      show (live_seqnos _ ++ []).Perm (live_seqnos st ++ [])
      exact live_seqnos_of_queues st _ [] []
        (by rw [List.append_nil, List.append_nil]; exact p) rfl
  | unlink caller opcode =>
    cases hu : identitysvc_unlink k caller st.kauth opcode with
    | none =>
      simp only [WorkOp.apply, hu, Option.map_none'] at h
      exact absurd h (by simp)
    | some r =>
      obtain ⟨w, st1⟩ := r
      have h1 : st' = { kauth := st1, transit := st.transit ++ [w] } := by
        simp only [WorkOp.apply, hu, Option.map_some', Option.some.injEq] at h
        exact h.symm
      rw [h1]
      obtain ⟨pre, post, w0, extl, result, e1, e2, e3, e4, e5, e6⟩ :=
        identitysvc_unlink_spec k caller st.kauth st1 opcode w hu
      have hsub : ∀ x ∈ st1.resolver.kauth_resolver_submitted,
          x ∈ st.kauth.resolver.kauth_resolver_submitted := by
        intro x hx
        rw [e1]
        rw [e2] at hx
        rcases List.mem_append.mp hx with hx | hx
        · exact List.mem_append_left _ hx
        · exact List.mem_append_right _ (List.mem_cons_of_mem _ hx)
      have hw0 := hq.2.1 w0 (by rw [e1]; exact List.mem_append_right _ (List.mem_cons_self _ _))
      obtain ⟨c1, c2⟩ := complete_item_spec extl result w0 hw0.1
      refine ⟨⟨⟨?_, ?_, ?_⟩, ?_⟩, ?_, Or.inl ⟨rfl, e5⟩, ?_, ?_⟩
      · show ∀ x ∈ st1.resolver.kauth_resolver_unsubmitted, _
        rw [e3]; exact hq.1
      · intro x hx
        exact hq.2.1 x (hsub x hx)
      · show ∀ x ∈ st1.resolver.kauth_resolver_done, _
        rw [e4]; exact hq.2.2
      · intro x hx
        rcases List.mem_append.mp hx with hx | hx
        · exact ht x hx
        · rw [List.mem_singleton.mp hx, e6]
          exact ⟨c1, c2.trans hw0.2⟩
      · show (live_seqnos _ ++ []).Perm (live_seqnos st ++ [])
        rw [List.append_nil, List.append_nil, live_seqnos_eq, live_seqnos_eq, queue_seqnos_eq,
          queue_seqnos_eq]
        show (List.map _ st1.resolver.kauth_resolver_unsubmitted ++
          List.map _ st1.resolver.kauth_resolver_submitted ++
          List.map _ st1.resolver.kauth_resolver_done ++ List.map _ (st.transit ++ [w])).Perm _
        rw [e3, e2, e4, e1, e6]
        have hc : (complete_item extl result w0).kr_seqno = w0.kr_seqno := rfl
        rw [List.perm_iff_count]
        intro a
        simp only [List.map_append, List.map_cons, List.map_nil, List.count_append,
          List.count_cons, List.count_nil, hc]
        omega
      · intro x hx
        refine Or.inl ⟨x, ?_, same_but_flags_refl x⟩
        rcases List.mem_append.mp hx with hx | hx
        · have hx : x ∈ st1.resolver.kauth_resolver_unsubmitted := hx
          rw [e3] at hx
          exact List.mem_append_left _ hx
        · exact List.mem_append_right _ (hsub x hx)
      · intro x hx
        refine Or.inl ?_
        show x ∈ st1.resolver.kauth_resolver_done ++ (st.transit ++ [w])
        rw [e4]
        rcases List.mem_append.mp hx with hx | hx
        · exact List.mem_append_left _ hx
        · exact List.mem_append_right _ (List.mem_append_left _ hx)
  | insert caller opcode seqno =>
    cases hx : extract_first (fun w => decide (w.kr_seqno = seqno)) st.transit with
    | none =>
      simp only [WorkOp.apply, hx] at h
      exact absurd h (by simp)
    | some q =>
      obtain ⟨w, rest⟩ := q
      cases hi : identitysvc_insert k caller st.kauth opcode w with
      | none =>
        simp only [WorkOp.apply, hx, hi, Option.map_none'] at h
        exact absurd h (by simp)
      | some r =>
        have h1 : st' = { kauth := r.2, transit := rest } := by
          simp only [WorkOp.apply, hx, hi, Option.map_some', Option.some.injEq] at h
          exact h.symm
        rw [h1]
        obtain ⟨pre, post, t1, t2, _, _⟩ := extract_first_spec _ _ _ _ hx
        have hwt := ht w (by rw [t1]; exact List.mem_append_right _ (List.mem_cons_self _ _))
        have hrest : ∀ x ∈ rest, x ∈ st.transit := by
          intro x hx
          rw [t1]
          rw [t2] at hx
          rcases List.mem_append.mp hx with hx | hx
          · exact List.mem_append_left _ hx
          · exact List.mem_append_right _ (List.mem_cons_of_mem _ hx)
        have hmid : work_item_invariant
            { st.kauth.resolver with
              kauth_resolver_done := st.kauth.resolver.kauth_resolver_done ++ [w] } := by
          refine ⟨hq.1, hq.2.1, ?_⟩
          intro x hx
          rcases List.mem_append.mp hx with hx | hx
          · exact hq.2.2 x hx
          · rw [List.mem_singleton.mp hx]; exact hwt
        have hframe : work_frame
              { st.kauth.resolver with
                kauth_resolver_done := st.kauth.resolver.kauth_resolver_done ++ [w] }
              r.2.resolver ∧
            (queue_seqnos r.2.resolver).Perm
              (queue_seqnos { st.kauth.resolver with
                kauth_resolver_done := st.kauth.resolver.kauth_resolver_done ++ [w] }) ∧
            r.2.resolver.kauth_resolver_sequence =
              st.kauth.resolver.kauth_resolver_sequence := by
          rcases identitysvc_insert_spec k caller st.kauth opcode w r hi with hr | ⟨r1, hg, hr⟩
          · rw [hr]
            exact ⟨work_frame_of_queues _ _ rfl rfl rfl, List.Perm.refl _, rfl⟩
          · rw [hr]
            exact ⟨work_frame_getwork k caller _ r1 hg, queue_seqnos_getwork k caller _ r1 hg,
              kauth_resolver_getwork_sequence k caller
                { st.kauth.resolver with
                  kauth_resolver_done := st.kauth.resolver.kauth_resolver_done ++ [w] } r1 hg⟩
        obtain ⟨⟨a, b, c⟩, p, hs⟩ := hframe
        refine ⟨⟨a hmid, fun x hx => ht x (hrest x hx)⟩, ?_, Or.inl ⟨rfl, hs⟩,
          fun x hx => Or.inl (b x hx), ?_⟩
        · show (live_seqnos _ ++ []).Perm (live_seqnos st ++ [])
          rw [List.append_nil, List.append_nil, live_seqnos_eq, live_seqnos_eq]
          show (queue_seqnos r.2.resolver ++ List.map _ rest).Perm _
          rw [t2]
          have hl : (queue_seqnos r.2.resolver ++
              List.map (fun w => w.kr_seqno) (pre ++ post)).Perm
              (queue_seqnos { st.kauth.resolver with
                  kauth_resolver_done := st.kauth.resolver.kauth_resolver_done ++ [w] } ++
                List.map (fun w => w.kr_seqno) (pre ++ post)) :=
            List.Perm.append_right _ p
          refine hl.trans ?_
          rw [queue_seqnos_eq, queue_seqnos_eq, t1]
          rw [List.perm_iff_count]
          intro a
          simp only [List.map_append, List.map_cons, List.map_nil, List.count_append,
            List.count_cons, List.count_nil]
          omega
        · intro x hx
          refine Or.inl ?_
          show x ∈ r.2.resolver.kauth_resolver_done ++ rest
          rcases List.mem_append.mp hx with hx | hx
          · exact List.mem_append_left _ (c x (List.mem_append_left _ hx))
          · rw [t1] at hx
            rw [t2]
            rcases List.mem_append.mp hx with hx | hx
            · exact List.mem_append_right _ (List.mem_append_left _ hx)
            · rcases List.mem_cons.mp hx with hx | hx
              · rw [hx]
                exact List.mem_append_left _
                  (c w (List.mem_append_right _ (List.mem_singleton_self w)))
              · exact List.mem_append_right _ (List.mem_append_right _ hx)

/-- A run of events from a reachable state ends in a reachable state. -/
theorem work_reachable_run (k : Platform) (ops : List WorkOp) :
    ∀ (n : Nat) (st st' : WorkState), WorkReachable k n st → WorkOp.run k st ops = some st' →
      WorkReachable k (n + ops.length) st' := by
  induction ops with
  | nil =>
    intro n st st' h hrun
    have : st = st' := Option.some.inj hrun
    rw [← this]
    exact h
  | cons op ops ih =>
    intro n st st' h hrun
    unfold WorkOp.run at hrun
    cases hop : op.apply k st with
    | none => rw [hop] at hrun; exact absurd hrun (by simp)
    | some st1 =>
      rw [hop] at hrun
      have := ih (n + 1) st1 st' (WorkReachable.step n st st1 op h hop) hrun
      rw [List.length_cons]
      rw [Nat.add_assoc, Nat.add_comm 1] at this
      exact this

/-- In every state reachable by `n` events the state invariant holds, and the
live sequence numbers are among the numbers handed out so far: the counter
`kauth_resolver_sequence` is `31337 + m` modulo `2^32` for the number `m ≤ n` of
items enqueued, every live item carries `31337 + i` modulo `2^32` for some
`i < m`, and while `n ≤ 2^32` no two live items carry the same number. -/
theorem work_reachable_invariant (k : Platform) (n : Nat) (st : WorkState)
    (h : WorkReachable k n st) :
    work_state_invariant st ∧
    ∃ m, m ≤ n ∧
      st.kauth.resolver.kauth_resolver_sequence = (31337 + m) % 4294967296 ∧
      (∀ x ∈ live_seqnos st, ∃ i, i < m ∧ x = (31337 + i) % 4294967296) ∧
      (n ≤ 4294967296 → (live_seqnos st).Nodup) := by
  induction h with
  | init =>
    refine ⟨⟨⟨?_, ?_, ?_⟩, ?_⟩, 0, le_refl _, rfl, ?_, fun _ => List.nodup_nil⟩ <;>
      intro w hw <;> exact absurd hw (List.not_mem_nil w)
  | step n st st' op _ happ ih =>
    obtain ⟨hinv, m, hm, hseq, hmem, hnd⟩ := ih
    obtain ⟨hinv', hperm, hcase, _, _⟩ := work_state_step k st st' op hinv happ
    refine ⟨hinv', ?_⟩
    rcases hcase with ⟨he, hs⟩ | ⟨he, hs⟩
    · rw [he, List.append_nil] at hperm
      refine ⟨m, by omega, hs.trans hseq, ?_, ?_⟩
      · intro x hx
        exact hmem x (hperm.subset (List.mem_append_left _ hx))
      · intro hn
        have h1 : (live_seqnos st' ++ op.releases).Nodup := hperm.nodup_iff.mpr (hnd (by omega))
        exact (List.nodup_append.mp h1).1
    · rw [he] at hperm
      refine ⟨m + 1, by omega, ?_, ?_, ?_⟩
      · rw [hs, hseq]
        omega
      · intro x hx
        have hx1 := hperm.subset (List.mem_append_left _ hx)
        rcases List.mem_append.mp hx1 with h1 | h1
        · obtain ⟨i, hi, hxi⟩ := hmem x h1
          exact ⟨i, by omega, hxi⟩
        · rw [List.mem_singleton.mp h1, hseq]
          exact ⟨m, by omega, rfl⟩
      · intro hn
        have hnd0 := hnd (by omega)
        have hnew : st.kauth.resolver.kauth_resolver_sequence ∉ live_seqnos st := by
          intro hin
          obtain ⟨i, hi, hxi⟩ := hmem _ hin
          rw [hseq] at hxi
          omega
        have h0 : (live_seqnos st ++ [st.kauth.resolver.kauth_resolver_sequence]).Nodup := by
          rw [List.nodup_append]
          refine ⟨hnd0, List.nodup_singleton _, ?_⟩
          intro a ha hb
          rw [List.mem_singleton.mp hb] at ha
          exact hnew ha
        have h1 : (live_seqnos st' ++ op.releases).Nodup := hperm.nodup_iff.mpr h0
        exact (List.nodup_append.mp h1).1

/-- C37 (state invariant of the work items), with the items that
`kauth_resolver_complete` holds while it copies a name.  The states are those
reachable from boot by `n` events: the enqueueing half of
`kauth_resolver_submit`, calls of `identitysvc` (registration, deregistration,
completion, request for work, the cache opcodes), resets of the resolver
identity, the second half of `kauth_resolver_submit` (the release of the
item), the wake-up of a resolver thread that slept in `kauth_resolver_getwork`,
and the two parts of a completion that copies a name, before and after the
window in which the resolver lock is dropped, with other events in between.  In every such state every item on the unsubmitted queue has exactly
the flag UNSUBMITTED, every item on the submitted queue exactly SUBMITTED, every
item on the done queue exactly DONE, and every item in transit (held by a
thread in the window, on no queue) exactly DONE.  While `n ≤ 2^32`, the
sequence numbers of the items on the three queues and in transit are pairwise
distinct: no item is in two of these four places, or twice in one.  Every
further event keeps the items: the live sequence numbers afterwards, with the
one released, are those before, with the one enqueued.  After it, each item on
the unsubmitted or the submitted queue was on one of these two queues before
(with the same request, sequence number, buffer address, reference count and
result) or is the item just enqueued, and each item that was on the done queue
or in transit is on the done queue or in transit, unless the event is the
release of the item with its sequence number: no item leaves the state DONE
for another. -/
theorem work_item_state_invariant (k : Platform) (n : Nat) (st : WorkState)
    (h : WorkReachable k n st) :
    ((∀ w ∈ st.kauth.resolver.kauth_resolver_unsubmitted,
        w.kr_flags = KAUTH_REQUEST_UNSUBMITTED) ∧
      (∀ w ∈ st.kauth.resolver.kauth_resolver_submitted, w.kr_flags = KAUTH_REQUEST_SUBMITTED) ∧
      (∀ w ∈ st.kauth.resolver.kauth_resolver_done, w.kr_flags = KAUTH_REQUEST_DONE) ∧
      (∀ w ∈ st.transit, w.kr_flags = KAUTH_REQUEST_DONE)) ∧
    (n ≤ 4294967296 →
      ((st.kauth.resolver.kauth_resolver_unsubmitted ++
        st.kauth.resolver.kauth_resolver_submitted ++
        st.kauth.resolver.kauth_resolver_done ++ st.transit).map (fun w => w.kr_seqno)).Nodup) ∧
    (∀ (op : WorkOp) (st' : WorkState), op.apply k st = some st' →
      (live_seqnos st' ++ op.releases).Perm (live_seqnos st ++ op.enqueues k st) ∧
      (∀ w ∈ st'.kauth.resolver.kauth_resolver_unsubmitted ++
          st'.kauth.resolver.kauth_resolver_submitted,
        (∃ w0 ∈ st.kauth.resolver.kauth_resolver_unsubmitted ++
            st.kauth.resolver.kauth_resolver_submitted, same_but_flags w0 w) ∨
        ∃ lkp extend_data, op = .event (.submit lkp extend_data) ∧
          (kauth_resolver_submit k st.kauth.resolver lkp extend_data).2.1 = some w) ∧
      (∀ w ∈ st.kauth.resolver.kauth_resolver_done ++ st.transit,
        w ∈ st'.kauth.resolver.kauth_resolver_done ++ st'.transit ∨
          ∃ lkp error, op = .wakeup w.kr_seqno lkp error)) := by
  obtain ⟨hinv, m, _, _, _, hnd⟩ := work_reachable_invariant k n st h
  refine ⟨⟨fun w hw => (hinv.1.1 w hw).1, fun w hw => (hinv.1.2.1 w hw).1,
    fun w hw => (hinv.1.2.2 w hw).1, fun w hw => (hinv.2 w hw).1⟩, hnd, ?_⟩
  intro op st' happ
  obtain ⟨_, p, _, b, c⟩ := work_state_step k st st' op hinv happ
  exact ⟨p, b, c⟩

set_option maxRecDepth 100000 in
/-- The events of `name_lookup_events` lead from boot to `transit_state`. -/
theorem name_lookup_events_run :
    WorkOp.run xnu WorkState.init name_lookup_events = some transit_state := by
  decide

set_option maxRecDepth 100000 in
/-- Witness for C37: the state in the window of a name lookup is reachable by
four events; its item in transit has exactly the flag DONE, the live sequence
numbers are distinct, and the second part of the completion keeps the live
sequence numbers. -/
theorem work_item_state_invariant_witness :
    WorkReachable xnu 4 transit_state ∧
    (∀ w ∈ transit_state.transit, w.kr_flags = KAUTH_REQUEST_DONE) ∧
    ((transit_state.kauth.resolver.kauth_resolver_unsubmitted ++
      transit_state.kauth.resolver.kauth_resolver_submitted ++
      transit_state.kauth.resolver.kauth_resolver_done ++ transit_state.transit).map
        (fun w => w.kr_seqno)).Nodup ∧
    (live_seqnos { transit_state with
        kauth := { transit_state.kauth with
          resolver := { transit_state.kauth.resolver with
            kauth_resolver_done := [transit_item] } }
        transit := [] }).Perm (live_seqnos transit_state) := by
  have hreach : WorkReachable xnu 4 transit_state :=
    work_reachable_run xnu name_lookup_events 0 WorkState.init transit_state WorkReachable.init
      name_lookup_events_run
  obtain ⟨h1, h2, h3⟩ := work_item_state_invariant xnu 4 transit_state hreach
  refine ⟨hreach, h1.2.2.2, h2 (by decide), ?_⟩
  have h4 := (h3
    (.insert (resolver_caller 100 (0, 0) name_answer) xnu.KAUTH_EXTLOOKUP_RESULT 31337)
    { transit_state with
        kauth := { transit_state.kauth with
          resolver := { transit_state.kauth.resolver with
            kauth_resolver_done := [transit_item] } }
        transit := [] } (by decide)).1
  simpa [WorkOp.releases, WorkOp.enqueues] using h4

set_option maxRecDepth 100000 in
/-- Counterexample to C37 as stated: a resolver registers, the kernel submits
a request for the name of uid 501, the resolver collects it and hands in the
result with the name.  When `kauth_resolver_complete` drops the resolver lock
for `copyinstr`, the state that other threads find is reachable by these four
events, and in it the work item 31337 carries the flag DONE and is on none of
the three queues, which are empty.  A submitter that wakes up in this state
would take its item off the done queue, on which it is not.  When the thread
takes the lock again, the item goes onto the done queue. -/
theorem work_item_in_window_on_no_queue :
    WorkReachable xnu 4 transit_state ∧
    WorkOp.run xnu WorkState.init name_lookup_events = some transit_state ∧
    transit_state.transit = [transit_item] ∧
    transit_item.kr_flags = KAUTH_REQUEST_DONE ∧
    transit_item.kr_seqno = 31337 ∧
    transit_state.kauth.resolver.kauth_resolver_unsubmitted = [] ∧
    transit_state.kauth.resolver.kauth_resolver_submitted = [] ∧
    transit_state.kauth.resolver.kauth_resolver_done = [] ∧
    (WorkOp.wakeup 31337 name_request xnu.EWOULDBLOCK).apply xnu transit_state = none ∧
    (WorkOp.insert (resolver_caller 100 (0, 0) name_answer) xnu.KAUTH_EXTLOOKUP_RESULT
        31337).apply xnu transit_state =
      some { transit_state with
        kauth := { transit_state.kauth with
          resolver := { transit_state.kauth.resolver with
            kauth_resolver_done := [transit_item] } }
        transit := [] } ∧
    identitysvc xnu (resolver_caller 100 (0, 0) name_answer)
        { transit_state.kauth with
          resolver := { transit_state.kauth.resolver with
            kauth_resolver_submitted :=
              [{ transit_item with
                 kr_work := { name_request with
                   el_seqno := 31337, el_result := xnu.KAUTH_EXTLOOKUP_INPROG }
                 kr_flags := KAUTH_REQUEST_SUBMITTED }] } }
        xnu.KAUTH_EXTLOOKUP_RESULT 0 =
      some (0, { transit_state.kauth with
        resolver := { transit_state.kauth.resolver with
          kauth_resolver_done := [transit_item] } }) := by
  refine ⟨work_reachable_run xnu name_lookup_events 0 WorkState.init transit_state
    WorkReachable.init (by decide), by decide, rfl, rfl, rfl, rfl, rfl, rfl, by decide, by decide,
    by decide⟩

/-- C38 (the hash respects equality).  Two credentials that
`kauth_cred_is_equal` reports equal are sent to the same bucket by
`kauth_cred_get_bucket`, and the bucket index of every credential is below
`KAUTH_CRED_TABLE_SIZE`, which is 128.  A label is its content here, so that the
label hash agrees on labels that `mac_cred_label_is_equal` reports equal. -/
theorem kauth_cred_get_bucket_respects_equal (k : Platform) (cred1 cred2 : ucred)
    (h : kauth_cred_is_equal k cred1 cred2 = true) :
    kauth_cred_get_bucket k cred1 = kauth_cred_get_bucket k cred2 ∧
    kauth_cred_get_bucket k cred1 < KAUTH_CRED_TABLE_SIZE ∧
    kauth_cred_get_bucket k cred2 < KAUTH_CRED_TABLE_SIZE ∧
    KAUTH_CRED_TABLE_SIZE = 128 := by
  obtain ⟨h1, h2, h3⟩ := (kauth_cred_is_equal_iff k cred1 cred2).mp h
  have hlt : ∀ c : ucred, kauth_cred_get_bucket k c < KAUTH_CRED_TABLE_SIZE := by
    intro c
    unfold kauth_cred_get_bucket
    exact Nat.mod_lt _ (by decide)
  refine ⟨?_, hlt cred1, hlt cred2, rfl⟩
  unfold kauth_cred_get_bucket
  simp only []
  rw [← h1, ← h2]
  by_cases hf : cred1.cr_posix.cr_flags &&& k.CRF_MAC_ENFORCE ≠ 0
  · rw [if_pos hf, if_pos hf, h3 hf]
  · rw [if_neg hf, if_neg hf]

set_option maxRecDepth 100000 in
/-- Witness for C38: two credentials that differ in their labels only, with
`CRF_MAC_ENFORCE` clear, are equal and share the bucket 102. -/
theorem kauth_cred_get_bucket_respects_equal_witness :
    kauth_cred_get_bucket xnu (template 501 501 0 1 1 [20] 20) =
      kauth_cred_get_bucket xnu { template 501 501 0 1 1 [20] 20 with cr_label := 7 } ∧
    kauth_cred_get_bucket xnu (template 501 501 0 1 1 [20] 20) < KAUTH_CRED_TABLE_SIZE ∧
    kauth_cred_get_bucket xnu { template 501 501 0 1 1 [20] 20 with cr_label := 7 } <
      KAUTH_CRED_TABLE_SIZE ∧
    KAUTH_CRED_TABLE_SIZE = 128 :=
  kauth_cred_get_bucket_respects_equal xnu (template 501 501 0 1 1 [20] 20)
    { template 501 501 0 1 1 [20] 20 with cr_label := 7 } (by decide)

set_option maxRecDepth 100000 in
/-- C39 (bucket placement), what the code does.  On the concrete platform,
starting from the empty table: create the credential Y (uid 0, real uid 501),
which is linked in its bucket, 17, and call `kauth_cred_copy_real` on it.  The
copy (uid 501) is published as object 2 on the chain of bucket 17, the bucket of
Y, while `kauth_cred_get_bucket` sends its content to bucket 102.  A later
`kauth_cred_create` with the content of the copy searches bucket 102, does not
find object 2 and publishes object 3 with the same content. -/
theorem kauth_cred_copy_real_misplaces :
    ∃ s1 s2 s3 : CredStore,
      kauth_cred_create xnu (0, none) empty_store (template 0 501 0 1 1 [20] 20)
        = some (.addr 1, s1) ∧
      kauth_cred_copy_real xnu s1 1 = some (.addr 2, s2) ∧
      kauth_cred_create xnu (0, none) s2 (template 501 501 0 1 1 [20] 20)
        = some (.addr 3, s3) ∧
      s3.table.map (fun e => (e.addr, e.crw_link, kauth_cred_get_bucket xnu e.crw_cred)) =
        [(3, some 102, 102), (2, some 17, 102), (1, some 17, 17)] ∧
      ∃ e2 ∈ s3.table, ∃ e3 ∈ s3.table, e2.addr = 2 ∧ e3.addr = 3 ∧
        e2.crw_cred = e3.crw_cred := by
  refine ⟨_, _, _, rfl, rfl, rfl, ?_, ?_⟩
  · decide
  · decide

set_option maxRecDepth 100000 in
/-- C40 (bad resolver values), what the code does.  On the concrete platform
and the empty identity cache, `kauth_identity_updatecache` reaches a panic for
a response that flags a UID as valid and carries `KAUTH_UID_NONE` in `el_uid`
(the entry that `kauth_identity_alloc` makes has neither key, and
`kauth_identity_register_and_free` panics on it), for a response that flags a
GID as valid and carries `KAUTH_GID_NONE`, and for a response that flags a GID
and supplementary groups (an entry with both a GID and groups). -/
theorem kauth_identity_updatecache_panics :
    kauth_identity_updatecache xnu 100 IdentityCache.init
      { kauth_identity_extlookup.zero with
        el_flags := xnu.KAUTH_EXTLOOKUP_VALID_UID, el_uid := xnu.KAUTH_UID_NONE } true "" = none ∧
    kauth_identity_updatecache xnu 100 IdentityCache.init
      { kauth_identity_extlookup.zero with
        el_flags := xnu.KAUTH_EXTLOOKUP_VALID_GID, el_gid := xnu.KAUTH_GID_NONE } true "" = none ∧
    kauth_identity_updatecache xnu 100 IdentityCache.init
      { kauth_identity_extlookup.zero with
        el_flags := xnu.KAUTH_EXTLOOKUP_VALID_GID ||| xnu.KAUTH_EXTLOOKUP_VALID_SUPGRPS
        el_gid := 20
        el_sup_grp_cnt := 1
        el_sup_groups := [30] } true "" = none := by
  refine ⟨by decide, by decide, by decide⟩

end Kauth
